import Mathlib

/-!
# AudioMoth-LIFEPLAN recording engine: scheduler and recording session

A shallow embedding of `src/src/main.c` (and the period check of
`src/src/configparser.c`).  Machine integers are natural numbers; every
32-bit assignment is reduced modulo `2 ^ 32` explicitly (`u32`, `sub32`).
-/

namespace AudioMoth

/-! ## Machine arithmetic -/

/-- Largest `uint32_t` value; the scheduler uses it as the "never" time. -/
def UINT32_MAX : Nat := 4294967295

/-- Largest `uint16_t` value. -/
def UINT16_MAX : Nat := 65535

/-- Truncation of a natural number to `uint32_t`. -/
def u32 (n : Nat) : Nat := n % 4294967296

/-- Subtraction `a - b` as C computes it on `uint32_t` operands (wraps modulo `2 ^ 32`). -/
def sub32 (a b : Nat) : Nat := (a + (4294967296 - b % 4294967296)) % 4294967296

/-! ## Constants of `main.c` -/

def SECONDS_IN_MINUTE : Nat := 60

def SECONDS_IN_HOUR : Nat := 60 * SECONDS_IN_MINUTE

def SECONDS_IN_DAY : Nat := 24 * SECONDS_IN_HOUR

def NUMBER_OF_BUFFERS : Nat := 8

def NUMBER_OF_BYTES_IN_SAMPLE : Nat := 2

def COMPRESSION_BUFFER_SIZE_IN_BYTES : Nat := 512

def UINT32_SIZE_IN_BITS : Nat := 32

def MAXIMUM_WAV_FILE_SIZE : Nat := UINT32_MAX - 1

def MAX_START_STOP_PERIODS : Nat := 5

def TOTAL_FILE_SIZE_UNITS_IN_BYTES : Nat := 512

def NUMBER_OF_BYTES_IN_ONE_MB : Nat := 1024 * 1024

def OPPORTUNISTIC_GAP_IN_SECONDS : Nat := 5

def SLEEP_RECORD_CYCLES_DISABLED : Nat := 0

def INITIAL_AND_STANDARD_SLEEP_RECORD_CYCLES : Nat := 2

/-- Value of `sizeof(wavHeader_t)`: the packed header is
`8 + 4 + 8 + 16 + 8 + 4 + (8 + 384) + (8 + 32) + 8` bytes. -/
def sizeofWavHeader : Nat := 488

/-! ## Enumerations -/

/-- Recording state enumeration `AM_recordingState_t`. -/
inductive AM_recordingState_t where
  | RECORDING_OKAY
  | TOTAL_FILE_SIZE_LIMITED
  | FILE_SIZE_LIMITED
  | SUPPLY_VOLTAGE_LOW
  | SWITCH_CHANGED
  | SDCARD_WRITE_ERROR
  deriving DecidableEq

/-- Sleep/record cycle index `AM_sleepRecordIndex_t`. -/
inductive AM_sleepRecordIndex_t where
  | INITIAL_SLEEP_RECORD_CYCLE
  | STANDARD_SLEEP_RECORD_CYCLE
  deriving DecidableEq

/-- Configuration index `AM_configurationIndex_t`. -/
inductive AM_configurationIndex_t where
  | STANDARD_RECORDING
  | OPPORTUNISTIC_RECORDING
  deriving DecidableEq

/-- Integer value of a sleep/record cycle index, used to index the duration arrays. -/
def AM_sleepRecordIndex_t.toNat : AM_sleepRecordIndex_t → Nat
  | .INITIAL_SLEEP_RECORD_CYCLE => 0
  | .STANDARD_SLEEP_RECORD_CYCLE => 1

/-- Integer value of a configuration index, used to index the per-setting arrays. -/
def AM_configurationIndex_t.toNat : AM_configurationIndex_t → Nat
  | .STANDARD_RECORDING => 0
  | .OPPORTUNISTIC_RECORDING => 1

/-! ## Configuration and persisted state -/

/-- Start/stop period `CP_startStopPeriod_t` (minutes of the day). -/
structure CP_startStopPeriod_t where
  startMinutes : Nat
  stopMinutes : Nat
  deriving DecidableEq

/-- Settings record `CP_configSettings_t`.  C arrays are lists read with `getD`. -/
structure CP_configSettings_t where
  timezoneHours : Int
  timezoneMinutes : Int
  enableLED : Nat
  enableLowVoltageCutoff : Nat
  enableBatteryLevelDisplay : Nat
  enableProprietaryFileFormat : Nat
  initialSleepRecordCycles : Nat
  numberOfSleepRecordCycles : Nat
  enableOpportunisticRecording : Nat
  maximumOpportunisticDuration : Nat
  maximumTotalOpportunisticFileSize : Nat
  sleepDuration : List Nat
  recordDuration : List Nat
  clockDivider : List Nat
  acquisitionCycles : Nat
  oversampleRate : Nat
  gain : List Nat
  sampleRate : List Nat
  enableEnergySaverMode : List Nat
  sampleRateDivider : List Nat
  lowerFilterFreq : List Nat
  higherFilterFreq : List Nat
  amplitudeThreshold : List Nat
  activeStartStopPeriods : Nat
  startStopPeriods : List CP_startStopPeriod_t
  earliestRecordingTime : Nat
  latestRecordingTime : Nat
  deriving DecidableEq

/-- The constant `defaultConfigSettings` of `main.c` (the octal literals `060` and
`000` of the source are 48 and 0). -/
def defaultConfigSettings : CP_configSettings_t where
  timezoneHours := 0
  timezoneMinutes := 0
  enableLED := 1
  enableLowVoltageCutoff := 1
  enableBatteryLevelDisplay := 1
  enableProprietaryFileFormat := 0
  initialSleepRecordCycles := 0
  numberOfSleepRecordCycles := 0
  enableOpportunisticRecording := 0
  maximumOpportunisticDuration := 0
  maximumTotalOpportunisticFileSize := 0
  sleepDuration := [5, 5]
  recordDuration := [55, 55]
  clockDivider := [4, 4]
  acquisitionCycles := 16
  oversampleRate := 1
  gain := [2, 2]
  sampleRate := [384000, 384000]
  enableEnergySaverMode := [0, 0]
  sampleRateDivider := [8, 8]
  lowerFilterFreq := [0, 0]
  higherFilterFreq := [0, 0]
  amplitudeThreshold := [0, 0]
  activeStartStopPeriods := 0
  startStopPeriods := [⟨0, 48⟩, ⟨120, 180⟩, ⟨240, 300⟩, ⟨360, 420⟩, ⟨480, 540⟩]
  earliestRecordingTime := 0
  latestRecordingTime := 0

/-- The backup-domain variables of `main.c` that survive power-down. -/
structure BackupDomain where
  timeOfNextRecording : Nat
  configurationIndexOfNextRecording : AM_configurationIndex_t
  numberOfCompleteInitialRecordings : Nat
  numberOfRecordings : Nat
  durationOfNextRecording : Nat
  readyToMakeRecordings : Bool
  previousDayOfYear : Nat
  totalFileSizeWritten : Nat
  deriving DecidableEq

/-! ## Period validation (`configparser.c`) -/

/-- Loop of `checkStartStopPeriods` over the periods after the first: each must be
non-empty and start strictly after the previous one stops. -/
def checkStartStopPeriodsFrom : CP_startStopPeriod_t → List CP_startStopPeriod_t → Bool
  | _, [] => true
  | previous, period :: rest =>
    if period.stopMinutes ≤ period.startMinutes then false
    else if period.startMinutes ≤ previous.stopMinutes then false
    else checkStartStopPeriodsFrom period rest

/-- Function `checkStartStopPeriods` of `configparser.c`. -/
def checkStartStopPeriods (startStopPeriods : List CP_startStopPeriod_t)
    (activeStartStopPeriods : Nat) : Bool :=
  if activeStartStopPeriods = 0 then false
  else
    match startStopPeriods.take activeStartStopPeriods with
    | [] => false
    | first :: rest =>
      if first.stopMinutes ≤ first.startMinutes then false
      else checkStartStopPeriodsFrom first rest

/-! ## The scheduler (`scheduleRecording`) -/

/-- The three values `scheduleRecording` writes through its pointer arguments. -/
structure ScheduleWindow where
  timeOfNextRecording : Nat
  durationOfNextRecording : Nat
  configurationIndexOfNextRecording : AM_configurationIndex_t
  deriving DecidableEq

/-- Seconds of the day of a Unix time, as computed from `gmtime`:
`SECONDS_IN_HOUR * tm_hour + SECONDS_IN_MINUTE * tm_min + tm_sec`. -/
def secondsOfDay (currentTime : Nat) : Nat := currentTime % SECONDS_IN_DAY

/-- Choice of the sleep/record cycle at the top of `scheduleRecording`. -/
def sleepRecordCycleIndexOfNextRecording (configSettings : CP_configSettings_t)
    (backup : BackupDomain) : AM_sleepRecordIndex_t :=
  if configSettings.numberOfSleepRecordCycles = INITIAL_AND_STANDARD_SLEEP_RECORD_CYCLES then
    if backup.numberOfRecordings = 0 ∨
        backup.numberOfCompleteInitialRecordings < configSettings.initialSleepRecordCycles then
      AM_sleepRecordIndex_t.INITIAL_SLEEP_RECORD_CYCLE
    else AM_sleepRecordIndex_t.STANDARD_SLEEP_RECORD_CYCLE
  else AM_sleepRecordIndex_t.STANDARD_SLEEP_RECORD_CYCLE

/-- Body of the loop over the active start/stop periods in `scheduleRecording`, for one
period.  `some w` is a `goto done` with the window `w`; `none` means the loop goes on to
the next period.  `currentTime` is the time after the earliest-time clamp. -/
def schedulePeriod (configSettings : CP_configSettings_t) (cycle : AM_sleepRecordIndex_t)
    (configurationIndexOfPreviousRecording : AM_configurationIndex_t)
    (currentTime currentSeconds : Nat) (period : CP_startStopPeriod_t) :
    Option ScheduleWindow :=
  let recordDuration := configSettings.recordDuration.getD cycle.toNat 0
  let sleepDuration := configSettings.sleepDuration.getD cycle.toNat 0
  let startSeconds := u32 (SECONDS_IN_MINUTE * period.startMinutes)
  let stopSeconds := u32 (SECONDS_IN_MINUTE * period.stopMinutes)
  let durationOfStartStopPeriod := sub32 stopSeconds startSeconds
  if currentSeconds ≤ startSeconds then
    some {
      timeOfNextRecording := sub32 (u32 (currentTime + startSeconds)) currentSeconds
      durationOfNextRecording :=
        if configSettings.numberOfSleepRecordCycles = SLEEP_RECORD_CYCLES_DISABLED then
          durationOfStartStopPeriod
        else min recordDuration durationOfStartStopPeriod
      configurationIndexOfNextRecording := AM_configurationIndex_t.STANDARD_RECORDING }
  else if currentSeconds < stopSeconds then
    let secondsFromStartOfPeriod := sub32 currentSeconds startSeconds
    if configSettings.numberOfSleepRecordCycles = SLEEP_RECORD_CYCLES_DISABLED then
      some {
        timeOfNextRecording := currentTime
        durationOfNextRecording := sub32 durationOfStartStopPeriod secondsFromStartOfPeriod
        configurationIndexOfNextRecording := AM_configurationIndex_t.STANDARD_RECORDING }
    else
      let durationOfCycle := u32 (recordDuration + sleepDuration)
      let partialCycle := secondsFromStartOfPeriod % durationOfCycle
      if partialCycle < recordDuration then
        some {
          timeOfNextRecording := currentTime
          durationOfNextRecording :=
            min (sub32 recordDuration partialCycle)
              (sub32 durationOfStartStopPeriod secondsFromStartOfPeriod)
          configurationIndexOfNextRecording := AM_configurationIndex_t.STANDARD_RECORDING }
      else
        let secondsFromStartOfNextCycle :=
          u32 (secondsFromStartOfPeriod + sub32 durationOfCycle partialCycle)
        if secondsFromStartOfNextCycle < durationOfStartStopPeriod then
          let timeOfNextRecording := sub32 (u32 (currentTime + durationOfCycle)) partialCycle
          if configSettings.enableOpportunisticRecording ≠ 0 ∧
              configurationIndexOfPreviousRecording = AM_configurationIndex_t.STANDARD_RECORDING ∧
              sub32 timeOfNextRecording currentTime > 2 * OPPORTUNISTIC_GAP_IN_SECONDS then
            let durationOfNextRecording := sub32 sleepDuration (2 * OPPORTUNISTIC_GAP_IN_SECONDS)
            some {
              timeOfNextRecording :=
                u32 (sub32 timeOfNextRecording sleepDuration + OPPORTUNISTIC_GAP_IN_SECONDS)
              durationOfNextRecording :=
                if configSettings.maximumOpportunisticDuration > 0 then
                  min configSettings.maximumOpportunisticDuration durationOfNextRecording
                else durationOfNextRecording
              configurationIndexOfNextRecording :=
                AM_configurationIndex_t.OPPORTUNISTIC_RECORDING }
          else
            some {
              timeOfNextRecording := timeOfNextRecording
              durationOfNextRecording :=
                min recordDuration (sub32 durationOfStartStopPeriod secondsFromStartOfNextCycle)
              configurationIndexOfNextRecording := AM_configurationIndex_t.STANDARD_RECORDING }
        else none
    else none

/-- The loop `for (i = 0; i < activeStartStopPeriods; i += 1)` of `scheduleRecording`:
the first period whose body reaches `goto done` decides. -/
def schedulePeriods (configSettings : CP_configSettings_t) (cycle : AM_sleepRecordIndex_t)
    (configurationIndexOfPreviousRecording : AM_configurationIndex_t)
    (currentTime currentSeconds : Nat) : List CP_startStopPeriod_t → Option ScheduleWindow
  | [] => none
  | period :: rest =>
    match schedulePeriod configSettings cycle configurationIndexOfPreviousRecording
        currentTime currentSeconds period with
    | some window => some window
    | none =>
      schedulePeriods configSettings cycle configurationIndexOfPreviousRecording
        currentTime currentSeconds rest

/-- The code after the loop: "Calculate time until first period tomorrow". -/
def scheduleFirstPeriodTomorrow (configSettings : CP_configSettings_t)
    (cycle : AM_sleepRecordIndex_t) (currentTime currentSeconds : Nat) : ScheduleWindow :=
  let firstPeriod := configSettings.startStopPeriods.getD 0 ⟨0, 0⟩
  let startSeconds := u32 (SECONDS_IN_MINUTE * firstPeriod.startMinutes)
  let stopSeconds := u32 (SECONDS_IN_MINUTE * firstPeriod.stopMinutes)
  let durationOfStartStopPeriod := sub32 stopSeconds startSeconds
  { timeOfNextRecording :=
      u32 (u32 (currentTime + sub32 SECONDS_IN_DAY currentSeconds) + startSeconds)
    durationOfNextRecording :=
      if configSettings.numberOfSleepRecordCycles = SLEEP_RECORD_CYCLES_DISABLED then
        durationOfStartStopPeriod
      else
        min (configSettings.recordDuration.getD cycle.toNat 0) durationOfStartStopPeriod
    configurationIndexOfNextRecording := AM_configurationIndex_t.STANDARD_RECORDING }

/-- The current time after the earliest-recording-time clamp. -/
def clampToEarliest (configSettings : CP_configSettings_t) (currentTime : Nat) : Nat :=
  if configSettings.earliestRecordingTime > 0 then
    max currentTime configSettings.earliestRecordingTime
  else currentTime

/-- The part of `scheduleRecording` before the label `done`: the window computed before
the latest-recording-time bound is applied. -/
def scheduleBeforeLatest (configSettings : CP_configSettings_t) (backup : BackupDomain)
    (currentTime : Nat) : ScheduleWindow :=
  let configurationIndexOfPreviousRecording := backup.configurationIndexOfNextRecording
  let cycle := sleepRecordCycleIndexOfNextRecording configSettings backup
  let activeStartStopPeriods := min configSettings.activeStartStopPeriods MAX_START_STOP_PERIODS
  if activeStartStopPeriods = 0 then
    { timeOfNextRecording := UINT32_MAX
      durationOfNextRecording := 0
      configurationIndexOfNextRecording := AM_configurationIndex_t.STANDARD_RECORDING }
  else
    let currentTime := clampToEarliest configSettings currentTime
    let currentSeconds := secondsOfDay currentTime
    match schedulePeriods configSettings cycle configurationIndexOfPreviousRecording
        currentTime currentSeconds
        (configSettings.startStopPeriods.take activeStartStopPeriods) with
    | some window => window
    | none => scheduleFirstPeriodTomorrow configSettings cycle currentTime currentSeconds

/-- The code after the label `done`: the latest-recording-time bound.  `excessTime` is
computed in `int64_t`; the truncated duration is stored back as `uint32_t`. -/
def applyLatestRecordingTime (configSettings : CP_configSettings_t) (window : ScheduleWindow) :
    ScheduleWindow :=
  if configSettings.latestRecordingTime > 0 then
    if window.timeOfNextRecording ≥ configSettings.latestRecordingTime then
      { window with timeOfNextRecording := UINT32_MAX, durationOfNextRecording := 0 }
    else
      let excessTime : Int :=
        (window.timeOfNextRecording : Int) + (window.durationOfNextRecording : Int)
          - (configSettings.latestRecordingTime : Int)
      if excessTime > 0 then
        { window with
          durationOfNextRecording :=
            (((window.durationOfNextRecording : Int) - excessTime) % 4294967296).toNat }
      else window
  else window

/-- The window `scheduleRecording` computes, latest-time bound included. -/
def scheduleWindow (configSettings : CP_configSettings_t) (backup : BackupDomain)
    (currentTime : Nat) : ScheduleWindow :=
  applyLatestRecordingTime configSettings (scheduleBeforeLatest configSettings backup currentTime)

/-- Function `scheduleRecording` of `main.c`, called with the backup-domain pointers
`timeOfNextRecording`, `configurationIndexOfNextRecording`, `durationOfNextRecording`:
it reads the configuration and the counters and overwrites these three variables. -/
def scheduleRecording (configSettings : CP_configSettings_t) (backup : BackupDomain)
    (currentTime : Nat) : BackupDomain :=
  let window := scheduleWindow configSettings backup currentTime
  { backup with
    timeOfNextRecording := window.timeOfNextRecording
    durationOfNextRecording := window.durationOfNextRecording
    configurationIndexOfNextRecording := window.configurationIndexOfNextRecording }

/-! ## The recording session (`makeRecording`) -/

/-- Macro `EXTERNAL_SRAM_SIZE_IN_SAMPLES`.  `AM_EXTERNAL_SRAM_SIZE_IN_BYTES` comes from the
hardware header `audiomoth.h`, which is not part of the sources; it is a parameter. -/
def EXTERNAL_SRAM_SIZE_IN_SAMPLES (AM_EXTERNAL_SRAM_SIZE_IN_BYTES : Nat) : Nat :=
  AM_EXTERNAL_SRAM_SIZE_IN_BYTES / NUMBER_OF_BYTES_IN_SAMPLE

/-- Macro `NUMBER_OF_SAMPLES_IN_BUFFER`. -/
def NUMBER_OF_SAMPLES_IN_BUFFER (AM_EXTERNAL_SRAM_SIZE_IN_BYTES : Nat) : Nat :=
  EXTERNAL_SRAM_SIZE_IN_SAMPLES AM_EXTERNAL_SRAM_SIZE_IN_BYTES / NUMBER_OF_BUFFERS

/-- The first loop of `encodeCompressionBuffer`: one sample per bit, lowest bit first,
`1` for a set bit and `-1` for a clear bit, shifting the count right each time. -/
def encodeCompressionBits : Nat → Nat → List Int
  | 0, _ => []
  | bits + 1, numberOfCompressedBuffers =>
    (if numberOfCompressedBuffers % 2 = 1 then 1 else -1) ::
      encodeCompressionBits bits (numberOfCompressedBuffers / 2)

/-- Function `encodeCompressionBuffer`: the contents it leaves in `compressionBuffer`
(`COMPRESSION_BUFFER_SIZE_IN_BYTES / NUMBER_OF_BYTES_IN_SAMPLE` samples). -/
def encodeCompressionBuffer (numberOfCompressedBuffers : Nat) : List Int :=
  encodeCompressionBits UINT32_SIZE_IN_BITS numberOfCompressedBuffers ++
    List.replicate
      (COMPRESSION_BUFFER_SIZE_IN_BYTES / NUMBER_OF_BYTES_IN_SAMPLE - UINT32_SIZE_IN_BITS) 0

/-- Reading a count back from samples, lowest bit first: a sample equal to `1` is a set
bit, any other sample a clear bit.  (This follows the specification's description of the
marker; the firmware has no decoder.) -/
def decodeCompressionBits : List Int → Nat
  | [] => 0
  | sample :: rest => (if sample = 1 then 1 else 0) + 2 * decodeCompressionBits rest

/-- The run count a marker block stands for: bit `i` is `sample i == 1` for `i < 32`. -/
def decodeCompressionBuffer (buffer : List Int) : Nat :=
  decodeCompressionBits (buffer.take UINT32_SIZE_IN_BITS)

/-- The fields of the WAV header that `setHeaderDetails` sets, and the four termination
flags handed to `setHeaderComment`. -/
structure WavHeaderDetails where
  samplesPerSecond : Nat
  bytesPerSecond : Nat
  dataSize : Nat
  riffSize : Nat
  switchPositionChanged : Bool
  supplyVoltageLow : Bool
  fileSizeLimited : Bool
  totalFileSizeLimited : Bool
  deriving DecidableEq

/-- Value of `sizeof(chunk_t)`. -/
def sizeofChunk : Nat := 8

/-- Function `setHeaderDetails` (all fields are `uint32_t`).  In `riff.size` the two
constants `+ sizeof(wavHeader_t)` and `- sizeof(chunk_t)` are added as one, which is the
same modulo `2 ^ 32`. -/
def setHeaderDetails (wavHeader : WavHeaderDetails) (sampleRate numberOfSamples
    guanoHeaderSize : Nat) : WavHeaderDetails :=
  { wavHeader with
    samplesPerSecond := sampleRate
    bytesPerSecond := u32 (NUMBER_OF_BYTES_IN_SAMPLE * sampleRate)
    dataSize := u32 (NUMBER_OF_BYTES_IN_SAMPLE * numberOfSamples)
    riffSize :=
      u32 (NUMBER_OF_BYTES_IN_SAMPLE * numberOfSamples + guanoHeaderSize
        + (sizeofWavHeader - sizeofChunk)) }

/-- The static `wavHeader` before a session sets it. -/
def initialWavHeader : WavHeaderDetails :=
  { samplesPerSecond := 0
    bytesPerSecond := 0
    dataSize := 0
    riffSize := 0
    switchPositionChanged := false
    supplyVoltageLow := false
    fileSizeLimited := false
    totalFileSizeLimited := false }

/-- What a call of `AudioMoth_writeToFile` in `makeRecording` writes. -/
inductive WriteSource where
  | compressionBuffer (samples : List Int)
  | sampleBuffer (readBuffer : Nat)
  | guanoData
  | wavHeader (details : WavHeaderDetails)
  deriving DecidableEq

/-- A call of the storage interface made by `makeRecording`. -/
inductive StorageCall where
  | openFile
  | writeToFile (source : WriteSource) (numberOfBytes : Nat)
  | seekInFile (position : Nat)
  | closeFile
  deriving DecidableEq

/-- What the foreground code reads from the interrupt side and the hardware when it
evaluates a loop condition: the volatile `writeBuffer`, the `writeIndicator` flags,
whether `AudioMoth_handleSwitchInterrupt` has run since the previous observation, and
what `AudioMoth_isSupplyAboveThreshold` returns. -/
structure Observation where
  writeBuffer : Nat
  writeIndicator : List Bool
  switchInterrupt : Bool
  supplyAboveThreshold : Bool
  deriving DecidableEq

/-- The local variables of `makeRecording` from the main loop on, the persisted
`totalFileSizeWritten`, the volatile `switchPositionChanged`, the storage calls made so
far, and whether the last of them failed. -/
structure RecordingLoop where
  readBuffer : Nat
  samplesWritten : Nat
  buffersProcessed : Nat
  numberOfCompressedBuffers : Nat
  totalNumberOfCompressedSamples : Nat
  switchPositionChanged : Bool
  supplyVoltageLow : Bool
  totalFileSizeLimited : Bool
  totalFileSizeWritten : Nat
  calls : List StorageCall
  storageError : Bool
  deriving DecidableEq

/-- One call of the storage interface; `storage k` tells whether the call number `k`
(counting from 0) succeeds.  A failure is what `FLASH_LED_AND_RETURN_ON_ERROR` returns on. -/
def storageCall (storage : Nat → Bool) (loop : RecordingLoop) (call : StorageCall) :
    RecordingLoop :=
  { loop with
    calls := loop.calls ++ [call]
    storageError := !storage loop.calls.length }

/-- The interrupt handler sets `switchPositionChanged`; nothing clears it during a
session. -/
def observeSwitch (loop : RecordingLoop) (observation : Observation) : RecordingLoop :=
  { loop with
    switchPositionChanged := loop.switchPositionChanged || observation.switchInterrupt }

/-- The condition shared by the two `while` loops:
`samplesWritten < numberOfSamples + numberOfSamplesInHeader && !switchPositionChanged &&
!supplyVoltageLow && !totalFileSizeLimited`. -/
def continueRecording (samplesToWrite : Nat) (loop : RecordingLoop) : Bool :=
  decide (loop.samplesWritten < samplesToWrite) && !loop.switchPositionChanged &&
    !loop.supplyVoltageLow && !loop.totalFileSizeLimited

/-- The statement `totalNumberOfCompressedSamples += (numberOfCompressedBuffers - 1) *
COMPRESSION_BUFFER_SIZE_IN_BYTES / NUMBER_OF_BYTES_IN_SAMPLE`.  Both places that execute it
are guarded by `numberOfCompressedBuffers > 0`, so the subtraction does not wrap. -/
def bookCompressedSamples (loop : RecordingLoop) : RecordingLoop :=
  { loop with
    totalNumberOfCompressedSamples :=
      u32 (loop.totalNumberOfCompressedSamples +
        u32 ((loop.numberOfCompressedBuffers - 1) * COMPRESSION_BUFFER_SIZE_IN_BYTES)
          / NUMBER_OF_BYTES_IN_SAMPLE) }

/-- The statement `if (*configurationIndexOfNextRecording == OPPORTUNISTIC_RECORDING)
*totalFileSizeWritten += units`. -/
def addTotalFileSizeWritten (opportunistic : Bool) (units : Nat) (loop : RecordingLoop) :
    RecordingLoop :=
  { loop with
    totalFileSizeWritten :=
      if opportunistic then u32 (loop.totalFileSizeWritten + units)
      else loop.totalFileSizeWritten }

/-- The marker block written for a run of `numberOfCompressedBuffers`. -/
def compressionBufferWrite (numberOfCompressedBuffers : Nat) : StorageCall :=
  StorageCall.writeToFile
    (WriteSource.compressionBuffer (encodeCompressionBuffer numberOfCompressedBuffers))
    COMPRESSION_BUFFER_SIZE_IN_BYTES

/-- "Encode and write compression buffer": the marker block for the pending run. -/
def writeCompressionBuffer (opportunistic : Bool) (storage : Nat → Bool)
    (loop : RecordingLoop) : RecordingLoop :=
  if (storageCall storage (bookCompressedSamples loop)
      (compressionBufferWrite loop.numberOfCompressedBuffers)).storageError then
    storageCall storage (bookCompressedSamples loop)
      (compressionBufferWrite loop.numberOfCompressedBuffers)
  else
    addTotalFileSizeWritten opportunistic
      (COMPRESSION_BUFFER_SIZE_IN_BYTES / TOTAL_FILE_SIZE_UNITS_IN_BYTES)
      (storageCall storage (bookCompressedSamples loop)
        (compressionBufferWrite loop.numberOfCompressedBuffers))

/-- The statement `numberOfCompressedBuffers = 0`. -/
def resetCompressedBuffers (loop : RecordingLoop) : RecordingLoop :=
  { loop with numberOfCompressedBuffers := 0 }

/-- "Encode and write compression buffer" inside the loop: when a run is pending, write
its marker block and reset the run counter. -/
def flushCompressionBuffer (opportunistic : Bool) (storage : Nat → Bool)
    (loop : RecordingLoop) : RecordingLoop :=
  if loop.numberOfCompressedBuffers > 0 then
    if (writeCompressionBuffer opportunistic storage loop).storageError then
      writeCompressionBuffer opportunistic storage loop
    else resetCompressedBuffers (writeCompressionBuffer opportunistic storage loop)
  else loop

/-- The write of `numberOfSamplesToWrite` samples of `buffers[readBuffer]`. -/
def sampleBufferWrite (readBuffer numberOfSamplesToWrite : Nat) : StorageCall :=
  StorageCall.writeToFile (WriteSource.sampleBuffer readBuffer)
    (u32 (NUMBER_OF_BYTES_IN_SAMPLE * numberOfSamplesToWrite))

/-- "Write the buffer": `numberOfSamplesToWrite` samples of `buffers[readBuffer]`. -/
def writeSampleBuffer (opportunistic : Bool) (storage : Nat → Bool)
    (numberOfSamplesToWrite : Nat) (loop : RecordingLoop) : RecordingLoop :=
  if (storageCall storage loop
      (sampleBufferWrite loop.readBuffer numberOfSamplesToWrite)).storageError then
    storageCall storage loop (sampleBufferWrite loop.readBuffer numberOfSamplesToWrite)
  else
    addTotalFileSizeWritten opportunistic
      (u32 (NUMBER_OF_BYTES_IN_SAMPLE * numberOfSamplesToWrite) / TOTAL_FILE_SIZE_UNITS_IN_BYTES)
      (storageCall storage loop (sampleBufferWrite loop.readBuffer numberOfSamplesToWrite))

/-- The branch of the loop body that skips a buffer: the run counter grows by the number
of 512-byte blocks in a buffer. -/
def countCompressedBuffer (samplesInBuffer : Nat) (loop : RecordingLoop) : RecordingLoop :=
  { loop with
    numberOfCompressedBuffers :=
      u32 (loop.numberOfCompressedBuffers +
        NUMBER_OF_BYTES_IN_SAMPLE * samplesInBuffer / COMPRESSION_BUFFER_SIZE_IN_BYTES) }

/-- "Increment buffer counters" and "Check if the total file size limit has been
exceeded" at the end of the loop body. -/
def incrementBufferCounters (maximumFileSizeWritten : Nat) (opportunistic : Bool)
    (numberOfSamplesToWrite : Nat) (loop : RecordingLoop) : RecordingLoop :=
  { loop with
    readBuffer := (loop.readBuffer + 1) % NUMBER_OF_BUFFERS
    samplesWritten := u32 (loop.samplesWritten + numberOfSamplesToWrite)
    buffersProcessed := u32 (loop.buffersProcessed + 1)
    totalFileSizeLimited :=
      if opportunistic ∧ loop.totalFileSizeWritten > maximumFileSizeWritten then true
      else loop.totalFileSizeLimited }

/-- Local `numberOfSamplesToWrite` of the loop body. -/
def numberOfSamplesToWrite (samplesInBuffer samplesToWrite : Nat) (loop : RecordingLoop) :
    Nat :=
  min (sub32 samplesToWrite loop.samplesWritten) samplesInBuffer

/-- Body of the inner `while` loop of `makeRecording` for the buffer `readBuffer`, whose
`writeIndicator` flag is `thresholdExceeded`.  A failed storage call ends it at once. -/
def processBuffer (samplesInBuffer samplesToWrite maximumFileSizeWritten : Nat)
    (opportunistic : Bool) (storage : Nat → Bool) (thresholdExceeded : Bool)
    (loop : RecordingLoop) : RecordingLoop :=
  if !thresholdExceeded ∧ loop.buffersProcessed > 0 ∧
      numberOfSamplesToWrite samplesInBuffer samplesToWrite loop = samplesInBuffer then
    incrementBufferCounters maximumFileSizeWritten opportunistic
      (numberOfSamplesToWrite samplesInBuffer samplesToWrite loop)
      (countCompressedBuffer samplesInBuffer loop)
  else
    let flushed := flushCompressionBuffer opportunistic storage loop
    if flushed.storageError then flushed
    else
      let stored := writeSampleBuffer opportunistic storage
        (numberOfSamplesToWrite samplesInBuffer samplesToWrite loop) flushed
      if stored.storageError then stored
      else
        incrementBufferCounters maximumFileSizeWritten opportunistic
          (numberOfSamplesToWrite samplesInBuffer samplesToWrite loop) stored

/-- "Check the voltage level" at the end of the outer loop body. -/
def checkVoltage (enableLowVoltageCutoff : Nat) (loop : RecordingLoop)
    (observation : Observation) : RecordingLoop :=
  { loop with
    supplyVoltageLow :=
      if enableLowVoltageCutoff ≠ 0 ∧ !observation.supplyAboveThreshold then true
      else loop.supplyVoltageLow }

/-- How far a run gets on the observations it is given: it has finished with a value, or
the observations ended while it was waiting in a loop, in the given state. -/
inductive Progress (α : Type) where
  | finished (value : α)
  | waiting (loop : RecordingLoop)

/-- Which `while` condition of the main recording loop is evaluated next. -/
inductive LoopPosition where
  | outer
  | inner
  deriving DecidableEq

/-- The main recording loop of `makeRecording`.  Each evaluation of a loop condition takes
one observation.  The run finishes with the state in which the outer loop exits or a
storage call has failed. -/
def recordingLoop (samplesInBuffer samplesToWrite maximumFileSizeWritten : Nat)
    (opportunistic : Bool) (enableLowVoltageCutoff : Nat) (storage : Nat → Bool) :
    LoopPosition → RecordingLoop → List Observation → Progress RecordingLoop
  | _, loop, [] => Progress.waiting loop
  | LoopPosition.outer, loop, observation :: rest =>
    let loop := observeSwitch loop observation
    if continueRecording samplesToWrite loop then
      recordingLoop samplesInBuffer samplesToWrite maximumFileSizeWritten opportunistic
        enableLowVoltageCutoff storage LoopPosition.inner loop rest
    else Progress.finished loop
  | LoopPosition.inner, loop, observation :: rest =>
    let loop := observeSwitch loop observation
    if loop.readBuffer ≠ observation.writeBuffer ∧ continueRecording samplesToWrite loop then
      let loop := processBuffer samplesInBuffer samplesToWrite maximumFileSizeWritten
        opportunistic storage (observation.writeIndicator.getD loop.readBuffer false) loop
      if loop.storageError then Progress.finished loop
      else
        recordingLoop samplesInBuffer samplesToWrite maximumFileSizeWritten opportunistic
          enableLowVoltageCutoff storage LoopPosition.inner loop rest
    else
      recordingLoop samplesInBuffer samplesToWrite maximumFileSizeWritten opportunistic
        enableLowVoltageCutoff storage LoopPosition.outer
        (checkVoltage enableLowVoltageCutoff loop observation) rest

/-- The wait `while (writeBuffer == NUMBER_OF_BUFFERS - 1) { }` before the main loop: it
ends at the first observation with another `writeBuffer`. -/
def waitForWriteBuffer : RecordingLoop → List Observation →
    Progress (RecordingLoop × List Observation)
  | loop, [] => Progress.waiting loop
  | loop, observation :: rest =>
    if observation.writeBuffer = NUMBER_OF_BUFFERS - 1 then
      waitForWriteBuffer (observeSwitch loop observation) rest
    else Progress.finished (observeSwitch loop observation, rest)

/-- What a call of `makeRecording` leaves behind: the returned state, the storage calls in
order, the local variables at the return, `fileSizeLimited`, the static WAV header and
the two backup-domain variables it updates. -/
structure RecordingResult where
  recordingState : AM_recordingState_t
  calls : List StorageCall
  loop : RecordingLoop
  fileSizeLimited : Bool
  wavHeader : WavHeaderDetails
  previousDayOfYear : Nat
  totalFileSizeWritten : Nat
  deriving DecidableEq

/-- The state `makeRecording` returns after the file is closed. -/
def recordingStateAtReturn (loop : RecordingLoop) (fileSizeLimited : Bool) :
    AM_recordingState_t :=
  if loop.switchPositionChanged then AM_recordingState_t.SWITCH_CHANGED
  else if loop.supplyVoltageLow then AM_recordingState_t.SUPPLY_VOLTAGE_LOW
  else if fileSizeLimited then AM_recordingState_t.FILE_SIZE_LIMITED
  else if loop.totalFileSizeLimited then AM_recordingState_t.TOTAL_FILE_SIZE_LIMITED
  else AM_recordingState_t.RECORDING_OKAY

/-- "Calculate effective sample rate": `sampleRate / sampleRateDivider` of the
configuration in use. -/
def effectiveSampleRate (configSettings : CP_configSettings_t)
    (index : AM_configurationIndex_t) : Nat :=
  configSettings.sampleRate.getD index.toNat 0 / configSettings.sampleRateDivider.getD index.toNat 0

/-- Local `numberOfSamplesInHeader` of `makeRecording`. -/
def numberOfSamplesInHeader : Nat := sizeofWavHeader / NUMBER_OF_BYTES_IN_SAMPLE

/-- Local `maximumNumberOfSeconds` of `makeRecording`. -/
def maximumNumberOfSeconds (effectiveSampleRate : Nat) : Nat :=
  (MAXIMUM_WAV_FILE_SIZE - sizeofWavHeader) / NUMBER_OF_BYTES_IN_SAMPLE / effectiveSampleRate

/-- Local `numberOfSamples` of `makeRecording`: the target sample count. -/
def numberOfSamples (effectiveSampleRate recordDuration : Nat) : Nat :=
  u32 (effectiveSampleRate *
    (if recordDuration > maximumNumberOfSeconds effectiveSampleRate then
      maximumNumberOfSeconds effectiveSampleRate
    else recordDuration))

/-- The bound `numberOfSamples + numberOfSamplesInHeader` of the main recording loop. -/
def samplesToWrite (effectiveSampleRate recordDuration : Nat) : Nat :=
  u32 (numberOfSamples effectiveSampleRate recordDuration + numberOfSamplesInHeader)

/-- Local `maximumFileSizeWritten` of `makeRecording`: the daily cap in 512-byte units,
from a 32-bit product. -/
def maximumFileSizeWritten (configSettings : CP_configSettings_t) : Nat :=
  u32 (configSettings.maximumTotalOpportunisticFileSize * NUMBER_OF_BYTES_IN_ONE_MB)
    / TOTAL_FILE_SIZE_UNITS_IN_BYTES

/-- "Write the compression buffer files at the end": the marker of a run still pending
when the loop ended before the target was reached. -/
def flushCompressionBufferAtEnd (samplesToWrite : Nat) (opportunistic : Bool)
    (storage : Nat → Bool) (loop : RecordingLoop) : RecordingLoop :=
  if loop.samplesWritten < samplesToWrite ∧ loop.numberOfCompressedBuffers > 0 then
    writeCompressionBuffer opportunistic storage loop
  else loop

/-- "Initialise the WAV header": `samplesWritten` is raised to the header's own length. -/
def raiseSamplesWritten (loop : RecordingLoop) : RecordingLoop :=
  { loop with samplesWritten := max numberOfSamplesInHeader loop.samplesWritten }

/-- The header after `setHeaderDetails` and `setHeaderComment`.  `samplesWritten` has been
raised to `numberOfSamplesInHeader` before, so the first subtraction does not wrap. -/
def finalWavHeader (effectiveSampleRate guanoDataSize : Nat) (fileSizeLimited : Bool)
    (loop : RecordingLoop) : WavHeaderDetails :=
  { setHeaderDetails initialWavHeader effectiveSampleRate
      (sub32 (loop.samplesWritten - numberOfSamplesInHeader)
        loop.totalNumberOfCompressedSamples) guanoDataSize with
    switchPositionChanged := loop.switchPositionChanged
    supplyVoltageLow := loop.supplyVoltageLow
    fileSizeLimited := fileSizeLimited
    totalFileSizeLimited := loop.totalFileSizeLimited }

/-- "Write the header" and "Close the file": seek to 0, write the header, close. -/
def writeHeaderAndClose (storage : Nat → Bool) (wavHeader : WavHeaderDetails)
    (loop : RecordingLoop) : RecordingLoop :=
  let sought := storageCall storage loop (StorageCall.seekInFile 0)
  if sought.storageError then sought
  else
    let headed := storageCall storage sought
      (StorageCall.writeToFile (WriteSource.wavHeader wavHeader) sizeofWavHeader)
    if headed.storageError then headed
    else storageCall storage headed StorageCall.closeFile

/-- The part of `makeRecording` after the main loop: the pending marker, the GUANO data,
the header and the close.  The result is the loop state after the last storage call made
and the header as set. -/
def finishRecording (samplesToWrite effectiveSampleRate guanoDataSize : Nat)
    (opportunistic fileSizeLimited : Bool) (storage : Nat → Bool) (loop : RecordingLoop) :
    RecordingLoop × WavHeaderDetails :=
  let flushed := flushCompressionBufferAtEnd samplesToWrite opportunistic storage loop
  if flushed.storageError then (flushed, initialWavHeader)
  else
    let guano := storageCall storage flushed
      (StorageCall.writeToFile WriteSource.guanoData guanoDataSize)
    if guano.storageError then (guano, initialWavHeader)
    else
      (writeHeaderAndClose storage
          (finalWavHeader effectiveSampleRate guanoDataSize fileSizeLimited
            (raiseSamplesWritten guano))
          (raiseSamplesWritten guano),
        finalWavHeader effectiveSampleRate guanoDataSize fileSizeLimited
          (raiseSamplesWritten guano))

/-- "Reset total buffers written today": the value of `totalFileSizeWritten` after the
day-of-year check. -/
def resetTotalFileSizeWritten (dayOfYear : Nat) (backup : BackupDomain) : Nat :=
  if dayOfYear ≠ backup.previousDayOfYear then 0 else backup.totalFileSizeWritten

/-- The local variables at the start of the main loop of `makeRecording`. -/
def startOfRecording (totalFileSizeWritten : Nat) : RecordingLoop :=
  { readBuffer := 0
    samplesWritten := 0
    buffersProcessed := 0
    numberOfCompressedBuffers := 0
    totalNumberOfCompressedSamples := 0
    switchPositionChanged := false
    supplyVoltageLow := false
    totalFileSizeLimited := false
    totalFileSizeWritten := totalFileSizeWritten
    calls := []
    storageError := false }

/-- The middle part of `makeRecording`: open the file, wait until the last buffer is not
being written to, run the main recording loop. -/
def openAndRecord (samplesInBuffer samplesToWrite maximumFileSizeWritten : Nat)
    (opportunistic : Bool) (enableLowVoltageCutoff : Nat) (storage : Nat → Bool)
    (start : RecordingLoop) (observations : List Observation) : Progress RecordingLoop :=
  let opened := storageCall storage start StorageCall.openFile
  if opened.storageError then Progress.finished opened
  else
    match waitForWriteBuffer opened observations with
    | Progress.waiting loop => Progress.waiting loop
    | Progress.finished (waited, rest) =>
      recordingLoop samplesInBuffer samplesToWrite maximumFileSizeWritten opportunistic
        enableLowVoltageCutoff storage LoopPosition.outer waited rest

/-- Function `makeRecording` of `main.c`.

Parameters that stand for what the source takes from outside: the hardware constant
`AM_EXTERNAL_SRAM_SIZE_IN_BYTES`, the day of the year `gmtime` gives for the local
time, the length `writeGuanoData` returns, the success of each storage call and the
observations of the interrupt side.  The LED, the microphone and filter set-up and the
texts of header and GUANO data have no effect on what is modelled and are left out. -/
def makeRecording (AM_EXTERNAL_SRAM_SIZE_IN_BYTES : Nat) (configSettings : CP_configSettings_t)
    (backup : BackupDomain) (recordDuration dayOfYear guanoDataSize : Nat)
    (storage : Nat → Bool) (observations : List Observation) : Progress RecordingResult :=
  let opportunistic : Bool :=
    backup.configurationIndexOfNextRecording = AM_configurationIndex_t.OPPORTUNISTIC_RECORDING
  let rate := effectiveSampleRate configSettings backup.configurationIndexOfNextRecording
  let fileSizeLimited : Bool := recordDuration > maximumNumberOfSeconds rate
  let totalFileSizeWritten := resetTotalFileSizeWritten dayOfYear backup
  let previousDayOfYear := dayOfYear
  if opportunistic ∧ totalFileSizeWritten > maximumFileSizeWritten configSettings then
    Progress.finished {
      recordingState := AM_recordingState_t.TOTAL_FILE_SIZE_LIMITED
      calls := []
      loop := startOfRecording totalFileSizeWritten
      fileSizeLimited := fileSizeLimited
      wavHeader := initialWavHeader
      previousDayOfYear := previousDayOfYear
      totalFileSizeWritten := totalFileSizeWritten }
  else
    match openAndRecord (NUMBER_OF_SAMPLES_IN_BUFFER AM_EXTERNAL_SRAM_SIZE_IN_BYTES)
        (samplesToWrite rate recordDuration) (maximumFileSizeWritten configSettings)
        opportunistic configSettings.enableLowVoltageCutoff storage
        (startOfRecording totalFileSizeWritten) observations with
    | Progress.waiting loop => Progress.waiting loop
    | Progress.finished drained =>
      if drained.storageError then
        Progress.finished {
          recordingState := AM_recordingState_t.SDCARD_WRITE_ERROR
          calls := drained.calls
          loop := drained
          fileSizeLimited := fileSizeLimited
          wavHeader := initialWavHeader
          previousDayOfYear := previousDayOfYear
          totalFileSizeWritten := drained.totalFileSizeWritten }
      else
        let finished := finishRecording (samplesToWrite rate recordDuration) rate
          guanoDataSize opportunistic fileSizeLimited storage drained
        Progress.finished {
          recordingState :=
            if finished.1.storageError then AM_recordingState_t.SDCARD_WRITE_ERROR
            else recordingStateAtReturn finished.1 fileSizeLimited
          calls := finished.1.calls
          loop := finished.1
          fileSizeLimited := fileSizeLimited
          wavHeader := finished.2
          previousDayOfYear := previousDayOfYear
          totalFileSizeWritten := finished.1.totalFileSizeWritten }

/-- The storage calls a run has made so far, whether it has returned or not. -/
def Progress.callsMade : Progress RecordingResult → List StorageCall
  | Progress.finished result => result.calls
  | Progress.waiting loop => loop.calls

/-- Invariant of the storage calls: only the last call made can have failed, and it has
failed exactly when `storageError` is set. -/
def storageLogConsistent (storage : Nat → Bool) (calls : List StorageCall)
    (storageError : Bool) : Prop :=
  (∀ k, k < calls.length → storage k = false → storageError = true ∧ k + 1 = calls.length) ∧
    (storageError = true → ∃ k, k + 1 = calls.length ∧ storage k = false)

/-- Bytes that the calls wrote from sample buffers and marker blocks. -/
def sampleAndMarkerBytes : List StorageCall → Nat
  | [] => 0
  | StorageCall.writeToFile (WriteSource.compressionBuffer _) numberOfBytes :: rest =>
    numberOfBytes + sampleAndMarkerBytes rest
  | StorageCall.writeToFile (WriteSource.sampleBuffer _) numberOfBytes :: rest =>
    numberOfBytes + sampleAndMarkerBytes rest
  | _ :: rest => sampleAndMarkerBytes rest

/-- Invariant of the main recording loop, between two passes of its body: the bytes
written as sample buffers and marker blocks, the bytes booked as elided and the bytes of
the pending run add up to the bytes taken from the buffers; `samplesWritten` stays within
the loop bound and is a whole number of buffers until the bound is reached; no run is
pending at the bound when the bound is not a whole number of buffers; and the first buffer
of a session has been written in full. -/
def accountingInvariant (samplesInBuffer samplesToWrite : Nat) (loop : RecordingLoop) : Prop :=
  sampleAndMarkerBytes loop.calls + 2 * loop.totalNumberOfCompressedSamples
      + 512 * loop.numberOfCompressedBuffers = 2 * loop.samplesWritten ∧
    loop.samplesWritten ≤ samplesToWrite ∧
    (loop.samplesWritten < samplesToWrite →
      loop.samplesWritten = loop.buffersProcessed * samplesInBuffer) ∧
    (samplesToWrite % samplesInBuffer ≠ 0 → loop.samplesWritten = samplesToWrite →
      loop.numberOfCompressedBuffers = 0) ∧
    (loop.buffersProcessed = 0 → loop.samplesWritten = 0) ∧
    (0 < loop.buffersProcessed → 488 ≤ sampleAndMarkerBytes loop.calls) ∧
    loop.buffersProcessed ≤ loop.samplesWritten

/-- The run counts that the marker blocks in a log of storage calls stand for, in the
order of the calls. -/
def markerRunCounts : List StorageCall → List Nat
  | [] => []
  | StorageCall.writeToFile (WriteSource.compressionBuffer samples) _ :: rest =>
    decodeCompressionBuffer samples :: markerRunCounts rest
  | _ :: rest => markerRunCounts rest

/-- The number of bytes each call in a log of storage calls writes (0 for a call that is
not a write). -/
def bytesWritten : List StorageCall → List Nat
  | [] => []
  | StorageCall.writeToFile _ numberOfBytes :: rest => numberOfBytes :: bytesWritten rest
  | _ :: rest => 0 :: bytesWritten rest

/-- Whether a storage call writes samples of a buffer or a marker block. -/
def isSampleOrMarkerWrite : StorageCall → Bool
  | StorageCall.writeToFile (WriteSource.compressionBuffer _) _ => true
  | StorageCall.writeToFile (WriteSource.sampleBuffer _) _ => true
  | _ => false

/-! ## The interrupt side (`AudioMoth_handleDirectMemoryAccessInterrupt`) -/

/-- The static variables of `main.c` that `AudioMoth_handleDirectMemoryAccessInterrupt`
updates: the volatile `writeBuffer`, `writeBufferIndex` and `dmaTransfersProcessed`, and the
flags `writeIndicator`. -/
structure InterruptState where
  writeBuffer : Nat
  writeBufferIndex : Nat
  writeIndicator : List Bool
  dmaTransfersProcessed : Nat
  deriving DecidableEq

/-- Function `AudioMoth_handleDirectMemoryAccessInterrupt` of `main.c`, for the variables it
updates.  `thresholdExceeded` is what `DigitalFilter_filter` returns for the transfer (the
samples it stores are not modelled); `numberOfSamplesInDMATransfer` and `dmaTransfersToSkip`
are the statics that `makeRecording` sets, `sampleRateDivider` the divider of the
configuration in use.  `& (NUMBER_OF_BUFFERS - 1)` is the remainder modulo the power of two
`NUMBER_OF_BUFFERS`. -/
def AudioMoth_handleDirectMemoryAccessInterrupt (AM_EXTERNAL_SRAM_SIZE_IN_BYTES
    numberOfSamplesInDMATransfer sampleRateDivider dmaTransfersToSkip : Nat)
    (thresholdExceeded : Bool) (state : InterruptState) : InterruptState :=
  let updated : InterruptState :=
    if state.dmaTransfersProcessed > dmaTransfersToSkip then
      let writeIndicator := state.writeIndicator.set state.writeBuffer
        (state.writeIndicator.getD state.writeBuffer false || thresholdExceeded)
      let writeBufferIndex :=
        u32 (state.writeBufferIndex + numberOfSamplesInDMATransfer / sampleRateDivider)
      if writeBufferIndex = NUMBER_OF_SAMPLES_IN_BUFFER AM_EXTERNAL_SRAM_SIZE_IN_BYTES then
        { state with
          writeBufferIndex := 0
          writeBuffer := (state.writeBuffer + 1) % NUMBER_OF_BUFFERS
          writeIndicator := writeIndicator.set ((state.writeBuffer + 1) % NUMBER_OF_BUFFERS) false }
      else
        { state with
          writeBufferIndex := writeBufferIndex
          writeIndicator := writeIndicator }
    else state
  { updated with dmaTransfersProcessed := u32 (state.dmaTransfersProcessed + 1) }

/-- An interrupt taken while `makeRecording` runs: the handler updates the static
variables; the local variables of `makeRecording` are not in its reach. -/
def interruptDuringRecording (AM_EXTERNAL_SRAM_SIZE_IN_BYTES numberOfSamplesInDMATransfer
    sampleRateDivider dmaTransfersToSkip : Nat) (thresholdExceeded : Bool)
    (machine : InterruptState × RecordingLoop) : InterruptState × RecordingLoop :=
  (AudioMoth_handleDirectMemoryAccessInterrupt AM_EXTERNAL_SRAM_SIZE_IN_BYTES
      numberOfSamplesInDMATransfer sampleRateDivider dmaTransfersToSkip thresholdExceeded
      machine.1,
    machine.2)

/-! ## Preconditions of the scheduler -/

def MINUTES_IN_DAY : Nat := 1440

/-- The range checks the parser applies to one sleep/record cycle:
`recordDuration` in 1..43200 and `sleepDuration` in 5..43200. -/
def validSleepRecordCycle (configSettings : CP_configSettings_t) (index : Nat) : Prop :=
  1 ≤ configSettings.recordDuration.getD index 0 ∧
    configSettings.recordDuration.getD index 0 ≤ 43200 ∧
    5 ≤ configSettings.sleepDuration.getD index 0 ∧
    configSettings.sleepDuration.getD index 0 ≤ 43200

/-- A settings record as the parser hands it to the scheduler: at most five active periods
that pass `checkStartStopPeriods`, none stopping after minute 1440, and, when duty cycling
is enabled, both sleep/record cycles inside the parser's ranges. -/
def validScheduleSettings (configSettings : CP_configSettings_t) : Prop :=
  configSettings.activeStartStopPeriods ≤ MAX_START_STOP_PERIODS ∧
    checkStartStopPeriods configSettings.startStopPeriods
      configSettings.activeStartStopPeriods = true ∧
    (∀ period ∈ configSettings.startStopPeriods.take configSettings.activeStartStopPeriods,
      period.stopMinutes ≤ MINUTES_IN_DAY) ∧
    (configSettings.numberOfSleepRecordCycles ≠ SLEEP_RECORD_CYCLES_DISABLED →
      validSleepRecordCycle configSettings 0 ∧ validSleepRecordCycle configSettings 1)

instance (configSettings : CP_configSettings_t) (index : Nat) :
    Decidable (validSleepRecordCycle configSettings index) := by
  unfold validSleepRecordCycle; infer_instance

instance (configSettings : CP_configSettings_t) :
    Decidable (validScheduleSettings configSettings) := by
  unfold validScheduleSettings; infer_instance

/-! ## Example configurations and states -/

/-- Scenario A of the specification: one period 00:00-01:00, duty cycling disabled. -/
def scenarioA : CP_configSettings_t :=
  { defaultConfigSettings with
    activeStartStopPeriods := 1
    startStopPeriods := [⟨0, 60⟩, ⟨120, 180⟩, ⟨240, 300⟩, ⟨360, 420⟩, ⟨480, 540⟩] }

/-- One period 00:00-01:00 with a 10 s record / 100 s sleep cycle and opportunistic
recording enabled (no cap on the opportunistic duration). -/
def opportunisticExample : CP_configSettings_t :=
  { scenarioA with
    numberOfSleepRecordCycles := 1
    sleepDuration := [5, 100]
    recordDuration := [55, 10]
    enableOpportunisticRecording := 1 }

/-- Scenario A with a latest recording time fifty minutes into the period of
1 January 2022. -/
def latestExample : CP_configSettings_t :=
  { scenarioA with latestRecordingTime := 1641603000 }

/-- The backup domain as `main` sets it when the configuration has just been read. -/
def initialBackupDomain : BackupDomain :=
  { timeOfNextRecording := 0
    configurationIndexOfNextRecording := AM_configurationIndex_t.OPPORTUNISTIC_RECORDING
    numberOfCompleteInitialRecordings := 0
    numberOfRecordings := 0
    durationOfNextRecording := 0
    readyToMakeRecordings := true
    previousDayOfYear := UINT32_MAX
    totalFileSizeWritten := 0 }

/-- Size of the external SRAM used in the examples: 256 KiB, eight buffers of 16384
samples (64 blocks of 512 bytes each). -/
def exampleSramSizeInBytes : Nat := 262144

/-- An observation with no switch interrupt and the supply above the threshold. -/
def quietObservation (writeBuffer : Nat) (writeIndicator : List Bool) : Observation :=
  { writeBuffer := writeBuffer
    writeIndicator := writeIndicator
    switchInterrupt := false
    supplyAboveThreshold := true }

/-- Threshold flags for Scenario B: the first buffer of the session (always written) is
followed by three buffers below the threshold and one above it. -/
def scenarioBFlags : List Bool := [true, false, false, false, true, false, false, false]

/-- Observations for Scenario B: the interrupt side is five, later six buffers ahead. -/
def scenarioBObservations : List Observation :=
  [quietObservation 0 scenarioBFlags, quietObservation 0 scenarioBFlags,
    quietObservation 5 scenarioBFlags, quietObservation 5 scenarioBFlags,
    quietObservation 5 scenarioBFlags, quietObservation 5 scenarioBFlags,
    quietObservation 5 scenarioBFlags, quietObservation 5 scenarioBFlags,
    quietObservation 5 scenarioBFlags, quietObservation 6 scenarioBFlags,
    quietObservation 6 scenarioBFlags, quietObservation 6 scenarioBFlags]

/-- Storage for Scenario C: the second write (storage call number 2, after the open and
the first write) fails. -/
def scenarioCStorage (call : Nat) : Bool := call != 2

/-- A backup domain whose previous recording used the STANDARD configuration. -/
def standardBackupDomain : BackupDomain :=
  { initialBackupDomain with
    configurationIndexOfNextRecording := AM_configurationIndex_t.STANDARD_RECORDING
    numberOfRecordings := 1 }

/-- A configuration whose effective sample rate, 260192 / 8 = 32524 Hz, makes the loop bound
of a one-second session, 32524 + 244 = 32768 samples, a whole number of buffers.  (The
parser accepts no such rate.) -/
def wholeBuffersExample : CP_configSettings_t :=
  { defaultConfigSettings with sampleRate := [260192, 260192] }

/-- Threshold flags for `wholeBuffersExample`: only the first buffer is above the
threshold. -/
def wholeBuffersFlags : List Bool := [true, false, false, false, false, false, false, false]

/-- Observations for `wholeBuffersExample`: the interrupt side is two buffers ahead. -/
def wholeBuffersObservations : List Observation :=
  [quietObservation 0 wholeBuffersFlags, quietObservation 0 wholeBuffersFlags,
    quietObservation 2 wholeBuffersFlags, quietObservation 2 wholeBuffersFlags,
    quietObservation 2 wholeBuffersFlags, quietObservation 2 wholeBuffersFlags]

/-- Storage on which every call succeeds. -/
def storageAlwaysSucceeds (_call : Nat) : Bool := true

/-- The loop state of Scenario B after the first buffer of the session has been written:
one pass of the loop body on the state in which the file has just been opened. -/
def scenarioBFirstBuffer : RecordingLoop :=
  processBuffer 16384 96244 0 false storageAlwaysSucceeds true
    (storageCall storageAlwaysSucceeds (startOfRecording 0) StorageCall.openFile)

/-- A configuration with a daily cap of 1 MB on opportunistic recordings. -/
def capExceededExample : CP_configSettings_t :=
  { defaultConfigSettings with maximumTotalOpportunisticFileSize := 1 }

/-- A backup domain for an opportunistic session on day 0 on which 2049 units of 512 bytes
(more than the 2048 of 1 MB) have been written already. -/
def capExceededBackupDomain : BackupDomain :=
  { initialBackupDomain with
    previousDayOfYear := 0
    totalFileSizeWritten := 2049 }

/-- An observation with a switch interrupt. -/
def switchObservation (writeBuffer : Nat) (writeIndicator : List Bool) : Observation :=
  { writeBuffer := writeBuffer
    writeIndicator := writeIndicator
    switchInterrupt := true
    supplyAboveThreshold := true }

/-- Observations of a session that the switch ends after three buffers, of which the last
two were below the threshold. -/
def switchedObservations : List Observation :=
  [quietObservation 0 wholeBuffersFlags, quietObservation 0 wholeBuffersFlags,
    quietObservation 3 wholeBuffersFlags, quietObservation 3 wholeBuffersFlags,
    quietObservation 3 wholeBuffersFlags, quietObservation 3 wholeBuffersFlags,
    switchObservation 3 wholeBuffersFlags]

/-- The opportunistic example with an earliest recording time 50 s into the period of
8 January 2022, which is in the sleep phase of the first cycle. -/
def earliestExample : CP_configSettings_t :=
  { opportunisticExample with earliestRecordingTime := 1641600050 }

/-- The opportunistic example with both sleep/record cycles configured: three initial
cycles of 55 s record / 5 s sleep, then 10 s record / 100 s sleep. -/
def twoCyclesExample : CP_configSettings_t :=
  { opportunisticExample with
    numberOfSleepRecordCycles := 2
    initialSleepRecordCycles := 3 }

/-- A state of the interrupt side after the warm-up, one transfer of 128 samples before
the end of buffer 2. -/
def interruptExample : InterruptState :=
  { writeBuffer := 2
    writeBufferIndex := 16256
    writeIndicator := [true, false, false, true, true, true, true, true]
    dmaTransfersProcessed := 500 }

/-- Invariant of the main recording loop that does not depend on the buffer length being a
whole number of marker blocks: `samplesWritten` stays within the loop bound and is a whole
number of buffers until the bound is reached; when the bound is not a whole number of
buffers, the state at the bound has no run pending and its last storage call is the write
of a partial buffer; before the first buffer nothing is counted; and the samples booked as
elided, those of the pending run and the header's place in the first buffer fit in the
samples consumed. -/
def drainInvariant (samplesInBuffer samplesToWrite : Nat) (loop : RecordingLoop) : Prop :=
  loop.samplesWritten ≤ samplesToWrite ∧
    (loop.samplesWritten < samplesToWrite →
      loop.samplesWritten = loop.buffersProcessed * samplesInBuffer) ∧
    (samplesToWrite % samplesInBuffer ≠ 0 → loop.samplesWritten = samplesToWrite →
      loop.numberOfCompressedBuffers = 0 ∧
      ∃ readBuffer numberOfSamplesToWrite,
        loop.calls.getLast? = some (sampleBufferWrite readBuffer numberOfSamplesToWrite) ∧
        numberOfSamplesToWrite < samplesInBuffer) ∧
    (loop.buffersProcessed = 0 →
      loop.samplesWritten = 0 ∧ loop.numberOfCompressedBuffers = 0 ∧
        loop.totalNumberOfCompressedSamples = 0) ∧
    (256 ≤ samplesInBuffer →
      2 * loop.totalNumberOfCompressedSamples + 512 * loop.numberOfCompressedBuffers
        + (if loop.buffersProcessed = 0 then 0 else 488) ≤ 2 * loop.samplesWritten) ∧
    (samplesInBuffer < 256 →
      loop.numberOfCompressedBuffers = 0 ∧ loop.totalNumberOfCompressedSamples = 0)

/-- One period 06:28-07:00, which holds the last second of the 32-bit clock (06:28:15 on
7 February 2106), with a 14 s record / 100 s sleep cycle and opportunistic recording
enabled. -/
def clockWrapExample : CP_configSettings_t :=
  { defaultConfigSettings with
    activeStartStopPeriods := 1
    startStopPeriods := [⟨388, 420⟩, ⟨480, 540⟩, ⟨600, 660⟩, ⟨720, 780⟩, ⟨840, 900⟩]
    numberOfSleepRecordCycles := 1
    sleepDuration := [5, 100]
    recordDuration := [55, 14]
    enableOpportunisticRecording := 1 }

/-! ## The DMA transfers of a session (`makeRecording`, "Calculate the number of samples in
each DMA transfer") -/

def MAXIMUM_SAMPLES_IN_DMA_TRANSFER : Nat := 1024

def FRACTION_OF_SECOND_FOR_WARMUP : Nat := 2

/-- The loop `while (n & (n - 1)) n = n & (n - 1)` of `makeRecording`, for at most `fuel`
iterations.  An iteration clears the lowest set bit of `n`; a 32-bit value has at most 32
of them. -/
def clearLowestSetBits : Nat → Nat → Nat
  | 0, n => n
  | fuel + 1, n => if n &&& (n - 1) ≠ 0 then clearLowestSetBits fuel (n &&& (n - 1)) else n

/-- Static `numberOfSamplesInDMATransfer` as `makeRecording` sets it for the configuration in
use.  (A divider of 0 is a division by zero in the source; here the quotient is 0.) -/
def numberOfSamplesInDMATransfer (configSettings : CP_configSettings_t)
    (index : AM_configurationIndex_t) : Nat :=
  u32 (clearLowestSetBits 32
      (MAXIMUM_SAMPLES_IN_DMA_TRANSFER / configSettings.sampleRateDivider.getD index.toNat 0)
    * configSettings.sampleRateDivider.getD index.toNat 0)

/-- Static `dmaTransfersToSkip` as `makeRecording` sets it for the configuration in use. -/
def dmaTransfersToSkip (configSettings : CP_configSettings_t)
    (index : AM_configurationIndex_t) : Nat :=
  configSettings.sampleRate.getD index.toNat 0 / FRACTION_OF_SECOND_FOR_WARMUP
    / numberOfSamplesInDMATransfer configSettings index

/-- The DMA interrupts of a session in order, one for each transfer, with the threshold
results of the transfers; `makeRecording` has set `numberOfSamplesInDMATransfer` and
`dmaTransfersToSkip` before the first of them. -/
def handleDirectMemoryAccessInterrupts (AM_EXTERNAL_SRAM_SIZE_IN_BYTES : Nat)
    (configSettings : CP_configSettings_t) (index : AM_configurationIndex_t)
    (thresholdResults : List Bool) (state : InterruptState) : InterruptState :=
  thresholdResults.foldl
    (fun state thresholdExceeded =>
      AudioMoth_handleDirectMemoryAccessInterrupt AM_EXTERNAL_SRAM_SIZE_IN_BYTES
        (numberOfSamplesInDMATransfer configSettings index)
        (configSettings.sampleRateDivider.getD index.toNat 0)
        (dmaTransfersToSkip configSettings index) thresholdExceeded state)
    state

/-- The statics of the interrupt side as `makeRecording` sets them before the DMA transfers
start: `writeBuffer = 0`, `writeBufferIndex = 0`, `dmaTransfersProcessed = 0`.  The flags
`writeIndicator` are not reset; they are as the previous session left them (all false after
a power-up). -/
def startOfInterrupts (writeIndicator : List Bool) : InterruptState :=
  { writeBuffer := 0
    writeBufferIndex := 0
    writeIndicator := writeIndicator
    dmaTransfersProcessed := 0 }

/-! ## The filter set-up of `makeRecording` ("Set up the digital filter") -/

def FILTER_FREQ_MULTIPLIER : Nat := 100

def DC_BLOCKING_FREQ : Nat := 48

/-- Filter type enumeration `AM_filterType_t`. -/
inductive AM_filterType_t where
  | NO_FILTER
  | LOW_PASS_FILTER
  | BAND_PASS_FILTER
  | HIGH_PASS_FILTER
  deriving DecidableEq

/-- The call that hands the design frequencies to the digital filter:
`DigitalFilter_designHighPassFilter (sampleRate, freq)` or
`DigitalFilter_designBandPassFilter (sampleRate, freq1, freq2)`.  The functions themselves
are not part of the sources. -/
inductive FilterDesign where
  | designHighPassFilter (sampleRate freq : Nat)
  | designBandPassFilter (sampleRate freq1 freq2 : Nat)
  deriving DecidableEq

/-- The lower design frequency of a design call: `freq` of a high-pass design, `freq1` of a
band-pass design. -/
def FilterDesign.lowerFrequency : FilterDesign → Nat
  | designHighPassFilter _ freq => freq
  | designBandPassFilter _ freq1 _ => freq1

/-- "Set up the digital filter" in `makeRecording`: the value given to `requestedFilterType`
and the design call made, for the configuration in use.  The stored cut-offs are `uint16_t`,
so the products with `FILTER_FREQ_MULTIPLIER` do not overflow. -/
def setUpDigitalFilter (configSettings : CP_configSettings_t)
    (index : AM_configurationIndex_t) : AM_filterType_t × FilterDesign :=
  let effectiveSampleRate := effectiveSampleRate configSettings index
  let lowerFilterFreq := configSettings.lowerFilterFreq.getD index.toNat 0
  let higherFilterFreq := configSettings.higherFilterFreq.getD index.toNat 0
  if lowerFilterFreq = 0 ∧ higherFilterFreq = 0 then
    (AM_filterType_t.NO_FILTER,
      FilterDesign.designHighPassFilter effectiveSampleRate DC_BLOCKING_FREQ)
  else if lowerFilterFreq = UINT16_MAX then
    (AM_filterType_t.LOW_PASS_FILTER,
      FilterDesign.designBandPassFilter effectiveSampleRate DC_BLOCKING_FREQ
        (FILTER_FREQ_MULTIPLIER * higherFilterFreq))
  else if higherFilterFreq = UINT16_MAX then
    (AM_filterType_t.HIGH_PASS_FILTER,
      FilterDesign.designHighPassFilter effectiveSampleRate
        (max DC_BLOCKING_FREQ (FILTER_FREQ_MULTIPLIER * lowerFilterFreq)))
  else
    (AM_filterType_t.BAND_PASS_FILTER,
      FilterDesign.designBandPassFilter effectiveSampleRate
        (max DC_BLOCKING_FREQ (FILTER_FREQ_MULTIPLIER * lowerFilterFreq))
        (FILTER_FREQ_MULTIPLIER * higherFilterFreq))

/-- A configuration with a band-pass request stored for the STANDARD setting: cut-offs
8 kHz and 24 kHz in units of 100 Hz. -/
def bandPassExample : CP_configSettings_t :=
  { defaultConfigSettings with lowerFilterFreq := [80, 0], higherFilterFreq := [240, 0] }

/-! ## The wake cycle of `main` ("Make recording if ready to do so") -/

/-- The recording part of a wake cycle of `main`, for a time that has reached
`timeOfNextRecording`: "Reduce the recording duration if necessary" and "Make the
recording".  The result is the local `recordingState` and the backup domain after the
recording.  `supplyAboveThreshold` is what `AudioMoth_isSupplyAboveThreshold` returns,
`fileSystemEnabled` what `AudioMoth_enableFileSystem` returns; the remaining parameters are
those of `makeRecording`.  The subtractions are guarded by `currentTime >=
*timeOfNextRecording` and by `MIN`, so they do not wrap. -/
def reduceDurationAndRecord (AM_EXTERNAL_SRAM_SIZE_IN_BYTES : Nat)
    (configSettings : CP_configSettings_t) (backup : BackupDomain) (currentTime : Nat)
    (supplyAboveThreshold fileSystemEnabled : Bool) (dayOfYear guanoDataSize : Nat)
    (storage : Nat → Bool) (observations : List Observation) :
    Progress (AM_recordingState_t × BackupDomain) :=
  let missedSeconds :=
    min (currentTime - backup.timeOfNextRecording) backup.durationOfNextRecording
  let backup : BackupDomain :=
    { backup with durationOfNextRecording := backup.durationOfNextRecording - missedSeconds }
  if backup.durationOfNextRecording > 0 then
    let okayToMakeRecording : Bool :=
      if configSettings.enableLowVoltageCutoff ≠ 0 then supplyAboveThreshold else true
    if okayToMakeRecording then
      if fileSystemEnabled then
        match makeRecording AM_EXTERNAL_SRAM_SIZE_IN_BYTES configSettings backup
            backup.durationOfNextRecording dayOfYear guanoDataSize storage observations with
        | Progress.waiting loop => Progress.waiting loop
        | Progress.finished result =>
          Progress.finished (result.recordingState,
            { backup with
              previousDayOfYear := result.previousDayOfYear
              totalFileSizeWritten := result.totalFileSizeWritten })
      else Progress.finished (AM_recordingState_t.SDCARD_WRITE_ERROR, backup)
    else Progress.finished (AM_recordingState_t.SUPPLY_VOLTAGE_LOW, backup)
  else Progress.finished (AM_recordingState_t.RECORDING_OKAY, backup)

/-- "Schedule next recording" in `main`: skipped when the recording was limited by the
file size. -/
def scheduleNextRecording (configSettings : CP_configSettings_t) (backup : BackupDomain)
    (currentTime : Nat) (recordingState : AM_recordingState_t) : BackupDomain :=
  if recordingState ≠ AM_recordingState_t.FILE_SIZE_LIMITED then
    scheduleRecording configSettings backup (u32 (currentTime + backup.durationOfNextRecording))
  else backup

/-- "Count the recording if it finished okay and was a full recording" in `main`, followed
by `*numberOfRecordings += 1`.  The test reads `*durationOfNextRecording` as it is at that
point of `main`. -/
def countRecording (configSettings : CP_configSettings_t) (backup : BackupDomain)
    (recordingState : AM_recordingState_t) : BackupDomain :=
  { backup with
    numberOfCompleteInitialRecordings :=
      if recordingState = AM_recordingState_t.RECORDING_OKAY ∧
          configSettings.numberOfSleepRecordCycles = INITIAL_AND_STANDARD_SLEEP_RECORD_CYCLES ∧
          backup.durationOfNextRecording = configSettings.recordDuration.getD
            AM_sleepRecordIndex_t.INITIAL_SLEEP_RECORD_CYCLE.toNat 0 then
        u32 (backup.numberOfCompleteInitialRecordings + 1)
      else backup.numberOfCompleteInitialRecordings
    numberOfRecordings := u32 (backup.numberOfRecordings + 1) }

/-- The block "Make recording if ready to do so" of `main`: when the current time has
reached `timeOfNextRecording`, reduce the duration by the seconds missed, make the
recording, schedule the next one and count the recording; otherwise the backup domain is
left as it is. -/
def makeRecordingIfReady (AM_EXTERNAL_SRAM_SIZE_IN_BYTES : Nat)
    (configSettings : CP_configSettings_t) (backup : BackupDomain) (currentTime : Nat)
    (supplyAboveThreshold fileSystemEnabled : Bool) (dayOfYear guanoDataSize : Nat)
    (storage : Nat → Bool) (observations : List Observation) : Progress BackupDomain :=
  if currentTime ≥ backup.timeOfNextRecording then
    match reduceDurationAndRecord AM_EXTERNAL_SRAM_SIZE_IN_BYTES configSettings backup
        currentTime supplyAboveThreshold fileSystemEnabled dayOfYear guanoDataSize storage
        observations with
    | Progress.waiting loop => Progress.waiting loop
    | Progress.finished (recordingState, recorded) =>
      Progress.finished
        (countRecording configSettings
          (scheduleNextRecording configSettings recorded currentTime recordingState)
          recordingState)
  else Progress.finished backup

/-- A period 00:00-00:02 with both sleep/record cycles configured: three initial cycles of
55 s record / 20 s sleep, then 10 s record / 100 s sleep; 8 kHz, no opportunistic
recording. -/
def initialCyclesExample : CP_configSettings_t :=
  { defaultConfigSettings with
    activeStartStopPeriods := 1
    startStopPeriods := [⟨0, 2⟩, ⟨120, 180⟩, ⟨240, 300⟩, ⟨360, 420⟩, ⟨480, 540⟩]
    numberOfSleepRecordCycles := 2
    initialSleepRecordCycles := 3
    sleepDuration := [20, 100]
    recordDuration := [55, 10]
    sampleRateDivider := [48, 48] }

/-- The backup domain after `initialCyclesExample` has been read, as `main` sets it: the
counters are 0 and the first recording is scheduled from a time before the period of
8 January 2022. -/
def initialCyclesBackupDomain : BackupDomain :=
  scheduleRecording initialCyclesExample initialBackupDomain 1641599000

/-- Observations for a session in which the interrupt side is always one buffer ahead of
the consumer and every buffer exceeds the threshold: the wait before the loop ends at once,
and `buffers` buffers are processed one after the other. -/
def steadyObservations (buffers : Nat) : List Observation :=
  quietObservation 1 (List.replicate 8 true) :: quietObservation 1 (List.replicate 8 true) ::
    (List.range (buffers + 2)).map
      (fun i => quietObservation ((i + 1) % 8) (List.replicate 8 true))

/-! ## The configuration parser (`configparser.c`) -/

def MAX_BUFFER_LENGTH : Nat := 32

def MAXIMUM_NUMBER_OF_START_STOP_PERIODS : Nat := 5

/-- Parser status enumeration `CP_parserStatus_t`. -/
inductive CP_parserStatus_t where
  | CP_WAITING
  | CP_PARSING
  | CP_CHARACTER_ERROR
  | CP_VALUE_ERROR
  | CP_SUCCESS
  deriving DecidableEq

/-- Structure `CP_parserState_t`.  The four counters are `uint8_t`; `buffer` holds the
`MAX_BUFFER_LENGTH` characters of the array, as character codes. -/
structure CP_parserState_t where
  state : Nat
  index : Nat
  count : Nat
  returnState : Nat
  buffer : List Nat
  status : CP_parserStatus_t
  deriving DecidableEq

/-- What the jump-table functions of the parser read and write: the static `parserState`,
the settings record their third argument points to, and the statics `lowerFrequency` and
`higherFrequency`. -/
structure ParserVariables where
  parserState : CP_parserState_t
  configSettings : CP_configSettings_t
  lowerFrequency : Nat
  higherFrequency : Nat
  deriving DecidableEq

/-- The parser state after `memset (&parserState, 0, sizeof (CP_parserState_t))`, which is
also the state of the static at start-up. -/
def clearedParserState : CP_parserState_t :=
  { state := 0
    index := 0
    count := 0
    returnState := 0
    buffer := List.replicate MAX_BUFFER_LENGTH 0
    status := CP_parserStatus_t.CP_WAITING }

/-- Macro `INC_STATE`. -/
def INC_STATE (v : ParserVariables) : ParserVariables :=
  { v with parserState := { v.parserState with state := (v.parserState.state + 1) % 256 } }

/-- Macro `SET_STATE`. -/
def SET_STATE (x : Nat) (v : ParserVariables) : ParserVariables :=
  { v with parserState := { v.parserState with state := x } }

/-- Macro `ZERO_INDEX`. -/
def ZERO_INDEX (v : ParserVariables) : ParserVariables :=
  { v with parserState := { v.parserState with index := 0 } }

/-- Macro `INC_INDEX`. -/
def INC_INDEX (v : ParserVariables) : ParserVariables :=
  { v with parserState := { v.parserState with index := (v.parserState.index + 1) % 256 } }

/-- Macro `SET_INDEX`. -/
def SET_INDEX (x : Nat) (v : ParserVariables) : ParserVariables :=
  { v with parserState := { v.parserState with index := x } }

/-- Macro `INC_COUNT`. -/
def INC_COUNT (v : ParserVariables) : ParserVariables :=
  { v with parserState := { v.parserState with count := (v.parserState.count + 1) % 256 } }

/-- Macro `SET_RETURN`. -/
def SET_RETURN (x : Nat) (v : ParserVariables) : ParserVariables :=
  { v with parserState := { v.parserState with returnState := x } }

/-- Macro `ADD_TO_BUFFER`, for the character `c`. -/
def ADD_TO_BUFFER (c : Nat) (v : ParserVariables) : ParserVariables :=
  if v.parserState.count < MAX_BUFFER_LENGTH - 1 then
    { v with
      parserState :=
        { v.parserState with
          buffer := v.parserState.buffer.set v.parserState.count c
          count := v.parserState.count + 1 } }
  else v

/-- Macro `CLEAR_BUFFER`. -/
def CLEAR_BUFFER (v : ParserVariables) : ParserVariables :=
  { v with
    parserState :=
      { v.parserState with buffer := List.replicate MAX_BUFFER_LENGTH 0, count := 0 } }

/-- Macro `CLEAR_STATE`. -/
def CLEAR_STATE (v : ParserVariables) : ParserVariables :=
  { v with parserState := clearedParserState }

/-- Macro `SET_STATUS_SUCCESS`. -/
def SET_STATUS_SUCCESS (v : ParserVariables) : ParserVariables :=
  { v with parserState := { v.parserState with status := CP_parserStatus_t.CP_SUCCESS } }

/-- Macro `_FUNCTION_END`: the last branch of a jump-table function. -/
def FUNCTION_END (state : Nat) (status : CP_parserStatus_t) (v : ParserVariables) :
    ParserVariables :=
  { v with parserState := { v.parserState with state := state, status := status } }

/-- Macro `VALUE_ERROR`. -/
def VALUE_ERROR (v : ParserVariables) : ParserVariables :=
  { v with
    parserState :=
      { v.parserState with state := 0, status := CP_parserStatus_t.CP_VALUE_ERROR } }

/-- The test of `_FUNCTION_START` for the characters a jump-table function passes over:
space, tab, line feed, carriage return and every code above 127 (`char` is unsigned on the
target). -/
def isSkipped (c : Nat) : Bool :=
  c = 32 || c = 9 || c = 10 || c = 13 || decide (c > 127)

/-- Macro `IS`. -/
def IS (c : Nat) (x : Char) : Bool := c = x.toNat

/-- Macro `VALUE`, used where `c` is a digit. -/
def VALUE (c : Nat) : Nat := c - 48

/-- Macro `ISDIGIT`. -/
def ISDIGIT (c : Nat) : Bool := decide (48 ≤ c) && decide (c ≤ 57)

/-- Macro `ISNUMBER`. -/
def ISNUMBER (c : Nat) : Bool := ISDIGIT c || IS c '-'

/-- Macro `DEFINE_FUNCTION_INIT`. -/
def DEFINE_FUNCTION_INIT (condition : Nat → ParserVariables → Bool) (c : Nat)
    (v : ParserVariables) : ParserVariables :=
  if isSkipped c then v
  else if condition c v then
    FUNCTION_END 1 CP_parserStatus_t.CP_PARSING (CLEAR_STATE v)
  else FUNCTION_END 0 CP_parserStatus_t.CP_WAITING v

/-- Macro `DEFINE_FUNCTION_STEP`. -/
def DEFINE_FUNCTION_STEP (condition : Nat → ParserVariables → Bool)
    (action : Nat → ParserVariables → ParserVariables) (c : Nat) (v : ParserVariables) :
    ParserVariables :=
  if isSkipped c then v
  else if condition c v then action c v
  else FUNCTION_END 0 CP_parserStatus_t.CP_CHARACTER_ERROR v

/-- Macro `DEFINE_FUNCTION_ELSE`. -/
def DEFINE_FUNCTION_ELSE (condition1 : Nat → ParserVariables → Bool)
    (action1 : Nat → ParserVariables → ParserVariables)
    (condition2 : Nat → ParserVariables → Bool)
    (action2 : Nat → ParserVariables → ParserVariables) (c : Nat) (v : ParserVariables) :
    ParserVariables :=
  if isSkipped c then v
  else if condition1 c v then action1 c v
  else if condition2 c v then action2 c v
  else FUNCTION_END 0 CP_parserStatus_t.CP_CHARACTER_ERROR v

/-- Macro `DEFINE_FUNCTION_CND3`. -/
def DEFINE_FUNCTION_CND3 (condition1 : Nat → ParserVariables → Bool)
    (action1 : Nat → ParserVariables → ParserVariables)
    (condition2 : Nat → ParserVariables → Bool)
    (action2 : Nat → ParserVariables → ParserVariables)
    (condition3 : Nat → ParserVariables → Bool)
    (action3 : Nat → ParserVariables → ParserVariables) (c : Nat) (v : ParserVariables) :
    ParserVariables :=
  if isSkipped c then v
  else if condition1 c v then action1 c v
  else if condition2 c v then action2 c v
  else if condition3 c v then action3 c v
  else FUNCTION_END 0 CP_parserStatus_t.CP_CHARACTER_ERROR v

/-- Macro `DEFINE_FUNCTION_CND4`. -/
def DEFINE_FUNCTION_CND4 (condition1 : Nat → ParserVariables → Bool)
    (action1 : Nat → ParserVariables → ParserVariables)
    (condition2 : Nat → ParserVariables → Bool)
    (action2 : Nat → ParserVariables → ParserVariables)
    (condition3 : Nat → ParserVariables → Bool)
    (action3 : Nat → ParserVariables → ParserVariables)
    (condition4 : Nat → ParserVariables → Bool)
    (action4 : Nat → ParserVariables → ParserVariables) (c : Nat) (v : ParserVariables) :
    ParserVariables :=
  if isSkipped c then v
  else if condition1 c v then action1 c v
  else if condition2 c v then action2 c v
  else if condition3 c v then action3 c v
  else if condition4 c v then action4 c v
  else FUNCTION_END 0 CP_parserStatus_t.CP_CHARACTER_ERROR v

/-- Macro `DEFINE_FUNCTION_STRG`: `pattern[COUNT]` is the character of the string at
`COUNT`, or the terminating 0.  (Every state defined with this macro is entered with
`COUNT` 0, so `COUNT` stays below the length of the string.) -/
def DEFINE_FUNCTION_STRG (pattern : String)
    (action : Nat → ParserVariables → ParserVariables) (c : Nat) (v : ParserVariables) :
    ParserVariables :=
  if isSkipped c then v
  else if c = ((pattern.toList.map Char.toNat).getD v.parserState.count 0) then
    if (INC_COUNT v).parserState.count = pattern.length then action c (INC_COUNT v)
    else INC_COUNT v
  else FUNCTION_END 0 CP_parserStatus_t.CP_CHARACTER_ERROR v

/-- Macro `CHECK_BUFFER_MIN_MAX_AND_SET`.  `atoi` is the library function, applied to the
buffer; `destination` is the assignment `destination = value`. -/
def CHECK_BUFFER_MIN_MAX_AND_SET (atoi : List Nat → Int)
    (destination : Nat → ParserVariables → ParserVariables) (min max : Int)
    (success : ParserVariables → ParserVariables) (v : ParserVariables) : ParserVariables :=
  if atoi v.parserState.buffer < min ∨ atoi v.parserState.buffer > max then VALUE_ERROR v
  else success (destination (atoi v.parserState.buffer).toNat v)

/-- Function `handleSampleRate` of `configparser.c`: `none` for `false`, otherwise the
values stored to `*sampleRate` and `*sampleRateDivider` (a `uint8_t`). -/
def handleSampleRate (atoi : List Nat → Int) (buffer : List Nat) : Option (Nat × Nat) :=
  let value := (atoi buffer % 4294967296).toNat
  if value ≠ 8000 ∧ value ≠ 16000 ∧ value ≠ 24000 ∧ value ≠ 32000 ∧ value ≠ 48000 ∧
      value ≠ 96000 ∧ value ≠ 192000 ∧ value ≠ 250000 ∧ value ≠ 384000 then none
  else
    let sampleRate := if value = 250000 then value else 384000
    some (sampleRate, sampleRate / value % 256)

/-- Function `handleEnableEnergySaverMode` of `configparser.c`: `none` for `false`,
otherwise the values of `*sampleRate`, `*sampleRateDivider` and `*clockDivider` after the
call. -/
def handleEnableEnergySaverMode (energySaverMode sampleRate sampleRateDivider
    clockDivider : Nat) : Option (Nat × Nat × Nat) :=
  if energySaverMode = 0 then some (sampleRate, sampleRateDivider, clockDivider)
  else if sampleRateDivider ≥ 8 then
    some (sampleRate / 2, sampleRateDivider / 2, clockDivider / 2)
  else none

/-- Function `handleFilter` of `configparser.c`: `none` for `false`, otherwise the values
of `*lowerFilterFreq` and `*higherFilterFreq` (both `uint16_t`) after the call. -/
def handleFilter (lowerFrequency higherFrequency sampleRate lowerFilterFreq
    higherFilterFreq : Nat) : Option (Nat × Nat) :=
  if lowerFrequency > sampleRate / 2 then none
  else if higherFrequency > sampleRate / 2 then none
  else if lowerFrequency ≥ higherFrequency then none
  else if lowerFrequency = 0 ∧ higherFrequency = sampleRate / 2 then
    some (lowerFilterFreq, higherFilterFreq)
  else
    some ((if lowerFrequency = 0 then UINT16_MAX else lowerFrequency / 100) % 65536,
      (if higherFrequency = sampleRate / 2 then UINT16_MAX else higherFrequency / 100) % 65536)

/-- The assignment of `value` to a field of the settings record. -/
def setConfigSettings (update : CP_configSettings_t → CP_configSettings_t)
    (v : ParserVariables) : ParserVariables :=
  { v with configSettings := update v.configSettings }

/-- The action of `CP42` on `,` or `}`: `handleSampleRate` on the buffer, for the setting
`INDEX`. -/
def handleSampleRateAction (atoi : List Nat → Int) (c : Nat) (v : ParserVariables) :
    ParserVariables :=
  match handleSampleRate atoi v.parserState.buffer with
  | none => VALUE_ERROR v
  | some (sampleRate, sampleRateDivider) =>
    let v := setConfigSettings (fun s =>
      { s with
        sampleRate := s.sampleRate.set v.parserState.index sampleRate
        sampleRateDivider := s.sampleRateDivider.set v.parserState.index sampleRateDivider }) v
    if IS c ',' then INC_STATE v else SET_STATE v.parserState.returnState v

/-- The action of `CP45` on `0` or `1`: the flag is stored, then
`handleEnableEnergySaverMode` is applied to the setting `INDEX`. -/
def handleEnableEnergySaverModeAction (c : Nat) (v : ParserVariables) : ParserVariables :=
  let v := setConfigSettings (fun s =>
    { s with enableEnergySaverMode := s.enableEnergySaverMode.set v.parserState.index (VALUE c) }) v
  match handleEnableEnergySaverMode
      (v.configSettings.enableEnergySaverMode.getD v.parserState.index 0)
      (v.configSettings.sampleRate.getD v.parserState.index 0)
      (v.configSettings.sampleRateDivider.getD v.parserState.index 0)
      (v.configSettings.clockDivider.getD v.parserState.index 0) with
  | none => VALUE_ERROR v
  | some (sampleRate, sampleRateDivider, clockDivider) =>
    INC_STATE (setConfigSettings (fun s =>
      { s with
        sampleRate := s.sampleRate.set v.parserState.index sampleRate
        sampleRateDivider := s.sampleRateDivider.set v.parserState.index sampleRateDivider
        clockDivider := s.clockDivider.set v.parserState.index clockDivider }) v)

/-- The action of `CP51` on `}`: `higherFrequency = atoi (BUFFER)`, then `handleFilter` for
the setting `INDEX`. -/
def handleFilterAction (atoi : List Nat → Int) (v : ParserVariables) : ParserVariables :=
  let v := { v with higherFrequency := (atoi v.parserState.buffer % 4294967296).toNat }
  match handleFilter v.lowerFrequency v.higherFrequency
      (v.configSettings.sampleRate.getD v.parserState.index 0
        / v.configSettings.sampleRateDivider.getD v.parserState.index 0)
      (v.configSettings.lowerFilterFreq.getD v.parserState.index 0)
      (v.configSettings.higherFilterFreq.getD v.parserState.index 0) with
  | none => VALUE_ERROR v
  | some (lowerFilterFreq, higherFilterFreq) =>
    INC_STATE (setConfigSettings (fun s =>
      { s with
        lowerFilterFreq := s.lowerFilterFreq.set v.parserState.index lowerFilterFreq
        higherFilterFreq := s.higherFilterFreq.set v.parserState.index higherFilterFreq }) v)

/-- The action of `CP37` on `]`: the number of active periods is stored and the periods are
checked. -/
def checkStartStopPeriodsAction (v : ParserVariables) : ParserVariables :=
  let v := setConfigSettings (fun s =>
    { s with activeStartStopPeriods := (v.parserState.index + 1) % 256 }) v
  if checkStartStopPeriods v.configSettings.startStopPeriods
      v.configSettings.activeStartStopPeriods then INC_STATE v
  else VALUE_ERROR v

/-- The jump table `CPfunctions` of `configparser.c`: the functions `CP00` to `CP63`, as
the `DEFINE_FUNCTION_...` lines define them.  A state above 63 is outside the table. -/
def CPfunctions (atoi : List Nat → Int) : Nat → Nat → ParserVariables → ParserVariables
  | 0 => DEFINE_FUNCTION_INIT (fun c _ => IS c '\x7b')
  | 1 => DEFINE_FUNCTION_STRG "enableLED:" (fun _ v => INC_STATE v)
  | 2 => DEFINE_FUNCTION_STEP (fun c _ => IS c '0' || IS c '1')
      (fun c v => CLEAR_BUFFER (INC_STATE
        (setConfigSettings (fun s => { s with enableLED := VALUE c }) v)))
  | 3 => DEFINE_FUNCTION_STRG ",enableBatteryLevelDisplay:" (fun _ v => INC_STATE v)
  | 4 => DEFINE_FUNCTION_STEP (fun c _ => IS c '0' || IS c '1')
      (fun c v => CLEAR_BUFFER (INC_STATE
        (setConfigSettings (fun s => { s with enableBatteryLevelDisplay := VALUE c }) v)))
  | 5 => DEFINE_FUNCTION_STRG ",enableProprietaryFileFormat:" (fun _ v => INC_STATE v)
  | 6 => DEFINE_FUNCTION_STEP (fun c _ => IS c '0' || IS c '1')
      (fun c v => CLEAR_BUFFER (INC_STATE
        (setConfigSettings (fun s => { s with enableProprietaryFileFormat := VALUE c }) v)))
  | 7 => DEFINE_FUNCTION_STEP (fun c _ => IS c ',') (fun _ v => CLEAR_BUFFER (INC_STATE v))
  | 8 => DEFINE_FUNCTION_ELSE (fun c _ => IS c 'i') (fun _ v => CLEAR_BUFFER (INC_STATE v))
      (fun c _ => IS c 's') (fun _ v => CLEAR_BUFFER (SET_STATE 19 v))
  | 9 => DEFINE_FUNCTION_STRG "nitialSleepRecordCycle"
      (fun _ v => CLEAR_BUFFER (INC_STATE v))
  | 10 => DEFINE_FUNCTION_ELSE (fun c _ => IS c 's') (fun _ v => CLEAR_BUFFER (INC_STATE v))
      (fun c _ => IS c ':') (fun _ v => CLEAR_BUFFER (SET_STATE 14 v))
  | 11 => DEFINE_FUNCTION_STEP (fun c _ => IS c ':') (fun _ v => INC_STATE v)
  | 12 => DEFINE_FUNCTION_ELSE (fun c _ => ISNUMBER c) ADD_TO_BUFFER (fun c _ => IS c ',')
      (fun _ v => CHECK_BUFFER_MIN_MAX_AND_SET atoi
        (fun value => setConfigSettings (fun s => { s with initialSleepRecordCycles := value }))
        0 255 (fun v => CLEAR_BUFFER (INC_STATE v)) v)
  | 13 => DEFINE_FUNCTION_STRG "initialSleepRecordCycle:"
      (fun _ v => CLEAR_BUFFER (INC_STATE v))
  | 14 => DEFINE_FUNCTION_STRG "\x7bsleepDuration:" (fun _ v => CLEAR_BUFFER (INC_STATE v))
  | 15 => DEFINE_FUNCTION_ELSE (fun c _ => ISNUMBER c) ADD_TO_BUFFER (fun c _ => IS c ',')
      (fun _ v => CHECK_BUFFER_MIN_MAX_AND_SET atoi
        (fun value => setConfigSettings
          (fun s => { s with sleepDuration := s.sleepDuration.set 0 value }))
        5 43200 (fun v => CLEAR_BUFFER (INC_STATE v)) v)
  | 16 => DEFINE_FUNCTION_STRG "recordDuration:" (fun _ v => CLEAR_BUFFER (INC_STATE v))
  | 17 => DEFINE_FUNCTION_ELSE (fun c _ => ISNUMBER c) ADD_TO_BUFFER (fun c _ => IS c '\x7d')
      (fun _ v => CHECK_BUFFER_MIN_MAX_AND_SET atoi
        (fun value => setConfigSettings
          (fun s => { s with recordDuration := s.recordDuration.set 0 value }))
        1 43200
        (fun v => CLEAR_BUFFER (INC_STATE (setConfigSettings (fun s =>
          { s with numberOfSleepRecordCycles := (s.numberOfSleepRecordCycles + 1) % 256 }) v)))
        v)
  | 18 => DEFINE_FUNCTION_STRG ",sl" (fun _ v => CLEAR_BUFFER (SET_STATE 20 v))
  | 19 => DEFINE_FUNCTION_ELSE (fun c _ => IS c 'l') (fun _ v => CLEAR_BUFFER (INC_STATE v))
      (fun c _ => IS c 't') (fun _ v => CLEAR_BUFFER (SET_STATE 25 v))
  | 20 => DEFINE_FUNCTION_STRG "eepRecordCycle:\x7bsleepDuration:"
      (fun _ v => CLEAR_BUFFER (INC_STATE v))
  | 21 => DEFINE_FUNCTION_ELSE (fun c _ => ISNUMBER c) ADD_TO_BUFFER (fun c _ => IS c ',')
      (fun _ v => CHECK_BUFFER_MIN_MAX_AND_SET atoi
        (fun value => setConfigSettings
          (fun s => { s with sleepDuration := s.sleepDuration.set 1 value }))
        5 43200 (fun v => CLEAR_BUFFER (INC_STATE v)) v)
  | 22 => DEFINE_FUNCTION_STRG "recordDuration:" (fun _ v => CLEAR_BUFFER (INC_STATE v))
  | 23 => DEFINE_FUNCTION_ELSE (fun c _ => ISNUMBER c) ADD_TO_BUFFER (fun c _ => IS c '\x7d')
      (fun _ v => CHECK_BUFFER_MIN_MAX_AND_SET atoi
        (fun value => setConfigSettings
          (fun s => { s with recordDuration := s.recordDuration.set 1 value }))
        1 43200
        (fun v => CLEAR_BUFFER (INC_STATE (setConfigSettings (fun s =>
          { s with numberOfSleepRecordCycles := (s.numberOfSleepRecordCycles + 1) % 256 }) v)))
        v)
  | 24 => DEFINE_FUNCTION_STRG ",st" (fun _ v => CLEAR_BUFFER (INC_STATE v))
  | 25 => DEFINE_FUNCTION_STRG "andardSettings:"
      (fun _ v => CLEAR_BUFFER (SET_STATE 39 (SET_RETURN 26 (SET_INDEX 0 v))))
  | 26 => DEFINE_FUNCTION_STEP (fun c _ => IS c ',') (fun _ v => CLEAR_BUFFER (INC_STATE v))
  | 27 => DEFINE_FUNCTION_ELSE (fun c _ => IS c 'o') (fun _ v => CLEAR_BUFFER (INC_STATE v))
      (fun c _ => IS c 'r') (fun _ v => CLEAR_BUFFER (SET_STATE 31 v))
  | 28 => DEFINE_FUNCTION_STRG "pportunisticSettings:"
      (fun _ v => CLEAR_BUFFER (SET_STATE 39 (SET_RETURN 29 (SET_INDEX 1
        (setConfigSettings (fun s => { s with enableOpportunisticRecording := 1 }) v)))))
  | 29 => DEFINE_FUNCTION_STEP (fun c _ => IS c ',') (fun _ v => INC_STATE v)
  | 30 => DEFINE_FUNCTION_STEP (fun c _ => IS c 'r') (fun _ v => CLEAR_BUFFER (INC_STATE v))
  | 31 => DEFINE_FUNCTION_STRG "ecordingPeriods:[" (fun _ v => INC_STATE (ZERO_INDEX v))
  | 32 => DEFINE_FUNCTION_STEP (fun c _ => IS c '\x7b') (fun _ v => CLEAR_BUFFER (INC_STATE v))
  | 33 => DEFINE_FUNCTION_STRG "startMinutes:" (fun _ v => CLEAR_BUFFER (INC_STATE v))
  | 34 => DEFINE_FUNCTION_ELSE (fun c _ => ISDIGIT c) ADD_TO_BUFFER (fun c _ => IS c ',')
      (fun _ v => CHECK_BUFFER_MIN_MAX_AND_SET atoi
        (fun value v => setConfigSettings (fun s =>
          { s with
            startStopPeriods := s.startStopPeriods.set v.parserState.index
              { s.startStopPeriods.getD v.parserState.index ⟨0, 0⟩ with
                startMinutes := value } }) v)
        0 1440 (fun v => CLEAR_BUFFER (INC_STATE v)) v)
  | 35 => DEFINE_FUNCTION_STRG "stopMinutes:" (fun _ v => CLEAR_BUFFER (INC_STATE v))
  | 36 => DEFINE_FUNCTION_ELSE (fun c _ => ISDIGIT c) ADD_TO_BUFFER (fun c _ => IS c '\x7d')
      (fun _ v => CHECK_BUFFER_MIN_MAX_AND_SET atoi
        (fun value v => setConfigSettings (fun s =>
          { s with
            startStopPeriods := s.startStopPeriods.set v.parserState.index
              { s.startStopPeriods.getD v.parserState.index ⟨0, 0⟩ with
                stopMinutes := value } }) v)
        0 1440 INC_STATE v)
  | 37 => DEFINE_FUNCTION_ELSE
      (fun c v => IS c ',' &&
        decide (v.parserState.index < MAXIMUM_NUMBER_OF_START_STOP_PERIODS - 1))
      (fun _ v => SET_STATE 32 (INC_INDEX v))
      (fun c _ => IS c ']') (fun _ v => checkStartStopPeriodsAction v)
  | 38 => DEFINE_FUNCTION_STEP (fun c _ => IS c '\x7d') (fun _ v => SET_STATUS_SUCCESS v)
  | 39 => DEFINE_FUNCTION_STRG "\x7bgain:" (fun _ v => INC_STATE v)
  | 40 => DEFINE_FUNCTION_STEP
      (fun c _ => IS c '0' || IS c '1' || IS c '2' || IS c '3' || IS c '4')
      (fun c v => CLEAR_BUFFER (INC_STATE (setConfigSettings
        (fun s => { s with gain := s.gain.set v.parserState.index (VALUE c) }) v)))
  | 41 => DEFINE_FUNCTION_STRG ",sampleRate:" (fun _ v => CLEAR_BUFFER (INC_STATE v))
  | 42 => DEFINE_FUNCTION_ELSE (fun c _ => ISNUMBER c) ADD_TO_BUFFER
      (fun c v => IS c ',' || (decide (v.parserState.index = 0) && IS c '\x7d'))
      (handleSampleRateAction atoi)
  | 43 => DEFINE_FUNCTION_CND4 (fun c _ => IS c 'e') (fun _ v => CLEAR_BUFFER (INC_STATE v))
      (fun c _ => IS c 'f') (fun _ v => CLEAR_BUFFER (SET_STATE 48 v))
      (fun c _ => IS c 'a') (fun _ v => CLEAR_BUFFER (SET_STATE 54 v))
      (fun c v => decide (v.parserState.index = 1) && IS c 'm')
      (fun _ v => CLEAR_BUFFER (SET_STATE 57 v))
  | 44 => DEFINE_FUNCTION_STRG "nableEnergySaverMode:" (fun _ v => INC_STATE v)
  | 45 => DEFINE_FUNCTION_STEP (fun c _ => IS c '0' || IS c '1')
      handleEnableEnergySaverModeAction
  | 46 => DEFINE_FUNCTION_ELSE (fun c _ => IS c ',') (fun _ v => INC_STATE v)
      (fun c v => decide (v.parserState.index = 0) && IS c '\x7d')
      (fun _ v => SET_STATE v.parserState.returnState v)
  | 47 => DEFINE_FUNCTION_CND3 (fun c _ => IS c 'f') (fun _ v => CLEAR_BUFFER (INC_STATE v))
      (fun c _ => IS c 'a') (fun _ v => CLEAR_BUFFER (SET_STATE 54 v))
      (fun c v => decide (v.parserState.index = 1) && IS c 'm')
      (fun _ v => CLEAR_BUFFER (SET_STATE 57 v))
  | 48 => DEFINE_FUNCTION_STRG "ilter:\x7blowerFrequency:"
      (fun _ v => CLEAR_BUFFER (INC_STATE v))
  | 49 => DEFINE_FUNCTION_ELSE (fun c _ => ISNUMBER c) ADD_TO_BUFFER (fun c _ => IS c ',')
      (fun _ v => CLEAR_BUFFER (INC_STATE
        { v with lowerFrequency := (atoi v.parserState.buffer % 4294967296).toNat }))
  | 50 => DEFINE_FUNCTION_STRG "higherFrequency:" (fun _ v => CLEAR_BUFFER (INC_STATE v))
  | 51 => DEFINE_FUNCTION_ELSE (fun c _ => ISNUMBER c) ADD_TO_BUFFER (fun c _ => IS c '\x7d')
      (fun _ v => handleFilterAction atoi v)
  | 52 => DEFINE_FUNCTION_ELSE (fun c _ => IS c ',') (fun _ v => INC_STATE v)
      (fun c v => decide (v.parserState.index = 0) && IS c '\x7d')
      (fun _ v => SET_STATE v.parserState.returnState v)
  | 53 => DEFINE_FUNCTION_ELSE (fun c _ => IS c 'a') (fun _ v => CLEAR_BUFFER (INC_STATE v))
      (fun c v => decide (v.parserState.index = 1) && IS c 'm')
      (fun _ v => CLEAR_BUFFER (SET_STATE 57 v))
  | 54 => DEFINE_FUNCTION_STRG "mplitudeThreshold:" (fun _ v => CLEAR_BUFFER (INC_STATE v))
  | 55 => DEFINE_FUNCTION_ELSE (fun c _ => ISNUMBER c) ADD_TO_BUFFER
      (fun c v => (decide (v.parserState.index = 0) && IS c '\x7d') ||
        (decide (v.parserState.index = 1) && IS c ','))
      (fun _ v => CHECK_BUFFER_MIN_MAX_AND_SET atoi
        (fun value v => setConfigSettings (fun s =>
          { s with amplitudeThreshold := s.amplitudeThreshold.set v.parserState.index value }) v)
        0 32768
        (fun v => if v.parserState.index = 1 then INC_STATE v
          else SET_STATE v.parserState.returnState v)
        v)
  | 56 => DEFINE_FUNCTION_STEP (fun c v => decide (v.parserState.index = 1) && IS c 'm')
      (fun _ v => CLEAR_BUFFER (INC_STATE v))
  | 57 => DEFINE_FUNCTION_STRG "aximum" (fun _ v => CLEAR_BUFFER (INC_STATE v))
  | 58 => DEFINE_FUNCTION_ELSE (fun c _ => IS c 'D') (fun _ v => INC_STATE v)
      (fun c _ => IS c 'T') (fun _ v => SET_STATE 62 v)
  | 59 => DEFINE_FUNCTION_STRG "uration:" (fun _ v => CLEAR_BUFFER (INC_STATE v))
  | 60 => DEFINE_FUNCTION_ELSE (fun c _ => ISNUMBER c) ADD_TO_BUFFER (fun c _ => IS c ',')
      (fun _ v => CHECK_BUFFER_MIN_MAX_AND_SET atoi
        (fun value => setConfigSettings
          (fun s => { s with maximumOpportunisticDuration := value }))
        1 43200 (fun v => CLEAR_BUFFER (INC_STATE v)) v)
  | 61 => DEFINE_FUNCTION_STRG "maximumT" (fun _ v => CLEAR_BUFFER (INC_STATE v))
  | 62 => DEFINE_FUNCTION_STRG "otalFileSize:" (fun _ v => CLEAR_BUFFER (INC_STATE v))
  | 63 => DEFINE_FUNCTION_ELSE (fun c _ => ISNUMBER c) ADD_TO_BUFFER (fun c _ => IS c '\x7d')
      (fun _ v => CHECK_BUFFER_MIN_MAX_AND_SET atoi
        (fun value => setConfigSettings
          (fun s => { s with maximumTotalOpportunisticFileSize := value }))
        0 32768 (fun v => SET_STATE v.parserState.returnState v) v)
  | _ => fun _ v => v

/-- Function `ConfigParser_parse` of `configparser.c`, on the variables it works on; the
value it returns is `parserState.status` of the result. -/
def ConfigParser_parse (atoi : List Nat → Int) (c : Nat) (v : ParserVariables) :
    ParserVariables :=
  CPfunctions atoi v.parserState.state c v

/-- Function `ConfigParser_reset` of `configparser.c`. -/
def ConfigParser_reset (v : ParserVariables) : ParserVariables :=
  { v with parserState := clearedParserState }

/-- Successive calls of `ConfigParser_parse` on the characters of a sequence. -/
def parseCharacters (atoi : List Nat → Int) (characters : List Nat) (v : ParserVariables) :
    ParserVariables :=
  characters.foldl (fun v c => ConfigParser_parse atoi c v) v

/-- A stand-in for the library function `atoi` on the buffers of the examples: the decimal
digits at the front of the buffer, after an optional `-`. -/
def atoiDigits (buffer : List Nat) : Int :=
  let digits (l : List Nat) : Nat :=
    (l.takeWhile (fun c => ISDIGIT c)).foldl (fun n c => 10 * n + VALUE c) 0
  match buffer with
  | 45 :: rest => - (digits rest : Int)
  | _ => (digits buffer : Int)

/-- A configuration file: duty cycling disabled, STANDARD settings only, one period
00:00-01:00. -/
def configurationFileExample : List Nat :=
  ("\x7benableLED:1,enableBatteryLevelDisplay:1,enableProprietaryFileFormat:0," ++
    "standardSettings:\x7bgain:2,sampleRate:48000\x7d," ++
    "recordingPeriods:[\x7bstartMinutes:0,stopMinutes:60\x7d]\x7d").toList.map Char.toNat

/-- The variables of the parser when `main` begins to read the configuration file: the
statics are zero and the settings record is a copy of `defaultConfigSettings`. -/
def startOfParsing : ParserVariables :=
  { parserState := clearedParserState
    configSettings := defaultConfigSettings
    lowerFrequency := 0
    higherFrequency := 0 }

/-- What a call of `ConfigParser_parse` in a state outside the states 31 to 38 (the list of
recording periods) leaves alone: the periods and their count are unchanged, the status
does not become CP_SUCCESS, the return state is kept or set to 26 or 29 (or cleared), and
the next state is outside 32 to 38 unless it is the return state. -/
def parserFrame (v new : ParserVariables) : Prop :=
  new.configSettings.startStopPeriods = v.configSettings.startStopPeriods ∧
    new.configSettings.activeStartStopPeriods = v.configSettings.activeStartStopPeriods ∧
    (new.parserState.status = CP_parserStatus_t.CP_SUCCESS →
      v.parserState.status = CP_parserStatus_t.CP_SUCCESS) ∧
    (new.parserState.returnState = v.parserState.returnState ∨
      new.parserState.returnState = 0 ∨ new.parserState.returnState = 26 ∨
      new.parserState.returnState = 29) ∧
    (new.parserState.state < 32 ∨ 38 < new.parserState.state ∨
      new.parserState.state = v.parserState.state ∨
      new.parserState.state = v.parserState.returnState)

/-- Invariant of the parser, for the list of recording periods: the array of periods has
its five elements; the return state is 0, 26 or 29; the status is CP_SUCCESS only in
state 38; in the states 32 to 38 `INDEX` is a valid index of the array and the periods
before `INDEX` stop by minute 1440; in the states 37 and 38 so does the period at `INDEX`;
and in state 38 the number of active periods is `INDEX + 1` and the periods have passed
`checkStartStopPeriods`. -/
def parserInvariant (v : ParserVariables) : Prop :=
  v.configSettings.startStopPeriods.length = MAXIMUM_NUMBER_OF_START_STOP_PERIODS ∧
    (v.parserState.returnState = 0 ∨ v.parserState.returnState = 26 ∨
      v.parserState.returnState = 29) ∧
    (v.parserState.status = CP_parserStatus_t.CP_SUCCESS → v.parserState.state = 38) ∧
    (32 ≤ v.parserState.state → v.parserState.state ≤ 38 →
      v.parserState.index < MAXIMUM_NUMBER_OF_START_STOP_PERIODS ∧
      ∀ i, i < v.parserState.index →
        (v.configSettings.startStopPeriods.getD i ⟨0, 0⟩).stopMinutes ≤ MINUTES_IN_DAY) ∧
    (37 ≤ v.parserState.state → v.parserState.state ≤ 38 →
      (v.configSettings.startStopPeriods.getD v.parserState.index ⟨0, 0⟩).stopMinutes
        ≤ MINUTES_IN_DAY) ∧
    (v.parserState.state = 38 →
      v.configSettings.activeStartStopPeriods = v.parserState.index + 1 ∧
      checkStartStopPeriods v.configSettings.startStopPeriods
        v.configSettings.activeStartStopPeriods = true)

/-! ## Reading the configuration file (`main`, "Check can parse configuration file from the
SD card") -/

def MAX_FILE_READ_CHARACTERS : Nat := 8192

/-- The test `status == CP_CHARACTER_ERROR || status == CP_VALUE_ERROR ||
status == CP_SUCCESS` that ends the loop over the characters of the file. -/
def endsParsing (status : CP_parserStatus_t) : Bool :=
  status = CP_parserStatus_t.CP_CHARACTER_ERROR || status = CP_parserStatus_t.CP_VALUE_ERROR ||
    status = CP_parserStatus_t.CP_SUCCESS

/-- The loop `while (count < MAX_FILE_READ_CHARACTERS)` of `main` over the characters of
the file, with `remaining = MAX_FILE_READ_CHARACTERS - count` iterations to go.
`characters count` is the character `fileReadBuffer[count % FILE_READ_BUFFER_LENGTH]` that
the iteration for `count` finds in the read buffer.  The result is `count`, `status` and
the variables of the parser when the loop ends. -/
def parseConfigurationFileFrom (atoi : List Nat → Int) (characters : Nat → Nat) :
    Nat → Nat → CP_parserStatus_t → ParserVariables →
      Nat × CP_parserStatus_t × ParserVariables
  | 0, count, status, v => (count, status, v)
  | remaining + 1, count, _, v =>
    if endsParsing (ConfigParser_parse atoi (characters count) v).parserState.status then
      (count, (ConfigParser_parse atoi (characters count) v).parserState.status,
        ConfigParser_parse atoi (characters count) v)
    else
      parseConfigurationFileFrom atoi characters remaining (count + 1)
        (ConfigParser_parse atoi (characters count) v).parserState.status
        (ConfigParser_parse atoi (characters count) v)

/-- The loop of `main` over the characters of the file, from `count = 0` and
`status = CP_WAITING`, with `tempConfigSettings` a copy of `defaultConfigSettings`.
`statics` holds the statics of the parser (its settings record is not used). -/
def parseConfigurationFile (atoi : List Nat → Int) (characters : Nat → Nat)
    (statics : ParserVariables) : Nat × CP_parserStatus_t × ParserVariables :=
  parseConfigurationFileFrom atoi characters MAX_FILE_READ_CHARACTERS 0
    CP_parserStatus_t.CP_WAITING { statics with configSettings := defaultConfigSettings }

/-- The block "Check can parse configuration file from the SD card" of `main`: the file is
parsed into `tempConfigSettings`; on CP_SUCCESS the time zone is cleared and the record is
copied to the persisted `configSettings`, otherwise `readyToMakeRecordings` is cleared.
The result is the persisted settings record and the backup domain after the block. -/
def readConfigurationFile (atoi : List Nat → Int) (characters : Nat → Nat)
    (statics : ParserVariables) (configSettings : CP_configSettings_t)
    (backup : BackupDomain) : CP_configSettings_t × BackupDomain :=
  if (parseConfigurationFile atoi characters statics).2.1 = CP_parserStatus_t.CP_SUCCESS then
    ({ (parseConfigurationFile atoi characters statics).2.2.configSettings with
        timezoneHours := 0
        timezoneMinutes := 0 },
      backup)
  else (configSettings, { backup with readyToMakeRecordings := false })

/-- A file that is not a configuration: the second character is not the `e` of
`enableLED`. -/
def brokenFileExample : List Nat := ("\x7bgain:2\x7d").toList.map Char.toNat

/-- One period 00:00-24:00 with a 10 s record / 7000 s sleep cycle and opportunistic
recording enabled, at 384 kHz (divider 1) for the opportunistic setting, with no cap on the
opportunistic duration and a daily cap of 0 MB.  At 384 kHz a file holds 5592 s. -/
def continuationExample : CP_configSettings_t :=
  { defaultConfigSettings with
    activeStartStopPeriods := 1
    startStopPeriods := [⟨0, 1440⟩, ⟨120, 180⟩, ⟨240, 300⟩, ⟨360, 420⟩, ⟨480, 540⟩]
    numberOfSleepRecordCycles := 1
    sleepDuration := [5, 7000]
    recordDuration := [55, 10]
    enableOpportunisticRecording := 1
    sampleRateDivider := [8, 1] }

/-- The backup domain after `scheduleRecording` has been called for `continuationExample`
at 00:00:10 of 8 January 2022, when the first recording of the period has ended: an
opportunistic window of 6990 s from 00:00:15 on, which ends at 01:56:45. -/
def continuationBackupDomain : BackupDomain :=
  scheduleRecording continuationExample standardBackupDomain 1641600010

/-- A configuration file with a sleep/record cycle and opportunistic settings whose daily
cap `maximumTotalFileSize` is 4096 MB. -/
def capFileExample : List Nat :=
  ("\x7benableLED:1,enableBatteryLevelDisplay:1,enableProprietaryFileFormat:0," ++
    "sleepRecordCycle:\x7bsleepDuration:100,recordDuration:20\x7d," ++
    "standardSettings:\x7bgain:2,sampleRate:48000\x7d," ++
    "opportunisticSettings:\x7bgain:2,sampleRate:48000,amplitudeThreshold:100," ++
    "maximumDuration:60,maximumTotalFileSize:4096\x7d," ++
    "recordingPeriods:[\x7bstartMinutes:0,stopMinutes:60\x7d]\x7d").toList.map Char.toNat

/-- A configuration file whose STANDARD settings request 8 kHz and a band-pass filter from
10 Hz to 50 Hz. -/
def filterFileExample : List Nat :=
  ("\x7benableLED:1,enableBatteryLevelDisplay:1,enableProprietaryFileFormat:0," ++
    "standardSettings:\x7bgain:2,sampleRate:8000," ++
    "filter:\x7blowerFrequency:10,higherFrequency:50\x7d\x7d," ++
    "recordingPeriods:[\x7bstartMinutes:0,stopMinutes:60\x7d]\x7d").toList.map Char.toNat

/-- A period 06:28-07:00 with a 10 s record / 5 s sleep cycle: the second cycle of the
period starts at second 23295 of the day, the second of the day of the Unix time
4294967295. -/
def lastSecondExample : CP_configSettings_t :=
  { defaultConfigSettings with
    activeStartStopPeriods := 1
    startStopPeriods := [⟨388, 420⟩, ⟨120, 180⟩, ⟨240, 300⟩, ⟨360, 420⟩, ⟨480, 540⟩]
    numberOfSleepRecordCycles := 1
    sleepDuration := [5, 5]
    recordDuration := [55, 10] }

/-! ## Copying to the backup domain (`copyToBackupDomain`) -/

def UINT32_SIZE_IN_BYTES : Nat := 4

def BITS_PER_BYTE : Nat := 8

/-- The word `*((uint32_t*)src + i)` of a source given as bytes: the four bytes from
`4 * i` on, the first of them the least significant (the target is little-endian). -/
def sourceWord (src : List Nat) (i : Nat) : Nat :=
  src.getD (UINT32_SIZE_IN_BYTES * i) 0 + 256 * src.getD (UINT32_SIZE_IN_BYTES * i + 1) 0
    + 65536 * src.getD (UINT32_SIZE_IN_BYTES * i + 2) 0
    + 16777216 * src.getD (UINT32_SIZE_IN_BYTES * i + 3) 0

/-- The first loop of `copyToBackupDomain`, `*(dst + i) = *((uint32_t*)src + i)`, after
`count` iterations.  `dst` holds the words from the destination pointer on. -/
def copyWords (dst src : List Nat) : Nat → List Nat
  | 0 => dst
  | count + 1 => (copyWords dst src count).set count (sourceWord src count)

/-- The second loop of `copyToBackupDomain`,
`value = (value << BITS_PER_BYTE) + *(src + length - 1 - i)`, after `count` iterations:
the local `value`, a `uint32_t` that starts as 0. -/
def tailValue (src : List Nat) (length : Nat) : Nat → Nat
  | 0 => 0
  | count + 1 =>
    u32 (u32 (tailValue src length count * 2 ^ BITS_PER_BYTE) + src.getD (length - 1 - count) 0)

/-- Function `copyToBackupDomain` of `main.c`: the words from the destination pointer on
after the call.  The last statement, `*(dst + length / UINT32_SIZE_IN_BYTES) = value`, is
not inside a condition. -/
def copyToBackupDomain (dst src : List Nat) (length : Nat) : List Nat :=
  (copyWords dst src (length / UINT32_SIZE_IN_BYTES)).set (length / UINT32_SIZE_IN_BYTES)
    (tailValue src length (length % UINT32_SIZE_IN_BYTES))

/-! ## Bounds of the parser state -/

/-- The pattern of each state that is defined with `DEFINE_FUNCTION_STRG`, by state number
(`CP01`, `CP03`, ... `CP62`); `none` for the other states. -/
def keywordOfState : Nat → Option String
  | 1 => some "enableLED:"
  | 3 => some ",enableBatteryLevelDisplay:"
  | 5 => some ",enableProprietaryFileFormat:"
  | 9 => some "nitialSleepRecordCycle"
  | 13 => some "initialSleepRecordCycle:"
  | 14 => some "\x7bsleepDuration:"
  | 16 => some "recordDuration:"
  | 18 => some ",sl"
  | 20 => some "eepRecordCycle:\x7bsleepDuration:"
  | 22 => some "recordDuration:"
  | 24 => some ",st"
  | 25 => some "andardSettings:"
  | 28 => some "pportunisticSettings:"
  | 31 => some "ecordingPeriods:["
  | 33 => some "startMinutes:"
  | 35 => some "stopMinutes:"
  | 39 => some "\x7bgain:"
  | 41 => some ",sampleRate:"
  | 44 => some "nableEnergySaverMode:"
  | 48 => some "ilter:\x7blowerFrequency:"
  | 50 => some "higherFrequency:"
  | 54 => some "mplitudeThreshold:"
  | 57 => some "aximum"
  | 59 => some "uration:"
  | 61 => some "maximumT"
  | 62 => some "otalFileSize:"
  | _ => none

/-- A strict bound on `COUNT` in each state: the length of the pattern in a state defined
with `DEFINE_FUNCTION_STRG`, 1 in state 58 (which is left for the keyword states 59 and 62
without clearing the buffer), and `MAX_BUFFER_LENGTH` in the other states. -/
def countBound (state : Nat) : Nat :=
  match keywordOfState state with
  | some pattern => pattern.length
  | none => if state = 58 then 1 else MAX_BUFFER_LENGTH

/-- Invariant of the parser, for the indices it uses: the state is an index of the jump
table; the return state is 0, 26 or 29; `INDEX` is at most 4 in the states 32 to 38 (the
list of recording periods) and at most 1 in the states 39 to 63 (the settings of one
configuration); `COUNT` is at most 31 and below the bound of the state. -/
def parserBounds (v : ParserVariables) : Prop :=
  v.parserState.state < 64 ∧
    (v.parserState.returnState = 0 ∨ v.parserState.returnState = 26 ∨
      v.parserState.returnState = 29) ∧
    (32 ≤ v.parserState.state → v.parserState.state ≤ 38 → v.parserState.index ≤ 4) ∧
    (39 ≤ v.parserState.state → v.parserState.index ≤ 1) ∧
    v.parserState.count ≤ 31 ∧
    v.parserState.count < countBound v.parserState.state

/-- Invariant of the text buffer: it has its `MAX_BUFFER_LENGTH` elements and the last one
is 0, so the buffer holds a string of at most 31 characters. -/
def bufferBounds (v : ParserVariables) : Prop :=
  v.parserState.buffer.length = MAX_BUFFER_LENGTH ∧
    v.parserState.buffer.getD (MAX_BUFFER_LENGTH - 1) 0 = 0

/-- Invariant of the parser while no error has been found, for the number of sleep/record
cycles: it is at most 2, at most 1 up to state 23 (where the second cycle is counted) and 0
up to state 17 (where the first cycle is counted) and in state 19; in the states 39 to 63
the return state is 26 or 29. -/
def cycleBounds (v : ParserVariables) : Prop :=
  v.configSettings.numberOfSleepRecordCycles ≤ 2 ∧
    (v.parserState.state ≤ 23 → v.configSettings.numberOfSleepRecordCycles ≤ 1) ∧
    (v.parserState.state ≤ 17 ∨ v.parserState.state = 19 →
      v.configSettings.numberOfSleepRecordCycles = 0) ∧
    (39 ≤ v.parserState.state →
      v.parserState.returnState = 26 ∨ v.parserState.returnState = 29)

/-- What a call of a jump-table function keeps, from the variables `v` before the call to
the variables `new` after it: the bounds of the parser state, and the bounds of the number
of sleep/record cycles unless the call ends with an error. -/
def keepsBounds (v new : ParserVariables) : Prop :=
  parserBounds new ∧
    (cycleBounds v →
      new.parserState.status = CP_parserStatus_t.CP_CHARACTER_ERROR ∨
      new.parserState.status = CP_parserStatus_t.CP_VALUE_ERROR ∨
      cycleBounds new)

/-- The two sleep/record cycles of the settings record being parsed are inside the ranges
the parser checks, and the arrays have their two elements. -/
def durationBounds (v : ParserVariables) : Prop :=
  v.configSettings.sleepDuration.length = 2 ∧ v.configSettings.recordDuration.length = 2 ∧
    validSleepRecordCycle v.configSettings 0 ∧ validSleepRecordCycle v.configSettings 1

/-- No earliest and no latest recording time is set in the settings record the parser
works on. -/
def recordingTimesUnset (v : ParserVariables) : Prop :=
  v.configSettings.earliestRecordingTime = 0 ∧ v.configSettings.latestRecordingTime = 0

/-! ## Arithmetic and list lemmas; the window of one period -/

theorem u32_eq {n : Nat} (h : n < 4294967296) : u32 n = n := Nat.mod_eq_of_lt h

theorem sub32_eq {a b : Nat} (hb : b ≤ a) (ha : a < 4294967296) : sub32 a b = a - b := by
  unfold sub32; omega

theorem mod_add_period (x c : Nat) (h : 0 < c) : (x + (c - x % c)) % c = 0 := by
  have h1 : x % c < c := Nat.mod_lt _ h
  have h2 : x % c + c * (x / c) = x := Nat.mod_add_div x c
  have h3 : x + (c - x % c) = c * (x / c + 1) := by
    rw [Nat.mul_add, Nat.mul_one]; omega
  rw [h3]; exact Nat.mul_mod_right _ _

/-- What one period's loop body returns. -/
theorem schedulePeriod_window (cfg : CP_configSettings_t) (cycle : AM_sleepRecordIndex_t)
    (prev : AM_configurationIndex_t) (ct : Nat) (p : CP_startStopPeriod_t) (w : ScheduleWindow)
    (hct : ct + 172800 < 4294967296)
    (hp : p.startMinutes < p.stopMinutes) (hp2 : p.stopMinutes ≤ 1440)
    (hduty : cfg.numberOfSleepRecordCycles ≠ 0 →
      1 ≤ cfg.recordDuration.getD cycle.toNat 0 ∧ cfg.recordDuration.getD cycle.toNat 0 ≤ 43200 ∧
      5 ≤ cfg.sleepDuration.getD cycle.toNat 0 ∧ cfg.sleepDuration.getD cycle.toNat 0 ≤ 43200)
    (h : schedulePeriod cfg cycle prev ct (ct % 86400) p = some w) :
    ∃ s, w.timeOfNextRecording = ct - ct % 86400 + s ∧
      60 * p.startMinutes ≤ s ∧ s + w.durationOfNextRecording ≤ 60 * p.stopMinutes ∧
      1 ≤ w.durationOfNextRecording ∧
      (w.configurationIndexOfNextRecording = AM_configurationIndex_t.STANDARD_RECORDING →
        ct % 86400 ≤ s ∧
        (cfg.numberOfSleepRecordCycles ≠ 0 →
          (s - 60 * p.startMinutes) %
              (cfg.recordDuration.getD cycle.toNat 0 + cfg.sleepDuration.getD cycle.toNat 0)
            + w.durationOfNextRecording ≤ cfg.recordDuration.getD cycle.toNat 0)) := by
  have hmod : ct % 86400 < 86400 := Nat.mod_lt _ (by decide)
  have hle : ct % 86400 ≤ ct := Nat.mod_le _ _
  have e1 : u32 (SECONDS_IN_MINUTE * p.startMinutes) = 60 * p.startMinutes := by
    simp only [u32, SECONDS_IN_MINUTE]; omega
  have e2 : u32 (SECONDS_IN_MINUTE * p.stopMinutes) = 60 * p.stopMinutes := by
    simp only [u32, SECONDS_IN_MINUTE]; omega
  have e3 : sub32 (60 * p.stopMinutes) (60 * p.startMinutes)
      = 60 * p.stopMinutes - 60 * p.startMinutes := by
    unfold sub32; omega
  unfold schedulePeriod at h
  simp only [e1, e2, e3, SLEEP_RECORD_CYCLES_DISABLED, OPPORTUNISTIC_GAP_IN_SECONDS] at h
  generalize hR : cfg.recordDuration.getD cycle.toNat 0 = R at h hduty ⊢
  generalize hS : cfg.sleepDuration.getD cycle.toNat 0 = S at h hduty ⊢
  by_cases c1 : ct % 86400 ≤ 60 * p.startMinutes
  · rw [if_pos c1] at h
    injection h with h
    subst h
    refine ⟨60 * p.startMinutes, ?_, le_refl _, ?_, ?_, ?_⟩
    · simp only [u32, sub32]; omega
    · dsimp only; split <;> omega
    · dsimp only; split <;> omega
    · intro _
      refine ⟨c1, ?_⟩
      intro hn
      dsimp only
      rw [if_neg hn]
      simp
  · rw [if_neg c1] at h
    by_cases c2 : ct % 86400 < 60 * p.stopMinutes
    · rw [if_pos c2] at h
      have e4 : sub32 (ct % 86400) (60 * p.startMinutes) = ct % 86400 - 60 * p.startMinutes := by
        unfold sub32; omega
      rw [e4] at h
      by_cases c3 : cfg.numberOfSleepRecordCycles = 0
      · rw [if_pos c3] at h
        injection h with h
        subst h
        refine ⟨ct % 86400, ?_, ?_, ?_, ?_, ?_⟩
        · dsimp only; omega
        · omega
        · simp only [sub32]; omega
        · simp only [sub32]; omega
        · intro _; exact ⟨le_refl _, fun hn => absurd c3 hn⟩
      · rw [if_neg c3] at h
        obtain ⟨hR1, hR2, hS1, hS2⟩ := hduty c3
        have e5 : u32 (R + S) = R + S := by simp only [u32]; omega
        rw [e5] at h
        have hpc : (ct % 86400 - 60 * p.startMinutes) % (R + S) < R + S :=
          Nat.mod_lt _ (by omega)
        have hpc2 : (ct % 86400 - 60 * p.startMinutes) % (R + S)
            ≤ ct % 86400 - 60 * p.startMinutes := Nat.mod_le _ _
        have hper := mod_add_period (ct % 86400 - 60 * p.startMinutes) (R + S) (by omega)
        generalize hpcdef : (ct % 86400 - 60 * p.startMinutes) % (R + S) = pc at h hpc hpc2 hper ⊢
        by_cases c4 : pc < R
        · rw [if_pos c4] at h
          injection h with h
          subst h
          refine ⟨ct % 86400, ?_, ?_, ?_, ?_, ?_⟩
          · dsimp only; omega
          · omega
          · simp only [sub32]; omega
          · simp only [sub32]; omega
          · intro _
            refine ⟨le_refl _, fun _ => ?_⟩
            rw [hpcdef]
            simp only [sub32]; omega
        · rw [if_neg c4] at h
          have e6 : sub32 (R + S) pc = R + S - pc := by unfold sub32; omega
          have e7 : u32 (ct % 86400 - 60 * p.startMinutes + (R + S - pc))
              = ct % 86400 - 60 * p.startMinutes + (R + S - pc) := by
            simp only [u32]; omega
          rw [e6, e7] at h
          by_cases c5 : ct % 86400 - 60 * p.startMinutes + (R + S - pc)
              < 60 * p.stopMinutes - 60 * p.startMinutes
          · rw [if_pos c5] at h
            have e8 : sub32 (u32 (ct + (R + S))) pc = ct + (R + S) - pc := by
              simp only [u32, sub32]; omega
            rw [e8] at h
            have e9 : sub32 (ct + (R + S) - pc) ct = R + S - pc := by
              simp only [sub32]; omega
            rw [e9] at h
            split at h
            · rename_i c6
              injection h with h
              subst h
              refine ⟨ct % 86400 + (R + S - pc) - S + 5, ?_, ?_, ?_, ?_, ?_⟩
              · simp only [u32, sub32]; omega
              · omega
              · dsimp only; simp only [sub32]; split <;> omega
              · dsimp only; simp only [sub32]; split <;> omega
              · intro hx; simp at hx
            · injection h with h
              subst h
              refine ⟨ct % 86400 + (R + S - pc), ?_, ?_, ?_, ?_, ?_⟩
              · dsimp only; omega
              · omega
              · simp only [sub32]; omega
              · simp only [sub32]; omega
              · intro _
                refine ⟨by omega, fun _ => ?_⟩
                have : ct % 86400 + (R + S - pc) - 60 * p.startMinutes
                    = ct % 86400 - 60 * p.startMinutes + (R + S - pc) := by omega
                rw [this, hper]
                simp only [sub32]; omega
          · rw [if_neg c5] at h
            exact absurd h (by simp)
    · rw [if_neg c2] at h
      exact absurd h (by simp)

/-- When the loop body of one period inserts an opportunistic recording. -/
theorem schedulePeriod_opportunistic (cfg : CP_configSettings_t) (cycle : AM_sleepRecordIndex_t)
    (prev : AM_configurationIndex_t) (ct : Nat) (p : CP_startStopPeriod_t) (w : ScheduleWindow)
    (hct : ct + 172800 < 4294967296)
    (hp : p.startMinutes < p.stopMinutes) (hp2 : p.stopMinutes ≤ 1440)
    (hduty : cfg.numberOfSleepRecordCycles ≠ 0 →
      1 ≤ cfg.recordDuration.getD cycle.toNat 0 ∧ cfg.recordDuration.getD cycle.toNat 0 ≤ 43200 ∧
      5 ≤ cfg.sleepDuration.getD cycle.toNat 0 ∧ cfg.sleepDuration.getD cycle.toNat 0 ≤ 43200)
    (h : schedulePeriod cfg cycle prev ct (ct % 86400) p = some w)
    (ho : w.configurationIndexOfNextRecording = AM_configurationIndex_t.OPPORTUNISTIC_RECORDING) :
    cfg.enableOpportunisticRecording ≠ 0 ∧ prev = AM_configurationIndex_t.STANDARD_RECORDING ∧
      cfg.numberOfSleepRecordCycles ≠ 0 ∧
      60 * p.startMinutes < ct % 86400 ∧
      cfg.recordDuration.getD cycle.toNat 0 ≤
        (ct % 86400 - 60 * p.startMinutes) %
          (cfg.recordDuration.getD cycle.toNat 0 + cfg.sleepDuration.getD cycle.toNat 0) ∧
      10 < cfg.recordDuration.getD cycle.toNat 0 + cfg.sleepDuration.getD cycle.toNat 0 -
        (ct % 86400 - 60 * p.startMinutes) %
          (cfg.recordDuration.getD cycle.toNat 0 + cfg.sleepDuration.getD cycle.toNat 0) ∧
      ct % 86400 + (cfg.recordDuration.getD cycle.toNat 0 + cfg.sleepDuration.getD cycle.toNat 0 -
        (ct % 86400 - 60 * p.startMinutes) %
          (cfg.recordDuration.getD cycle.toNat 0 + cfg.sleepDuration.getD cycle.toNat 0))
        < 60 * p.stopMinutes ∧
      w.timeOfNextRecording + cfg.sleepDuration.getD cycle.toNat 0 =
        ct + (cfg.recordDuration.getD cycle.toNat 0 + cfg.sleepDuration.getD cycle.toNat 0 -
          (ct % 86400 - 60 * p.startMinutes) %
            (cfg.recordDuration.getD cycle.toNat 0 + cfg.sleepDuration.getD cycle.toNat 0)) + 5 ∧
      w.durationOfNextRecording =
        (if cfg.maximumOpportunisticDuration > 0 then
          min cfg.maximumOpportunisticDuration (cfg.sleepDuration.getD cycle.toNat 0 - 10)
        else cfg.sleepDuration.getD cycle.toNat 0 - 10) := by
  have hmod : ct % 86400 < 86400 := Nat.mod_lt _ (by decide)
  have hle : ct % 86400 ≤ ct := Nat.mod_le _ _
  have e1 : u32 (SECONDS_IN_MINUTE * p.startMinutes) = 60 * p.startMinutes := by
    simp only [u32, SECONDS_IN_MINUTE]; omega
  have e2 : u32 (SECONDS_IN_MINUTE * p.stopMinutes) = 60 * p.stopMinutes := by
    simp only [u32, SECONDS_IN_MINUTE]; omega
  have e3 : sub32 (60 * p.stopMinutes) (60 * p.startMinutes)
      = 60 * p.stopMinutes - 60 * p.startMinutes := by
    unfold sub32; omega
  unfold schedulePeriod at h
  simp only [e1, e2, e3, SLEEP_RECORD_CYCLES_DISABLED, OPPORTUNISTIC_GAP_IN_SECONDS] at h
  generalize hR : cfg.recordDuration.getD cycle.toNat 0 = R at h hduty ⊢
  generalize hS : cfg.sleepDuration.getD cycle.toNat 0 = S at h hduty ⊢
  by_cases c1 : ct % 86400 ≤ 60 * p.startMinutes
  · rw [if_pos c1] at h
    injection h with h
    subst h
    simp at ho
  · rw [if_neg c1] at h
    by_cases c2 : ct % 86400 < 60 * p.stopMinutes
    · rw [if_pos c2] at h
      have e4 : sub32 (ct % 86400) (60 * p.startMinutes) = ct % 86400 - 60 * p.startMinutes := by
        unfold sub32; omega
      rw [e4] at h
      by_cases c3 : cfg.numberOfSleepRecordCycles = 0
      · rw [if_pos c3] at h
        injection h with h
        subst h
        simp at ho
      · rw [if_neg c3] at h
        obtain ⟨hR1, hR2, hS1, hS2⟩ := hduty c3
        have e5 : u32 (R + S) = R + S := by simp only [u32]; omega
        rw [e5] at h
        have hpc : (ct % 86400 - 60 * p.startMinutes) % (R + S) < R + S :=
          Nat.mod_lt _ (by omega)
        have hpc2 : (ct % 86400 - 60 * p.startMinutes) % (R + S)
            ≤ ct % 86400 - 60 * p.startMinutes := Nat.mod_le _ _
        generalize hpcdef : (ct % 86400 - 60 * p.startMinutes) % (R + S) = pc at h hpc hpc2 ⊢
        by_cases c4 : pc < R
        · rw [if_pos c4] at h
          injection h with h
          subst h
          simp at ho
        · rw [if_neg c4] at h
          have e6 : sub32 (R + S) pc = R + S - pc := by unfold sub32; omega
          have e7 : u32 (ct % 86400 - 60 * p.startMinutes + (R + S - pc))
              = ct % 86400 - 60 * p.startMinutes + (R + S - pc) := by
            simp only [u32]; omega
          rw [e6, e7] at h
          by_cases c5 : ct % 86400 - 60 * p.startMinutes + (R + S - pc)
              < 60 * p.stopMinutes - 60 * p.startMinutes
          · rw [if_pos c5] at h
            have e8 : sub32 (u32 (ct + (R + S))) pc = ct + (R + S) - pc := by
              simp only [u32, sub32]; omega
            rw [e8] at h
            have e9 : sub32 (ct + (R + S) - pc) ct = R + S - pc := by
              simp only [sub32]; omega
            rw [e9] at h
            split at h
            · rename_i c6
              injection h with h
              subst h
              obtain ⟨c6a, c6b, c6c⟩ := c6
              refine ⟨c6a, c6b, c3, by omega, by omega, by omega, by omega, ?_, ?_⟩
              · simp only [u32, sub32]; omega
              · dsimp only
                have : sub32 S (2 * 5) = S - 10 := by simp only [sub32]; omega
                rw [this]
            · injection h with h
              subst h
              simp at ho
          · rw [if_neg c5] at h
            exact absurd h (by simp)
    · rw [if_neg c2] at h
      exact absurd h (by simp)

theorem schedulePeriods_some (cfg : CP_configSettings_t) (cycle : AM_sleepRecordIndex_t)
    (prev : AM_configurationIndex_t) (ct cs : Nat) (l : List CP_startStopPeriod_t)
    (w : ScheduleWindow) (h : schedulePeriods cfg cycle prev ct cs l = some w) :
    ∃ p ∈ l, schedulePeriod cfg cycle prev ct cs p = some w := by
  induction l with
  | nil => simp [schedulePeriods] at h
  | cons a rest ih =>
    unfold schedulePeriods at h
    cases hq : schedulePeriod cfg cycle prev ct cs a with
    | some v =>
      rw [hq] at h
      exact ⟨a, List.mem_cons_self _ _, by rw [hq]; exact h⟩
    | none =>
      rw [hq] at h
      obtain ⟨p, hp, hp2⟩ := ih h
      exact ⟨p, List.mem_cons_of_mem _ hp, hp2⟩

theorem checkStartStopPeriodsFrom_spec (prev : CP_startStopPeriod_t)
    (l : List CP_startStopPeriod_t) (h : checkStartStopPeriodsFrom prev l = true) :
    (∀ p ∈ l, p.startMinutes < p.stopMinutes ∧ prev.stopMinutes < p.startMinutes) ∧
      l.Pairwise (fun a b => a.stopMinutes < b.startMinutes) := by
  induction l generalizing prev with
  | nil => simp
  | cons a rest ih =>
    unfold checkStartStopPeriodsFrom at h
    split at h
    · simp at h
    · split at h
      · simp at h
      · rename_i h1 h2
        obtain ⟨ih1, ih2⟩ := ih a h
        refine ⟨?_, ?_⟩
        · intro p hp
          rcases List.mem_cons.mp hp with hp | hp
          · subst hp; omega
          · have := ih1 p hp; omega
        · exact List.pairwise_cons.mpr ⟨fun b hb => (ih1 b hb).2, ih2⟩

theorem checkStartStopPeriods_spec (ps : List CP_startStopPeriod_t) (n : Nat)
    (h : checkStartStopPeriods ps n = true) :
    (∀ p ∈ ps.take n, p.startMinutes < p.stopMinutes) ∧
      (ps.take n).Pairwise (fun a b => a.stopMinutes < b.startMinutes) ∧
      ps.getD 0 ⟨0, 0⟩ ∈ ps.take n := by
  unfold checkStartStopPeriods at h
  split at h
  · simp at h
  · rename_i hn
    split at h
    · simp at h
    · rename_i first rest heq
      split at h
      · simp at h
      · rename_i h1
        obtain ⟨f1, f2⟩ := checkStartStopPeriodsFrom_spec first rest h
        rw [heq]
        refine ⟨?_, ?_, ?_⟩
        · intro p hp
          rcases List.mem_cons.mp hp with hp | hp
          · subst hp; omega
          · exact (f1 p hp).1
        · exact List.pairwise_cons.mpr ⟨fun b hb => by have := f1 b hb; omega, f2⟩
        · cases ps with
          | nil => simp at heq
          | cons a t =>
            cases n with
            | zero => exact absurd rfl hn
            | succ m =>
              simp only [List.take_succ_cons, List.cons.injEq] at heq
              simp [heq.1]

theorem validSleepRecordCycle_of_valid (cfg : CP_configSettings_t) (cycle : AM_sleepRecordIndex_t)
    (hv : validScheduleSettings cfg) (hn : cfg.numberOfSleepRecordCycles ≠ 0) :
    1 ≤ cfg.recordDuration.getD cycle.toNat 0 ∧ cfg.recordDuration.getD cycle.toNat 0 ≤ 43200 ∧
      5 ≤ cfg.sleepDuration.getD cycle.toNat 0 ∧ cfg.sleepDuration.getD cycle.toNat 0 ≤ 43200 := by
  obtain ⟨_, _, _, h4⟩ := hv
  obtain ⟨h0, h1⟩ := h4 hn
  cases cycle
  · exact h0
  · exact h1

/-- Facts about the active periods of a valid settings record. -/
theorem activePeriods_of_valid (cfg : CP_configSettings_t) (hv : validScheduleSettings cfg) :
    min cfg.activeStartStopPeriods MAX_START_STOP_PERIODS = cfg.activeStartStopPeriods ∧
      cfg.activeStartStopPeriods ≠ 0 ∧
      (∀ p ∈ cfg.startStopPeriods.take cfg.activeStartStopPeriods,
        p.startMinutes < p.stopMinutes ∧ p.stopMinutes ≤ 1440) ∧
      (cfg.startStopPeriods.take cfg.activeStartStopPeriods).Pairwise
        (fun a b => a.stopMinutes < b.startMinutes) ∧
      cfg.startStopPeriods.getD 0 ⟨0, 0⟩ ∈ cfg.startStopPeriods.take cfg.activeStartStopPeriods := by
  obtain ⟨h1, h2, h3, _⟩ := hv
  obtain ⟨f1, f2, f3⟩ := checkStartStopPeriods_spec _ _ h2
  refine ⟨Nat.min_eq_left h1, ?_, fun p hp => ⟨f1 p hp, h3 p hp⟩, f2, f3⟩
  intro h0
  rw [h0] at f3
  simp at f3

/-- The window computed before the latest-time bound comes from the loop body of an active
period, or is the first period of the following day. -/
theorem scheduleBeforeLatest_cases (cfg : CP_configSettings_t) (bk : BackupDomain) (t : Nat)
    (hv : validScheduleSettings cfg) :
    (∃ p ∈ cfg.startStopPeriods.take cfg.activeStartStopPeriods,
      schedulePeriod cfg (sleepRecordCycleIndexOfNextRecording cfg bk)
        bk.configurationIndexOfNextRecording (clampToEarliest cfg t)
        (clampToEarliest cfg t % 86400) p = some (scheduleBeforeLatest cfg bk t)) ∨
    scheduleBeforeLatest cfg bk t =
      scheduleFirstPeriodTomorrow cfg (sleepRecordCycleIndexOfNextRecording cfg bk)
        (clampToEarliest cfg t) (clampToEarliest cfg t % 86400) := by
  obtain ⟨hmin, hne, _⟩ := activePeriods_of_valid cfg hv
  unfold scheduleBeforeLatest
  simp only [hmin, if_neg hne, secondsOfDay, SECONDS_IN_DAY, SECONDS_IN_HOUR, SECONDS_IN_MINUTE]
  cases hq : schedulePeriods cfg (sleepRecordCycleIndexOfNextRecording cfg bk)
      bk.configurationIndexOfNextRecording (clampToEarliest cfg t)
      (clampToEarliest cfg t % (24 * (60 * 60)))
      (cfg.startStopPeriods.take cfg.activeStartStopPeriods) with
  | some w =>
    left
    obtain ⟨p, hp, hp2⟩ := schedulePeriods_some _ _ _ _ _ _ _ hq
    exact ⟨p, hp, hp2⟩
  | none => right; rfl

/-- The window on the first period of the following day. -/
theorem scheduleFirstPeriodTomorrow_window (cfg : CP_configSettings_t)
    (cycle : AM_sleepRecordIndex_t) (ct : Nat) (p : CP_startStopPeriod_t)
    (hfirst : cfg.startStopPeriods.getD 0 ⟨0, 0⟩ = p)
    (hct : ct + 172800 < 4294967296)
    (hp : p.startMinutes < p.stopMinutes) (hp2 : p.stopMinutes ≤ 1440)
    (hduty : cfg.numberOfSleepRecordCycles ≠ 0 →
      1 ≤ cfg.recordDuration.getD cycle.toNat 0 ∧ cfg.recordDuration.getD cycle.toNat 0 ≤ 43200 ∧
      5 ≤ cfg.sleepDuration.getD cycle.toNat 0 ∧ cfg.sleepDuration.getD cycle.toNat 0 ≤ 43200) :
    (scheduleFirstPeriodTomorrow cfg cycle ct (ct % 86400)).timeOfNextRecording
        = ct - ct % 86400 + 86400 + 60 * p.startMinutes ∧
      60 * p.startMinutes +
        (scheduleFirstPeriodTomorrow cfg cycle ct (ct % 86400)).durationOfNextRecording
        ≤ 60 * p.stopMinutes ∧
      1 ≤ (scheduleFirstPeriodTomorrow cfg cycle ct (ct % 86400)).durationOfNextRecording ∧
      (scheduleFirstPeriodTomorrow cfg cycle ct (ct % 86400)).configurationIndexOfNextRecording
        = AM_configurationIndex_t.STANDARD_RECORDING ∧
      (cfg.numberOfSleepRecordCycles ≠ 0 →
        (scheduleFirstPeriodTomorrow cfg cycle ct (ct % 86400)).durationOfNextRecording
          ≤ cfg.recordDuration.getD cycle.toNat 0) := by
  have hmod : ct % 86400 < 86400 := Nat.mod_lt _ (by decide)
  have hle : ct % 86400 ≤ ct := Nat.mod_le _ _
  have e1 : u32 (SECONDS_IN_MINUTE * p.startMinutes) = 60 * p.startMinutes := by
    simp only [u32, SECONDS_IN_MINUTE]; omega
  have e2 : u32 (SECONDS_IN_MINUTE * p.stopMinutes) = 60 * p.stopMinutes := by
    simp only [u32, SECONDS_IN_MINUTE]; omega
  have e3 : sub32 (60 * p.stopMinutes) (60 * p.startMinutes)
      = 60 * p.stopMinutes - 60 * p.startMinutes := by
    unfold sub32; omega
  have e4 : sub32 SECONDS_IN_DAY (ct % 86400) = 86400 - ct % 86400 := by
    simp only [sub32, SECONDS_IN_DAY, SECONDS_IN_HOUR, SECONDS_IN_MINUTE]; omega
  have e5 : u32 (u32 (ct + (86400 - ct % 86400)) + 60 * p.startMinutes)
      = ct - ct % 86400 + 86400 + 60 * p.startMinutes := by
    simp only [u32]; omega
  unfold scheduleFirstPeriodTomorrow
  simp only [hfirst, e1, e2, e3, e4, e5, SLEEP_RECORD_CYCLES_DISABLED]
  generalize hR : cfg.recordDuration.getD cycle.toNat 0 = R at hduty ⊢
  refine ⟨trivial, ?_, ?_, trivial, ?_⟩
  · split <;> omega
  · split
    · omega
    · rename_i hn
      have := hduty hn
      omega
  · intro hn
    rw [if_neg hn]
    omega

/-- The window computed before the latest-time bound lies inside an active period. -/
theorem scheduleBeforeLatest_window (cfg : CP_configSettings_t) (bk : BackupDomain) (t : Nat)
    (hv : validScheduleSettings cfg) (hct : clampToEarliest cfg t + 172800 < 4294967296) :
    ∃ p ∈ cfg.startStopPeriods.take cfg.activeStartStopPeriods, ∃ base s,
      base % 86400 = 0 ∧
      (scheduleBeforeLatest cfg bk t).timeOfNextRecording = base + s ∧
      base + s < 4294967295 ∧
      60 * p.startMinutes ≤ s ∧
      s + (scheduleBeforeLatest cfg bk t).durationOfNextRecording ≤ 60 * p.stopMinutes ∧
      p.stopMinutes ≤ 1440 ∧
      1 ≤ (scheduleBeforeLatest cfg bk t).durationOfNextRecording ∧
      ((scheduleBeforeLatest cfg bk t).configurationIndexOfNextRecording
          = AM_configurationIndex_t.STANDARD_RECORDING →
        clampToEarliest cfg t ≤ (scheduleBeforeLatest cfg bk t).timeOfNextRecording ∧
        (cfg.numberOfSleepRecordCycles ≠ 0 →
          (s - 60 * p.startMinutes) %
              (cfg.recordDuration.getD (sleepRecordCycleIndexOfNextRecording cfg bk).toNat 0 +
                cfg.sleepDuration.getD (sleepRecordCycleIndexOfNextRecording cfg bk).toNat 0)
            + (scheduleBeforeLatest cfg bk t).durationOfNextRecording
            ≤ cfg.recordDuration.getD (sleepRecordCycleIndexOfNextRecording cfg bk).toNat 0)) := by
  obtain ⟨hmin, hne, hper, hpw, hfirst⟩ := activePeriods_of_valid cfg hv
  have hmod : clampToEarliest cfg t % 86400 < 86400 := Nat.mod_lt _ (by decide)
  have hle : clampToEarliest cfg t % 86400 ≤ clampToEarliest cfg t := Nat.mod_le _ _
  rcases scheduleBeforeLatest_cases cfg bk t hv with ⟨p, hp, hsome⟩ | htom
  · obtain ⟨hp1, hp2⟩ := hper p hp
    obtain ⟨s, h1, h2, h3, h4, h5⟩ := schedulePeriod_window cfg _ _ _ p _ hct hp1 hp2
      (fun hn => validSleepRecordCycle_of_valid cfg _ hv hn) hsome
    refine ⟨p, hp, clampToEarliest cfg t - clampToEarliest cfg t % 86400, s, ?_, h1, ?_, h2, h3,
      hp2, h4, ?_⟩
    · omega
    · omega
    · intro hstd
      obtain ⟨h6, h7⟩ := h5 hstd
      exact ⟨by omega, h7⟩
  · obtain ⟨hp1, hp2⟩ := hper _ hfirst
    obtain ⟨g1, g2, g3, g4, g5⟩ := scheduleFirstPeriodTomorrow_window cfg
      (sleepRecordCycleIndexOfNextRecording cfg bk) (clampToEarliest cfg t) _ rfl hct hp1 hp2
      (fun hn => validSleepRecordCycle_of_valid cfg _ hv hn)
    rw [htom]
    refine ⟨_, hfirst, clampToEarliest cfg t - clampToEarliest cfg t % 86400 + 86400,
      60 * (cfg.startStopPeriods.getD 0 ⟨0, 0⟩).startMinutes, ?_, ?_, ?_, le_refl _, g2, hp2, g3, ?_⟩
    · omega
    · rw [g1]
    · omega
    · intro _
      refine ⟨by rw [g1]; omega, fun hn => ?_⟩
      have := g5 hn
      simp only [Nat.sub_self, Nat.zero_mod]
      omega

/-! ## The scheduler: latest-time bound and the claims about windows -/

/-- The latest-time bound in closed form. -/
theorem applyLatestRecordingTime_eq (cfg : CP_configSettings_t) (w : ScheduleWindow)
    (hl : cfg.latestRecordingTime < 4294967296) :
    applyLatestRecordingTime cfg w =
      if cfg.latestRecordingTime > 0 then
        if w.timeOfNextRecording ≥ cfg.latestRecordingTime then
          { w with timeOfNextRecording := UINT32_MAX, durationOfNextRecording := 0 }
        else if w.timeOfNextRecording + w.durationOfNextRecording > cfg.latestRecordingTime then
          { w with durationOfNextRecording := cfg.latestRecordingTime - w.timeOfNextRecording }
        else w
      else w := by
  unfold applyLatestRecordingTime
  by_cases h0 : cfg.latestRecordingTime > 0
  · rw [if_pos h0, if_pos h0]
    by_cases h1 : w.timeOfNextRecording ≥ cfg.latestRecordingTime
    · rw [if_pos h1, if_pos h1]
    · rw [if_neg h1, if_neg h1]
      by_cases h2 : w.timeOfNextRecording + w.durationOfNextRecording > cfg.latestRecordingTime
      · rw [if_pos h2]
        have h3 : (w.timeOfNextRecording : Int) + (w.durationOfNextRecording : Int)
            - (cfg.latestRecordingTime : Int) > 0 := by omega
        simp only [h3, if_true]
        congr 1
        omega
      · rw [if_neg h2]
        have h3 : ¬ ((w.timeOfNextRecording : Int) + (w.durationOfNextRecording : Int)
            - (cfg.latestRecordingTime : Int) > 0) := by omega
        simp only [h3, if_false]
  · rw [if_neg h0, if_neg h0]

/-- The latest-time bound keeps the index, and either yields "never" or keeps the start
and does not lengthen the window (nor empty it). -/
theorem applyLatestRecordingTime_spec (cfg : CP_configSettings_t) (w : ScheduleWindow) :
    (applyLatestRecordingTime cfg w).configurationIndexOfNextRecording
        = w.configurationIndexOfNextRecording ∧
      ((applyLatestRecordingTime cfg w).timeOfNextRecording = UINT32_MAX ∨
        ((applyLatestRecordingTime cfg w).timeOfNextRecording = w.timeOfNextRecording ∧
          (applyLatestRecordingTime cfg w).durationOfNextRecording ≤ w.durationOfNextRecording ∧
          (1 ≤ w.durationOfNextRecording → w.durationOfNextRecording < 4294967296 →
            1 ≤ (applyLatestRecordingTime cfg w).durationOfNextRecording))) := by
  unfold applyLatestRecordingTime
  split
  · split
    · exact ⟨rfl, Or.inl rfl⟩
    · dsimp only
      split
      · refine ⟨rfl, Or.inr ⟨rfl, ?_, ?_⟩⟩
        · dsimp only; omega
        · dsimp only; omega
      · exact ⟨rfl, Or.inr ⟨rfl, le_refl _, fun h _ => h⟩⟩
  · exact ⟨rfl, Or.inr ⟨rfl, le_refl _, fun h _ => h⟩⟩

/-- A window that is not "never" lies inside an active period, latest-time bound
included. -/
theorem scheduleWindow_window (cfg : CP_configSettings_t) (bk : BackupDomain) (t : Nat)
    (hv : validScheduleSettings cfg) (hct : clampToEarliest cfg t + 172800 < 4294967296)
    (hnever : (scheduleWindow cfg bk t).timeOfNextRecording ≠ UINT32_MAX) :
    ∃ p ∈ cfg.startStopPeriods.take cfg.activeStartStopPeriods, ∃ base s,
      base % 86400 = 0 ∧
      (scheduleWindow cfg bk t).timeOfNextRecording = base + s ∧
      (scheduleWindow cfg bk t).timeOfNextRecording
        = (scheduleBeforeLatest cfg bk t).timeOfNextRecording ∧
      (scheduleWindow cfg bk t).configurationIndexOfNextRecording
        = (scheduleBeforeLatest cfg bk t).configurationIndexOfNextRecording ∧
      (scheduleWindow cfg bk t).durationOfNextRecording
        ≤ (scheduleBeforeLatest cfg bk t).durationOfNextRecording ∧
      60 * p.startMinutes ≤ s ∧
      s + (scheduleWindow cfg bk t).durationOfNextRecording ≤ 60 * p.stopMinutes ∧
      p.stopMinutes ≤ 1440 ∧
      1 ≤ (scheduleWindow cfg bk t).durationOfNextRecording ∧
      ((scheduleWindow cfg bk t).configurationIndexOfNextRecording
          = AM_configurationIndex_t.STANDARD_RECORDING →
        clampToEarliest cfg t ≤ (scheduleWindow cfg bk t).timeOfNextRecording ∧
        (cfg.numberOfSleepRecordCycles ≠ 0 →
          (s - 60 * p.startMinutes) %
              (cfg.recordDuration.getD (sleepRecordCycleIndexOfNextRecording cfg bk).toNat 0 +
                cfg.sleepDuration.getD (sleepRecordCycleIndexOfNextRecording cfg bk).toNat 0)
            + (scheduleWindow cfg bk t).durationOfNextRecording
            ≤ cfg.recordDuration.getD (sleepRecordCycleIndexOfNextRecording cfg bk).toNat 0)) := by
  obtain ⟨p, hp, base, s, h1, h2, h3, h4, h5, h6, h7, h8⟩ :=
    scheduleBeforeLatest_window cfg bk t hv hct
  obtain ⟨a1, a2⟩ := applyLatestRecordingTime_spec cfg (scheduleBeforeLatest cfg bk t)
  unfold scheduleWindow at hnever ⊢
  rcases a2 with a2 | ⟨a2, a3, a4⟩
  · exact absurd a2 hnever
  · have a5 := a4 h7 (by omega)
    refine ⟨p, hp, base, s, h1, by rw [a2, h2], a2, a1, a3, h4, by omega, h6, a5, ?_⟩
    intro hstd
    rw [a1] at hstd
    obtain ⟨h9, h10⟩ := h8 hstd
    refine ⟨by rw [a2]; exact h9, fun hn => ?_⟩
    have := h10 hn
    omega

/-- An opportunistic window comes from the loop body of an active period. -/
theorem scheduleWindow_opportunistic (cfg : CP_configSettings_t) (bk : BackupDomain) (t : Nat)
    (hv : validScheduleSettings cfg) (hct : clampToEarliest cfg t + 172800 < 4294967296)
    (ho : (scheduleWindow cfg bk t).configurationIndexOfNextRecording
      = AM_configurationIndex_t.OPPORTUNISTIC_RECORDING) :
    ∃ p ∈ cfg.startStopPeriods.take cfg.activeStartStopPeriods,
      schedulePeriod cfg (sleepRecordCycleIndexOfNextRecording cfg bk)
        bk.configurationIndexOfNextRecording (clampToEarliest cfg t)
        (clampToEarliest cfg t % 86400) p = some (scheduleBeforeLatest cfg bk t) ∧
      (scheduleBeforeLatest cfg bk t).configurationIndexOfNextRecording
        = AM_configurationIndex_t.OPPORTUNISTIC_RECORDING := by
  obtain ⟨a1, _⟩ := applyLatestRecordingTime_spec cfg (scheduleBeforeLatest cfg bk t)
  unfold scheduleWindow at ho
  rw [a1] at ho
  obtain ⟨hmin, hne, hper, hpw, hfirst⟩ := activePeriods_of_valid cfg hv
  rcases scheduleBeforeLatest_cases cfg bk t hv with ⟨p, hp, hsome⟩ | htom
  · exact ⟨p, hp, hsome, ho⟩
  · obtain ⟨hp1, hp2⟩ := hper _ hfirst
    obtain ⟨g1, g2, g3, g4, g5⟩ := scheduleFirstPeriodTomorrow_window cfg
      (sleepRecordCycleIndexOfNextRecording cfg bk) (clampToEarliest cfg t) _ rfl hct hp1 hp2
      (fun hn => validSleepRecordCycle_of_valid cfg _ hv hn)
    rw [htom, g4] at ho
    exact absurd ho (by decide)

/-- Two active periods that share a second of the day (ends included on one side) are the
same period. -/
theorem activePeriod_unique (l : List CP_startStopPeriod_t)
    (hpw : l.Pairwise (fun a b => a.stopMinutes < b.startMinutes))
    (p q : CP_startStopPeriod_t) (hp : p ∈ l) (hq : q ∈ l) (x : Nat)
    (hp1 : 60 * p.startMinutes ≤ x) (hp2 : x ≤ 60 * p.stopMinutes)
    (hq1 : 60 * q.startMinutes ≤ x) (hq2 : x < 60 * q.stopMinutes) :
    p = q := by
  by_contra hne
  have hsym : l.Pairwise (fun a b => a.stopMinutes < b.startMinutes ∨
      b.stopMinutes < a.startMinutes) := hpw.imp (fun h => Or.inl h)
  have := List.Pairwise.forall_of_forall (l := l)
    (R := fun a b => a = b ∨ a.stopMinutes < b.startMinutes ∨ b.stopMinutes < a.startMinutes)
    (fun x y h => by rcases h with h | h | h
                     · exact Or.inl h.symm
                     · exact Or.inr (Or.inr h)
                     · exact Or.inr (Or.inl h))
    (fun x _ => Or.inl rfl) (hsym.imp (fun h => Or.inr h)) hp hq
  rcases this with h | h | h
  · exact hne h
  · omega
  · omega

theorem sleepRecordCycleIndex_scheduleRecording (cfg : CP_configSettings_t) (bk : BackupDomain)
    (t : Nat) :
    sleepRecordCycleIndexOfNextRecording cfg (scheduleRecording cfg bk t)
      = sleepRecordCycleIndexOfNextRecording cfg bk := rfl

/-- C1 (amended): non-overlap of successive windows while the 32-bit clock does not wrap. -/
theorem scheduleRecording_successive_windows (cfg : CP_configSettings_t) (bk : BackupDomain)
    (t : Nat) (hv : validScheduleSettings cfg)
    (hct : clampToEarliest cfg t + 2 * SECONDS_IN_DAY ≤ UINT32_MAX)
    (hnext : clampToEarliest cfg ((scheduleRecording cfg bk t).timeOfNextRecording +
      (scheduleRecording cfg bk t).durationOfNextRecording) + 2 * SECONDS_IN_DAY ≤ UINT32_MAX) :
    (scheduleRecording cfg bk t).timeOfNextRecording +
        (scheduleRecording cfg bk t).durationOfNextRecording ≤
      (scheduleRecording cfg (scheduleRecording cfg bk t)
        ((scheduleRecording cfg bk t).timeOfNextRecording +
          (scheduleRecording cfg bk t).durationOfNextRecording)).timeOfNextRecording := by
  simp only [SECONDS_IN_DAY, SECONDS_IN_HOUR, SECONDS_IN_MINUTE, UINT32_MAX] at hct hnext
  generalize hbk1 : scheduleRecording cfg bk t = bk1 at hnext ⊢
  have hcyc : sleepRecordCycleIndexOfNextRecording cfg bk1
      = sleepRecordCycleIndexOfNextRecording cfg bk := by rw [← hbk1]; rfl
  have ht1 : bk1.timeOfNextRecording = (scheduleWindow cfg bk t).timeOfNextRecording := by
    rw [← hbk1]; rfl
  have hd1 : bk1.durationOfNextRecording = (scheduleWindow cfg bk t).durationOfNextRecording := by
    rw [← hbk1]; rfl
  have hi1 : bk1.configurationIndexOfNextRecording
      = (scheduleWindow cfg bk t).configurationIndexOfNextRecording := by
    rw [← hbk1]; rfl
  generalize ht2 : bk1.timeOfNextRecording + bk1.durationOfNextRecording = t2 at hnext ⊢
  have hclamp : t2 ≤ clampToEarliest cfg t2 := by
    unfold clampToEarliest; split
    · exact le_max_left _ _
    · exact le_refl _
  show t2 ≤ (scheduleWindow cfg bk1 t2).timeOfNextRecording
  obtain ⟨b1, b2⟩ := applyLatestRecordingTime_spec cfg (scheduleBeforeLatest cfg bk1 t2)
  by_cases hnev2 : (scheduleWindow cfg bk1 t2).timeOfNextRecording = UINT32_MAX
  · rw [hnev2]; simp only [UINT32_MAX]; omega
  · obtain ⟨q, hq, base2, s2, k1, k2, k3, k4, k5, k6, k7, k8, k9, k10⟩ :=
      scheduleWindow_window cfg bk1 t2 hv (by omega) hnev2
    by_cases hstd : (scheduleWindow cfg bk1 t2).configurationIndexOfNextRecording
        = AM_configurationIndex_t.STANDARD_RECORDING
    · have := (k10 hstd).1
      omega
    · have hopp : (scheduleWindow cfg bk1 t2).configurationIndexOfNextRecording
          = AM_configurationIndex_t.OPPORTUNISTIC_RECORDING := by
        cases hx : (scheduleWindow cfg bk1 t2).configurationIndexOfNextRecording
        · exact absurd hx hstd
        · rfl
      obtain ⟨q', hq', hsome, hopp'⟩ := scheduleWindow_opportunistic cfg bk1 t2 hv (by omega) hopp
      obtain ⟨hmin, hne, hper, hpw, hfirst⟩ := activePeriods_of_valid cfg hv
      obtain ⟨hq1, hq2⟩ := hper q' hq'
      have hdutyc := fun hn => validSleepRecordCycle_of_valid cfg
        (sleepRecordCycleIndexOfNextRecording cfg bk1) hv hn
      obtain ⟨o1, o2, o3, o4, o5, o6, o7, o8, o9⟩ := schedulePeriod_opportunistic cfg _ _ _ q' _
        (by omega) hq1 hq2 hdutyc hsome hopp'
      -- the first window was a standard one that is not "never"
      have hstd1 : (scheduleWindow cfg bk t).configurationIndexOfNextRecording
          = AM_configurationIndex_t.STANDARD_RECORDING := by rw [← hi1]; exact o2
      have hnev1 : (scheduleWindow cfg bk t).timeOfNextRecording ≠ UINT32_MAX := by
        rw [← ht1]; simp only [UINT32_MAX]; omega
      obtain ⟨p, hp, base1, s1, j1, j2, j3, j4, j5, j6, j7, j8, j9, j10⟩ :=
        scheduleWindow_window cfg bk t hv (by omega) hnev1
      obtain ⟨j11, j12⟩ := j10 hstd1
      have j13 := j12 o3
      rw [hcyc] at o5 o6 o7 o8 hdutyc
      obtain ⟨r1, r2, r3, r4⟩ := hdutyc o3
      generalize cfg.recordDuration.getD (sleepRecordCycleIndexOfNextRecording cfg bk).toNat 0
        = R at *
      generalize cfg.sleepDuration.getD (sleepRecordCycleIndexOfNextRecording cfg bk).toNat 0
        = S at *
      -- the second call is not clamped
      have hc2 : clampToEarliest cfg t2 = t2 := by
        have : clampToEarliest cfg t ≤ t2 := by omega
        unfold clampToEarliest at this ⊢
        split
        · rename_i he
          rw [if_pos he] at this
          have := le_max_right t cfg.earliestRecordingTime
          exact max_eq_left (by omega)
        · rfl
      rw [hc2] at o4 o5 o6 o7 o8
      have hsec : t2 % 86400 = s1 + bk1.durationOfNextRecording := by omega
      have hpq : p = q' := activePeriod_unique _ hpw p q' hp hq' (t2 % 86400)
        (by omega) (by omega) (by omega) (by omega)
      subst hpq
      have hphase : (t2 % 86400 - 60 * p.startMinutes) % (R + S)
          = (s1 - 60 * p.startMinutes) % (R + S) + bk1.durationOfNextRecording := by
        have e : t2 % 86400 - 60 * p.startMinutes
            = (s1 - 60 * p.startMinutes) + bk1.durationOfNextRecording := by omega
        rw [e, Nat.add_mod]
        have hd : bk1.durationOfNextRecording % (R + S) = bk1.durationOfNextRecording :=
          Nat.mod_eq_of_lt (by omega)
        rw [hd]
        exact Nat.mod_eq_of_lt (by omega)
      rw [hphase] at o5 o6 o7 o8
      rw [hd1] at o5 o6 o7 o8
      have : (scheduleWindow cfg bk1 t2).timeOfNextRecording
          = (scheduleBeforeLatest cfg bk1 t2).timeOfNextRecording := k3
      omega

/-- C1 (witness): the amended non-overlap statement in Scenario A, half an hour into the
period. -/
theorem scheduleRecording_successive_windows_witness :
    validScheduleSettings scenarioA ∧
      (scheduleRecording scenarioA initialBackupDomain 1641601800).timeOfNextRecording +
          (scheduleRecording scenarioA initialBackupDomain 1641601800).durationOfNextRecording ≤
        (scheduleRecording scenarioA (scheduleRecording scenarioA initialBackupDomain 1641601800)
          ((scheduleRecording scenarioA initialBackupDomain 1641601800).timeOfNextRecording +
            (scheduleRecording scenarioA initialBackupDomain
              1641601800).durationOfNextRecording)).timeOfNextRecording :=
  ⟨by decide,
    scheduleRecording_successive_windows scenarioA initialBackupDomain 1641601800
      (by decide) (by decide) (by decide)⟩

/-- C1 (counterexample): on the last whole day of the 32-bit clock the window computed at
its own end wraps around and starts before that end. -/
theorem scheduleRecording_successive_windows_counterexample :
    validScheduleSettings scenarioA ∧
      (scheduleRecording scenarioA initialBackupDomain 4294861200).timeOfNextRecording
        = 4294944000 ∧
      (scheduleRecording scenarioA initialBackupDomain 4294861200).durationOfNextRecording
        = 3600 ∧
      (scheduleRecording scenarioA (scheduleRecording scenarioA initialBackupDomain 4294861200)
        (4294944000 + 3600)).timeOfNextRecording = 63104 ∧
      ¬ (4294944000 + 3600 ≤
        (scheduleRecording scenarioA (scheduleRecording scenarioA initialBackupDomain 4294861200)
          (4294944000 + 3600)).timeOfNextRecording) := by
  decide

/-- The loop body marks a window OPPORTUNISTIC only when opportunistic recording is enabled
and the previous recording was a STANDARD one (no assumption on the settings). -/
theorem schedulePeriod_opportunistic_only_if (cfg : CP_configSettings_t)
    (cycle : AM_sleepRecordIndex_t) (prev : AM_configurationIndex_t) (ct cs : Nat)
    (p : CP_startStopPeriod_t) (w : ScheduleWindow)
    (h : schedulePeriod cfg cycle prev ct cs p = some w)
    (ho : w.configurationIndexOfNextRecording = AM_configurationIndex_t.OPPORTUNISTIC_RECORDING) :
    cfg.enableOpportunisticRecording ≠ 0 ∧ prev = AM_configurationIndex_t.STANDARD_RECORDING := by
  unfold schedulePeriod at h
  dsimp only at h
  split at h
  · injection h with h; subst h; simp at ho
  · split at h
    · split at h
      · injection h with h; subst h; simp at ho
      · split at h
        · injection h with h; subst h; simp at ho
        · split at h
          · split at h
            · rename_i c
              exact ⟨c.1, c.2.1⟩
            · injection h with h; subst h; simp at ho
          · simp at h
    · simp at h

/-- The scheduler marks a window OPPORTUNISTIC only when opportunistic recording is enabled
and the previous recording was a STANDARD one (no assumption on the settings). -/
theorem scheduleWindow_opportunistic_only_if (cfg : CP_configSettings_t) (bk : BackupDomain)
    (t : Nat)
    (ho : (scheduleWindow cfg bk t).configurationIndexOfNextRecording
      = AM_configurationIndex_t.OPPORTUNISTIC_RECORDING) :
    cfg.enableOpportunisticRecording ≠ 0 ∧
      bk.configurationIndexOfNextRecording = AM_configurationIndex_t.STANDARD_RECORDING := by
  obtain ⟨a1, _⟩ := applyLatestRecordingTime_spec cfg (scheduleBeforeLatest cfg bk t)
  unfold scheduleWindow at ho
  rw [a1] at ho
  unfold scheduleBeforeLatest at ho
  dsimp only at ho
  split at ho
  · simp at ho
  · split at ho
    · rename_i w hq
      obtain ⟨p, _, hp⟩ := schedulePeriods_some _ _ _ _ _ _ _ hq
      exact schedulePeriod_opportunistic_only_if _ _ _ _ _ _ _ hp ho
    · simp [scheduleFirstPeriodTomorrow] at ho

/-- C2 (amended): with duty cycling enabled, a window that is not "never" starts inside
exactly one active period and lasts no longer than the time left in that period; a
STANDARD window lasts no longer than the record duration of the selected cycle, and an
OPPORTUNISTIC window no longer than the sleep duration less twice the opportunistic gap. -/
theorem scheduleRecording_duration_bound (cfg : CP_configSettings_t) (bk : BackupDomain)
    (t : Nat) (hv : validScheduleSettings cfg)
    (hduty : cfg.numberOfSleepRecordCycles ≠ SLEEP_RECORD_CYCLES_DISABLED)
    (hct : clampToEarliest cfg t + 2 * SECONDS_IN_DAY ≤ UINT32_MAX)
    (hnever : (scheduleRecording cfg bk t).timeOfNextRecording ≠ UINT32_MAX) :
    ∃ p ∈ cfg.startStopPeriods.take cfg.activeStartStopPeriods,
      SECONDS_IN_MINUTE * p.startMinutes
          ≤ secondsOfDay (scheduleRecording cfg bk t).timeOfNextRecording ∧
        secondsOfDay (scheduleRecording cfg bk t).timeOfNextRecording
          < SECONDS_IN_MINUTE * p.stopMinutes ∧
        (∀ q ∈ cfg.startStopPeriods.take cfg.activeStartStopPeriods,
          SECONDS_IN_MINUTE * q.startMinutes
              ≤ secondsOfDay (scheduleRecording cfg bk t).timeOfNextRecording →
            secondsOfDay (scheduleRecording cfg bk t).timeOfNextRecording
              < SECONDS_IN_MINUTE * q.stopMinutes → q = p) ∧
        ((scheduleRecording cfg bk t).configurationIndexOfNextRecording
            = AM_configurationIndex_t.STANDARD_RECORDING →
          (scheduleRecording cfg bk t).durationOfNextRecording ≤
            min (cfg.recordDuration.getD (sleepRecordCycleIndexOfNextRecording cfg bk).toNat 0)
              (SECONDS_IN_MINUTE * p.stopMinutes
                - secondsOfDay (scheduleRecording cfg bk t).timeOfNextRecording)) ∧
        ((scheduleRecording cfg bk t).configurationIndexOfNextRecording
            = AM_configurationIndex_t.OPPORTUNISTIC_RECORDING →
          (scheduleRecording cfg bk t).durationOfNextRecording ≤
            min (cfg.sleepDuration.getD (sleepRecordCycleIndexOfNextRecording cfg bk).toNat 0
                - 2 * OPPORTUNISTIC_GAP_IN_SECONDS)
              (SECONDS_IN_MINUTE * p.stopMinutes
                - secondsOfDay (scheduleRecording cfg bk t).timeOfNextRecording)) := by
  simp only [SECONDS_IN_DAY, SECONDS_IN_HOUR, SECONDS_IN_MINUTE, UINT32_MAX, secondsOfDay,
    OPPORTUNISTIC_GAP_IN_SECONDS, SLEEP_RECORD_CYCLES_DISABLED] at hct hduty ⊢
  change (scheduleWindow cfg bk t).timeOfNextRecording ≠ UINT32_MAX at hnever
  show ∃ p ∈ cfg.startStopPeriods.take cfg.activeStartStopPeriods,
    60 * p.startMinutes ≤ (scheduleWindow cfg bk t).timeOfNextRecording % (24 * (60 * 60)) ∧
    (scheduleWindow cfg bk t).timeOfNextRecording % (24 * (60 * 60)) < 60 * p.stopMinutes ∧
    (∀ q ∈ cfg.startStopPeriods.take cfg.activeStartStopPeriods,
      60 * q.startMinutes ≤ (scheduleWindow cfg bk t).timeOfNextRecording % (24 * (60 * 60)) →
      (scheduleWindow cfg bk t).timeOfNextRecording % (24 * (60 * 60)) < 60 * q.stopMinutes →
      q = p) ∧
    ((scheduleWindow cfg bk t).configurationIndexOfNextRecording
        = AM_configurationIndex_t.STANDARD_RECORDING →
      (scheduleWindow cfg bk t).durationOfNextRecording ≤
        min (cfg.recordDuration.getD (sleepRecordCycleIndexOfNextRecording cfg bk).toNat 0)
          (60 * p.stopMinutes - (scheduleWindow cfg bk t).timeOfNextRecording % (24 * (60 * 60)))) ∧
    ((scheduleWindow cfg bk t).configurationIndexOfNextRecording
        = AM_configurationIndex_t.OPPORTUNISTIC_RECORDING →
      (scheduleWindow cfg bk t).durationOfNextRecording ≤
        min (cfg.sleepDuration.getD (sleepRecordCycleIndexOfNextRecording cfg bk).toNat 0 - 2 * 5)
          (60 * p.stopMinutes - (scheduleWindow cfg bk t).timeOfNextRecording % (24 * (60 * 60))))
  obtain ⟨p, hp, base, s, j1, j2, j3, j4, j5, j6, j7, j8, j9, j10⟩ :=
    scheduleWindow_window cfg bk t hv (by omega) hnever
  obtain ⟨hmin, hne, hper, hpw, hfirst⟩ := activePeriods_of_valid cfg hv
  have hsod : (scheduleWindow cfg bk t).timeOfNextRecording % (24 * (60 * 60)) = s := by omega
  rw [hsod]
  refine ⟨p, hp, j6, by omega, ?_, ?_, ?_⟩
  · intro q hq hq1 hq2
    exact (activePeriod_unique _ hpw p q hp hq s j6 (by omega) hq1 hq2).symm
  · intro hstd
    have := (j10 hstd).2 hduty
    exact le_min (by omega) (by omega)
  · intro hopp
    obtain ⟨q', hq', hsome, hopp'⟩ := scheduleWindow_opportunistic cfg bk t hv (by omega) hopp
    obtain ⟨hq1, hq2⟩ := hper q' hq'
    obtain ⟨o1, o2, o3, o4, o5, o6, o7, o8, o9⟩ := schedulePeriod_opportunistic cfg _ _ _ q' _
      (by omega) hq1 hq2 (fun hn => validSleepRecordCycle_of_valid cfg _ hv hn) hsome hopp'
    refine le_min ?_ (by omega)
    refine le_trans j5 ?_
    rw [o9]
    split
    · exact min_le_right _ _
    · exact le_refl _

/-- C3 (amended): while the 32-bit clock does not wrap, every window that is not "never"
starts inside an active period and ends no later than that period stops. -/
theorem scheduleRecording_inside_period (cfg : CP_configSettings_t) (bk : BackupDomain)
    (t : Nat) (hv : validScheduleSettings cfg)
    (hct : clampToEarliest cfg t + 2 * SECONDS_IN_DAY ≤ UINT32_MAX)
    (hnever : (scheduleRecording cfg bk t).timeOfNextRecording ≠ UINT32_MAX) :
    ∃ p ∈ cfg.startStopPeriods.take cfg.activeStartStopPeriods,
      SECONDS_IN_MINUTE * p.startMinutes
          ≤ secondsOfDay (scheduleRecording cfg bk t).timeOfNextRecording ∧
        secondsOfDay (scheduleRecording cfg bk t).timeOfNextRecording
          < SECONDS_IN_MINUTE * p.stopMinutes ∧
        secondsOfDay (scheduleRecording cfg bk t).timeOfNextRecording
            + (scheduleRecording cfg bk t).durationOfNextRecording
          ≤ SECONDS_IN_MINUTE * p.stopMinutes := by
  simp only [SECONDS_IN_DAY, SECONDS_IN_HOUR, SECONDS_IN_MINUTE, UINT32_MAX, secondsOfDay]
    at hct ⊢
  change (scheduleWindow cfg bk t).timeOfNextRecording ≠ UINT32_MAX at hnever
  show ∃ p ∈ cfg.startStopPeriods.take cfg.activeStartStopPeriods,
    60 * p.startMinutes ≤ (scheduleWindow cfg bk t).timeOfNextRecording % (24 * (60 * 60)) ∧
    (scheduleWindow cfg bk t).timeOfNextRecording % (24 * (60 * 60)) < 60 * p.stopMinutes ∧
    (scheduleWindow cfg bk t).timeOfNextRecording % (24 * (60 * 60))
      + (scheduleWindow cfg bk t).durationOfNextRecording ≤ 60 * p.stopMinutes
  obtain ⟨p, hp, base, s, j1, j2, j3, j4, j5, j6, j7, j8, j9, j10⟩ :=
    scheduleWindow_window cfg bk t hv (by omega) hnever
  have hsod : (scheduleWindow cfg bk t).timeOfNextRecording % (24 * (60 * 60)) = s := by omega
  rw [hsod]
  exact ⟨p, hp, j6, by omega, j7⟩

/-- C2 (witness): the amended bound on an opportunistic window. -/
theorem scheduleRecording_duration_bound_witness :
    validScheduleSettings opportunisticExample ∧
      opportunisticExample.numberOfSleepRecordCycles ≠ SLEEP_RECORD_CYCLES_DISABLED ∧
      ∃ p ∈ opportunisticExample.startStopPeriods.take
          opportunisticExample.activeStartStopPeriods,
        SECONDS_IN_MINUTE * p.startMinutes ≤ secondsOfDay
            (scheduleRecording opportunisticExample standardBackupDomain
              1641600010).timeOfNextRecording ∧
          ((scheduleRecording opportunisticExample standardBackupDomain
              1641600010).configurationIndexOfNextRecording
              = AM_configurationIndex_t.OPPORTUNISTIC_RECORDING →
            (scheduleRecording opportunisticExample standardBackupDomain
              1641600010).durationOfNextRecording ≤
              min (opportunisticExample.sleepDuration.getD
                  (sleepRecordCycleIndexOfNextRecording opportunisticExample
                    standardBackupDomain).toNat 0 - 2 * OPPORTUNISTIC_GAP_IN_SECONDS)
                (SECONDS_IN_MINUTE * p.stopMinutes - secondsOfDay
                  (scheduleRecording opportunisticExample standardBackupDomain
                    1641600010).timeOfNextRecording)) :=
  ⟨by decide, by decide,
    (scheduleRecording_duration_bound opportunisticExample standardBackupDomain 1641600010
      (by decide) (by decide) (by decide) (by decide)).imp
      (fun _ h => ⟨h.1, h.2.1, h.2.2.2.2.2⟩)⟩

/-- C2 (counterexample): an opportunistic window of 90 s although the record duration of
the selected cycle is 10 s. -/
theorem scheduleRecording_duration_bound_counterexample :
    opportunisticExample.numberOfSleepRecordCycles ≠ SLEEP_RECORD_CYCLES_DISABLED ∧
      (scheduleRecording opportunisticExample standardBackupDomain
        1641600010).timeOfNextRecording = 1641600015 ∧
      (scheduleRecording opportunisticExample standardBackupDomain
        1641600010).durationOfNextRecording = 90 ∧
      opportunisticExample.recordDuration.getD
        (sleepRecordCycleIndexOfNextRecording opportunisticExample
          standardBackupDomain).toNat 0 = 10 ∧
      ¬ ((scheduleRecording opportunisticExample standardBackupDomain
          1641600010).durationOfNextRecording ≤
        min (opportunisticExample.recordDuration.getD
            (sleepRecordCycleIndexOfNextRecording opportunisticExample
              standardBackupDomain).toNat 0)
          (SECONDS_IN_MINUTE * 60 - secondsOfDay
            (scheduleRecording opportunisticExample standardBackupDomain
              1641600010).timeOfNextRecording)) := by
  decide

/-- C3 (witness): the amended statement in Scenario A. -/
theorem scheduleRecording_inside_period_witness :
    validScheduleSettings scenarioA ∧
      ∃ p ∈ scenarioA.startStopPeriods.take scenarioA.activeStartStopPeriods,
        SECONDS_IN_MINUTE * p.startMinutes ≤ secondsOfDay
            (scheduleRecording scenarioA initialBackupDomain 1641601800).timeOfNextRecording ∧
          secondsOfDay
              (scheduleRecording scenarioA initialBackupDomain 1641601800).timeOfNextRecording
            < SECONDS_IN_MINUTE * p.stopMinutes ∧
          secondsOfDay
              (scheduleRecording scenarioA initialBackupDomain 1641601800).timeOfNextRecording
              + (scheduleRecording scenarioA initialBackupDomain
                1641601800).durationOfNextRecording
            ≤ SECONDS_IN_MINUTE * p.stopMinutes :=
  ⟨by decide,
    scheduleRecording_inside_period scenarioA initialBackupDomain 1641601800
      (by decide) (by decide) (by decide)⟩

/-- C3 (counterexample): just after the only period of the last whole day of the 32-bit
clock, the next window wraps around to second 63104 of a day, outside the period
00:00-01:00. -/
theorem scheduleRecording_inside_period_counterexample :
    validScheduleSettings scenarioA ∧
      (scheduleRecording scenarioA initialBackupDomain 4294947600).timeOfNextRecording
        = 63104 ∧
      (scheduleRecording scenarioA initialBackupDomain 4294947600).timeOfNextRecording
        ≠ UINT32_MAX ∧
      ¬ ∃ p ∈ scenarioA.startStopPeriods.take scenarioA.activeStartStopPeriods,
        SECONDS_IN_MINUTE * p.startMinutes ≤ secondsOfDay
            (scheduleRecording scenarioA initialBackupDomain 4294947600).timeOfNextRecording ∧
          secondsOfDay
              (scheduleRecording scenarioA initialBackupDomain 4294947600).timeOfNextRecording
            < SECONDS_IN_MINUTE * p.stopMinutes ∧
          secondsOfDay
              (scheduleRecording scenarioA initialBackupDomain 4294947600).timeOfNextRecording
              + (scheduleRecording scenarioA initialBackupDomain
                4294947600).durationOfNextRecording
            ≤ SECONDS_IN_MINUTE * p.stopMinutes := by
  decide

/-- C4: the latest-recording-time bound.  With `latestRecordingTime > 0` and the window
computed before the bound: "never" when its start is at or after the latest time; the same
start with duration `latest - start` when it runs past the latest time; unchanged
otherwise. -/
theorem scheduleRecording_latest_bound (cfg : CP_configSettings_t) (bk : BackupDomain)
    (t : Nat) (hl : 0 < cfg.latestRecordingTime) (hl32 : cfg.latestRecordingTime ≤ UINT32_MAX) :
    (cfg.latestRecordingTime ≤ (scheduleBeforeLatest cfg bk t).timeOfNextRecording →
        (scheduleRecording cfg bk t).timeOfNextRecording = UINT32_MAX ∧
          (scheduleRecording cfg bk t).durationOfNextRecording = 0) ∧
      ((scheduleBeforeLatest cfg bk t).timeOfNextRecording < cfg.latestRecordingTime →
        cfg.latestRecordingTime < (scheduleBeforeLatest cfg bk t).timeOfNextRecording +
          (scheduleBeforeLatest cfg bk t).durationOfNextRecording →
        (scheduleRecording cfg bk t).timeOfNextRecording
            = (scheduleBeforeLatest cfg bk t).timeOfNextRecording ∧
          (scheduleRecording cfg bk t).durationOfNextRecording
            = cfg.latestRecordingTime - (scheduleBeforeLatest cfg bk t).timeOfNextRecording) ∧
      ((scheduleBeforeLatest cfg bk t).timeOfNextRecording < cfg.latestRecordingTime →
        (scheduleBeforeLatest cfg bk t).timeOfNextRecording +
          (scheduleBeforeLatest cfg bk t).durationOfNextRecording ≤ cfg.latestRecordingTime →
        (scheduleRecording cfg bk t).timeOfNextRecording
            = (scheduleBeforeLatest cfg bk t).timeOfNextRecording ∧
          (scheduleRecording cfg bk t).durationOfNextRecording
            = (scheduleBeforeLatest cfg bk t).durationOfNextRecording) ∧
      (scheduleRecording cfg bk t).configurationIndexOfNextRecording
        = (scheduleBeforeLatest cfg bk t).configurationIndexOfNextRecording := by
  have heq := applyLatestRecordingTime_eq cfg (scheduleBeforeLatest cfg bk t)
    (by simp only [UINT32_MAX] at hl32; omega)
  rw [if_pos hl] at heq
  show (cfg.latestRecordingTime ≤ (scheduleBeforeLatest cfg bk t).timeOfNextRecording →
        (applyLatestRecordingTime cfg (scheduleBeforeLatest cfg bk t)).timeOfNextRecording
            = UINT32_MAX ∧
          (applyLatestRecordingTime cfg (scheduleBeforeLatest cfg bk t)).durationOfNextRecording
            = 0) ∧
      ((scheduleBeforeLatest cfg bk t).timeOfNextRecording < cfg.latestRecordingTime →
        cfg.latestRecordingTime < (scheduleBeforeLatest cfg bk t).timeOfNextRecording +
          (scheduleBeforeLatest cfg bk t).durationOfNextRecording →
        (applyLatestRecordingTime cfg (scheduleBeforeLatest cfg bk t)).timeOfNextRecording
            = (scheduleBeforeLatest cfg bk t).timeOfNextRecording ∧
          (applyLatestRecordingTime cfg (scheduleBeforeLatest cfg bk t)).durationOfNextRecording
            = cfg.latestRecordingTime - (scheduleBeforeLatest cfg bk t).timeOfNextRecording) ∧
      ((scheduleBeforeLatest cfg bk t).timeOfNextRecording < cfg.latestRecordingTime →
        (scheduleBeforeLatest cfg bk t).timeOfNextRecording +
          (scheduleBeforeLatest cfg bk t).durationOfNextRecording ≤ cfg.latestRecordingTime →
        (applyLatestRecordingTime cfg (scheduleBeforeLatest cfg bk t)).timeOfNextRecording
            = (scheduleBeforeLatest cfg bk t).timeOfNextRecording ∧
          (applyLatestRecordingTime cfg (scheduleBeforeLatest cfg bk t)).durationOfNextRecording
            = (scheduleBeforeLatest cfg bk t).durationOfNextRecording) ∧
      (applyLatestRecordingTime cfg (scheduleBeforeLatest cfg bk t)).configurationIndexOfNextRecording
        = (scheduleBeforeLatest cfg bk t).configurationIndexOfNextRecording
  refine ⟨?_, ?_, ?_, (applyLatestRecordingTime_spec cfg _).1⟩
  · intro h1
    rw [heq, if_pos h1]
    exact ⟨rfl, rfl⟩
  · intro h1 h2
    rw [heq, if_neg (by omega), if_pos (by omega)]
    exact ⟨rfl, rfl⟩
  · intro h1 h2
    rw [heq, if_neg (by omega), if_neg (by omega)]
    exact ⟨rfl, rfl⟩

/-- C4 (witness): a window starting one minute into the period is cut to end at the
latest recording time. -/
theorem scheduleRecording_latest_bound_witness :
    0 < latestExample.latestRecordingTime ∧
      latestExample.latestRecordingTime ≤ UINT32_MAX ∧
      (scheduleBeforeLatest latestExample initialBackupDomain 1641600060).timeOfNextRecording
        = 1641600060 ∧
      (scheduleBeforeLatest latestExample initialBackupDomain
        1641600060).durationOfNextRecording = 3540 ∧
      (scheduleRecording latestExample initialBackupDomain 1641600060).timeOfNextRecording
        = (scheduleBeforeLatest latestExample initialBackupDomain
          1641600060).timeOfNextRecording ∧
      (scheduleRecording latestExample initialBackupDomain 1641600060).durationOfNextRecording
        = latestExample.latestRecordingTime -
          (scheduleBeforeLatest latestExample initialBackupDomain
            1641600060).timeOfNextRecording :=
  ⟨by decide, by decide, by decide, by decide,
    (scheduleRecording_latest_bound latestExample initialBackupDomain 1641600060
      (by decide) (by decide)).2.1 (by decide) (by decide)⟩

/-- C5: the scheduler returns the OPPORTUNISTIC index only if opportunistic recording is
enabled and the previous index was STANDARD, otherwise it returns STANDARD; so two
consecutive calls never both return OPPORTUNISTIC.  For valid settings (and a clock that
does not wrap) the current time then lies in the sleep phase of an active period and the
next cycle begins more than `2 * OPPORTUNISTIC_GAP_IN_SECONDS` later. -/
theorem scheduleRecording_opportunistic_index (cfg : CP_configSettings_t) (bk : BackupDomain)
    (t : Nat) :
    ((scheduleRecording cfg bk t).configurationIndexOfNextRecording
        = AM_configurationIndex_t.OPPORTUNISTIC_RECORDING →
      cfg.enableOpportunisticRecording ≠ 0 ∧
        bk.configurationIndexOfNextRecording = AM_configurationIndex_t.STANDARD_RECORDING) ∧
    (cfg.enableOpportunisticRecording = 0 ∨
        bk.configurationIndexOfNextRecording ≠ AM_configurationIndex_t.STANDARD_RECORDING →
      (scheduleRecording cfg bk t).configurationIndexOfNextRecording
        = AM_configurationIndex_t.STANDARD_RECORDING) ∧
    (∀ t2 : Nat,
      ¬ ((scheduleRecording cfg bk t).configurationIndexOfNextRecording
          = AM_configurationIndex_t.OPPORTUNISTIC_RECORDING ∧
        (scheduleRecording cfg (scheduleRecording cfg bk t) t2).configurationIndexOfNextRecording
          = AM_configurationIndex_t.OPPORTUNISTIC_RECORDING)) ∧
    (validScheduleSettings cfg →
      clampToEarliest cfg t + 2 * SECONDS_IN_DAY ≤ UINT32_MAX →
      (scheduleRecording cfg bk t).configurationIndexOfNextRecording
        = AM_configurationIndex_t.OPPORTUNISTIC_RECORDING →
      ∃ p ∈ cfg.startStopPeriods.take cfg.activeStartStopPeriods,
        SECONDS_IN_MINUTE * p.startMinutes < secondsOfDay (clampToEarliest cfg t) ∧
        secondsOfDay (clampToEarliest cfg t) < SECONDS_IN_MINUTE * p.stopMinutes ∧
        cfg.recordDuration.getD (sleepRecordCycleIndexOfNextRecording cfg bk).toNat 0 ≤
          (secondsOfDay (clampToEarliest cfg t) - SECONDS_IN_MINUTE * p.startMinutes) %
            (cfg.recordDuration.getD (sleepRecordCycleIndexOfNextRecording cfg bk).toNat 0 +
              cfg.sleepDuration.getD (sleepRecordCycleIndexOfNextRecording cfg bk).toNat 0) ∧
        2 * OPPORTUNISTIC_GAP_IN_SECONDS <
          cfg.recordDuration.getD (sleepRecordCycleIndexOfNextRecording cfg bk).toNat 0 +
            cfg.sleepDuration.getD (sleepRecordCycleIndexOfNextRecording cfg bk).toNat 0 -
            (secondsOfDay (clampToEarliest cfg t) - SECONDS_IN_MINUTE * p.startMinutes) %
              (cfg.recordDuration.getD (sleepRecordCycleIndexOfNextRecording cfg bk).toNat 0 +
                cfg.sleepDuration.getD (sleepRecordCycleIndexOfNextRecording cfg bk).toNat 0)) := by
  have hfirst : (scheduleRecording cfg bk t).configurationIndexOfNextRecording
        = AM_configurationIndex_t.OPPORTUNISTIC_RECORDING →
      cfg.enableOpportunisticRecording ≠ 0 ∧
        bk.configurationIndexOfNextRecording = AM_configurationIndex_t.STANDARD_RECORDING :=
    fun ho => scheduleWindow_opportunistic_only_if cfg bk t ho
  refine ⟨hfirst, ?_, ?_, ?_⟩
  · intro h
    cases hx : (scheduleRecording cfg bk t).configurationIndexOfNextRecording
    · rfl
    · obtain ⟨h1, h2⟩ := hfirst hx
      rcases h with h | h
      · exact absurd h h1
      · exact absurd h2 h
  · rintro t2 ⟨h1, h2⟩
    have := (scheduleWindow_opportunistic_only_if cfg (scheduleRecording cfg bk t) t2 h2).2
    rw [h1] at this
    exact absurd this (by decide)
  · intro hv hct ho
    simp only [SECONDS_IN_DAY, SECONDS_IN_HOUR, SECONDS_IN_MINUTE, UINT32_MAX, secondsOfDay,
      OPPORTUNISTIC_GAP_IN_SECONDS] at hct ⊢
    obtain ⟨p, hp, hsome, hopp⟩ := scheduleWindow_opportunistic cfg bk t hv (by omega) ho
    obtain ⟨hmin, hne, hper, hpw, _⟩ := activePeriods_of_valid cfg hv
    obtain ⟨hp1, hp2⟩ := hper p hp
    obtain ⟨o1, o2, o3, o4, o5, o6, o7, o8, o9⟩ := schedulePeriod_opportunistic cfg _ _ _ p _
      (by omega) hp1 hp2 (fun hn => validSleepRecordCycle_of_valid cfg _ hv hn) hsome hopp
    have hpc := Nat.zero_le ((clampToEarliest cfg t % 86400 - 60 * p.startMinutes) %
      (cfg.recordDuration.getD (sleepRecordCycleIndexOfNextRecording cfg bk).toNat 0 +
        cfg.sleepDuration.getD (sleepRecordCycleIndexOfNextRecording cfg bk).toNat 0))
    exact ⟨p, hp, o4, by omega, o5, o6⟩

/-- C5 (witness): in the sleep phase of the example cycle, after a STANDARD recording, the
scheduler inserts an opportunistic recording; the next cycle is 100 s away. -/
theorem scheduleRecording_opportunistic_index_witness :
    validScheduleSettings opportunisticExample ∧
      (scheduleRecording opportunisticExample standardBackupDomain
        1641600010).configurationIndexOfNextRecording
        = AM_configurationIndex_t.OPPORTUNISTIC_RECORDING ∧
      opportunisticExample.enableOpportunisticRecording ≠ 0 ∧
      standardBackupDomain.configurationIndexOfNextRecording
        = AM_configurationIndex_t.STANDARD_RECORDING :=
  ⟨by decide, by decide,
    (scheduleRecording_opportunistic_index opportunisticExample standardBackupDomain
      1641600010).1 (by decide)⟩

/-! ## The marker block -/

theorem encodeCompressionBits_length (bits n : Nat) :
    (encodeCompressionBits bits n).length = bits := by
  induction bits generalizing n with
  | zero => rfl
  | succ k ih => simp [encodeCompressionBits, ih]

theorem encodeCompressionBits_getD (bits n i : Nat) (hi : i < bits) :
    (encodeCompressionBits bits n).getD i 0 = if n / 2 ^ i % 2 = 1 then 1 else -1 := by
  induction bits generalizing n i with
  | zero => omega
  | succ k ih =>
    cases i with
    | zero => simp [encodeCompressionBits]
    | succ j =>
      have := ih (n / 2) j (by omega)
      simp only [encodeCompressionBits, List.getD_cons_succ, this, Nat.div_div_eq_div_mul,
        Nat.pow_succ, Nat.mul_comm]

theorem decode_encodeCompressionBits (bits n : Nat) :
    decodeCompressionBits (encodeCompressionBits bits n) = n % 2 ^ bits := by
  induction bits generalizing n with
  | zero => simp [encodeCompressionBits, decodeCompressionBits, Nat.mod_one]
  | succ k ih =>
    have hp : 2 ^ (k + 1) = 2 * 2 ^ k := by rw [Nat.pow_succ, Nat.mul_comm]
    simp only [encodeCompressionBits, decodeCompressionBits, ih, hp, Nat.mod_mul]
    have h2 : n % 2 < 2 := Nat.mod_lt _ (by decide)
    by_cases h : n % 2 = 1
    · simp [h]
    · have h0 : n % 2 = 0 := by omega
      simp [h, h0]

/-- C8: the marker block of a 32-bit run count `n` has 256 samples (512 bytes); sample
`i < 32` is `1` if bit `i` of `n` is set and `-1` otherwise, samples 32..255 are `0`, and
reading bit `i` as "sample `i` equals 1" gives `n` back. -/
theorem encodeCompressionBuffer_round_trip (n : Nat) (hn : n ≤ UINT32_MAX) :
    (encodeCompressionBuffer n).length = 256 ∧
      (encodeCompressionBuffer n).length * NUMBER_OF_BYTES_IN_SAMPLE
        = COMPRESSION_BUFFER_SIZE_IN_BYTES ∧
      (∀ i, i < 32 →
        (encodeCompressionBuffer n).getD i 0 = if n / 2 ^ i % 2 = 1 then 1 else -1) ∧
      (∀ i, 32 ≤ i → i < 256 → (encodeCompressionBuffer n).getD i 0 = 0) ∧
      decodeCompressionBuffer (encodeCompressionBuffer n) = n := by
  have hlen : (encodeCompressionBits 32 n).length = 32 := encodeCompressionBits_length 32 n
  have hl : (encodeCompressionBuffer n).length = 256 := by
    simp only [encodeCompressionBuffer, UINT32_SIZE_IN_BITS, COMPRESSION_BUFFER_SIZE_IN_BYTES,
      NUMBER_OF_BYTES_IN_SAMPLE, List.length_append, List.length_replicate, hlen]
  refine ⟨hl, ?_, ?_, ?_, ?_⟩
  · rw [hl]; rfl
  · intro i hi
    unfold encodeCompressionBuffer
    simp only [UINT32_SIZE_IN_BITS]
    rw [List.getD_append _ _ _ _ (by rw [hlen]; exact hi)]
    exact encodeCompressionBits_getD 32 n i hi
  · intro i h1 h2
    unfold encodeCompressionBuffer
    simp only [UINT32_SIZE_IN_BITS, COMPRESSION_BUFFER_SIZE_IN_BYTES, NUMBER_OF_BYTES_IN_SAMPLE]
    rw [List.getD_append_right _ _ _ _ (by rw [hlen]; exact h1)]
    rw [List.getD_eq_getElem?_getD]
    exact List.getElem?_getD_replicate_default_eq _ _ _
  · unfold decodeCompressionBuffer encodeCompressionBuffer
    simp only [UINT32_SIZE_IN_BITS]
    rw [List.take_left' hlen, decode_encodeCompressionBits]
    simp only [UINT32_MAX] at hn
    exact Nat.mod_eq_of_lt (by omega)

/-- C8 (witness): the marker of a run of 192 blocks. -/
theorem encodeCompressionBuffer_round_trip_witness :
    (192 : Nat) ≤ UINT32_MAX ∧ decodeCompressionBuffer (encodeCompressionBuffer 192) = 192 :=
  ⟨by decide, (encodeCompressionBuffer_round_trip 192 (by decide)).2.2.2.2⟩

/-! ## The recording session: storage calls and the returned state -/

theorem storageCall_consistent (storage : Nat → Bool) (s : RecordingLoop) (c : StorageCall)
    (h : storageLogConsistent storage s.calls s.storageError) (he : s.storageError = false) :
    storageLogConsistent storage (storageCall storage s c).calls
      (storageCall storage s c).storageError := by
  obtain ⟨h1, h2⟩ := h
  show storageLogConsistent storage (s.calls ++ [c]) (!storage s.calls.length)
  unfold storageLogConsistent
  rw [List.length_append, List.length_singleton]
  refine ⟨?_, ?_⟩
  · intro k hk hf
    by_cases hlt : k < s.calls.length
    · have := (h1 k hlt hf).1
      rw [he] at this
      exact absurd this (by decide)
    · have hk' : k = s.calls.length := by omega
      subst hk'
      simp [hf]
  · intro he'
    refine ⟨s.calls.length, rfl, ?_⟩
    simpa using he'

theorem writeCompressionBuffer_consistent (opportunistic : Bool) (storage : Nat → Bool)
    (s : RecordingLoop)
    (h : storageLogConsistent storage s.calls s.storageError) (he : s.storageError = false) :
    storageLogConsistent storage (writeCompressionBuffer opportunistic storage s).calls
      (writeCompressionBuffer opportunistic storage s).storageError := by
  unfold writeCompressionBuffer
  split_ifs <;> exact storageCall_consistent storage _ _ h he

theorem flushCompressionBuffer_consistent (opportunistic : Bool) (storage : Nat → Bool)
    (s : RecordingLoop)
    (h : storageLogConsistent storage s.calls s.storageError) (he : s.storageError = false) :
    storageLogConsistent storage (flushCompressionBuffer opportunistic storage s).calls
      (flushCompressionBuffer opportunistic storage s).storageError := by
  have hw := writeCompressionBuffer_consistent opportunistic storage s h he
  unfold flushCompressionBuffer
  split_ifs
  · exact hw
  · exact hw
  · exact h

theorem writeSampleBuffer_consistent (opportunistic : Bool) (storage : Nat → Bool) (n : Nat)
    (s : RecordingLoop)
    (h : storageLogConsistent storage s.calls s.storageError) (he : s.storageError = false) :
    storageLogConsistent storage (writeSampleBuffer opportunistic storage n s).calls
      (writeSampleBuffer opportunistic storage n s).storageError := by
  unfold writeSampleBuffer
  split_ifs <;> exact storageCall_consistent storage _ _ h he

theorem processBuffer_consistent (S bound maxSize : Nat) (opportunistic : Bool)
    (storage : Nat → Bool) (flag : Bool) (s : RecordingLoop)
    (h : storageLogConsistent storage s.calls s.storageError) (he : s.storageError = false) :
    storageLogConsistent storage
      (processBuffer S bound maxSize opportunistic storage flag s).calls
      (processBuffer S bound maxSize opportunistic storage flag s).storageError := by
  have hf := flushCompressionBuffer_consistent opportunistic storage s h he
  unfold processBuffer
  dsimp only
  split_ifs with c1 c2 c3
  · exact h
  · exact hf
  · exact writeSampleBuffer_consistent opportunistic storage _ _ hf (by simpa using c2)
  · exact writeSampleBuffer_consistent opportunistic storage _ _ hf (by simpa using c2)

/-- A property of the loop state that every step of the main recording loop preserves
holds when the loop finishes or runs out of observations. -/
theorem recordingLoop_invariant (S bound maxSize : Nat) (opportunistic : Bool) (cutoff : Nat)
    (storage : Nat → Bool) (I : RecordingLoop → Prop)
    (hobs : ∀ s o, I s → I (observeSwitch s o))
    (hvolt : ∀ s o, I s → I (checkVoltage cutoff s o))
    (hproc : ∀ s flag, I s → s.storageError = false → continueRecording bound s = true →
      I (processBuffer S bound maxSize opportunistic storage flag s))
    (pos : LoopPosition) (s : RecordingLoop) (obs : List Observation)
    (hI : I s) (he : s.storageError = false) :
    (∀ s', recordingLoop S bound maxSize opportunistic cutoff storage pos s obs
        = Progress.finished s' → I s') ∧
      (∀ s', recordingLoop S bound maxSize opportunistic cutoff storage pos s obs
        = Progress.waiting s' → I s' ∧ s'.storageError = false) := by
  induction obs generalizing pos s with
  | nil =>
    cases pos <;> simp only [recordingLoop] <;>
      exact ⟨fun s' h => (by cases h), fun s' h => (by cases h; exact ⟨hI, he⟩)⟩
  | cons o rest ih =>
    cases pos with
    | outer =>
      simp only [recordingLoop]
      split_ifs with c
      · exact ih LoopPosition.inner (observeSwitch s o) (hobs s o hI) he
      · exact ⟨fun s' h => (by cases h; exact hobs s o hI), fun s' h => (by cases h)⟩
    | inner =>
      simp only [recordingLoop]
      split_ifs with c1 c2
      · exact ⟨fun s' h => (by cases h; exact hproc _ _ (hobs s o hI) he c1.2),
          fun s' h => (by cases h)⟩
      · exact ih LoopPosition.inner _ (hproc _ _ (hobs s o hI) he c1.2) (by simpa using c2)
      · exact ih LoopPosition.outer _ (hvolt _ o (hobs s o hI)) (by
          unfold checkVoltage; split_ifs <;> exact he)

theorem waitForWriteBuffer_invariant (I : RecordingLoop → Prop)
    (hobs : ∀ s o, I s → I (observeSwitch s o))
    (s : RecordingLoop) (obs : List Observation) (hI : I s) (he : s.storageError = false) :
    (∀ s' rest, waitForWriteBuffer s obs = Progress.finished (s', rest) →
        I s' ∧ s'.storageError = false) ∧
      (∀ s', waitForWriteBuffer s obs = Progress.waiting s' → I s' ∧ s'.storageError = false) := by
  induction obs generalizing s with
  | nil =>
    simp only [waitForWriteBuffer]
    exact ⟨fun s' rest h => (by cases h), fun s' h => (by cases h; exact ⟨hI, he⟩)⟩
  | cons o rest ih =>
    simp only [waitForWriteBuffer]
    split_ifs with c
    · exact ih (observeSwitch s o) (hobs s o hI) he
    · exact ⟨fun s' rest' h => (by cases h; exact ⟨hobs s o hI, he⟩), fun s' h => (by cases h)⟩

/-- A property that holds once the file is open and that every step of the loop preserves
holds for whatever state `openAndRecord` ends in. -/
theorem openAndRecord_invariant (S bound maxSize : Nat) (opportunistic : Bool) (cutoff : Nat)
    (storage : Nat → Bool) (I : RecordingLoop → Prop) (start : RecordingLoop)
    (obs : List Observation)
    (hopen : I (storageCall storage start StorageCall.openFile))
    (hobs : ∀ s o, I s → I (observeSwitch s o))
    (hvolt : ∀ s o, I s → I (checkVoltage cutoff s o))
    (hproc : ∀ s flag, I s → s.storageError = false → continueRecording bound s = true →
      I (processBuffer S bound maxSize opportunistic storage flag s)) :
    (∀ s', openAndRecord S bound maxSize opportunistic cutoff storage start obs
        = Progress.finished s' → I s') ∧
      (∀ s', openAndRecord S bound maxSize opportunistic cutoff storage start obs
        = Progress.waiting s' → I s' ∧ s'.storageError = false) := by
  unfold openAndRecord
  dsimp only
  split_ifs with c
  · exact ⟨fun s' h => (by cases h; exact hopen), fun s' h => (by cases h)⟩
  · have hw := waitForWriteBuffer_invariant I hobs _ obs hopen (by simpa using c)
    cases hq : waitForWriteBuffer (storageCall storage start StorageCall.openFile) obs with
    | waiting l =>
      exact ⟨fun s' h => (by cases h), fun s' h => (by cases h; exact hw.2 _ hq)⟩
    | finished pr =>
      obtain ⟨waited, rest⟩ := pr
      obtain ⟨h1, h2⟩ := hw.1 _ _ hq
      exact recordingLoop_invariant S bound maxSize opportunistic cutoff storage I hobs hvolt
        hproc LoopPosition.outer waited rest h1 h2

theorem writeHeaderAndClose_consistent (storage : Nat → Bool) (hd : WavHeaderDetails)
    (s : RecordingLoop)
    (h : storageLogConsistent storage s.calls s.storageError) (he : s.storageError = false) :
    storageLogConsistent storage (writeHeaderAndClose storage hd s).calls
      (writeHeaderAndClose storage hd s).storageError := by
  have h1 := storageCall_consistent storage s (StorageCall.seekInFile 0) h he
  unfold writeHeaderAndClose
  dsimp only
  split_ifs with c1 c2
  · exact h1
  · exact storageCall_consistent storage _ _ h1 (by simpa using c1)
  · exact storageCall_consistent storage _ _
      (storageCall_consistent storage _ _ h1 (by simpa using c1)) (by simpa using c2)

theorem finishRecording_consistent (bound rate guano : Nat) (opportunistic fsl : Bool)
    (storage : Nat → Bool) (s : RecordingLoop)
    (h : storageLogConsistent storage s.calls s.storageError) (he : s.storageError = false) :
    storageLogConsistent storage
      (finishRecording bound rate guano opportunistic fsl storage s).1.calls
      (finishRecording bound rate guano opportunistic fsl storage s).1.storageError := by
  have h1 : storageLogConsistent storage
      (flushCompressionBufferAtEnd bound opportunistic storage s).calls
      (flushCompressionBufferAtEnd bound opportunistic storage s).storageError := by
    unfold flushCompressionBufferAtEnd
    split_ifs
    · exact writeCompressionBuffer_consistent opportunistic storage s h he
    · exact h
  unfold finishRecording
  dsimp only
  split_ifs with c1 c2
  · exact h1
  · exact storageCall_consistent storage _ _ h1 (by simpa using c1)
  · exact writeHeaderAndClose_consistent storage _ (raiseSamplesWritten _)
      (storageCall_consistent storage _ _ h1 (by simpa using c1)) (by simpa using c2)

/-- Whatever state a call of `makeRecording` is in, only its last storage call can have
failed, and that is the case exactly when the state carries a storage error. -/
theorem openAndRecord_consistent (S bound maxSize : Nat) (opportunistic : Bool) (cutoff : Nat)
    (storage : Nat → Bool) (total : Nat) (obs : List Observation) :
    (∀ s', openAndRecord S bound maxSize opportunistic cutoff storage (startOfRecording total) obs
        = Progress.finished s' → storageLogConsistent storage s'.calls s'.storageError) ∧
      (∀ s', openAndRecord S bound maxSize opportunistic cutoff storage (startOfRecording total)
          obs = Progress.waiting s' →
        storageLogConsistent storage s'.calls s'.storageError ∧ s'.storageError = false) := by
  apply openAndRecord_invariant S bound maxSize opportunistic cutoff storage
    (fun s => storageLogConsistent storage s.calls s.storageError)
  · apply storageCall_consistent
    · exact ⟨fun k hk => absurd hk (by simp [startOfRecording]), fun h => by cases h⟩
    · rfl
  · intro s o h; exact h
  · intro s o h
    unfold checkVoltage
    split_ifs <;> exact h
  · intro s flag h he _
    exact processBuffer_consistent S bound maxSize opportunistic storage flag s h he

/-- How a finished call of `makeRecording` came about: the early return on the daily cap, a
storage failure while recording, or the finalisation of the file. -/
theorem makeRecording_finished (sram : Nat) (cfg : CP_configSettings_t) (bk : BackupDomain)
    (dur day guano : Nat) (storage : Nat → Bool) (obs : List Observation)
    (r : RecordingResult)
    (h : makeRecording sram cfg bk dur day guano storage obs = Progress.finished r) :
    (r.calls = [] ∧
        r.recordingState = AM_recordingState_t.TOTAL_FILE_SIZE_LIMITED ∧
        bk.configurationIndexOfNextRecording
          = AM_configurationIndex_t.OPPORTUNISTIC_RECORDING ∧
        resetTotalFileSizeWritten day bk > maximumFileSizeWritten cfg ∧
        r.loop = startOfRecording (resetTotalFileSizeWritten day bk) ∧
        r.wavHeader = initialWavHeader) ∨
      ∃ drained, openAndRecord (NUMBER_OF_SAMPLES_IN_BUFFER sram)
        (samplesToWrite (effectiveSampleRate cfg bk.configurationIndexOfNextRecording) dur)
        (maximumFileSizeWritten cfg)
        (decide (bk.configurationIndexOfNextRecording
          = AM_configurationIndex_t.OPPORTUNISTIC_RECORDING))
        cfg.enableLowVoltageCutoff storage
        (startOfRecording (resetTotalFileSizeWritten day bk))
        obs = Progress.finished drained ∧
        r.calls = r.loop.calls ∧
        r.fileSizeLimited = decide (dur > maximumNumberOfSeconds
          (effectiveSampleRate cfg bk.configurationIndexOfNextRecording)) ∧
        ((drained.storageError = true ∧ r.loop = drained ∧
            r.recordingState = AM_recordingState_t.SDCARD_WRITE_ERROR) ∨
          (drained.storageError = false ∧
            r.loop = (finishRecording
        (samplesToWrite (effectiveSampleRate cfg bk.configurationIndexOfNextRecording) dur)
        (effectiveSampleRate cfg bk.configurationIndexOfNextRecording) guano
        (decide (bk.configurationIndexOfNextRecording
          = AM_configurationIndex_t.OPPORTUNISTIC_RECORDING))
        (decide (dur > maximumNumberOfSeconds
          (effectiveSampleRate cfg bk.configurationIndexOfNextRecording)))
        storage drained).1 ∧
            r.wavHeader = (finishRecording
        (samplesToWrite (effectiveSampleRate cfg bk.configurationIndexOfNextRecording) dur)
        (effectiveSampleRate cfg bk.configurationIndexOfNextRecording) guano
        (decide (bk.configurationIndexOfNextRecording
          = AM_configurationIndex_t.OPPORTUNISTIC_RECORDING))
        (decide (dur > maximumNumberOfSeconds
          (effectiveSampleRate cfg bk.configurationIndexOfNextRecording)))
        storage drained).2 ∧
            r.recordingState =
              if r.loop.storageError then AM_recordingState_t.SDCARD_WRITE_ERROR
              else recordingStateAtReturn r.loop r.fileSizeLimited)) := by
  unfold makeRecording at h
  dsimp only at h
  split_ifs at h with c
  · left
    cases h
    exact ⟨rfl, rfl, by simpa using c.1, c.2, rfl, rfl⟩
  · right
    cases hq : openAndRecord (NUMBER_OF_SAMPLES_IN_BUFFER sram)
        (samplesToWrite (effectiveSampleRate cfg bk.configurationIndexOfNextRecording) dur)
        (maximumFileSizeWritten cfg)
        (decide (bk.configurationIndexOfNextRecording
          = AM_configurationIndex_t.OPPORTUNISTIC_RECORDING))
        cfg.enableLowVoltageCutoff storage
        (startOfRecording (resetTotalFileSizeWritten day bk))
        obs with
    | waiting l => rw [hq] at h; cases h
    | finished drained =>
      rw [hq] at h
      dsimp only at h
      refine ⟨drained, rfl, ?_⟩
      split_ifs at h with c2 c3
      · cases h
        exact ⟨rfl, rfl, Or.inl ⟨c2, rfl, rfl⟩⟩
      · cases h
        exact ⟨rfl, rfl, Or.inr ⟨by simpa using c2, rfl, rfl, (if_pos c3).symm⟩⟩
      · cases h
        exact ⟨rfl, rfl, Or.inr ⟨by simpa using c2, rfl, rfl, (if_neg c3).symm⟩⟩

/-- A call of `makeRecording` that is still waiting has opened the file and seen no
storage failure. -/
theorem makeRecording_waiting (sram : Nat) (cfg : CP_configSettings_t) (bk : BackupDomain)
    (dur day guano : Nat) (storage : Nat → Bool) (obs : List Observation)
    (l : RecordingLoop)
    (h : makeRecording sram cfg bk dur day guano storage obs = Progress.waiting l) :
    openAndRecord (NUMBER_OF_SAMPLES_IN_BUFFER sram)
        (samplesToWrite (effectiveSampleRate cfg bk.configurationIndexOfNextRecording) dur)
        (maximumFileSizeWritten cfg)
        (decide (bk.configurationIndexOfNextRecording
          = AM_configurationIndex_t.OPPORTUNISTIC_RECORDING))
        cfg.enableLowVoltageCutoff storage
        (startOfRecording (resetTotalFileSizeWritten day bk))
        obs = Progress.waiting l := by
  unfold makeRecording at h
  dsimp only at h
  split_ifs at h with c
  cases hq : openAndRecord (NUMBER_OF_SAMPLES_IN_BUFFER sram)
        (samplesToWrite (effectiveSampleRate cfg bk.configurationIndexOfNextRecording) dur)
        (maximumFileSizeWritten cfg)
        (decide (bk.configurationIndexOfNextRecording
          = AM_configurationIndex_t.OPPORTUNISTIC_RECORDING))
        cfg.enableLowVoltageCutoff storage
        (startOfRecording (resetTotalFileSizeWritten day bk))
        obs with
  | waiting l' => rw [hq] at h; cases h; rfl
  | finished drained =>
    rw [hq] at h
    dsimp only at h
    split_ifs at h

/-- A failed storage call is the last call of a call of `makeRecording`, which has returned
`SDCARD_WRITE_ERROR`. -/
theorem makeRecording_failed_call (sram : Nat) (cfg : CP_configSettings_t)
    (bk : BackupDomain) (dur day guano : Nat) (storage : Nat → Bool) (obs : List Observation)
    (k : Nat)
    (hk : k < (makeRecording sram cfg bk dur day guano storage obs).callsMade.length)
    (hfail : storage k = false) :
    ∃ r, makeRecording sram cfg bk dur day guano storage obs = Progress.finished r ∧
      r.recordingState = AM_recordingState_t.SDCARD_WRITE_ERROR ∧
      r.calls.length = k + 1 := by
  cases hm : makeRecording sram cfg bk dur day guano storage obs with
  | waiting l =>
    rw [hm] at hk
    have hw := makeRecording_waiting sram cfg bk dur day guano storage obs l hm
    obtain ⟨hc, he⟩ := (openAndRecord_consistent _ _ _ _ _ storage _ obs).2 l hw
    have := (hc.1 k hk hfail).1
    rw [he] at this
    exact absurd this (by decide)
  | finished r =>
    rw [hm] at hk
    refine ⟨r, rfl, ?_⟩
    change k < r.calls.length at hk
    rcases makeRecording_finished sram cfg bk dur day guano storage obs r hm with
      ⟨h0, _, _⟩ | ⟨drained, hd, hcalls, _, hcase⟩
    · rw [h0] at hk
      exact absurd hk (by simp)
    · have hdc := (openAndRecord_consistent _ _ _ _ _ storage _ obs).1 drained hd
      rcases hcase with ⟨he, hl, hs⟩ | ⟨he, hl, _, hs⟩
      · rw [hcalls, hl] at hk ⊢
        exact ⟨hs, ((hdc.1 k hk hfail).2).symm⟩
      · have hfc := finishRecording_consistent
          (samplesToWrite (effectiveSampleRate cfg bk.configurationIndexOfNextRecording) dur)
          (effectiveSampleRate cfg bk.configurationIndexOfNextRecording) guano
          (decide (bk.configurationIndexOfNextRecording
            = AM_configurationIndex_t.OPPORTUNISTIC_RECORDING))
          (decide (dur > maximumNumberOfSeconds
            (effectiveSampleRate cfg bk.configurationIndexOfNextRecording)))
          storage drained hdc he
        rw [← hl] at hfc
        rw [hcalls] at hk ⊢
        obtain ⟨h1, h2⟩ := hfc.1 k hk hfail
        rw [hs, if_pos h1]
        exact ⟨rfl, h2.symm⟩

/-- C9: if the storage call number `k` of a call of `makeRecording` fails (the open, a write,
the seek or the close), the function has returned `SDCARD_WRITE_ERROR` and that call is its
last storage call, whatever the termination flags are. -/
theorem makeRecording_storage_failure (sram : Nat) (cfg : CP_configSettings_t)
    (bk : BackupDomain) (dur day guano : Nat) (storage : Nat → Bool) (obs : List Observation)
    (k : Nat)
    (hk : k < (makeRecording sram cfg bk dur day guano storage obs).callsMade.length)
    (hfail : storage k = false) :
    ∃ r, makeRecording sram cfg bk dur day guano storage obs = Progress.finished r ∧
      r.recordingState = AM_recordingState_t.SDCARD_WRITE_ERROR ∧
      r.calls.length = k + 1 :=
  makeRecording_failed_call sram cfg bk dur day guano storage obs k hk hfail

theorem writeHeaderAndClose_closes (storage : Nat → Bool) (hd : WavHeaderDetails)
    (s : RecordingLoop) (he : (writeHeaderAndClose storage hd s).storageError = false) :
    (writeHeaderAndClose storage hd s).calls.getLast? = some StorageCall.closeFile ∧
      (writeHeaderAndClose storage hd s).switchPositionChanged = s.switchPositionChanged ∧
      (writeHeaderAndClose storage hd s).supplyVoltageLow = s.supplyVoltageLow ∧
      (writeHeaderAndClose storage hd s).totalFileSizeLimited = s.totalFileSizeLimited := by
  unfold writeHeaderAndClose at he ⊢
  dsimp only at he ⊢
  split_ifs at he ⊢ with c1 c2
  · rw [c1] at he; cases he
  · rw [c2] at he; cases he
  · refine ⟨?_, rfl, rfl, rfl⟩
    show (_ ++ [StorageCall.closeFile]).getLast? = _
    simp

theorem finishRecording_closes (bound rate guano : Nat) (opportunistic fsl : Bool)
    (storage : Nat → Bool) (s : RecordingLoop)
    (he : (finishRecording bound rate guano opportunistic fsl storage s).1.storageError = false) :
    (finishRecording bound rate guano opportunistic fsl storage s).1.calls.getLast?
      = some StorageCall.closeFile := by
  unfold finishRecording at he ⊢
  dsimp only at he ⊢
  split_ifs at he ⊢ with c1 c2
  · rw [c1] at he; cases he
  · rw [c2] at he; cases he
  · exact (writeHeaderAndClose_closes storage _ _ he).1

/-- C10: a call of `makeRecording` in which a storage call failed returns
`SDCARD_WRITE_ERROR`; a call that made storage calls, none of which failed, has closed the
file and returns the first that is set of `SWITCH_CHANGED`, `SUPPLY_VOLTAGE_LOW`,
`FILE_SIZE_LIMITED`, `TOTAL_FILE_SIZE_LIMITED`, and `RECORDING_OKAY` exactly when none is
set. -/
theorem makeRecording_result_priority (sram : Nat) (cfg : CP_configSettings_t)
    (bk : BackupDomain) (dur day guano : Nat) (storage : Nat → Bool) (obs : List Observation)
    (r : RecordingResult)
    (h : makeRecording sram cfg bk dur day guano storage obs = Progress.finished r) :
    ((∃ k, k < r.calls.length ∧ storage k = false) →
        r.recordingState = AM_recordingState_t.SDCARD_WRITE_ERROR) ∧
      ((∀ k, k < r.calls.length → storage k = true) → r.calls ≠ [] →
        r.calls.getLast? = some StorageCall.closeFile ∧
        r.recordingState =
          (if r.loop.switchPositionChanged then AM_recordingState_t.SWITCH_CHANGED
          else if r.loop.supplyVoltageLow then AM_recordingState_t.SUPPLY_VOLTAGE_LOW
          else if r.fileSizeLimited then AM_recordingState_t.FILE_SIZE_LIMITED
          else if r.loop.totalFileSizeLimited then AM_recordingState_t.TOTAL_FILE_SIZE_LIMITED
          else AM_recordingState_t.RECORDING_OKAY) ∧
        (r.recordingState = AM_recordingState_t.RECORDING_OKAY ↔
          r.loop.switchPositionChanged = false ∧ r.loop.supplyVoltageLow = false ∧
            r.fileSizeLimited = false ∧ r.loop.totalFileSizeLimited = false)) := by
  refine ⟨?_, ?_⟩
  · rintro ⟨k, hk, hf⟩
    have hk' : k < (makeRecording sram cfg bk dur day guano storage obs).callsMade.length := by
      rw [h]; exact hk
    obtain ⟨r', hr', hs, _⟩ :=
      makeRecording_failed_call sram cfg bk dur day guano storage obs k hk' hf
    rw [h] at hr'
    cases hr'
    exact hs
  · intro hall hne
    rcases makeRecording_finished sram cfg bk dur day guano storage obs r h with
      ⟨h0, _, _⟩ | ⟨drained, hd, hcalls, _, hcase⟩
    · exact absurd h0 hne
    · have hdc := (openAndRecord_consistent _ _ _ _ _ storage _ obs).1 drained hd
      have hnoerr : ∀ (calls : List StorageCall) (e : Bool),
          storageLogConsistent storage calls e → calls = r.calls → e = false := by
        intro calls e hc hcr
        cases e with
        | false => rfl
        | true =>
          obtain ⟨k, hk1, hk2⟩ := hc.2 rfl
          have := hall k (by rw [← hcr]; omega)
          rw [hk2] at this
          cases this
      rcases hcase with ⟨he, hl, hs⟩ | ⟨he, hl, _, hs⟩
      · have := hnoerr drained.calls drained.storageError hdc (by rw [hcalls, hl])
        rw [he] at this
        cases this
      · have hfc := finishRecording_consistent
          (samplesToWrite (effectiveSampleRate cfg bk.configurationIndexOfNextRecording) dur)
          (effectiveSampleRate cfg bk.configurationIndexOfNextRecording) guano
          (decide (bk.configurationIndexOfNextRecording
            = AM_configurationIndex_t.OPPORTUNISTIC_RECORDING))
          (decide (dur > maximumNumberOfSeconds
            (effectiveSampleRate cfg bk.configurationIndexOfNextRecording)))
          storage drained hdc he
        rw [← hl] at hfc
        have hok : r.loop.storageError = false := hnoerr _ _ hfc hcalls.symm
        have hclose := finishRecording_closes _ _ _ _ _ storage drained (by rw [← hl]; exact hok)
        rw [← hl, ← hcalls] at hclose
        have hstate : r.recordingState = recordingStateAtReturn r.loop r.fileSizeLimited := by
          rw [hs, hok]; rfl
        refine ⟨hclose, ?_, ?_⟩
        · rw [hstate]; rfl
        · rw [hstate]
          unfold recordingStateAtReturn
          cases r.loop.switchPositionChanged <;> cases r.loop.supplyVoltageLow <;>
            cases r.fileSizeLimited <;> cases r.loop.totalFileSizeLimited <;> simp

/-! ## The recording session: buffer accounting -/

theorem sampleAndMarkerBytes_append (l1 l2 : List StorageCall) :
    sampleAndMarkerBytes (l1 ++ l2) = sampleAndMarkerBytes l1 + sampleAndMarkerBytes l2 := by
  induction l1 with
  | nil => simp [sampleAndMarkerBytes]
  | cons c rest ih =>
    cases c with
    | openFile => simpa [sampleAndMarkerBytes] using ih
    | seekInFile p => simpa [sampleAndMarkerBytes] using ih
    | closeFile => simpa [sampleAndMarkerBytes] using ih
    | writeToFile src n =>
      cases src with
      | compressionBuffer x => simp [sampleAndMarkerBytes, ih]; omega
      | sampleBuffer x => simp [sampleAndMarkerBytes, ih]; omega
      | guanoData => simpa [sampleAndMarkerBytes] using ih
      | wavHeader d => simpa [sampleAndMarkerBytes] using ih

theorem storageCall_ok (storage : Nat → Bool) (s : RecordingLoop) (c : StorageCall)
    (h : (storageCall storage s c).storageError = false) : storage s.calls.length = true := by
  have h' : (!storage s.calls.length) = false := h
  cases hs : storage s.calls.length
  · rw [hs] at h'; cases h'
  · rfl

/-- What a successful marker write changes. -/
theorem writeCompressionBuffer_effect (opportunistic : Bool) (storage : Nat → Bool)
    (s : RecordingLoop)
    (he : (writeCompressionBuffer opportunistic storage s).storageError = false) :
    storage s.calls.length = true ∧
    (writeCompressionBuffer opportunistic storage s).calls = s.calls ++
      [compressionBufferWrite s.numberOfCompressedBuffers] ∧
    (writeCompressionBuffer opportunistic storage s).totalNumberOfCompressedSamples =
      u32 (s.totalNumberOfCompressedSamples +
        u32 ((s.numberOfCompressedBuffers - 1) * COMPRESSION_BUFFER_SIZE_IN_BYTES)
          / NUMBER_OF_BYTES_IN_SAMPLE) ∧
    (writeCompressionBuffer opportunistic storage s).numberOfCompressedBuffers
      = s.numberOfCompressedBuffers ∧
    (writeCompressionBuffer opportunistic storage s).samplesWritten = s.samplesWritten ∧
    (writeCompressionBuffer opportunistic storage s).buffersProcessed = s.buffersProcessed ∧
    (writeCompressionBuffer opportunistic storage s).readBuffer = s.readBuffer ∧
    (writeCompressionBuffer opportunistic storage s).switchPositionChanged
      = s.switchPositionChanged ∧
    (writeCompressionBuffer opportunistic storage s).supplyVoltageLow = s.supplyVoltageLow ∧
    (writeCompressionBuffer opportunistic storage s).totalFileSizeLimited
      = s.totalFileSizeLimited := by
  unfold writeCompressionBuffer at he ⊢
  split_ifs at he ⊢ with c
  · rw [c] at he; cases he
  · refine ⟨?_, rfl, rfl, rfl, rfl, rfl, rfl, rfl, rfl, rfl⟩
    exact storageCall_ok storage (bookCompressedSamples s)
      (compressionBufferWrite s.numberOfCompressedBuffers) (by simpa using c)

/-- What a successful flush inside the loop changes. -/
theorem flushCompressionBuffer_effect (opportunistic : Bool) (storage : Nat → Bool)
    (s : RecordingLoop)
    (he : (flushCompressionBuffer opportunistic storage s).storageError = false) :
    (s.numberOfCompressedBuffers = 0 → flushCompressionBuffer opportunistic storage s = s) ∧
    (0 < s.numberOfCompressedBuffers →
      storage s.calls.length = true ∧
      (flushCompressionBuffer opportunistic storage s).calls = s.calls ++
        [compressionBufferWrite s.numberOfCompressedBuffers] ∧
      (flushCompressionBuffer opportunistic storage s).totalNumberOfCompressedSamples =
        u32 (s.totalNumberOfCompressedSamples +
          u32 ((s.numberOfCompressedBuffers - 1) * COMPRESSION_BUFFER_SIZE_IN_BYTES)
            / NUMBER_OF_BYTES_IN_SAMPLE)) ∧
    (flushCompressionBuffer opportunistic storage s).numberOfCompressedBuffers = 0 ∧
    (flushCompressionBuffer opportunistic storage s).samplesWritten = s.samplesWritten ∧
    (flushCompressionBuffer opportunistic storage s).buffersProcessed = s.buffersProcessed ∧
    (flushCompressionBuffer opportunistic storage s).readBuffer = s.readBuffer ∧
    (flushCompressionBuffer opportunistic storage s).switchPositionChanged
      = s.switchPositionChanged ∧
    (flushCompressionBuffer opportunistic storage s).supplyVoltageLow = s.supplyVoltageLow ∧
    (flushCompressionBuffer opportunistic storage s).totalFileSizeLimited
      = s.totalFileSizeLimited := by
  unfold flushCompressionBuffer at he ⊢
  split_ifs at he ⊢ with c1 c2
  · rw [c2] at he; cases he
  · obtain ⟨w1, w2, w3, w4, w5, w6, w7, w8, w9, w10⟩ :=
      writeCompressionBuffer_effect opportunistic storage s (by simpa using c2)
    exact ⟨fun h0 => absurd h0 (by omega), fun _ => ⟨w1, w2, w3⟩, rfl, w5, w6, w7, w8, w9, w10⟩
  · exact ⟨fun _ => rfl, fun h0 => absurd h0 c1, by omega, rfl, rfl, rfl, rfl, rfl, rfl⟩

/-- What a successful buffer write changes. -/
theorem writeSampleBuffer_effect (opportunistic : Bool) (storage : Nat → Bool) (n : Nat)
    (s : RecordingLoop)
    (he : (writeSampleBuffer opportunistic storage n s).storageError = false) :
    storage s.calls.length = true ∧
    (writeSampleBuffer opportunistic storage n s).calls = s.calls ++
      [sampleBufferWrite s.readBuffer n] ∧
    (writeSampleBuffer opportunistic storage n s).totalNumberOfCompressedSamples
      = s.totalNumberOfCompressedSamples ∧
    (writeSampleBuffer opportunistic storage n s).numberOfCompressedBuffers
      = s.numberOfCompressedBuffers ∧
    (writeSampleBuffer opportunistic storage n s).samplesWritten = s.samplesWritten ∧
    (writeSampleBuffer opportunistic storage n s).buffersProcessed = s.buffersProcessed ∧
    (writeSampleBuffer opportunistic storage n s).readBuffer = s.readBuffer ∧
    (writeSampleBuffer opportunistic storage n s).switchPositionChanged
      = s.switchPositionChanged ∧
    (writeSampleBuffer opportunistic storage n s).supplyVoltageLow = s.supplyVoltageLow ∧
    (writeSampleBuffer opportunistic storage n s).totalFileSizeLimited
      = s.totalFileSizeLimited := by
  unfold writeSampleBuffer at he ⊢
  split_ifs at he ⊢ with c
  · rw [c] at he; cases he
  · refine ⟨?_, rfl, rfl, rfl, rfl, rfl, rfl, rfl, rfl, rfl⟩
    exact storageCall_ok storage s (sampleBufferWrite s.readBuffer n) (by simpa using c)

theorem continueRecording_lt (bound : Nat) (s : RecordingLoop)
    (h : continueRecording bound s = true) : s.samplesWritten < bound := by
  unfold continueRecording at h
  simp only [Bool.and_eq_true, decide_eq_true_eq] at h
  exact h.1.1.1

/-- One pass of the loop body keeps the accounting invariant. -/
theorem processBuffer_accounting (S bound maxSize : Nat) (opportunistic : Bool)
    (storage : Nat → Bool) (flag : Bool) (s : RecordingLoop)
    (hS : 0 < S) (hB : (2 * S) % 512 = 0) (hb1 : 244 ≤ bound) (hb2 : bound ≤ 2147483647)
    (hI : accountingInvariant S bound s)
    (hc : continueRecording bound s = true)
    (he : (processBuffer S bound maxSize opportunistic storage flag s).storageError = false) :
    accountingInvariant S bound (processBuffer S bound maxSize opportunistic storage flag s) := by
  have hlt := continueRecording_lt bound s hc
  obtain ⟨a1, a2, a3, a4, a5, a6, a7⟩ := hI
  have a3' := a3 hlt
  have hn : numberOfSamplesToWrite S bound s = min (bound - s.samplesWritten) S := by
    unfold numberOfSamplesToWrite sub32
    congr 1
    omega
  have hmul : (s.buffersProcessed + 1) * S = s.buffersProcessed * S + S := Nat.succ_mul _ _
  have hmod : ((s.buffersProcessed + 1) * S) % S = 0 := Nat.mul_mod_left _ _
  unfold processBuffer at he ⊢
  simp only [] at he ⊢
  split_ifs at he ⊢ with c1 c2 c3
  · -- the buffer is skipped
    obtain ⟨_, c1b, c1c⟩ := c1
    rw [hn] at c1c
    unfold accountingInvariant incrementBufferCounters countCompressedBuffer
    dsimp only
    simp only [hn, u32, NUMBER_OF_BYTES_IN_SAMPLE, COMPRESSION_BUFFER_SIZE_IN_BYTES]
    have e1 : (s.samplesWritten + min (bound - s.samplesWritten) S) % 4294967296
        = s.samplesWritten + S := by omega
    have e2 : (s.buffersProcessed + 1) % 4294967296 = s.buffersProcessed + 1 := by omega
    have e3 : (s.numberOfCompressedBuffers + 2 * S / 512) % 4294967296
        = s.numberOfCompressedBuffers + 2 * S / 512 := by omega
    rw [e1, e2, e3]
    refine ⟨by omega, by omega, fun _ => by omega, ?_, fun h => by omega, fun _ => by omega,
      by omega⟩
    intro hne heq
    exfalso
    apply hne
    have : bound = (s.buffersProcessed + 1) * S := by omega
    rw [this]
    exact hmod
  · rw [c2] at he; cases he
  · rw [c3] at he; cases he
  · -- the buffer is written, after the marker of a pending run
    obtain ⟨f1, f2, f3, f4, f5, f6, f7, f8, f9⟩ :=
      flushCompressionBuffer_effect opportunistic storage s (by simpa using c2)
    obtain ⟨w1, w2, w3, w4, w5, w6, w7, w8, w9, w10⟩ :=
      writeSampleBuffer_effect opportunistic storage (numberOfSamplesToWrite S bound s)
        (flushCompressionBuffer opportunistic storage s) (by simpa using c3)
    have hbytes : sampleAndMarkerBytes (flushCompressionBuffer opportunistic storage s).calls
        + 2 * (flushCompressionBuffer opportunistic storage s).totalNumberOfCompressedSamples
        = sampleAndMarkerBytes s.calls + 2 * s.totalNumberOfCompressedSamples
          + 512 * s.numberOfCompressedBuffers ∧
        sampleAndMarkerBytes s.calls
          ≤ sampleAndMarkerBytes (flushCompressionBuffer opportunistic storage s).calls := by
      rcases Nat.eq_zero_or_pos s.numberOfCompressedBuffers with h0 | h0
      · rw [f1 h0, h0]; omega
      · obtain ⟨_, g2, g3⟩ := f2 h0
        rw [g2, g3, sampleAndMarkerBytes_append]
        simp only [sampleAndMarkerBytes, compressionBufferWrite, u32,
          COMPRESSION_BUFFER_SIZE_IN_BYTES, NUMBER_OF_BYTES_IN_SAMPLE]
        omega
    unfold accountingInvariant incrementBufferCounters
    dsimp only
    rw [w2, w3, w4, w5, w6, f3, f4, f5, sampleAndMarkerBytes_append]
    simp only [sampleAndMarkerBytes, sampleBufferWrite, hn, u32, NUMBER_OF_BYTES_IN_SAMPLE]
    obtain ⟨hb3, hb4⟩ := hbytes
    have e1 : (s.samplesWritten + min (bound - s.samplesWritten) S) % 4294967296
        = s.samplesWritten + min (bound - s.samplesWritten) S := by omega
    have e2 : (s.buffersProcessed + 1) % 4294967296 = s.buffersProcessed + 1 := by omega
    have e3 : 2 * min (bound - s.samplesWritten) S % 4294967296
        = 2 * min (bound - s.samplesWritten) S := by omega
    rw [e1, e2, e3]
    refine ⟨by omega, by omega, fun _ => by omega, fun _ _ => trivial, fun h => by omega, ?_,
      by omega⟩
    intro _
    rcases Nat.eq_zero_or_pos s.buffersProcessed with h0 | h0
    · have := a5 h0
      omega
    · have := a6 h0
      omega

/-- The loop bound is at least the header's length and at most `2 ^ 31 - 1`, whatever the
sample rate and the duration. -/
theorem samplesToWrite_bounds (rate dur : Nat) :
    244 ≤ samplesToWrite rate dur ∧ samplesToWrite rate dur ≤ 2147483647 ∧
      samplesToWrite rate dur = numberOfSamples rate dur + 244 ∧
      numberOfSamples rate dur ≤ 2147483403 := by
  have hmax : rate * maximumNumberOfSeconds rate ≤ 2147483403 := by
    unfold maximumNumberOfSeconds
    have : (MAXIMUM_WAV_FILE_SIZE - sizeofWavHeader) / NUMBER_OF_BYTES_IN_SAMPLE = 2147483403 := by
      decide
    rw [this]
    exact Nat.mul_div_le _ _
  have hn : numberOfSamples rate dur ≤ 2147483403 := by
    unfold numberOfSamples
    split_ifs with c
    · unfold u32
      exact le_trans (Nat.mod_le _ _) hmax
    · unfold u32
      refine le_trans (Nat.mod_le _ _) (le_trans (Nat.mul_le_mul_left rate ?_) hmax)
      omega
  have hh : numberOfSamplesInHeader = 244 := by decide
  unfold samplesToWrite
  rw [hh]
  unfold u32
  omega

theorem writeHeaderAndClose_effect (storage : Nat → Bool) (hd : WavHeaderDetails)
    (s : RecordingLoop) (he : (writeHeaderAndClose storage hd s).storageError = false) :
    (writeHeaderAndClose storage hd s).calls = s.calls ++
      [StorageCall.seekInFile 0,
        StorageCall.writeToFile (WriteSource.wavHeader hd) sizeofWavHeader,
        StorageCall.closeFile] ∧
    (writeHeaderAndClose storage hd s).samplesWritten = s.samplesWritten ∧
    (writeHeaderAndClose storage hd s).buffersProcessed = s.buffersProcessed ∧
    (writeHeaderAndClose storage hd s).totalNumberOfCompressedSamples
      = s.totalNumberOfCompressedSamples ∧
    (writeHeaderAndClose storage hd s).numberOfCompressedBuffers
      = s.numberOfCompressedBuffers := by
  unfold writeHeaderAndClose at he ⊢
  simp only [] at he ⊢
  split_ifs at he ⊢ with c1 c2
  · rw [c1] at he; cases he
  · rw [c2] at he; cases he
  · refine ⟨?_, rfl, rfl, rfl, rfl⟩
    show (s.calls ++ [_] ++ [_]) ++ [_] = _
    simp

/-- What the finalisation of the file changes when no storage call fails. -/
theorem finishRecording_effect (bound rate guano : Nat) (opportunistic fsl : Bool)
    (storage : Nat → Bool) (s : RecordingLoop)
    (he : (finishRecording bound rate guano opportunistic fsl storage s).1.storageError = false) :
    (flushCompressionBufferAtEnd bound opportunistic storage s).storageError = false ∧
    (finishRecording bound rate guano opportunistic fsl storage s).1.calls =
      (flushCompressionBufferAtEnd bound opportunistic storage s).calls ++
        [StorageCall.writeToFile WriteSource.guanoData guano,
          StorageCall.seekInFile 0,
          StorageCall.writeToFile (WriteSource.wavHeader
            (finishRecording bound rate guano opportunistic fsl storage s).2) sizeofWavHeader,
          StorageCall.closeFile] ∧
    (finishRecording bound rate guano opportunistic fsl storage s).1.samplesWritten =
      max numberOfSamplesInHeader
        (flushCompressionBufferAtEnd bound opportunistic storage s).samplesWritten ∧
    (finishRecording bound rate guano opportunistic fsl storage s).1.buffersProcessed =
      (flushCompressionBufferAtEnd bound opportunistic storage s).buffersProcessed ∧
    (finishRecording bound rate guano opportunistic fsl storage s).1.totalNumberOfCompressedSamples
      = (flushCompressionBufferAtEnd bound opportunistic storage s).totalNumberOfCompressedSamples ∧
    (finishRecording bound rate guano opportunistic fsl storage s).2.dataSize =
      u32 (NUMBER_OF_BYTES_IN_SAMPLE *
        sub32 (max numberOfSamplesInHeader
            (flushCompressionBufferAtEnd bound opportunistic storage s).samplesWritten
          - numberOfSamplesInHeader)
          (flushCompressionBufferAtEnd bound opportunistic storage s).totalNumberOfCompressedSamples)
    := by
  unfold finishRecording at he ⊢
  simp only [] at he ⊢
  split_ifs at he ⊢ with c1 c2
  · rw [c1] at he; cases he
  · rw [c2] at he; cases he
  · obtain ⟨w1, w2, w3, w4, w5⟩ := writeHeaderAndClose_effect storage _ _ he
    refine ⟨by simpa using c1, ?_, ?_, ?_, ?_, rfl⟩
    · rw [w1]
      show (_ ++ [_]) ++ _ = _
      simp
    · rw [w2]; rfl
    · rw [w3]; rfl
    · rw [w4]; rfl

/-- What the flush at the end changes when it does not fail. -/
theorem flushCompressionBufferAtEnd_effect (bound : Nat) (opportunistic : Bool)
    (storage : Nat → Bool) (s : RecordingLoop)
    (he : (flushCompressionBufferAtEnd bound opportunistic storage s).storageError = false) :
    (flushCompressionBufferAtEnd bound opportunistic storage s).samplesWritten
      = s.samplesWritten ∧
    (flushCompressionBufferAtEnd bound opportunistic storage s).buffersProcessed
      = s.buffersProcessed ∧
    (flushCompressionBufferAtEnd bound opportunistic storage s).numberOfCompressedBuffers
      = s.numberOfCompressedBuffers ∧
    ((s.samplesWritten < bound ∧ 0 < s.numberOfCompressedBuffers) →
      (flushCompressionBufferAtEnd bound opportunistic storage s).calls = s.calls ++
        [compressionBufferWrite s.numberOfCompressedBuffers] ∧
      (flushCompressionBufferAtEnd bound opportunistic storage s).totalNumberOfCompressedSamples =
        u32 (s.totalNumberOfCompressedSamples +
          u32 ((s.numberOfCompressedBuffers - 1) * COMPRESSION_BUFFER_SIZE_IN_BYTES)
            / NUMBER_OF_BYTES_IN_SAMPLE)) ∧
    (¬ (s.samplesWritten < bound ∧ 0 < s.numberOfCompressedBuffers) →
      flushCompressionBufferAtEnd bound opportunistic storage s = s) := by
  unfold flushCompressionBufferAtEnd at he ⊢
  split_ifs at he ⊢ with c
  · obtain ⟨w1, w2, w3, w4, w5, w6, _⟩ :=
      writeCompressionBuffer_effect opportunistic storage s he
    exact ⟨w5, w6, w4, fun _ => ⟨w2, w3⟩, fun hn => absurd c hn⟩
  · exact ⟨rfl, rfl, rfl, fun hc => absurd hc c, fun _ => rfl⟩

/-- The accounting invariant holds in whatever state `openAndRecord` ends without a storage
error. -/
theorem openAndRecord_accounting (S bound maxSize : Nat) (opportunistic : Bool) (cutoff : Nat)
    (storage : Nat → Bool) (total : Nat) (obs : List Observation)
    (hS : 0 < S) (hB : (2 * S) % 512 = 0) (hb1 : 244 ≤ bound) (hb2 : bound ≤ 2147483647)
    (s' : RecordingLoop)
    (h : openAndRecord S bound maxSize opportunistic cutoff storage (startOfRecording total) obs
      = Progress.finished s')
    (he : s'.storageError = false) : accountingInvariant S bound s' := by
  refine (openAndRecord_invariant S bound maxSize opportunistic cutoff storage
    (fun s => s.storageError = false → accountingInvariant S bound s)
    (startOfRecording total) obs ?_ ?_ ?_ ?_).1 s' h he
  · intro _
    unfold accountingInvariant
    show sampleAndMarkerBytes ([] ++ [StorageCall.openFile]) + 2 * 0 + 512 * 0 = 2 * 0 ∧ _
    refine ⟨rfl, Nat.zero_le _, fun _ => ?_, fun _ _ => rfl, fun _ => rfl, fun h0 => ?_,
      Nat.le_refl _⟩
    · show 0 = 0 * S
      omega
    · exact absurd h0 (Nat.lt_irrefl 0)
  · intro s o hI; exact hI
  · intro s o hI; exact hI
  · intro s flag hI he0 hc he1
    exact processBuffer_accounting S bound maxSize opportunistic storage flag s hS hB hb1 hb2
      (hI he0) hc he1

/-- The state after the finalisation of the file, when no storage call has failed and the
loop bound is not a whole number of buffers: the accounting is closed (no run is left
pending) and the header's data size is what the file holds after the header. -/
theorem finishRecording_accounting (S bound rate guano : Nat) (opportunistic fsl : Bool)
    (storage : Nat → Bool) (s : RecordingLoop)
    (hb2 : bound ≤ 2147483647) (hT : bound % S ≠ 0)
    (hI : accountingInvariant S bound s)
    (he : (finishRecording bound rate guano opportunistic fsl storage s).1.storageError = false) :
    (0 < (finishRecording bound rate guano opportunistic fsl storage s).1.buffersProcessed →
      sampleAndMarkerBytes (finishRecording bound rate guano opportunistic fsl storage s).1.calls
        + 2 * (finishRecording bound rate guano opportunistic fsl storage s).1.totalNumberOfCompressedSamples
        = 2 * (finishRecording bound rate guano opportunistic fsl storage s).1.samplesWritten ∧
      (finishRecording bound rate guano opportunistic fsl storage s).2.dataSize + sizeofWavHeader
        = sampleAndMarkerBytes
          (finishRecording bound rate guano opportunistic fsl storage s).1.calls) ∧
    ((finishRecording bound rate guano opportunistic fsl storage s).1.buffersProcessed = 0 →
      sampleAndMarkerBytes (finishRecording bound rate guano opportunistic fsl storage s).1.calls
        = 0 ∧
      (finishRecording bound rate guano opportunistic fsl storage s).1.totalNumberOfCompressedSamples
        = 0 ∧
      (finishRecording bound rate guano opportunistic fsl storage s).2.dataSize = 0) := by
  obtain ⟨g1, g2, g3, g4, g5, g6⟩ :=
    finishRecording_effect bound rate guano opportunistic fsl storage s he
  obtain ⟨f1, f2, f3, f4, f5⟩ :=
    flushCompressionBufferAtEnd_effect bound opportunistic storage s g1
  obtain ⟨a1, a2, a3, a4, a5, a6, a7⟩ := hI
  have hF : sampleAndMarkerBytes (flushCompressionBufferAtEnd bound opportunistic storage s).calls
      + 2 * (flushCompressionBufferAtEnd bound opportunistic storage s).totalNumberOfCompressedSamples
      = 2 * s.samplesWritten ∧
      sampleAndMarkerBytes s.calls
        ≤ sampleAndMarkerBytes (flushCompressionBufferAtEnd bound opportunistic storage s).calls
      := by
    by_cases c : s.samplesWritten < bound ∧ 0 < s.numberOfCompressedBuffers
    · obtain ⟨h1, h2⟩ := f4 c
      rw [h1, h2, sampleAndMarkerBytes_append]
      simp only [sampleAndMarkerBytes, compressionBufferWrite, u32,
        COMPRESSION_BUFFER_SIZE_IN_BYTES, NUMBER_OF_BYTES_IN_SAMPLE]
      omega
    · rw [f5 c]
      have : s.numberOfCompressedBuffers = 0 := by
        rcases Nat.eq_zero_or_pos s.numberOfCompressedBuffers with h0 | h0
        · exact h0
        · exact a4 hT (by omega)
      omega
  obtain ⟨hF1, hF2⟩ := hF
  have hcalls : sampleAndMarkerBytes
      (finishRecording bound rate guano opportunistic fsl storage s).1.calls
      = sampleAndMarkerBytes (flushCompressionBufferAtEnd bound opportunistic storage s).calls := by
    rw [g2, sampleAndMarkerBytes_append]
    simp [sampleAndMarkerBytes]
  rw [hcalls, g3, g4, g5, g6, f1, f2]
  have hh : numberOfSamplesInHeader = 244 := by decide
  have hw : sizeofWavHeader = 488 := by decide
  rw [hh, hw]
  unfold u32 sub32
  simp only [NUMBER_OF_BYTES_IN_SAMPLE]
  refine ⟨fun hp => ?_, fun hz => ?_⟩
  · have := a6 hp
    omega
  · have := a5 hz
    omega

/-- The sample rates the parser stores: after `handleSampleRate` has accepted a value, the
effective sample rate `sampleRate / sampleRateDivider` is the value requested, one of nine
multiples of 8, and `handleEnableEnergySaverMode` does not change it. -/
theorem handleSampleRate_effectiveSampleRate (atoi : List Nat → Int) (buffer : List Nat)
    (sampleRate sampleRateDivider : Nat)
    (h : handleSampleRate atoi buffer = some (sampleRate, sampleRateDivider)) :
    sampleRate / sampleRateDivider = (atoi buffer % 4294967296).toNat ∧
    sampleRate / sampleRateDivider % 8 = 0 ∧
    ∀ energySaverMode clockDivider sampleRate2 sampleRateDivider2 clockDivider2,
      handleEnableEnergySaverMode energySaverMode sampleRate sampleRateDivider clockDivider
        = some (sampleRate2, sampleRateDivider2, clockDivider2) →
      sampleRate2 / sampleRateDivider2 = sampleRate / sampleRateDivider := by
  unfold handleSampleRate at h
  dsimp only at h
  generalize (atoi buffer % 4294967296).toNat = value at h ⊢
  split_ifs at h with c1 c2
  · have hv : value = 250000 := c2
    simp only [Option.some.injEq, Prod.mk.injEq] at h
    obtain ⟨h1, h2⟩ := h
    subst hv
    subst h1
    subst h2
    refine ⟨by decide, by decide, ?_⟩
    intro m clk a b d hm
    unfold handleEnableEnergySaverMode at hm
    split_ifs at hm with d1 d2
    · simp only [Option.some.injEq, Prod.mk.injEq] at hm
      rw [← hm.1, ← hm.2.1]
    · exact absurd d2 (by decide)
  · simp only [Option.some.injEq, Prod.mk.injEq] at h
    obtain ⟨h1, h2⟩ := h
    subst h1
    subst h2
    have hcases : value = 8000 ∨ value = 16000 ∨ value = 24000 ∨ value = 32000 ∨
        value = 48000 ∨ value = 96000 ∨ value = 192000 ∨ value = 384000 := by omega
    have key : ∀ x : Nat, x = 8000 ∨ x = 16000 ∨ x = 24000 ∨ x = 32000 ∨
        x = 48000 ∨ x = 96000 ∨ x = 192000 ∨ x = 384000 →
        384000 / (384000 / x % 256) = x ∧ x % 8 = 0 ∧
        (384000 / x % 256 ≥ 8 → 384000 / 2 / (384000 / x % 256 / 2) = x) := by
      intro x hx
      rcases hx with h | h | h | h | h | h | h | h <;> subst h <;> decide
    obtain ⟨k1, k2, k3⟩ := key value hcases
    refine ⟨k1, by rw [k1]; exact k2, ?_⟩
    intro m clk a b d hm
    unfold handleEnableEnergySaverMode at hm
    split_ifs at hm with d1 d2
    · simp only [Option.some.injEq, Prod.mk.injEq] at hm
      rw [← hm.1, ← hm.2.1]
    · simp only [Option.some.injEq, Prod.mk.injEq] at hm
      rw [← hm.1, ← hm.2.1, k1]
      exact k3 d2

/-- An effective sample rate that is a multiple of 8 (as every rate the parser accepts is)
never gives a loop bound that is a whole number of buffers of a multiple of 256 samples. -/
theorem samplesToWrite_not_whole_buffers (rate dur S : Nat) (hr : rate % 8 = 0)
    (hB : (2 * S) % 512 = 0) : samplesToWrite rate dur % S ≠ 0 := by
  obtain ⟨_, _, h3, h4⟩ := samplesToWrite_bounds rate dur
  have hn : numberOfSamples rate dur % 8 = 0 := by
    unfold numberOfSamples u32
    obtain ⟨q, hq⟩ := Nat.dvd_of_mod_eq_zero hr
    generalize (if dur > maximumNumberOfSeconds rate then maximumNumberOfSeconds rate else dur)
      = x
    rw [hq, Nat.mul_assoc]
    omega
  intro h0
  obtain ⟨m, hm⟩ := Nat.dvd_of_mod_eq_zero h0
  have hS : S % 256 = 0 := by omega
  obtain ⟨j, hj⟩ := Nat.dvd_of_mod_eq_zero hS
  rw [h3, hj, Nat.mul_assoc] at hm
  omega

/-- C6: buffer accounting.  For a buffer length that is a positive multiple of 256 samples
and an effective sample rate that is a multiple of 8, every call of `makeRecording` that
returns without a storage error satisfies, for any flags, target duration and termination
point: the bytes written as sample buffers and marker blocks plus
`2 * totalNumberOfCompressedSamples` equal `2 * samplesWritten`, and the data size in the
header plus the length of the header (the start of the first buffer is the header's place)
equals the bytes written as sample buffers and marker blocks.  A call that consumed no
buffer wrote none, booked none and sets the data size 0 (only then is `samplesWritten`
raised after the loop, to the length of the header).  The sample rates the firmware
stores qualify: the default settings have an effective sample rate that is a multiple of 8,
every value `handleSampleRate` accepts gives one, and `handleEnableEnergySaverMode` keeps
it. -/
theorem makeRecording_buffer_accounting (sram : Nat) (cfg : CP_configSettings_t)
    (bk : BackupDomain) (dur day guano : Nat) (storage : Nat → Bool) (obs : List Observation)
    (r : RecordingResult)
    (hS : 0 < NUMBER_OF_SAMPLES_IN_BUFFER sram)
    (hB : (2 * NUMBER_OF_SAMPLES_IN_BUFFER sram) % 512 = 0)
    (hrate : effectiveSampleRate cfg bk.configurationIndexOfNextRecording % 8 = 0)
    (h : makeRecording sram cfg bk dur day guano storage obs = Progress.finished r)
    (he : r.recordingState ≠ AM_recordingState_t.SDCARD_WRITE_ERROR) :
    (0 < r.loop.buffersProcessed →
      sampleAndMarkerBytes r.calls + 2 * r.loop.totalNumberOfCompressedSamples
        = 2 * r.loop.samplesWritten ∧
      r.wavHeader.dataSize + sizeofWavHeader = sampleAndMarkerBytes r.calls) ∧
    (r.loop.buffersProcessed = 0 →
      sampleAndMarkerBytes r.calls = 0 ∧ r.loop.totalNumberOfCompressedSamples = 0 ∧
        r.wavHeader.dataSize = 0) ∧
    (∀ index, effectiveSampleRate defaultConfigSettings index % 8 = 0) ∧
    (∀ (atoi : List Nat → Int) (buffer : List Nat) (sampleRate sampleRateDivider : Nat),
      handleSampleRate atoi buffer = some (sampleRate, sampleRateDivider) →
      sampleRate / sampleRateDivider % 8 = 0 ∧
      ∀ energySaverMode clockDivider sampleRate2 sampleRateDivider2 clockDivider2,
        handleEnableEnergySaverMode energySaverMode sampleRate sampleRateDivider clockDivider
          = some (sampleRate2, sampleRateDivider2, clockDivider2) →
        sampleRate2 / sampleRateDivider2 % 8 = 0) := by
  have hacc : (0 < r.loop.buffersProcessed →
      sampleAndMarkerBytes r.calls + 2 * r.loop.totalNumberOfCompressedSamples
        = 2 * r.loop.samplesWritten ∧
      r.wavHeader.dataSize + sizeofWavHeader = sampleAndMarkerBytes r.calls) ∧
    (r.loop.buffersProcessed = 0 →
      sampleAndMarkerBytes r.calls = 0 ∧ r.loop.totalNumberOfCompressedSamples = 0 ∧
        r.wavHeader.dataSize = 0) := by
    obtain ⟨hb1, hb2, _, _⟩ := samplesToWrite_bounds
      (effectiveSampleRate cfg bk.configurationIndexOfNextRecording) dur
    rcases makeRecording_finished sram cfg bk dur day guano storage obs r h with
      ⟨h0, _, _, _, hl, hw⟩ | ⟨drained, hd, hcalls, _, hcase⟩
    · rw [h0, hl, hw]
      exact ⟨fun hp => absurd hp (Nat.lt_irrefl 0), fun _ => ⟨rfl, rfl, rfl⟩⟩
    · rcases hcase with ⟨_, _, hs⟩ | ⟨hde, hl, hw, hs⟩
      · exact absurd hs he
      · have hok : r.loop.storageError = false := by
          cases hc : r.loop.storageError with
          | false => rfl
          | true => rw [hc] at hs; exact absurd hs he
        have hI := openAndRecord_accounting _ _ _ _ _ storage _ obs hS hB hb1 hb2 drained hd hde
        have hT2 : samplesToWrite (effectiveSampleRate cfg bk.configurationIndexOfNextRecording)
            dur % NUMBER_OF_SAMPLES_IN_BUFFER sram ≠ 0 :=
          samplesToWrite_not_whole_buffers _ _ _ hrate hB
        rw [hcalls, hw, hl]
        rw [hl] at hok
        exact finishRecording_accounting _ _ _ _ _ _ storage drained hb2 hT2 hI hok
  refine ⟨hacc.1, hacc.2, fun index => by cases index <;> decide,
    fun atoi buffer sampleRate sampleRateDivider hr => ?_⟩
  obtain ⟨_, r2, r3⟩ := handleSampleRate_effectiveSampleRate atoi buffer sampleRate
    sampleRateDivider hr
  exact ⟨r2, fun m clk a b d hm => by rw [r3 m clk a b d hm]; exact r2⟩

/-- C6 (witness): Scenario B, 2 s at 48000 Hz with buffers of 16384 samples. -/
theorem makeRecording_buffer_accounting_witness :
    ∃ r, makeRecording exampleSramSizeInBytes defaultConfigSettings standardBackupDomain 2 0 300
        storageAlwaysSucceeds scenarioBObservations = Progress.finished r ∧
      r.recordingState = AM_recordingState_t.RECORDING_OKAY ∧
      r.loop.buffersProcessed = 6 ∧
      sampleAndMarkerBytes r.calls + 2 * r.loop.totalNumberOfCompressedSamples
        = 2 * r.loop.samplesWritten ∧
      r.wavHeader.dataSize + sizeofWavHeader = sampleAndMarkerBytes r.calls :=
  ⟨_, rfl, by decide, by decide,
    (makeRecording_buffer_accounting exampleSramSizeInBytes defaultConfigSettings
      standardBackupDomain 2 0 300 storageAlwaysSucceeds scenarioBObservations _
      (by decide) (by decide) (by decide) rfl (by decide)).1 (by decide)⟩

/-- Why the sample rate enters the accounting: at 32524 Hz, a rate that neither the default
settings nor `handleSampleRate` give, the loop bound of a one-second session is exactly two
buffers.  With the second buffer below the threshold the loop ends at the bound with the
run pending and no marker is written for it: 32768 bytes written plus 0 bytes booked stand
against 65536 bytes consumed, and the header's data size is 65048 for 32280 bytes of
samples in the file. -/
theorem makeRecording_whole_buffers_accounting :
    ∃ r, makeRecording exampleSramSizeInBytes wholeBuffersExample standardBackupDomain 1 0 300
        storageAlwaysSucceeds wholeBuffersObservations = Progress.finished r ∧
      r.recordingState = AM_recordingState_t.RECORDING_OKAY ∧
      sampleAndMarkerBytes r.calls = 32768 ∧
      r.loop.totalNumberOfCompressedSamples = 0 ∧
      r.loop.samplesWritten = 32768 ∧
      r.wavHeader.dataSize = 65048 ∧
      sampleAndMarkerBytes r.calls + 2 * r.loop.totalNumberOfCompressedSamples
        ≠ 2 * r.loop.samplesWritten ∧
      r.wavHeader.dataSize + sizeofWavHeader ≠ sampleAndMarkerBytes r.calls :=
  ⟨_, rfl, by decide, by decide, by decide, by decide, by decide, by decide, by decide⟩

/-! ## The recording session: the silence compressor -/

theorem storageCall_error (storage : Nat → Bool) (s : RecordingLoop) (c : StorageCall) :
    (storageCall storage s c).storageError = !storage s.calls.length := rfl

/-- The count a marker block stands for is the one it was made from. -/
theorem decodeCompressionBuffer_encode (n : Nat) (hn : n < 4294967296) :
    decodeCompressionBuffer (encodeCompressionBuffer n) = n := by
  have hlen : (encodeCompressionBits 32 n).length = 32 := encodeCompressionBits_length 32 n
  unfold decodeCompressionBuffer encodeCompressionBuffer
  simp only [UINT32_SIZE_IN_BITS]
  rw [List.take_left' hlen, decode_encodeCompressionBits]
  exact Nat.mod_eq_of_lt (by omega)

/-- The pass of the loop body that skips a buffer. -/
theorem processBuffer_skip (S bound maxSize : Nat) (opportunistic : Bool)
    (storage : Nat → Bool) (s : RecordingLoop)
    (hbp : 0 < s.buffersProcessed) (hfull : numberOfSamplesToWrite S bound s = S) :
    processBuffer S bound maxSize opportunistic storage false s =
      incrementBufferCounters maxSize opportunistic S (countCompressedBuffer S s) := by
  unfold processBuffer
  rw [if_pos ⟨rfl, hbp, hfull⟩, hfull]

/-- The pass of the loop body that writes a buffer, for the calls it makes. -/
theorem processBuffer_write (S bound maxSize : Nat) (opportunistic : Bool)
    (storage : Nat → Bool) (flag : Bool) (s : RecordingLoop)
    (hw : ¬ (flag = false ∧ 0 < s.buffersProcessed ∧ numberOfSamplesToWrite S bound s = S)) :
    processBuffer S bound maxSize opportunistic storage flag s =
      if (flushCompressionBuffer opportunistic storage s).storageError then
        flushCompressionBuffer opportunistic storage s
      else if (writeSampleBuffer opportunistic storage (numberOfSamplesToWrite S bound s)
          (flushCompressionBuffer opportunistic storage s)).storageError then
        writeSampleBuffer opportunistic storage (numberOfSamplesToWrite S bound s)
          (flushCompressionBuffer opportunistic storage s)
      else
        incrementBufferCounters maxSize opportunistic (numberOfSamplesToWrite S bound s)
          (writeSampleBuffer opportunistic storage (numberOfSamplesToWrite S bound s)
            (flushCompressionBuffer opportunistic storage s)) := by
  unfold processBuffer
  rw [if_neg]
  intro h
  apply hw
  refine ⟨?_, h.2.1, h.2.2⟩
  have := h.1
  cases flag
  · rfl
  · simp at this

/-- A run of `k` skipped buffers: nothing is written, the run counter grows by the number
of 512-byte blocks in `k` buffers. -/
theorem processBuffer_skip_run (S bound maxSize : Nat) (opportunistic : Bool)
    (storage : Nat → Bool) (hS : 0 < S) (hb2 : bound ≤ 2147483647) (k : Nat)
    (s : RecordingLoop)
    (hbp : 0 < s.buffersProcessed) (hbs : s.buffersProcessed ≤ s.samplesWritten)
    (hfull : s.samplesWritten + k * S ≤ bound)
    (hn : s.numberOfCompressedBuffers + k * (2 * S / 512) ≤ 4294967295) :
    ((processBuffer S bound maxSize opportunistic storage false)^[k] s).calls = s.calls ∧
    ((processBuffer S bound maxSize opportunistic storage false)^[k] s).storageError
      = s.storageError ∧
    ((processBuffer S bound maxSize opportunistic storage false)^[k] s).numberOfCompressedBuffers
      = s.numberOfCompressedBuffers + k * (2 * S / 512) ∧
    ((processBuffer S bound maxSize opportunistic storage false)^[k] s).samplesWritten
      = s.samplesWritten + k * S ∧
    ((processBuffer S bound maxSize opportunistic storage false)^[k] s).buffersProcessed
      = s.buffersProcessed + k ∧
    ((processBuffer S bound maxSize opportunistic storage false)^[k] s).totalNumberOfCompressedSamples
      = s.totalNumberOfCompressedSamples ∧
    (0 < k → ((processBuffer S bound maxSize opportunistic storage false)^[k] s).readBuffer
      = (s.readBuffer + k) % 8) := by
  induction k with
  | zero =>
    simp
  | succ k ih =>
    have hmul : (k + 1) * S = k * S + S := Nat.succ_mul _ _
    have hmul2 : (k + 1) * (2 * S / 512) = k * (2 * S / 512) + 2 * S / 512 := Nat.succ_mul _ _
    have hkS : k ≤ k * S := Nat.le_mul_of_pos_right k hS
    obtain ⟨i1, i2, i3, i4, i5, i6, i7⟩ := ih (by omega) (by omega)
    rw [Function.iterate_succ_apply']
    have hz : k = 0 →
        ((processBuffer S bound maxSize opportunistic storage false)^[k] s).readBuffer
          = s.readBuffer := by
      intro h; subst h; rfl
    generalize (processBuffer S bound maxSize opportunistic storage false)^[k] s = s1 at *
    have hfull1 : numberOfSamplesToWrite S bound s1 = S := by
      unfold numberOfSamplesToWrite sub32
      rw [i4]
      omega
    rw [processBuffer_skip S bound maxSize opportunistic storage s1 (by omega) hfull1]
    unfold incrementBufferCounters countCompressedBuffer
    dsimp only
    simp only [u32, NUMBER_OF_BYTES_IN_SAMPLE, COMPRESSION_BUFFER_SIZE_IN_BYTES,
      NUMBER_OF_BUFFERS]
    rw [i3, i4, i5]
    refine ⟨i1, i2, by omega, by omega, by omega, i6, fun _ => ?_⟩
    rcases Nat.eq_zero_or_pos k with hk | hk
    · rw [hz hk, hk]
    · rw [i7 hk]
      omega

/-- C7 (amended): in a state of the loop with no run pending and at least one buffer
processed, let `k >= 1` passes of the loop body meet full-length buffers below the threshold
and let the next pass meet a buffer that must be written (above the threshold, or partial),
with the two storage calls successful.  The `k` passes write nothing; the next pass writes
exactly one marker block and then the buffer; the marker stands for `k * (2 * S / 512)`, the
run in blocks of 512 bytes (`S` the buffer length in samples, a positive multiple of 256); the
run counter is zero afterwards; and `totalNumberOfCompressedSamples` has grown by
`(k * (2 * S / 512) - 1) * 256 = k * S - 256` samples, the `k` buffers less the marker
block. -/
theorem processBuffer_silence_run (S bound maxSize : Nat) (opportunistic : Bool)
    (storage : Nat → Bool) (flag : Bool) (k : Nat) (s : RecordingLoop)
    (hS : 0 < S) (hB : (2 * S) % 512 = 0) (hb2 : bound ≤ 2147483647) (hk : 1 ≤ k)
    (h0 : s.numberOfCompressedBuffers = 0) (hbp : 0 < s.buffersProcessed)
    (hbs : s.buffersProcessed ≤ s.samplesWritten)
    (htot : s.totalNumberOfCompressedSamples ≤ s.samplesWritten)
    (hfull : s.samplesWritten + k * S < bound)
    (hwrite : flag = true ∨ bound - (s.samplesWritten + k * S) < S)
    (hst : storage s.calls.length = true ∧ storage (s.calls.length + 1) = true) :
    ((processBuffer S bound maxSize opportunistic storage false)^[k] s).calls = s.calls ∧
    (processBuffer S bound maxSize opportunistic storage flag
        ((processBuffer S bound maxSize opportunistic storage false)^[k] s)).calls
      = s.calls ++
        [compressionBufferWrite (k * (2 * S / 512)),
          sampleBufferWrite ((s.readBuffer + k) % NUMBER_OF_BUFFERS)
            (min (bound - (s.samplesWritten + k * S)) S)] ∧
    decodeCompressionBuffer (encodeCompressionBuffer (k * (2 * S / 512)))
      = k * (2 * S / 512) ∧
    (processBuffer S bound maxSize opportunistic storage flag
        ((processBuffer S bound maxSize opportunistic storage false)^[k] s)).storageError
      = false ∧
    (processBuffer S bound maxSize opportunistic storage flag
        ((processBuffer S bound maxSize opportunistic storage false)^[k] s)).numberOfCompressedBuffers
      = 0 ∧
    (processBuffer S bound maxSize opportunistic storage flag
        ((processBuffer S bound maxSize opportunistic storage false)^[k] s)).totalNumberOfCompressedSamples
      = s.totalNumberOfCompressedSamples + (k * (2 * S / 512) - 1) * 256 ∧
    (k * (2 * S / 512) - 1) * 256 = k * S - 256 := by
  have hblk : 2 * S / 512 ≤ S := by omega
  have hkb : k * (2 * S / 512) ≤ k * S := Nat.mul_le_mul_left k hblk
  have hk1 : 1 * (2 * S / 512) ≤ k * (2 * S / 512) := Nat.mul_le_mul_right _ hk
  have hk2 : 1 * S ≤ k * S := Nat.mul_le_mul_right _ hk
  have hkS : k * (2 * S / 512) * 256 = k * S := by
    have : 2 * S / 512 * 256 = S := by omega
    rw [Nat.mul_assoc, this]
  obtain ⟨i1, i2, i3, i4, i5, i6, i7⟩ := processBuffer_skip_run S bound maxSize opportunistic
    storage hS hb2 k s hbp hbs (by omega) (by omega)
  have i7' := i7 (by omega)
  generalize (processBuffer S bound maxSize opportunistic storage false)^[k] s = s1 at *
  rw [h0, Nat.zero_add] at i3
  have hnum : numberOfSamplesToWrite S bound s1 = min (bound - (s.samplesWritten + k * S)) S := by
    unfold numberOfSamplesToWrite sub32
    rw [i4]
    congr 1
    omega
  have hw : ¬ (flag = false ∧ 0 < s1.buffersProcessed ∧ numberOfSamplesToWrite S bound s1 = S) := by
    rintro ⟨hf, _, hn⟩
    rcases hwrite with h | h
    · rw [hf] at h; cases h
    · rw [hnum] at hn; omega
  have hpos : 0 < s1.numberOfCompressedBuffers := by omega
  have hwc : (writeCompressionBuffer opportunistic storage s1).storageError = false := by
    unfold writeCompressionBuffer
    have : (storageCall storage (bookCompressedSamples s1)
        (compressionBufferWrite s1.numberOfCompressedBuffers)).storageError = false := by
      rw [storageCall_error]
      show (!storage s1.calls.length) = false
      rw [i1, hst.1]; rfl
    rw [if_neg (by rw [this]; decide)]
    exact this
  have hfe : (flushCompressionBuffer opportunistic storage s1).storageError = false := by
    unfold flushCompressionBuffer
    rw [if_pos hpos, if_neg (by rw [hwc]; decide)]
    exact hwc
  obtain ⟨_, f2, f3, f4, f5, f6, _⟩ := flushCompressionBuffer_effect opportunistic storage s1 hfe
  obtain ⟨_, g2, g3⟩ := f2 hpos
  have hse : (writeSampleBuffer opportunistic storage (numberOfSamplesToWrite S bound s1)
      (flushCompressionBuffer opportunistic storage s1)).storageError = false := by
    unfold writeSampleBuffer
    have : (storageCall storage (flushCompressionBuffer opportunistic storage s1)
        (sampleBufferWrite (flushCompressionBuffer opportunistic storage s1).readBuffer
          (numberOfSamplesToWrite S bound s1))).storageError = false := by
      rw [storageCall_error, g2, i1, List.length_append, List.length_singleton, hst.2]; rfl
    rw [if_neg (by rw [this]; decide)]
    exact this
  obtain ⟨_, w2, w3, w4, w5, w6, w7, _⟩ := writeSampleBuffer_effect opportunistic storage
    (numberOfSamplesToWrite S bound s1) (flushCompressionBuffer opportunistic storage s1) hse
  rw [processBuffer_write S bound maxSize opportunistic storage flag s1 hw,
    if_neg (by rw [hfe]; decide), if_neg (by rw [hse]; decide)]
  refine ⟨i1, ?_, decodeCompressionBuffer_encode _ (by omega), hse, ?_, ?_, by omega⟩
  · show (writeSampleBuffer opportunistic storage (numberOfSamplesToWrite S bound s1)
      (flushCompressionBuffer opportunistic storage s1)).calls = _
    rw [w2, g2, f6, i1, i3, i7', hnum, List.append_assoc]
    rfl
  · show (writeSampleBuffer opportunistic storage (numberOfSamplesToWrite S bound s1)
      (flushCompressionBuffer opportunistic storage s1)).numberOfCompressedBuffers = _
    rw [w4, f3]
  · show (writeSampleBuffer opportunistic storage (numberOfSamplesToWrite S bound s1)
      (flushCompressionBuffer opportunistic storage s1)).totalNumberOfCompressedSamples = _
    rw [w3, g3, i3, i6]
    simp only [u32, COMPRESSION_BUFFER_SIZE_IN_BYTES, NUMBER_OF_BYTES_IN_SAMPLE]
    have e : (k * (2 * S / 512) - 1) * 512 = 2 * ((k * (2 * S / 512) - 1) * 256) := by omega
    rw [e]
    omega

/-- C7 (witness): Scenario B at the level of the loop body.  After the first buffer, three
buffers of 16384 samples are skipped and the fifth is above the threshold: the marker
stands for 192 blocks of 512 bytes and 48896 samples are booked as elided. -/
theorem processBuffer_silence_run_witness :
    (processBuffer 16384 96244 0 false storageAlwaysSucceeds true
        ((processBuffer 16384 96244 0 false storageAlwaysSucceeds false)^[3]
          scenarioBFirstBuffer)).calls
      = scenarioBFirstBuffer.calls ++
        [compressionBufferWrite 192, sampleBufferWrite 4 16384] ∧
    decodeCompressionBuffer (encodeCompressionBuffer 192) = 192 ∧
    (processBuffer 16384 96244 0 false storageAlwaysSucceeds true
        ((processBuffer 16384 96244 0 false storageAlwaysSucceeds false)^[3]
          scenarioBFirstBuffer)).numberOfCompressedBuffers = 0 ∧
    (processBuffer 16384 96244 0 false storageAlwaysSucceeds true
        ((processBuffer 16384 96244 0 false storageAlwaysSucceeds false)^[3]
          scenarioBFirstBuffer)).totalNumberOfCompressedSamples = 48896 :=
  have h := processBuffer_silence_run 16384 96244 0 false storageAlwaysSucceeds true 3
    scenarioBFirstBuffer (by decide) (by decide) (by decide) (by decide) (by decide)
    (by decide) (by decide) (by decide) (by decide) (by decide) (by decide)
  ⟨h.2.1, h.2.2.1, h.2.2.2.2.1, h.2.2.2.2.2.1⟩

/-- C7 (counterexample): Scenario B with buffers of 16384 samples.  The one marker, written
between the first buffer and the buffer above the threshold, stands for 192, not for 3, and
the samples booked as elided are 48896 (three buffers less the 256 samples of the marker),
not the 32768 of two buffers. -/
theorem makeRecording_silence_run_counterexample :
    ∃ r, makeRecording exampleSramSizeInBytes defaultConfigSettings standardBackupDomain 2 0 300
        storageAlwaysSucceeds scenarioBObservations = Progress.finished r ∧
      NUMBER_OF_SAMPLES_IN_BUFFER exampleSramSizeInBytes = 16384 ∧
      bytesWritten r.calls = [0, 32768, 512, 32768, 28648, 300, 0, 488, 0] ∧
      markerRunCounts r.calls = [192] ∧
      r.loop.totalNumberOfCompressedSamples = 48896 ∧
      r.loop.totalNumberOfCompressedSamples
        ≠ (3 - 1) * NUMBER_OF_SAMPLES_IN_BUFFER exampleSramSizeInBytes :=
  ⟨_, rfl, by decide, by decide, by decide, by decide, by decide⟩

theorem writeCompressionBuffer_calls (opportunistic : Bool) (storage : Nat → Bool)
    (s : RecordingLoop) :
    (writeCompressionBuffer opportunistic storage s).calls
      = s.calls ++ [compressionBufferWrite s.numberOfCompressedBuffers] := by
  unfold writeCompressionBuffer
  split_ifs <;> rfl

theorem writeSampleBuffer_calls (opportunistic : Bool) (storage : Nat → Bool) (n : Nat)
    (s : RecordingLoop) :
    (writeSampleBuffer opportunistic storage n s).calls
      = s.calls ++ [sampleBufferWrite s.readBuffer n] := by
  unfold writeSampleBuffer
  split_ifs <;> rfl

theorem flushCompressionBuffer_calls (opportunistic : Bool) (storage : Nat → Bool)
    (s : RecordingLoop) :
    (flushCompressionBuffer opportunistic storage s).calls
      = s.calls ++ (if 0 < s.numberOfCompressedBuffers then
          [compressionBufferWrite s.numberOfCompressedBuffers] else []) ∧
    (flushCompressionBuffer opportunistic storage s).readBuffer = s.readBuffer ∧
    (s.numberOfCompressedBuffers = 0 → flushCompressionBuffer opportunistic storage s = s) := by
  have hr : (writeCompressionBuffer opportunistic storage s).readBuffer = s.readBuffer := by
    unfold writeCompressionBuffer
    split_ifs <;> rfl
  unfold flushCompressionBuffer
  split_ifs with c1 c2
  · exact ⟨writeCompressionBuffer_calls opportunistic storage s, hr,
      fun h => absurd h (by omega)⟩
  · exact ⟨writeCompressionBuffer_calls opportunistic storage s, hr,
      fun h => absurd h (by omega)⟩
  · exact ⟨(List.append_nil _).symm, rfl, fun _ => rfl⟩

/-- The calls one pass of the loop body adds to the log are writes of samples or of marker
blocks. -/
theorem processBuffer_calls (S bound maxSize : Nat) (opportunistic : Bool)
    (storage : Nat → Bool) (flag : Bool) (s : RecordingLoop) :
    ∃ more, (processBuffer S bound maxSize opportunistic storage flag s).calls = s.calls ++ more ∧
      ∀ c ∈ more, isSampleOrMarkerWrite c = true := by
  obtain ⟨f1, _, _⟩ := flushCompressionBuffer_calls opportunistic storage s
  have hm : ∀ c ∈ (if 0 < s.numberOfCompressedBuffers then
      [compressionBufferWrite s.numberOfCompressedBuffers] else []),
      isSampleOrMarkerWrite c = true := by
    intro c hc
    split_ifs at hc
    · rw [List.mem_singleton] at hc
      rw [hc]; rfl
    · cases hc
  unfold processBuffer
  simp only []
  split_ifs with c1 c2 c3
  · exact ⟨[], (List.append_nil _).symm, fun c hc => by cases hc⟩
  · exact ⟨_, f1, hm⟩
  · refine ⟨(if 0 < s.numberOfCompressedBuffers then
        [compressionBufferWrite s.numberOfCompressedBuffers] else []) ++
      [sampleBufferWrite (flushCompressionBuffer opportunistic storage s).readBuffer
        (numberOfSamplesToWrite S bound s)], ?_, ?_⟩
    · rw [writeSampleBuffer_calls, f1, List.append_assoc]
    · intro c hc
      rcases List.mem_append.1 hc with h | h
      · exact hm c h
      · rw [List.mem_singleton] at h
        rw [h]; rfl
  · refine ⟨(if 0 < s.numberOfCompressedBuffers then
        [compressionBufferWrite s.numberOfCompressedBuffers] else []) ++
      [sampleBufferWrite (flushCompressionBuffer opportunistic storage s).readBuffer
        (numberOfSamplesToWrite S bound s)], ?_, ?_⟩
    · show (writeSampleBuffer opportunistic storage _ _).calls = _
      rw [writeSampleBuffer_calls, f1, List.append_assoc]
    · intro c hc
      rcases List.mem_append.1 hc with h | h
      · exact hm c h
      · rw [List.mem_singleton] at h
        rw [h]; rfl

/-- C17: one pass of the loop body, entered without a storage error, makes no storage call
exactly when the flag of the buffer is false, at least one buffer has been processed and
`numberOfSamplesToWrite` equals `NUMBER_OF_SAMPLES_IN_BUFFER` (`S`).  In that case the run
counter grows by `NUMBER_OF_BYTES_IN_SAMPLE * S / COMPRESSION_BUFFER_SIZE_IN_BYTES` (as a
32-bit value); otherwise the pass, when no call fails, writes the marker of a pending run and
then the `numberOfSamplesToWrite` samples of the buffer and leaves the run counter at zero.
In particular the first buffer of a session and a partial buffer are never skipped. -/
theorem processBuffer_skip_rule (S bound maxSize : Nat) (opportunistic : Bool)
    (storage : Nat → Bool) (flag : Bool) (s : RecordingLoop) (he : s.storageError = false) :
    ((processBuffer S bound maxSize opportunistic storage flag s).calls = s.calls ↔
      (flag = false ∧ 0 < s.buffersProcessed ∧ numberOfSamplesToWrite S bound s = S)) ∧
    ((flag = false ∧ 0 < s.buffersProcessed ∧ numberOfSamplesToWrite S bound s = S) →
      (processBuffer S bound maxSize opportunistic storage flag s).storageError = false ∧
      (processBuffer S bound maxSize opportunistic storage flag s).numberOfCompressedBuffers
        = u32 (s.numberOfCompressedBuffers
          + NUMBER_OF_BYTES_IN_SAMPLE * S / COMPRESSION_BUFFER_SIZE_IN_BYTES)) ∧
    (¬ (flag = false ∧ 0 < s.buffersProcessed ∧ numberOfSamplesToWrite S bound s = S) →
      (processBuffer S bound maxSize opportunistic storage flag s).storageError = false →
      (processBuffer S bound maxSize opportunistic storage flag s).calls
        = s.calls ++ (if 0 < s.numberOfCompressedBuffers then
            [compressionBufferWrite s.numberOfCompressedBuffers] else [])
          ++ [sampleBufferWrite s.readBuffer (numberOfSamplesToWrite S bound s)] ∧
      (processBuffer S bound maxSize opportunistic storage flag s).numberOfCompressedBuffers
        = 0) ∧
    (s.buffersProcessed = 0 →
      (processBuffer S bound maxSize opportunistic storage flag s).calls ≠ s.calls) ∧
    (numberOfSamplesToWrite S bound s ≠ S →
      (processBuffer S bound maxSize opportunistic storage flag s).calls ≠ s.calls) := by
  have hskip : (flag = false ∧ 0 < s.buffersProcessed ∧ numberOfSamplesToWrite S bound s = S) →
      (processBuffer S bound maxSize opportunistic storage flag s).calls = s.calls ∧
      (processBuffer S bound maxSize opportunistic storage flag s).storageError = false ∧
      (processBuffer S bound maxSize opportunistic storage flag s).numberOfCompressedBuffers
        = u32 (s.numberOfCompressedBuffers
          + NUMBER_OF_BYTES_IN_SAMPLE * S / COMPRESSION_BUFFER_SIZE_IN_BYTES) := by
    rintro ⟨hf, hbp, hfull⟩
    subst hf
    rw [processBuffer_skip S bound maxSize opportunistic storage s hbp hfull]
    exact ⟨rfl, he, rfl⟩
  obtain ⟨f1, f2, f3⟩ := flushCompressionBuffer_calls opportunistic storage s
  have hwrite : ¬ (flag = false ∧ 0 < s.buffersProcessed ∧ numberOfSamplesToWrite S bound s = S) →
      (processBuffer S bound maxSize opportunistic storage flag s).calls ≠ s.calls ∧
      ((processBuffer S bound maxSize opportunistic storage flag s).storageError = false →
      (processBuffer S bound maxSize opportunistic storage flag s).calls
        = s.calls ++ (if 0 < s.numberOfCompressedBuffers then
            [compressionBufferWrite s.numberOfCompressedBuffers] else [])
          ++ [sampleBufferWrite s.readBuffer (numberOfSamplesToWrite S bound s)] ∧
      (processBuffer S bound maxSize opportunistic storage flag s).numberOfCompressedBuffers
        = 0) := by
    intro hw
    have hlen : ∀ (l m : List StorageCall), m ≠ [] → l ++ m ≠ l := by
      intro l m hm h
      apply hm
      have := congrArg List.length h
      rw [List.length_append] at this
      exact List.length_eq_zero.1 (by omega)
    rw [processBuffer_write S bound maxSize opportunistic storage flag s hw]
    by_cases c1 : (flushCompressionBuffer opportunistic storage s).storageError = true
    · rw [if_pos c1]
      refine ⟨?_, fun h => ?_⟩
      · rw [f1]
        apply hlen
        by_cases c0 : 0 < s.numberOfCompressedBuffers
        · rw [if_pos c0]; simp
        · exfalso
          have := f3 (by omega)
          rw [this, he] at c1
          cases c1
      · rw [c1] at h; cases h
    · rw [if_neg c1]
      by_cases c2 : (writeSampleBuffer opportunistic storage (numberOfSamplesToWrite S bound s)
          (flushCompressionBuffer opportunistic storage s)).storageError = true
      · rw [if_pos c2]
        refine ⟨?_, fun h => ?_⟩
        · rw [writeSampleBuffer_calls, f1, List.append_assoc]
          apply hlen
          simp
        · rw [c2] at h; cases h
      · rw [if_neg c2]
        obtain ⟨_, _, g3, _⟩ := flushCompressionBuffer_effect opportunistic storage s
          (by simpa using c1)
        obtain ⟨_, w2, _, w4, _⟩ := writeSampleBuffer_effect opportunistic storage
          (numberOfSamplesToWrite S bound s) (flushCompressionBuffer opportunistic storage s)
          (by simpa using c2)
        refine ⟨?_, fun _ => ⟨?_, ?_⟩⟩
        · show (writeSampleBuffer opportunistic storage _ _).calls ≠ _
          rw [writeSampleBuffer_calls, f1, List.append_assoc]
          apply hlen
          simp
        · show (writeSampleBuffer opportunistic storage _ _).calls = _
          rw [w2, f1, f2]
        · show (writeSampleBuffer opportunistic storage _ _).numberOfCompressedBuffers = _
          rw [w4, g3]
  refine ⟨⟨fun h => ?_, fun h => (hskip h).1⟩, fun h => (hskip h).2, fun h => (hwrite h).2,
    fun h => (hwrite (fun c => by omega)).1, fun h => (hwrite (fun c => h c.2.2)).1⟩
  by_contra hc
  exact (hwrite hc).1 h

/-- C17 (witness): in Scenario B the second buffer of the session, full-length and below the
threshold, is skipped. -/
theorem processBuffer_skip_rule_witness :
    scenarioBFirstBuffer.storageError = false ∧
    (processBuffer 16384 96244 0 false storageAlwaysSucceeds false scenarioBFirstBuffer).calls
      = scenarioBFirstBuffer.calls ∧
    (processBuffer 16384 96244 0 false storageAlwaysSucceeds false
      scenarioBFirstBuffer).numberOfCompressedBuffers = 64 :=
  ⟨by decide,
    (processBuffer_skip_rule 16384 96244 0 false storageAlwaysSucceeds false
      scenarioBFirstBuffer (by decide)).1.2 (by decide),
    ((processBuffer_skip_rule 16384 96244 0 false storageAlwaysSucceeds false
      scenarioBFirstBuffer (by decide)).2.1 (by decide)).2⟩

/-! ## The recording session: the order of the storage calls -/

/-- Once the file is open, the log is the open call followed by writes of samples and of
marker blocks, however the loop ends. -/
theorem openAndRecord_calls (S bound maxSize : Nat) (opportunistic : Bool) (cutoff : Nat)
    (storage : Nat → Bool) (total : Nat) (obs : List Observation) :
    (∀ s', openAndRecord S bound maxSize opportunistic cutoff storage (startOfRecording total) obs
        = Progress.finished s' →
      ∃ writes, s'.calls = StorageCall.openFile :: writes ∧
        ∀ c ∈ writes, isSampleOrMarkerWrite c = true) ∧
    (∀ s', openAndRecord S bound maxSize opportunistic cutoff storage (startOfRecording total) obs
        = Progress.waiting s' →
      ∃ writes, s'.calls = StorageCall.openFile :: writes ∧
        ∀ c ∈ writes, isSampleOrMarkerWrite c = true) := by
  have h := openAndRecord_invariant S bound maxSize opportunistic cutoff storage
    (fun s => ∃ writes, s.calls = StorageCall.openFile :: writes ∧
        ∀ c ∈ writes, isSampleOrMarkerWrite c = true)
    (startOfRecording total) obs ⟨[], rfl, fun c hc => by cases hc⟩
    (fun s o hI => hI) (fun s o hI => hI)
    (fun s flag hI _ _ => by
      obtain ⟨writes, h1, h2⟩ := hI
      obtain ⟨more, m1, m2⟩ := processBuffer_calls S bound maxSize opportunistic storage flag s
      refine ⟨writes ++ more, ?_, ?_⟩
      · rw [m1, h1]; rfl
      · intro c hc
        rcases List.mem_append.1 hc with h | h
        · exact h2 c h
        · exact m2 c h)
  exact ⟨h.1, fun s' hs => (h.2 s' hs).1⟩

theorem finishRecording_run_counter (bound rate guano : Nat) (opportunistic fsl : Bool)
    (storage : Nat → Bool) (s : RecordingLoop)
    (he : (finishRecording bound rate guano opportunistic fsl storage s).1.storageError = false) :
    (finishRecording bound rate guano opportunistic fsl storage s).1.numberOfCompressedBuffers
      = s.numberOfCompressedBuffers := by
  obtain ⟨g1, _⟩ := finishRecording_effect bound rate guano opportunistic fsl storage s he
  obtain ⟨_, _, f3, _⟩ := flushCompressionBufferAtEnd_effect bound opportunistic storage s g1
  unfold finishRecording at he ⊢
  simp only [] at he ⊢
  split_ifs at he ⊢ with c1 c2
  · rw [c1] at he; cases he
  · rw [c2] at he; cases he
  · obtain ⟨_, _, _, _, w5⟩ := writeHeaderAndClose_effect storage _ _ he
    rw [w5]
    exact f3

/-- The finalisation only adds calls to the log. -/
theorem finishRecording_calls_prefix (bound rate guano : Nat) (opportunistic fsl : Bool)
    (storage : Nat → Bool) (s : RecordingLoop) :
    s.calls <+: (finishRecording bound rate guano opportunistic fsl storage s).1.calls := by
  have hsc : ∀ (t : RecordingLoop) (c : StorageCall),
      t.calls <+: (storageCall storage t c).calls := fun t c => List.prefix_append _ _
  have hfl : s.calls <+: (flushCompressionBufferAtEnd bound opportunistic storage s).calls := by
    unfold flushCompressionBufferAtEnd
    split_ifs
    · rw [writeCompressionBuffer_calls]
      exact List.prefix_append _ _
    · exact List.prefix_refl _
  have hwh : ∀ (hd : WavHeaderDetails) (t : RecordingLoop),
      t.calls <+: (writeHeaderAndClose storage hd t).calls := by
    intro hd t
    unfold writeHeaderAndClose
    simp only []
    split_ifs
    · exact hsc _ _
    · exact (hsc t _).trans (hsc _ _)
    · exact ((hsc t _).trans (hsc _ _)).trans (hsc _ _)
  have hwh' : ∀ (hd : WavHeaderDetails) (t : RecordingLoop),
      t.calls <+: (writeHeaderAndClose storage hd (raiseSamplesWritten t)).calls :=
    fun hd t => hwh hd (raiseSamplesWritten t)
  unfold finishRecording
  simp only []
  split_ifs
  · exact hfl
  · exact hfl.trans (hsc _ _)
  · have h3 : (storageCall storage (flushCompressionBufferAtEnd bound opportunistic storage s)
        (StorageCall.writeToFile WriteSource.guanoData guano)).calls <+:
        (writeHeaderAndClose storage
          (finalWavHeader rate guano fsl (raiseSamplesWritten
            (storageCall storage (flushCompressionBufferAtEnd bound opportunistic storage s)
              (StorageCall.writeToFile WriteSource.guanoData guano))))
          (raiseSamplesWritten
            (storageCall storage (flushCompressionBufferAtEnd bound opportunistic storage s)
              (StorageCall.writeToFile WriteSource.guanoData guano)))).calls :=
      hwh' _ _
    exact (hfl.trans (hsc _ _)).trans h3

/-- C11 (amended): a call of `makeRecording` that returns a state other than
`SDCARD_WRITE_ERROR` (so `SUPPLY_VOLTAGE_LOW`, `SWITCH_CHANGED`, `FILE_SIZE_LIMITED`,
`TOTAL_FILE_SIZE_LIMITED` or `RECORDING_OKAY`) either returned `TOTAL_FILE_SIZE_LIMITED` from
the check of the daily cap, before any storage call, or made exactly these storage calls,
all successful: the open, writes of samples and marker blocks, the write of the GUANO data,
the seek to 0, the write of the header, the close. -/
theorem makeRecording_graceful_termination (sram : Nat) (cfg : CP_configSettings_t)
    (bk : BackupDomain) (dur day guano : Nat) (storage : Nat → Bool) (obs : List Observation)
    (r : RecordingResult)
    (h : makeRecording sram cfg bk dur day guano storage obs = Progress.finished r)
    (he : r.recordingState ≠ AM_recordingState_t.SDCARD_WRITE_ERROR) :
    (r.calls = [] ∧ r.recordingState = AM_recordingState_t.TOTAL_FILE_SIZE_LIMITED ∧
      bk.configurationIndexOfNextRecording = AM_configurationIndex_t.OPPORTUNISTIC_RECORDING ∧
      resetTotalFileSizeWritten day bk > maximumFileSizeWritten cfg) ∨
    (∃ writes, r.calls = [StorageCall.openFile] ++ writes ++
        [StorageCall.writeToFile WriteSource.guanoData guano,
          StorageCall.seekInFile 0,
          StorageCall.writeToFile (WriteSource.wavHeader r.wavHeader) sizeofWavHeader,
          StorageCall.closeFile] ∧
      (∀ c ∈ writes, isSampleOrMarkerWrite c = true) ∧
      (∀ k, k < r.calls.length → storage k = true)) := by
  rcases makeRecording_finished sram cfg bk dur day guano storage obs r h with
    ⟨h0, h1, h2, h3, _, _⟩ | ⟨drained, hd, hcalls, _, hcase⟩
  · exact Or.inl ⟨h0, h1, h2, h3⟩
  · right
    rcases hcase with ⟨_, _, hs⟩ | ⟨hde, hl, hw, hs⟩
    · exact absurd hs he
    · have hok : r.loop.storageError = false := by
        cases hc : r.loop.storageError with
        | false => rfl
        | true => rw [hc] at hs; exact absurd hs he
      obtain ⟨writes, c1, c2⟩ := (openAndRecord_calls _ _ _ _ _ storage _ obs).1 drained hd
      have hdc := (openAndRecord_consistent _ _ _ _ _ storage _ obs).1 drained hd
      have hfc := finishRecording_consistent
        (samplesToWrite (effectiveSampleRate cfg bk.configurationIndexOfNextRecording) dur)
        (effectiveSampleRate cfg bk.configurationIndexOfNextRecording) guano
        (decide (bk.configurationIndexOfNextRecording
          = AM_configurationIndex_t.OPPORTUNISTIC_RECORDING))
        (decide (dur > maximumNumberOfSeconds
          (effectiveSampleRate cfg bk.configurationIndexOfNextRecording)))
        storage drained hdc hde
      rw [← hl] at hfc
      have hall : ∀ k, k < r.calls.length → storage k = true := by
        intro k hk
        cases hsk : storage k with
        | true => rfl
        | false =>
          rw [hcalls] at hk
          have := (hfc.1 k hk hsk).1
          rw [hok] at this
          cases this
      rw [hl] at hok
      obtain ⟨g1, g2, _⟩ := finishRecording_effect _ _ _ _ _ storage drained hok
      obtain ⟨_, _, _, f4, f5⟩ := flushCompressionBufferAtEnd_effect _ _ storage drained g1
      rw [hcalls, hl, hw]
      rw [hcalls, hl] at hall
      by_cases c : drained.samplesWritten
          < samplesToWrite (effectiveSampleRate cfg bk.configurationIndexOfNextRecording) dur ∧
          0 < drained.numberOfCompressedBuffers
      · refine ⟨writes ++ [compressionBufferWrite drained.numberOfCompressedBuffers], ?_, ?_,
          hall⟩
        · rw [g2, (f4 c).1, c1]
          simp
        · intro x hx
          rcases List.mem_append.1 hx with hx | hx
          · exact c2 x hx
          · rw [List.mem_singleton] at hx
            rw [hx]; rfl
      · refine ⟨writes, ?_, c2, hall⟩
        rw [g2, f5 c, c1]
        simp

/-- C11 (witness): a session that the switch ends after three buffers returns
`SWITCH_CHANGED` with the file finalised: open, first buffer, marker of the pending run,
GUANO data, seek, header, close. -/
theorem makeRecording_graceful_termination_witness :
    ∃ r, makeRecording exampleSramSizeInBytes defaultConfigSettings standardBackupDomain 2 0 300
        storageAlwaysSucceeds switchedObservations = Progress.finished r ∧
      r.recordingState = AM_recordingState_t.SWITCH_CHANGED ∧
      bytesWritten r.calls = [0, 32768, 512, 300, 0, 488, 0] ∧
      ∃ writes, r.calls = [StorageCall.openFile] ++ writes ++
        [StorageCall.writeToFile WriteSource.guanoData 300,
          StorageCall.seekInFile 0,
          StorageCall.writeToFile (WriteSource.wavHeader r.wavHeader) sizeofWavHeader,
          StorageCall.closeFile] ∧
      (∀ c ∈ writes, isSampleOrMarkerWrite c = true) ∧
      (∀ k, k < r.calls.length → storageAlwaysSucceeds k = true) :=
  ⟨_, rfl, by decide, by decide,
    (makeRecording_graceful_termination exampleSramSizeInBytes defaultConfigSettings
      standardBackupDomain 2 0 300 storageAlwaysSucceeds switchedObservations _ rfl
      (by decide)).resolve_left (fun h => absurd h.1 (by decide))⟩

/-- C11 (counterexample): an opportunistic session that starts with 2049 units written
today against a cap of 2048 returns `TOTAL_FILE_SIZE_LIMITED` without having opened the file
or made any other storage call. -/
theorem makeRecording_graceful_termination_counterexample :
    ∃ r, makeRecording exampleSramSizeInBytes capExceededExample capExceededBackupDomain 2 0 300
        storageAlwaysSucceeds scenarioBObservations = Progress.finished r ∧
      r.recordingState = AM_recordingState_t.TOTAL_FILE_SIZE_LIMITED ∧
      r.calls = [] :=
  ⟨_, rfl, by decide, by decide⟩

/-- C12: an OPPORTUNISTIC session whose daily total, after the reset at a change of the day,
is above the cap as `makeRecording` computes it, in particular one whose total in bytes is
above the configured `maximumTotalOpportunisticFileSize` megabytes, returns
`TOTAL_FILE_SIZE_LIMITED` at once, whatever the observations and the storage, with no
storage call made; every other session (a STANDARD session, or a total within the computed
cap) makes the call that opens the file, so it does not return at this point. -/
theorem makeRecording_daily_cap (sram : Nat) (cfg : CP_configSettings_t)
    (bk : BackupDomain) (dur day guano : Nat) (storage : Nat → Bool) (obs : List Observation) :
    (bk.configurationIndexOfNextRecording = AM_configurationIndex_t.OPPORTUNISTIC_RECORDING →
      (resetTotalFileSizeWritten day bk > maximumFileSizeWritten cfg ∨
        TOTAL_FILE_SIZE_UNITS_IN_BYTES * resetTotalFileSizeWritten day bk
          > cfg.maximumTotalOpportunisticFileSize * NUMBER_OF_BYTES_IN_ONE_MB) →
      ∃ r, makeRecording sram cfg bk dur day guano storage obs = Progress.finished r ∧
        r.recordingState = AM_recordingState_t.TOTAL_FILE_SIZE_LIMITED ∧ r.calls = [] ∧
        r.previousDayOfYear = day ∧
        r.totalFileSizeWritten = resetTotalFileSizeWritten day bk) ∧
    (bk.configurationIndexOfNextRecording = AM_configurationIndex_t.STANDARD_RECORDING ∨
        resetTotalFileSizeWritten day bk ≤ maximumFileSizeWritten cfg →
      (makeRecording sram cfg bk dur day guano storage obs).callsMade.head?
        = some StorageCall.openFile) := by
  refine ⟨fun h1 h2 => ?_, fun h1 => ?_⟩
  · have h2 : resetTotalFileSizeWritten day bk > maximumFileSizeWritten cfg := by
      rcases h2 with h | h
      · exact h
      · have hle : u32 (cfg.maximumTotalOpportunisticFileSize * NUMBER_OF_BYTES_IN_ONE_MB)
            ≤ cfg.maximumTotalOpportunisticFileSize * NUMBER_OF_BYTES_IN_ONE_MB :=
          Nat.mod_le _ _
        unfold maximumFileSizeWritten
        simp only [TOTAL_FILE_SIZE_UNITS_IN_BYTES] at h ⊢
        omega
    unfold makeRecording
    simp only []
    rw [if_pos ⟨by simpa using h1, h2⟩]
    exact ⟨_, rfl, rfl, rfl, rfl, rfl⟩
  · have hne : ¬ (bk.configurationIndexOfNextRecording
          = AM_configurationIndex_t.OPPORTUNISTIC_RECORDING ∧
        resetTotalFileSizeWritten day bk > maximumFileSizeWritten cfg) := by
      rintro ⟨a, b⟩
      rcases h1 with h | h
      · rw [h] at a; cases a
      · omega
    cases hm : makeRecording sram cfg bk dur day guano storage obs with
    | waiting l =>
      have hw := makeRecording_waiting sram cfg bk dur day guano storage obs l hm
      obtain ⟨writes, c1, _⟩ := (openAndRecord_calls _ _ _ _ _ storage _ obs).2 l hw
      show l.calls.head? = _
      rw [c1]; rfl
    | finished r =>
      show r.calls.head? = _
      rcases makeRecording_finished sram cfg bk dur day guano storage obs r hm with
        ⟨_, _, h2, h3, _, _⟩ | ⟨drained, hd, hcalls, _, hcase⟩
      · exact absurd ⟨h2, h3⟩ hne
      · obtain ⟨writes, c1, _⟩ := (openAndRecord_calls _ _ _ _ _ storage _ obs).1 drained hd
        rcases hcase with ⟨_, hl, _⟩ | ⟨hde, hl, _, _⟩
        · rw [hcalls, hl, c1]; rfl
        · obtain ⟨more, hmore⟩ := finishRecording_calls_prefix
            (samplesToWrite (effectiveSampleRate cfg bk.configurationIndexOfNextRecording) dur)
            (effectiveSampleRate cfg bk.configurationIndexOfNextRecording) guano
            (decide (bk.configurationIndexOfNextRecording
              = AM_configurationIndex_t.OPPORTUNISTIC_RECORDING))
            (decide (dur > maximumNumberOfSeconds
              (effectiveSampleRate cfg bk.configurationIndexOfNextRecording)))
            storage drained
          rw [hcalls, hl, ← hmore, c1]; rfl

/-- C12 (witness): the opportunistic session with 2049 units of 512 bytes written against a
cap of 1 MB returns at once; the same session in a STANDARD state opens the file. -/
theorem makeRecording_daily_cap_witness :
    (∃ r, makeRecording exampleSramSizeInBytes capExceededExample capExceededBackupDomain 2 0
        300 storageAlwaysSucceeds scenarioBObservations = Progress.finished r ∧
      r.recordingState = AM_recordingState_t.TOTAL_FILE_SIZE_LIMITED ∧ r.calls = [] ∧
      r.previousDayOfYear = 0 ∧ r.totalFileSizeWritten = 2049) ∧
    (makeRecording exampleSramSizeInBytes capExceededExample standardBackupDomain 2 0
      300 storageAlwaysSucceeds scenarioBObservations).callsMade.head?
        = some StorageCall.openFile :=
  ⟨(makeRecording_daily_cap exampleSramSizeInBytes capExceededExample capExceededBackupDomain
      2 0 300 storageAlwaysSucceeds scenarioBObservations).1 (by decide)
      (Or.inr (by decide)),
    (makeRecording_daily_cap exampleSramSizeInBytes capExceededExample standardBackupDomain
      2 0 300 storageAlwaysSucceeds scenarioBObservations).2 (Or.inl (by decide))⟩

/-- C18: the end-of-session flush.  For a buffer length that is a positive multiple of 256
samples and an effective sample rate that is a multiple of 8 (as the default rate and every
rate `handleSampleRate` accepts are): when a call of `makeRecording` returns without a
storage error and the run counter is nonzero at the exit of the loop, whatever ended the
loop, the calls after the loop are the write of one marker block for the pending run, the
write of the GUANO data, the seek to 0, the write of the header and the close. -/
theorem makeRecording_end_flush (sram : Nat) (cfg : CP_configSettings_t)
    (bk : BackupDomain) (dur day guano : Nat) (storage : Nat → Bool) (obs : List Observation)
    (r : RecordingResult)
    (hS : 0 < NUMBER_OF_SAMPLES_IN_BUFFER sram)
    (hB : (2 * NUMBER_OF_SAMPLES_IN_BUFFER sram) % 512 = 0)
    (hrate : effectiveSampleRate cfg bk.configurationIndexOfNextRecording % 8 = 0)
    (h : makeRecording sram cfg bk dur day guano storage obs = Progress.finished r)
    (he : r.recordingState ≠ AM_recordingState_t.SDCARD_WRITE_ERROR)
    (hn : 0 < r.loop.numberOfCompressedBuffers) :
    ∃ drained, openAndRecord (NUMBER_OF_SAMPLES_IN_BUFFER sram)
        (samplesToWrite (effectiveSampleRate cfg bk.configurationIndexOfNextRecording) dur)
        (maximumFileSizeWritten cfg)
        (decide (bk.configurationIndexOfNextRecording
          = AM_configurationIndex_t.OPPORTUNISTIC_RECORDING))
        cfg.enableLowVoltageCutoff storage
        (startOfRecording (resetTotalFileSizeWritten day bk))
        obs = Progress.finished drained ∧
      drained.numberOfCompressedBuffers = r.loop.numberOfCompressedBuffers ∧
      r.calls = drained.calls ++
        [compressionBufferWrite drained.numberOfCompressedBuffers,
          StorageCall.writeToFile WriteSource.guanoData guano,
          StorageCall.seekInFile 0,
          StorageCall.writeToFile (WriteSource.wavHeader r.wavHeader) sizeofWavHeader,
          StorageCall.closeFile] := by
  obtain ⟨hb1, hb2, _, _⟩ := samplesToWrite_bounds
    (effectiveSampleRate cfg bk.configurationIndexOfNextRecording) dur
  rcases makeRecording_finished sram cfg bk dur day guano storage obs r h with
    ⟨_, _, _, _, hl, _⟩ | ⟨drained, hd, hcalls, _, hcase⟩
  · rw [hl] at hn
    exact absurd hn (Nat.lt_irrefl 0)
  · rcases hcase with ⟨_, _, hs⟩ | ⟨hde, hl, hw, hs⟩
    · exact absurd hs he
    · have hok : r.loop.storageError = false := by
        cases hc : r.loop.storageError with
        | false => rfl
        | true => rw [hc] at hs; exact absurd hs he
      rw [hl] at hok hn
      obtain ⟨g1, g2, g3, _⟩ := finishRecording_effect _ _ _ _ _ storage drained hok
      obtain ⟨f1, _, _, f4, _⟩ := flushCompressionBufferAtEnd_effect _ _ storage drained g1
      have hncb := finishRecording_run_counter _ _ _ _ _ storage drained hok
      rw [hncb] at hn
      have hsw : drained.samplesWritten
          < samplesToWrite (effectiveSampleRate cfg bk.configurationIndexOfNextRecording) dur := by
        have hT2 : samplesToWrite
            (effectiveSampleRate cfg bk.configurationIndexOfNextRecording) dur
            % NUMBER_OF_SAMPLES_IN_BUFFER sram ≠ 0 :=
          samplesToWrite_not_whole_buffers _ _ _ hrate hB
        obtain ⟨_, a2, _, a4, _⟩ :=
          openAndRecord_accounting _ _ _ _ _ storage _ obs hS hB hb1 hb2 drained hd hde
        rcases Nat.lt_or_ge drained.samplesWritten (samplesToWrite
          (effectiveSampleRate cfg bk.configurationIndexOfNextRecording) dur) with hc | hc
        · exact hc
        · have := a4 hT2 (Nat.le_antisymm a2 hc)
          omega
      refine ⟨drained, hd, ?_, ?_⟩
      · rw [hl, hncb]
      · rw [hcalls, hl, hw, g2, (f4 ⟨hsw, hn⟩).1]
        simp

/-- C18 (witness): the session that the switch ends with two buffers skipped writes the
marker for the 128 pending blocks before the GUANO data and the header. -/
theorem makeRecording_end_flush_witness :
    ∃ r, makeRecording exampleSramSizeInBytes defaultConfigSettings standardBackupDomain 2 0 300
        storageAlwaysSucceeds switchedObservations = Progress.finished r ∧
      r.loop.numberOfCompressedBuffers = 128 ∧
      markerRunCounts r.calls = [128] ∧
      ∃ drained, openAndRecord (NUMBER_OF_SAMPLES_IN_BUFFER exampleSramSizeInBytes)
          (samplesToWrite (effectiveSampleRate defaultConfigSettings
            standardBackupDomain.configurationIndexOfNextRecording) 2)
          (maximumFileSizeWritten defaultConfigSettings)
          (decide (standardBackupDomain.configurationIndexOfNextRecording
            = AM_configurationIndex_t.OPPORTUNISTIC_RECORDING))
          defaultConfigSettings.enableLowVoltageCutoff storageAlwaysSucceeds
          (startOfRecording (resetTotalFileSizeWritten 0 standardBackupDomain))
          switchedObservations = Progress.finished drained ∧
        drained.numberOfCompressedBuffers = r.loop.numberOfCompressedBuffers ∧
        r.calls = drained.calls ++
          [compressionBufferWrite drained.numberOfCompressedBuffers,
            StorageCall.writeToFile WriteSource.guanoData 300,
            StorageCall.seekInFile 0,
            StorageCall.writeToFile (WriteSource.wavHeader r.wavHeader) sizeofWavHeader,
            StorageCall.closeFile] :=
  ⟨_, rfl, by decide, by decide,
    makeRecording_end_flush exampleSramSizeInBytes defaultConfigSettings
      standardBackupDomain 2 0 300 storageAlwaysSucceeds switchedObservations _
      (by decide) (by decide) (by decide) rfl (by decide) (by decide)⟩

/-- Why the sample rate enters the end-of-session flush: at 32524 Hz, a rate that neither
the default settings nor `handleSampleRate` give, with a loop bound of exactly two buffers
and the second buffer below the threshold, the loop exits without a storage error and with
the run counter at 64, and no marker block is written: the calls are the open, the first
buffer, the GUANO data, the seek, the header and the close. -/
theorem makeRecording_whole_buffers_no_marker :
    ∃ r, makeRecording exampleSramSizeInBytes wholeBuffersExample standardBackupDomain 1 0 300
        storageAlwaysSucceeds wholeBuffersObservations = Progress.finished r ∧
      r.recordingState = AM_recordingState_t.RECORDING_OKAY ∧
      r.loop.numberOfCompressedBuffers = 64 ∧
      markerRunCounts r.calls = [] ∧
      bytesWritten r.calls = [0, 32768, 300, 0, 488, 0] :=
  ⟨_, rfl, by decide, by decide, by decide, by decide⟩

/-- C9 (witness): Scenario C.  The second write of Scenario B (storage call number 2, the
marker block) fails: the session returns `SDCARD_WRITE_ERROR` and has made three storage
calls, the open and the two writes. -/
theorem makeRecording_storage_failure_witness :
    ∃ r, makeRecording exampleSramSizeInBytes defaultConfigSettings standardBackupDomain 2 0 300
        scenarioCStorage scenarioBObservations = Progress.finished r ∧
      r.recordingState = AM_recordingState_t.SDCARD_WRITE_ERROR ∧
      r.calls.length = 2 + 1 :=
  makeRecording_storage_failure exampleSramSizeInBytes defaultConfigSettings
    standardBackupDomain 2 0 300 scenarioCStorage scenarioBObservations 2 (by decide)
    (by decide)

/-- C10 (witness): the session that the switch ends, with every storage call successful,
closes the file and returns `SWITCH_CHANGED`; in Scenario C the failure gives
`SDCARD_WRITE_ERROR`. -/
theorem makeRecording_result_priority_witness :
    (∃ r, makeRecording exampleSramSizeInBytes defaultConfigSettings standardBackupDomain 2 0
        300 storageAlwaysSucceeds switchedObservations = Progress.finished r ∧
      r.loop.switchPositionChanged = true ∧
      r.calls.getLast? = some StorageCall.closeFile ∧
      r.recordingState = AM_recordingState_t.SWITCH_CHANGED) ∧
    (∃ r, makeRecording exampleSramSizeInBytes defaultConfigSettings standardBackupDomain 2 0
        300 scenarioCStorage scenarioBObservations = Progress.finished r ∧
      r.recordingState = AM_recordingState_t.SDCARD_WRITE_ERROR) :=
  ⟨⟨_, rfl, by decide,
      ((makeRecording_result_priority exampleSramSizeInBytes defaultConfigSettings
        standardBackupDomain 2 0 300 storageAlwaysSucceeds switchedObservations _ rfl).2
        (fun _ _ => rfl) (by decide)).1,
      by decide⟩,
    ⟨_, rfl,
      (makeRecording_result_priority exampleSramSizeInBytes defaultConfigSettings
        standardBackupDomain 2 0 300 scenarioCStorage scenarioBObservations _ rfl).1
        ⟨2, by decide, by decide⟩⟩⟩

/-! ## The scheduler: duty cycling disabled, no active period, cycle selection, earliest time -/

theorem secondsOfDay_eq (t : Nat) : secondsOfDay t = t % 86400 := rfl

/-- The loop body for one period when duty cycling is disabled. -/
theorem schedulePeriod_disabled (cfg : CP_configSettings_t) (cycle : AM_sleepRecordIndex_t)
    (prev : AM_configurationIndex_t) (ct : Nat) (p : CP_startStopPeriod_t)
    (hd : cfg.numberOfSleepRecordCycles = 0)
    (hct : ct + 172800 < 4294967296)
    (hp : p.startMinutes < p.stopMinutes) (hp2 : p.stopMinutes ≤ 1440) :
    schedulePeriod cfg cycle prev ct (ct % 86400) p =
      if ct % 86400 ≤ 60 * p.startMinutes then
        some ⟨ct - ct % 86400 + 60 * p.startMinutes, 60 * p.stopMinutes - 60 * p.startMinutes,
          AM_configurationIndex_t.STANDARD_RECORDING⟩
      else if ct % 86400 < 60 * p.stopMinutes then
        some ⟨ct, 60 * p.stopMinutes - ct % 86400, AM_configurationIndex_t.STANDARD_RECORDING⟩
      else none := by
  have hmod : ct % 86400 < 86400 := Nat.mod_lt _ (by decide)
  have hle : ct % 86400 ≤ ct := Nat.mod_le _ _
  have e1 : u32 (SECONDS_IN_MINUTE * p.startMinutes) = 60 * p.startMinutes := by
    simp only [u32, SECONDS_IN_MINUTE]; omega
  have e2 : u32 (SECONDS_IN_MINUTE * p.stopMinutes) = 60 * p.stopMinutes := by
    simp only [u32, SECONDS_IN_MINUTE]; omega
  have e3 : sub32 (60 * p.stopMinutes) (60 * p.startMinutes)
      = 60 * p.stopMinutes - 60 * p.startMinutes := by
    unfold sub32; omega
  unfold schedulePeriod
  simp only [e1, e2, e3, SLEEP_RECORD_CYCLES_DISABLED]
  by_cases c1 : ct % 86400 ≤ 60 * p.startMinutes
  · rw [if_pos c1, if_pos c1, if_pos hd]
    have e4 : sub32 (u32 (ct + 60 * p.startMinutes)) (ct % 86400)
        = ct - ct % 86400 + 60 * p.startMinutes := by
      simp only [u32, sub32]; omega
    rw [e4]
  · rw [if_neg c1, if_neg c1]
    by_cases c2 : ct % 86400 < 60 * p.stopMinutes
    · rw [if_pos c2, if_pos c2, if_pos hd]
      have e5 : sub32 (60 * p.stopMinutes - 60 * p.startMinutes)
          (sub32 (ct % 86400) (60 * p.startMinutes)) = 60 * p.stopMinutes - ct % 86400 := by
        simp only [sub32]; omega
      rw [e5]
    · rw [if_neg c2, if_neg c2]

/-- With duty cycling disabled and sorted periods, the loop over the periods returns what
the body returns for the first period that has not ended. -/
theorem schedulePeriods_disabled_first (cfg : CP_configSettings_t)
    (cycle : AM_sleepRecordIndex_t) (prev : AM_configurationIndex_t) (ct : Nat)
    (p : CP_startStopPeriod_t)
    (hd : cfg.numberOfSleepRecordCycles = 0) (hct : ct + 172800 < 4294967296)
    (hnot : ct % 86400 < 60 * p.stopMinutes) (l : List CP_startStopPeriod_t)
    (hpw : l.Pairwise (fun a b => a.stopMinutes < b.startMinutes))
    (hall : ∀ q ∈ l, q.startMinutes < q.stopMinutes ∧ q.stopMinutes ≤ 1440)
    (hp : p ∈ l)
    (hbefore : ∀ q ∈ l, q.stopMinutes < p.startMinutes → 60 * q.stopMinutes ≤ ct % 86400) :
    schedulePeriods cfg cycle prev ct (ct % 86400) l
      = schedulePeriod cfg cycle prev ct (ct % 86400) p := by
  induction l with
  | nil => cases hp
  | cons q rest ih =>
    obtain ⟨hq1, hq2⟩ := hall q (List.mem_cons_self _ _)
    rw [List.pairwise_cons] at hpw
    simp only [schedulePeriods]
    rcases List.mem_cons.1 hp with h | h
    · subst h
      rw [schedulePeriod_disabled cfg cycle prev ct p hd hct hq1 hq2]
      by_cases c1 : ct % 86400 ≤ 60 * p.startMinutes
      · rw [if_pos c1]
      · rw [if_neg c1, if_pos hnot]
    · have hended := hbefore q (List.mem_cons_self _ _) (hpw.1 p h)
      rw [schedulePeriod_disabled cfg cycle prev ct q hd hct hq1 hq2,
        if_neg (by omega), if_neg (by omega)]
      exact ih hpw.2 (fun x hx => hall x (List.mem_cons_of_mem _ hx)) h
        (fun x hx => hbefore x (List.mem_cons_of_mem _ hx))

/-- With duty cycling disabled, the loop over the periods falls through when every period
has ended. -/
theorem schedulePeriods_disabled_none (cfg : CP_configSettings_t)
    (cycle : AM_sleepRecordIndex_t) (prev : AM_configurationIndex_t) (ct : Nat)
    (hd : cfg.numberOfSleepRecordCycles = 0) (hct : ct + 172800 < 4294967296)
    (l : List CP_startStopPeriod_t)
    (hall : ∀ q ∈ l, q.startMinutes < q.stopMinutes ∧ q.stopMinutes ≤ 1440)
    (hended : ∀ q ∈ l, 60 * q.stopMinutes ≤ ct % 86400) :
    schedulePeriods cfg cycle prev ct (ct % 86400) l = none := by
  induction l with
  | nil => rfl
  | cons q rest ih =>
    obtain ⟨hq1, hq2⟩ := hall q (List.mem_cons_self _ _)
    have := hended q (List.mem_cons_self _ _)
    simp only [schedulePeriods]
    rw [schedulePeriod_disabled cfg cycle prev ct q hd hct hq1 hq2,
      if_neg (by omega), if_neg (by omega)]
    exact ih (fun x hx => hall x (List.mem_cons_of_mem _ hx))
      (fun x hx => hended x (List.mem_cons_of_mem _ hx))

/-- For valid settings the window before the latest-time bound is what the loop over the
active periods returns, or the window on the first period of the following day. -/
theorem scheduleBeforeLatest_eq (cfg : CP_configSettings_t) (bk : BackupDomain) (t : Nat)
    (hv : validScheduleSettings cfg) :
    (∀ w, schedulePeriods cfg (sleepRecordCycleIndexOfNextRecording cfg bk)
        bk.configurationIndexOfNextRecording (clampToEarliest cfg t)
        (clampToEarliest cfg t % 86400)
        (cfg.startStopPeriods.take cfg.activeStartStopPeriods) = some w →
      scheduleBeforeLatest cfg bk t = w) ∧
    (schedulePeriods cfg (sleepRecordCycleIndexOfNextRecording cfg bk)
        bk.configurationIndexOfNextRecording (clampToEarliest cfg t)
        (clampToEarliest cfg t % 86400)
        (cfg.startStopPeriods.take cfg.activeStartStopPeriods) = none →
      scheduleBeforeLatest cfg bk t =
        scheduleFirstPeriodTomorrow cfg (sleepRecordCycleIndexOfNextRecording cfg bk)
          (clampToEarliest cfg t) (clampToEarliest cfg t % 86400)) := by
  obtain ⟨hmin, hne, _⟩ := activePeriods_of_valid cfg hv
  refine ⟨fun w h => ?_, fun h => ?_⟩
  · unfold scheduleBeforeLatest
    simp only [hmin, if_neg hne, secondsOfDay_eq, h]
  · unfold scheduleBeforeLatest
    simp only [hmin, if_neg hne, secondsOfDay_eq, h]

/-- C13 (amended): for valid settings with duty cycling disabled and no earliest or latest
recording time, and a time `t` at least two days before the 32-bit clock wraps: if `t` lies
strictly inside an active period, the result is `(t, periodStop - t)`; if `t` is at or
before the start of the first active period that has not ended today, the result is that
period's start and its whole length; if every active period has ended today, the result is
the start of the first period on the following day and its whole length.  The index is
STANDARD throughout. -/
theorem scheduleRecording_duty_cycling_disabled (cfg : CP_configSettings_t) (bk : BackupDomain)
    (t : Nat) (hv : validScheduleSettings cfg)
    (hd : cfg.numberOfSleepRecordCycles = SLEEP_RECORD_CYCLES_DISABLED)
    (he : cfg.earliestRecordingTime = 0) (hl : cfg.latestRecordingTime = 0)
    (ht : t + 2 * SECONDS_IN_DAY ≤ UINT32_MAX) :
    (∀ p ∈ cfg.startStopPeriods.take cfg.activeStartStopPeriods,
      SECONDS_IN_MINUTE * p.startMinutes < secondsOfDay t →
      secondsOfDay t < SECONDS_IN_MINUTE * p.stopMinutes →
      (scheduleRecording cfg bk t).timeOfNextRecording = t ∧
      (scheduleRecording cfg bk t).durationOfNextRecording
        = SECONDS_IN_MINUTE * p.stopMinutes - secondsOfDay t) ∧
    (∀ p ∈ cfg.startStopPeriods.take cfg.activeStartStopPeriods,
      secondsOfDay t ≤ SECONDS_IN_MINUTE * p.startMinutes →
      (∀ q ∈ cfg.startStopPeriods.take cfg.activeStartStopPeriods,
        SECONDS_IN_MINUTE * q.stopMinutes ≤ secondsOfDay t ∨ p.startMinutes ≤ q.startMinutes) →
      (scheduleRecording cfg bk t).timeOfNextRecording
        = t - secondsOfDay t + SECONDS_IN_MINUTE * p.startMinutes ∧
      (scheduleRecording cfg bk t).durationOfNextRecording
        = SECONDS_IN_MINUTE * p.stopMinutes - SECONDS_IN_MINUTE * p.startMinutes) ∧
    ((∀ q ∈ cfg.startStopPeriods.take cfg.activeStartStopPeriods,
        SECONDS_IN_MINUTE * q.stopMinutes ≤ secondsOfDay t) →
      (scheduleRecording cfg bk t).timeOfNextRecording
        = t - secondsOfDay t + SECONDS_IN_DAY
          + SECONDS_IN_MINUTE * (cfg.startStopPeriods.getD 0 ⟨0, 0⟩).startMinutes ∧
      (scheduleRecording cfg bk t).durationOfNextRecording
        = SECONDS_IN_MINUTE * (cfg.startStopPeriods.getD 0 ⟨0, 0⟩).stopMinutes
          - SECONDS_IN_MINUTE * (cfg.startStopPeriods.getD 0 ⟨0, 0⟩).startMinutes) ∧
    (scheduleRecording cfg bk t).configurationIndexOfNextRecording
      = AM_configurationIndex_t.STANDARD_RECORDING := by
  obtain ⟨hmin, hne, hall, hpw, hfirst⟩ := activePeriods_of_valid cfg hv
  obtain ⟨hsome, hnone⟩ := scheduleBeforeLatest_eq cfg bk t hv
  have hclamp : clampToEarliest cfg t = t := by
    unfold clampToEarliest
    rw [if_neg (by omega)]
  rw [hclamp] at hsome hnone
  have hct : t + 172800 < 4294967296 := by
    simp only [SECONDS_IN_DAY, SECONDS_IN_HOUR, SECONDS_IN_MINUTE, UINT32_MAX] at ht
    omega
  have hlatest : ∀ w, applyLatestRecordingTime cfg w = w := by
    intro w
    unfold applyLatestRecordingTime
    rw [if_neg (by omega)]
  have hsr : ∀ w, scheduleBeforeLatest cfg bk t = w →
      (scheduleRecording cfg bk t).timeOfNextRecording = w.timeOfNextRecording ∧
      (scheduleRecording cfg bk t).durationOfNextRecording = w.durationOfNextRecording ∧
      (scheduleRecording cfg bk t).configurationIndexOfNextRecording
        = w.configurationIndexOfNextRecording := by
    intro w hw
    show (scheduleWindow cfg bk t).timeOfNextRecording = _ ∧
      (scheduleWindow cfg bk t).durationOfNextRecording = _ ∧
      (scheduleWindow cfg bk t).configurationIndexOfNextRecording = _
    unfold scheduleWindow
    rw [hlatest, hw]
    exact ⟨rfl, rfl, rfl⟩
  simp only [SLEEP_RECORD_CYCLES_DISABLED] at hd
  simp only [secondsOfDay_eq, SECONDS_IN_MINUTE, SECONDS_IN_DAY, SECONDS_IN_HOUR]
  have hfp := hall _ hfirst
  have hfirstw := scheduleFirstPeriodTomorrow_window cfg
    (sleepRecordCycleIndexOfNextRecording cfg bk) t _ rfl hct hfp.1 hfp.2
    (fun h => absurd hd h)
  have hfd : (scheduleFirstPeriodTomorrow cfg (sleepRecordCycleIndexOfNextRecording cfg bk) t
      (t % 86400)).durationOfNextRecording
      = 60 * (cfg.startStopPeriods.getD 0 ⟨0, 0⟩).stopMinutes
        - 60 * (cfg.startStopPeriods.getD 0 ⟨0, 0⟩).startMinutes := by
    unfold scheduleFirstPeriodTomorrow
    simp only [SLEEP_RECORD_CYCLES_DISABLED, if_pos hd, u32, sub32, SECONDS_IN_MINUTE]
    omega
  refine ⟨fun p hp h1 h2 => ?_, fun p hp h1 h2 => ?_, fun h1 => ?_, ?_⟩
  · have hpp := hall p hp
    have hs := schedulePeriods_disabled_first cfg (sleepRecordCycleIndexOfNextRecording cfg bk)
      bk.configurationIndexOfNextRecording t p hd hct h2 _ hpw hall hp
      (fun q _ hq => by omega)
    rw [schedulePeriod_disabled cfg _ _ t p hd hct hpp.1 hpp.2, if_neg (by omega),
      if_pos h2] at hs
    obtain ⟨r1, r2, _⟩ := hsr _ (hsome _ hs)
    exact ⟨r1, r2⟩
  · have hpp := hall p hp
    have hs := schedulePeriods_disabled_first cfg (sleepRecordCycleIndexOfNextRecording cfg bk)
      bk.configurationIndexOfNextRecording t p hd hct (by omega) _ hpw hall hp
      (fun q hq hlt => by
        rcases h2 q hq with h | h
        · exact h
        · have := (hall q hq).1
          omega)
    rw [schedulePeriod_disabled cfg _ _ t p hd hct hpp.1 hpp.2, if_pos h1] at hs
    obtain ⟨r1, r2, _⟩ := hsr _ (hsome _ hs)
    exact ⟨r1, r2⟩
  · have hs := schedulePeriods_disabled_none cfg (sleepRecordCycleIndexOfNextRecording cfg bk)
      bk.configurationIndexOfNextRecording t hd hct _ hall h1
    obtain ⟨r1, r2, _⟩ := hsr _ (hnone hs)
    rw [r1, r2, hfirstw.1, hfd]
    exact ⟨rfl, rfl⟩
  · cases hq : schedulePeriods cfg (sleepRecordCycleIndexOfNextRecording cfg bk)
        bk.configurationIndexOfNextRecording t (t % 86400)
        (cfg.startStopPeriods.take cfg.activeStartStopPeriods) with
    | none =>
      rw [(hsr _ (hnone hq)).2.2]
      exact hfirstw.2.2.2.1
    | some w =>
      rw [(hsr _ (hsome _ hq)).2.2]
      obtain ⟨p, hp, hw⟩ := schedulePeriods_some _ _ _ _ _ _ _ hq
      have hpp := hall p hp
      rw [schedulePeriod_disabled cfg _ _ t p hd hct hpp.1 hpp.2] at hw
      split_ifs at hw <;> cases hw <;> rfl

/-- C13 (witness): Scenario A, one period 00:00-01:00 with duty cycling disabled, on
8 January 2022 (`periodStart = 1641600000`): ten seconds before the period the result is
`(periodStart, 3600)`, half an hour into it the result is `(periodStart + 1800, 1800)`. -/
theorem scheduleRecording_duty_cycling_disabled_witness :
    ((scheduleRecording scenarioA initialBackupDomain 1641599990).timeOfNextRecording
        = 1641600000 ∧
      (scheduleRecording scenarioA initialBackupDomain 1641599990).durationOfNextRecording
        = 3600) ∧
    ((scheduleRecording scenarioA initialBackupDomain 1641601800).timeOfNextRecording
        = 1641601800 ∧
      (scheduleRecording scenarioA initialBackupDomain 1641601800).durationOfNextRecording
        = 1800) :=
  ⟨(scheduleRecording_duty_cycling_disabled scenarioA initialBackupDomain 1641599990
      (by decide) rfl rfl rfl (by decide)).2.2.1 (by decide),
    (scheduleRecording_duty_cycling_disabled scenarioA initialBackupDomain 1641601800
      (by decide) rfl rfl rfl (by decide)).1 ⟨0, 60⟩ (by decide) (by decide) (by decide)⟩

/-- C13 (counterexample): Scenario A at `t = 4294947600`, 01:00:00 on the last day of the
32-bit clock.  The period has ended today, the first period of the following day starts at
`4295030400`, and the scheduler returns the start `63104`. -/
theorem scheduleRecording_duty_cycling_disabled_counterexample :
    (∀ q ∈ scenarioA.startStopPeriods.take scenarioA.activeStartStopPeriods,
      SECONDS_IN_MINUTE * q.stopMinutes ≤ secondsOfDay 4294947600) ∧
    4294947600 ≤ UINT32_MAX ∧
    4294947600 - secondsOfDay 4294947600 + SECONDS_IN_DAY
      + SECONDS_IN_MINUTE * (scenarioA.startStopPeriods.getD 0 ⟨0, 0⟩).startMinutes
      = 4295030400 ∧
    (scheduleRecording scenarioA initialBackupDomain 4294947600).timeOfNextRecording = 63104 :=
  ⟨by decide, by decide, by decide, by decide⟩

/-- C14: with zero active start/stop periods `scheduleRecording` returns the time
`UINT32_MAX`, the duration 0 and the STANDARD index, for every time, state and setting of
the earliest and latest recording time. -/
theorem scheduleRecording_no_active_periods (cfg : CP_configSettings_t) (bk : BackupDomain)
    (t : Nat) (h0 : cfg.activeStartStopPeriods = 0) :
    (scheduleRecording cfg bk t).timeOfNextRecording = UINT32_MAX ∧
    (scheduleRecording cfg bk t).durationOfNextRecording = 0 ∧
    (scheduleRecording cfg bk t).configurationIndexOfNextRecording
      = AM_configurationIndex_t.STANDARD_RECORDING := by
  have hb : scheduleBeforeLatest cfg bk t
      = ⟨UINT32_MAX, 0, AM_configurationIndex_t.STANDARD_RECORDING⟩ := by
    unfold scheduleBeforeLatest
    simp only [h0, Nat.zero_min, if_true]
  show (scheduleWindow cfg bk t).timeOfNextRecording = _ ∧
    (scheduleWindow cfg bk t).durationOfNextRecording = _ ∧
    (scheduleWindow cfg bk t).configurationIndexOfNextRecording = _
  unfold scheduleWindow
  rw [hb]
  unfold applyLatestRecordingTime
  simp only []
  split_ifs with c1 c2 c3
  · exact ⟨rfl, rfl, rfl⟩
  · exfalso
    simp only [UINT32_MAX] at c2 c3
    omega
  · exact ⟨rfl, rfl, rfl⟩
  · exact ⟨rfl, rfl, rfl⟩

/-- C14 (witness): the default settings have no active period. -/
theorem scheduleRecording_no_active_periods_witness :
    (scheduleRecording defaultConfigSettings initialBackupDomain 1641600000).timeOfNextRecording
      = UINT32_MAX ∧
    (scheduleRecording defaultConfigSettings initialBackupDomain
      1641600000).durationOfNextRecording = 0 ∧
    (scheduleRecording defaultConfigSettings initialBackupDomain
      1641600000).configurationIndexOfNextRecording
      = AM_configurationIndex_t.STANDARD_RECORDING :=
  scheduleRecording_no_active_periods defaultConfigSettings initialBackupDomain 1641600000 rfl

/-- The loop body reads the durations of the given cycle only. -/
theorem schedulePeriod_congr (cfg cfg2 : CP_configSettings_t) (cycle : AM_sleepRecordIndex_t)
    (prev : AM_configurationIndex_t) (ct cs : Nat) (p : CP_startStopPeriod_t)
    (h1 : cfg2.numberOfSleepRecordCycles = cfg.numberOfSleepRecordCycles)
    (h2 : cfg2.enableOpportunisticRecording = cfg.enableOpportunisticRecording)
    (h3 : cfg2.maximumOpportunisticDuration = cfg.maximumOpportunisticDuration)
    (h4 : cfg2.recordDuration.getD cycle.toNat 0 = cfg.recordDuration.getD cycle.toNat 0)
    (h5 : cfg2.sleepDuration.getD cycle.toNat 0 = cfg.sleepDuration.getD cycle.toNat 0) :
    schedulePeriod cfg2 cycle prev ct cs p = schedulePeriod cfg cycle prev ct cs p := by
  unfold schedulePeriod
  simp only [h1, h2, h3, h4, h5]

theorem schedulePeriods_congr (cfg cfg2 : CP_configSettings_t) (cycle : AM_sleepRecordIndex_t)
    (prev : AM_configurationIndex_t) (ct cs : Nat) (l : List CP_startStopPeriod_t)
    (h1 : cfg2.numberOfSleepRecordCycles = cfg.numberOfSleepRecordCycles)
    (h2 : cfg2.enableOpportunisticRecording = cfg.enableOpportunisticRecording)
    (h3 : cfg2.maximumOpportunisticDuration = cfg.maximumOpportunisticDuration)
    (h4 : cfg2.recordDuration.getD cycle.toNat 0 = cfg.recordDuration.getD cycle.toNat 0)
    (h5 : cfg2.sleepDuration.getD cycle.toNat 0 = cfg.sleepDuration.getD cycle.toNat 0) :
    schedulePeriods cfg2 cycle prev ct cs l = schedulePeriods cfg cycle prev ct cs l := by
  induction l with
  | nil => rfl
  | cons q rest ih =>
    simp only [schedulePeriods]
    rw [schedulePeriod_congr cfg cfg2 cycle prev ct cs q h1 h2 h3 h4 h5, ih]

/-- The scheduler reads, of the sleep and record durations, those of the selected cycle
only. -/
theorem scheduleWindow_congr (cfg cfg2 : CP_configSettings_t) (bk : BackupDomain) (t : Nat)
    (h1 : cfg2.numberOfSleepRecordCycles = cfg.numberOfSleepRecordCycles)
    (h2 : cfg2.enableOpportunisticRecording = cfg.enableOpportunisticRecording)
    (h3 : cfg2.maximumOpportunisticDuration = cfg.maximumOpportunisticDuration)
    (h4 : cfg2.recordDuration.getD (sleepRecordCycleIndexOfNextRecording cfg bk).toNat 0
      = cfg.recordDuration.getD (sleepRecordCycleIndexOfNextRecording cfg bk).toNat 0)
    (h5 : cfg2.sleepDuration.getD (sleepRecordCycleIndexOfNextRecording cfg bk).toNat 0
      = cfg.sleepDuration.getD (sleepRecordCycleIndexOfNextRecording cfg bk).toNat 0)
    (h6 : cfg2.initialSleepRecordCycles = cfg.initialSleepRecordCycles)
    (h7 : cfg2.activeStartStopPeriods = cfg.activeStartStopPeriods)
    (h8 : cfg2.startStopPeriods = cfg.startStopPeriods)
    (h9 : cfg2.earliestRecordingTime = cfg.earliestRecordingTime)
    (h10 : cfg2.latestRecordingTime = cfg.latestRecordingTime) :
    scheduleWindow cfg2 bk t = scheduleWindow cfg bk t := by
  have hsel : sleepRecordCycleIndexOfNextRecording cfg2 bk
      = sleepRecordCycleIndexOfNextRecording cfg bk := by
    unfold sleepRecordCycleIndexOfNextRecording
    rw [h1, h6]
  have hclamp : clampToEarliest cfg2 t = clampToEarliest cfg t := by
    unfold clampToEarliest
    rw [h9]
  have hfirst : ∀ ct cs, scheduleFirstPeriodTomorrow cfg2
      (sleepRecordCycleIndexOfNextRecording cfg bk) ct cs
      = scheduleFirstPeriodTomorrow cfg (sleepRecordCycleIndexOfNextRecording cfg bk) ct cs := by
    intro ct cs
    unfold scheduleFirstPeriodTomorrow
    simp only [h1, h4, h8]
  have hb : scheduleBeforeLatest cfg2 bk t = scheduleBeforeLatest cfg bk t := by
    unfold scheduleBeforeLatest
    simp only [hsel, hclamp, h7, h8, hfirst,
      schedulePeriods_congr cfg cfg2 (sleepRecordCycleIndexOfNextRecording cfg bk) _ _ _ _
        h1 h2 h3 h4 h5]
  have hl : ∀ w, applyLatestRecordingTime cfg2 w = applyLatestRecordingTime cfg w := by
    intro w
    unfold applyLatestRecordingTime
    rw [h10]
  unfold scheduleWindow
  rw [hb, hl]

/-- C15: `scheduleRecording` selects the INITIAL cycle exactly when both cycles are
configured and (`numberOfRecordings` is 0 or `numberOfCompleteInitialRecordings` is below
`initialSleepRecordCycles`), and the STANDARD cycle otherwise; replacing the sleep and
record durations by lists that agree with them at the selected cycle, whatever they hold
for the other cycle, does not change its result. -/
theorem scheduleRecording_cycle_selection (cfg : CP_configSettings_t) (bk : BackupDomain)
    (t : Nat) (recordDuration sleepDuration : List Nat)
    (hr : recordDuration.getD (sleepRecordCycleIndexOfNextRecording cfg bk).toNat 0
      = cfg.recordDuration.getD (sleepRecordCycleIndexOfNextRecording cfg bk).toNat 0)
    (hs : sleepDuration.getD (sleepRecordCycleIndexOfNextRecording cfg bk).toNat 0
      = cfg.sleepDuration.getD (sleepRecordCycleIndexOfNextRecording cfg bk).toNat 0) :
    (sleepRecordCycleIndexOfNextRecording cfg bk
        = AM_sleepRecordIndex_t.INITIAL_SLEEP_RECORD_CYCLE ↔
      cfg.numberOfSleepRecordCycles = INITIAL_AND_STANDARD_SLEEP_RECORD_CYCLES ∧
        (bk.numberOfRecordings = 0 ∨
          bk.numberOfCompleteInitialRecordings < cfg.initialSleepRecordCycles)) ∧
    (sleepRecordCycleIndexOfNextRecording cfg bk
        ≠ AM_sleepRecordIndex_t.INITIAL_SLEEP_RECORD_CYCLE →
      sleepRecordCycleIndexOfNextRecording cfg bk
        = AM_sleepRecordIndex_t.STANDARD_SLEEP_RECORD_CYCLE) ∧
    scheduleRecording
        { cfg with recordDuration := recordDuration, sleepDuration := sleepDuration } bk t
      = scheduleRecording cfg bk t := by
  refine ⟨?_, ?_, ?_⟩
  · unfold sleepRecordCycleIndexOfNextRecording
    split_ifs with c1 c2
    · exact ⟨fun _ => ⟨c1, c2⟩, fun _ => rfl⟩
    · exact ⟨fun h => (by cases h), fun h => absurd h.2 c2⟩
    · exact ⟨fun h => (by cases h), fun h => absurd h.1 c1⟩
  · intro h
    cases hc : sleepRecordCycleIndexOfNextRecording cfg bk with
    | INITIAL_SLEEP_RECORD_CYCLE => exact absurd hc h
    | STANDARD_SLEEP_RECORD_CYCLE => rfl
  · unfold scheduleRecording
    rw [scheduleWindow_congr cfg
      { cfg with recordDuration := recordDuration, sleepDuration := sleepDuration } bk t
      rfl rfl rfl hr hs rfl rfl rfl rfl rfl]

/-- C15 (witness): with both cycles configured and no recording made yet, the INITIAL cycle
(55 s record, 5 s sleep) is selected: 30 s into the period the window is the remaining
25 s, also when the STANDARD cycle's durations are replaced. -/
theorem scheduleRecording_cycle_selection_witness :
    sleepRecordCycleIndexOfNextRecording twoCyclesExample initialBackupDomain
      = AM_sleepRecordIndex_t.INITIAL_SLEEP_RECORD_CYCLE ∧
    (scheduleRecording twoCyclesExample initialBackupDomain 1641600030).durationOfNextRecording
      = 25 ∧
    scheduleRecording
        { twoCyclesExample with recordDuration := [55, 7], sleepDuration := [5, 9] }
        initialBackupDomain 1641600030
      = scheduleRecording twoCyclesExample initialBackupDomain 1641600030 :=
  ⟨by decide, by decide,
    (scheduleRecording_cycle_selection twoCyclesExample initialBackupDomain 1641600030
      [55, 7] [5, 9] (by decide) (by decide)).2.2⟩

/-- Why the bound is stated for the STANDARD index: in a settings record with an earliest
recording time (the firmware holds none, see `readConfigurationFile_recordingTimes`), with
10 s record / 100 s sleep, opportunistic recording enabled and the earliest recording time
50 s into the period, in the sleep phase, the scheduler returns after a STANDARD recording
an OPPORTUNISTIC window that starts 15 s into the period, 5 s after the record phase. -/
theorem scheduleRecording_opportunistic_before_earliest :
    earliestExample.earliestRecordingTime = 1641600050 ∧
    validScheduleSettings earliestExample ∧
    (scheduleRecording earliestExample standardBackupDomain 1641600000).timeOfNextRecording
      = 1641600015 ∧
    (scheduleRecording earliestExample standardBackupDomain 1641600000).durationOfNextRecording
      = 90 ∧
    (scheduleRecording earliestExample standardBackupDomain
      1641600000).configurationIndexOfNextRecording
      = AM_configurationIndex_t.OPPORTUNISTIC_RECORDING ∧
    (scheduleRecording earliestExample standardBackupDomain 1641600000).timeOfNextRecording
      < earliestExample.earliestRecordingTime :=
  ⟨by decide, by decide, by decide, by decide, by decide, by decide⟩

/-! ## The interrupt side -/

theorem getD_set_self (l : List Bool) (i : Nat) (b : Bool) (h : i < l.length) :
    (l.set i b).getD i false = b := by
  rw [List.getD_eq_getElem?_getD, List.getElem?_set_self h]
  rfl

theorem getD_set_other (l : List Bool) (i j : Nat) (b : Bool) (h : i ≠ j) :
    (l.set i b).getD j false = l.getD j false := by
  rw [List.getD_eq_getElem?_getD, List.getD_eq_getElem?_getD, List.getElem?_set_ne h]

/-- C20: a DMA transfer after the warm-up (`dmaTransfersProcessed > dmaTransfersToSkip`), with
`writeBuffer` a valid index of the eight flags: the flag of the current write buffer becomes
its old value or-ed with the threshold result, and the write offset advances by
`numberOfSamplesInDMATransfer / sampleRateDivider`; if the new offset differs from
`NUMBER_OF_SAMPLES_IN_BUFFER`, `writeBuffer` and all other flags are unchanged; if it equals
`NUMBER_OF_SAMPLES_IN_BUFFER`, the offset becomes 0, `writeBuffer` becomes
`(writeBuffer + 1) % NUMBER_OF_BUFFERS`, the flag of that buffer becomes false and the
flags of the remaining buffers are unchanged.  The local `readBuffer` of `makeRecording` is
not changed by the interrupt. -/
theorem handleDirectMemoryAccessInterrupt_step (sram n divider skip : Nat) (thr : Bool)
    (s : InterruptState) (loop : RecordingLoop)
    (hwarm : s.dmaTransfersProcessed > skip)
    (hwb : s.writeBuffer < NUMBER_OF_BUFFERS)
    (hlen : s.writeIndicator.length = NUMBER_OF_BUFFERS) :
    (u32 (s.writeBufferIndex + n / divider) ≠ NUMBER_OF_SAMPLES_IN_BUFFER sram →
      (AudioMoth_handleDirectMemoryAccessInterrupt sram n divider skip thr s).writeBufferIndex
        = u32 (s.writeBufferIndex + n / divider) ∧
      (AudioMoth_handleDirectMemoryAccessInterrupt sram n divider skip thr s).writeBuffer
        = s.writeBuffer ∧
      (AudioMoth_handleDirectMemoryAccessInterrupt sram n divider skip thr
        s).writeIndicator.getD s.writeBuffer false
        = (s.writeIndicator.getD s.writeBuffer false || thr) ∧
      ∀ i, i ≠ s.writeBuffer →
        (AudioMoth_handleDirectMemoryAccessInterrupt sram n divider skip thr
          s).writeIndicator.getD i false = s.writeIndicator.getD i false) ∧
    (u32 (s.writeBufferIndex + n / divider) = NUMBER_OF_SAMPLES_IN_BUFFER sram →
      (AudioMoth_handleDirectMemoryAccessInterrupt sram n divider skip thr s).writeBufferIndex
        = 0 ∧
      (AudioMoth_handleDirectMemoryAccessInterrupt sram n divider skip thr s).writeBuffer
        = (s.writeBuffer + 1) % NUMBER_OF_BUFFERS ∧
      (AudioMoth_handleDirectMemoryAccessInterrupt sram n divider skip thr
        s).writeIndicator.getD ((s.writeBuffer + 1) % NUMBER_OF_BUFFERS) false = false ∧
      (AudioMoth_handleDirectMemoryAccessInterrupt sram n divider skip thr
        s).writeIndicator.getD s.writeBuffer false
        = (s.writeIndicator.getD s.writeBuffer false || thr) ∧
      ∀ i, i ≠ s.writeBuffer → i ≠ (s.writeBuffer + 1) % NUMBER_OF_BUFFERS →
        (AudioMoth_handleDirectMemoryAccessInterrupt sram n divider skip thr
          s).writeIndicator.getD i false = s.writeIndicator.getD i false) ∧
    (AudioMoth_handleDirectMemoryAccessInterrupt sram n divider skip thr s).dmaTransfersProcessed
      = u32 (s.dmaTransfersProcessed + 1) ∧
    (AudioMoth_handleDirectMemoryAccessInterrupt sram n divider skip thr
      s).writeIndicator.length = NUMBER_OF_BUFFERS ∧
    (interruptDuringRecording sram n divider skip thr (s, loop)).2.readBuffer
      = loop.readBuffer := by
  have hne : (s.writeBuffer + 1) % NUMBER_OF_BUFFERS ≠ s.writeBuffer := by
    simp only [NUMBER_OF_BUFFERS] at hwb ⊢
    omega
  have hlt : (s.writeBuffer + 1) % NUMBER_OF_BUFFERS < NUMBER_OF_BUFFERS :=
    Nat.mod_lt _ (by decide)
  unfold AudioMoth_handleDirectMemoryAccessInterrupt
  simp only [if_pos hwarm]
  refine ⟨fun h => ?_, fun h => ?_, trivial, ?_, rfl⟩
  · rw [if_neg h]
    refine ⟨rfl, rfl, ?_, fun i hi => ?_⟩
    · exact getD_set_self _ _ _ (by rw [hlen]; exact hwb)
    · exact getD_set_other _ _ _ _ (Ne.symm hi)
  · rw [if_pos h]
    refine ⟨rfl, rfl, ?_, ?_, fun i hi1 hi2 => ?_⟩
    · exact getD_set_self _ _ _ (by rw [List.length_set, hlen]; exact hlt)
    · show ((s.writeIndicator.set _ _).set _ _).getD _ false = _
      rw [getD_set_other _ _ _ _ hne]
      exact getD_set_self _ _ _ (by rw [hlen]; exact hwb)
    · show ((s.writeIndicator.set _ _).set _ _).getD _ false = _
      rw [getD_set_other _ _ _ _ (Ne.symm hi2), getD_set_other _ _ _ _ (Ne.symm hi1)]
  · split_ifs
    · show ((s.writeIndicator.set _ _).set _ _).length = _
      rw [List.length_set, List.length_set, hlen]
    · show (s.writeIndicator.set _ _).length = _
      rw [List.length_set, hlen]

/-- C20 (witness): the transfer that fills buffer 2 with the threshold exceeded sets the
flag of buffer 2, moves the write index to buffer 3 at offset 0 and clears the flag of
buffer 3; a transfer in the middle of a buffer advances the offset by 1024 / 8 = 128. -/
theorem handleDirectMemoryAccessInterrupt_step_witness :
    AudioMoth_handleDirectMemoryAccessInterrupt exampleSramSizeInBytes 1024 8 100 true
        interruptExample
      = { writeBuffer := 3
          writeBufferIndex := 0
          writeIndicator := [true, false, true, false, true, true, true, true]
          dmaTransfersProcessed := 501 } ∧
    (AudioMoth_handleDirectMemoryAccessInterrupt exampleSramSizeInBytes 1024 8 100 true
        interruptExample).writeIndicator.getD 3 false = false ∧
    (AudioMoth_handleDirectMemoryAccessInterrupt exampleSramSizeInBytes 1024 8 100 false
        { interruptExample with writeBufferIndex := 0 }).writeBufferIndex = 128 :=
  ⟨by decide,
    ((handleDirectMemoryAccessInterrupt_step exampleSramSizeInBytes 1024 8 100 true
      interruptExample (startOfRecording 0) (by decide) (by decide) (by decide)).2.1
      (by decide)).2.2.1,
    ((handleDirectMemoryAccessInterrupt_step exampleSramSizeInBytes 1024 8 100 false
      { interruptExample with writeBufferIndex := 0 } (startOfRecording 0) (by decide)
      (by decide) (by decide)).1 (by decide)).1⟩

/-- What `makeRecording` sets `fileSizeLimited` to. -/
theorem makeRecording_fileSizeLimited (sram : Nat) (cfg : CP_configSettings_t)
    (bk : BackupDomain) (dur day guano : Nat) (storage : Nat → Bool) (obs : List Observation)
    (r : RecordingResult)
    (h : makeRecording sram cfg bk dur day guano storage obs = Progress.finished r) :
    r.fileSizeLimited = decide (dur > maximumNumberOfSeconds
      (effectiveSampleRate cfg bk.configurationIndexOfNextRecording)) := by
  unfold makeRecording at h
  dsimp only at h
  split_ifs at h with c
  · cases h; rfl
  · cases hq : openAndRecord (NUMBER_OF_SAMPLES_IN_BUFFER sram)
        (samplesToWrite (effectiveSampleRate cfg bk.configurationIndexOfNextRecording) dur)
        (maximumFileSizeWritten cfg)
        (decide (bk.configurationIndexOfNextRecording
          = AM_configurationIndex_t.OPPORTUNISTIC_RECORDING))
        cfg.enableLowVoltageCutoff storage
        (startOfRecording (resetTotalFileSizeWritten day bk))
        obs with
    | waiting l => rw [hq] at h; cases h
    | finished drained =>
      rw [hq] at h
      dsimp only at h
      split_ifs at h <;> cases h <;> rfl

/-- C19: for an effective sample rate of at least 1 and any requested duration,
`makeRecording` sets `fileSizeLimited` exactly when the duration exceeds
`maximumNumberOfSeconds = (MAXIMUM_WAV_FILE_SIZE - sizeof(wavHeader)) / 2 / rate`; the product
`rate * min(duration, maximumNumberOfSeconds)` fits in 32 bits, so `numberOfSamples` is that
product; the loop bound `numberOfSamples + numberOfSamplesInHeader` fits in 32 bits; and
`2 * numberOfSamples + sizeof(wavHeader) <= MAXIMUM_WAV_FILE_SIZE = UINT32_MAX - 1`. -/
theorem makeRecording_file_size_ceiling (sram : Nat) (cfg : CP_configSettings_t)
    (bk : BackupDomain) (dur day guano : Nat) (storage : Nat → Bool) (obs : List Observation)
    (_hrate : 1 ≤ effectiveSampleRate cfg bk.configurationIndexOfNextRecording) :
    (∀ r, makeRecording sram cfg bk dur day guano storage obs = Progress.finished r →
      (r.fileSizeLimited = true ↔ dur > maximumNumberOfSeconds
        (effectiveSampleRate cfg bk.configurationIndexOfNextRecording))) ∧
    maximumNumberOfSeconds (effectiveSampleRate cfg bk.configurationIndexOfNextRecording)
      = (MAXIMUM_WAV_FILE_SIZE - sizeofWavHeader) / NUMBER_OF_BYTES_IN_SAMPLE
        / effectiveSampleRate cfg bk.configurationIndexOfNextRecording ∧
    effectiveSampleRate cfg bk.configurationIndexOfNextRecording *
        min dur (maximumNumberOfSeconds
          (effectiveSampleRate cfg bk.configurationIndexOfNextRecording)) ≤ UINT32_MAX ∧
    numberOfSamples (effectiveSampleRate cfg bk.configurationIndexOfNextRecording) dur
      = effectiveSampleRate cfg bk.configurationIndexOfNextRecording *
        min dur (maximumNumberOfSeconds
          (effectiveSampleRate cfg bk.configurationIndexOfNextRecording)) ∧
    numberOfSamples (effectiveSampleRate cfg bk.configurationIndexOfNextRecording) dur
      + numberOfSamplesInHeader ≤ UINT32_MAX ∧
    samplesToWrite (effectiveSampleRate cfg bk.configurationIndexOfNextRecording) dur
      = numberOfSamples (effectiveSampleRate cfg bk.configurationIndexOfNextRecording) dur
        + numberOfSamplesInHeader ∧
    NUMBER_OF_BYTES_IN_SAMPLE *
        numberOfSamples (effectiveSampleRate cfg bk.configurationIndexOfNextRecording) dur
      + sizeofWavHeader ≤ MAXIMUM_WAV_FILE_SIZE ∧
    MAXIMUM_WAV_FILE_SIZE = UINT32_MAX - 1 := by
  generalize hg : effectiveSampleRate cfg bk.configurationIndexOfNextRecording = rate at *
  have hmax : rate * maximumNumberOfSeconds rate ≤ 2147483403 := by
    unfold maximumNumberOfSeconds
    have : (MAXIMUM_WAV_FILE_SIZE - sizeofWavHeader) / NUMBER_OF_BYTES_IN_SAMPLE = 2147483403 := by
      decide
    rw [this]
    exact Nat.mul_div_le _ _
  have hmin : rate * min dur (maximumNumberOfSeconds rate) ≤ 2147483403 :=
    le_trans (Nat.mul_le_mul_left rate (min_le_right _ _)) hmax
  have hn : numberOfSamples rate dur = rate * min dur (maximumNumberOfSeconds rate) := by
    unfold numberOfSamples
    have : (if dur > maximumNumberOfSeconds rate then maximumNumberOfSeconds rate else dur)
        = min dur (maximumNumberOfSeconds rate) := by
      split_ifs with c
      · exact (min_eq_right (le_of_lt c)).symm
      · exact (min_eq_left (not_lt.1 c)).symm
    rw [this]
    exact u32_eq (by omega)
  obtain ⟨_, _, h3, _⟩ := samplesToWrite_bounds rate dur
  have hh : numberOfSamplesInHeader = 244 := by decide
  have hw : sizeofWavHeader = 488 := by decide
  have hM : MAXIMUM_WAV_FILE_SIZE = 4294967294 := by decide
  refine ⟨fun r hr => ?_, rfl, ?_, hn, ?_, ?_, ?_, by decide⟩
  · rw [makeRecording_fileSizeLimited sram cfg bk dur day guano storage obs r hr, hg]
    simp
  · simp only [UINT32_MAX]; omega
  · rw [hn, hh]; simp only [UINT32_MAX]; omega
  · rw [h3, hh]
  · rw [hn, hw, hM]; simp only [NUMBER_OF_BYTES_IN_SAMPLE]; omega

/-- C19 (witness): at 48000 Hz a request for 100000 s is above the ceiling of 44739 s; the
session is marked `fileSizeLimited` and the target is 44739 s of samples. -/
theorem makeRecording_file_size_ceiling_witness :
    (∃ r, makeRecording exampleSramSizeInBytes defaultConfigSettings standardBackupDomain
        100000 0 300 storageAlwaysSucceeds switchedObservations = Progress.finished r ∧
      r.fileSizeLimited = true) ∧
    maximumNumberOfSeconds 48000 = 44739 ∧
    numberOfSamples 48000 100000 = 48000 * 44739 ∧
    NUMBER_OF_BYTES_IN_SAMPLE * numberOfSamples 48000 100000 + sizeofWavHeader
      ≤ MAXIMUM_WAV_FILE_SIZE :=
  ⟨⟨_, rfl,
      ((makeRecording_file_size_ceiling exampleSramSizeInBytes defaultConfigSettings
        standardBackupDomain 100000 0 300 storageAlwaysSucceeds switchedObservations
        (by decide)).1 _ rfl).2 (by decide)⟩,
    by decide, by decide,
    (makeRecording_file_size_ceiling exampleSramSizeInBytes defaultConfigSettings
      standardBackupDomain 100000 0 300 storageAlwaysSucceeds switchedObservations
      (by decide)).2.2.2.2.2.2.1⟩

/-! ## The recording session: the order of the buffers and the reported sample count -/

/-- One pass of the loop body keeps the invariant of the drain. -/
theorem processBuffer_drainInvariant (S bound maxSize : Nat) (opportunistic : Bool)
    (storage : Nat → Bool) (flag : Bool) (s : RecordingLoop)
    (hb1 : 244 ≤ bound) (hb2 : bound ≤ 2147483647)
    (hI : drainInvariant S bound s)
    (hc : continueRecording bound s = true)
    (he : (processBuffer S bound maxSize opportunistic storage flag s).storageError = false) :
    drainInvariant S bound (processBuffer S bound maxSize opportunistic storage flag s) := by
  have hlt := continueRecording_lt bound s hc
  obtain ⟨g1, g2, g3, g4, g5, g6⟩ := hI
  have g2' := g2 hlt
  have hn : numberOfSamplesToWrite S bound s = min (bound - s.samplesWritten) S := by
    unfold numberOfSamplesToWrite sub32
    congr 1
    omega
  have hmul : (s.buffersProcessed + 1) * S = s.buffersProcessed * S + S := Nat.succ_mul _ _
  have hmod : ((s.buffersProcessed + 1) * S) % S = 0 := Nat.mul_mod_left _ _
  have hblk : 512 * (2 * S / 512) ≤ 2 * S := Nat.mul_div_le _ _
  have hbp : 0 < S → s.buffersProcessed ≤ s.buffersProcessed * S :=
    fun h => Nat.le_mul_of_pos_right _ h
  -- the counter of processed buffers after the pass
  have hbp1 : 0 < S → (s.buffersProcessed + 1) % 4294967296 = s.buffersProcessed + 1 := by
    intro h
    have := hbp h
    omega
  have hS0 : S = 0 → s.samplesWritten = 0 := by
    intro h
    rw [g2', h, Nat.mul_zero]
  have hwhole : ∀ b : Nat, S = 0 ∨ b = s.buffersProcessed + 1 → s.samplesWritten + S < bound →
      s.samplesWritten + S = b * S := by
    intro b hb _
    rcases hb with hb | hb
    · rw [hb, Nat.mul_zero, Nat.add_zero]; exact hS0 hb
    · rw [hb, hmul, ← g2']
  have hbcase : S = 0 ∨ (s.buffersProcessed + 1) % 4294967296 = s.buffersProcessed + 1 := by
    rcases Nat.eq_zero_or_pos S with h | h
    · exact Or.inl h
    · exact Or.inr (hbp1 h)
  have hnotwhole : bound % S ≠ 0 → s.samplesWritten + S ≠ bound := by
    intro hT heq
    apply hT
    rcases Nat.eq_zero_or_pos S with h | h
    · rw [h] at heq; omega
    · have : bound = (s.buffersProcessed + 1) * S := by omega
      rw [this]; exact hmod
  by_cases c1 : flag = false ∧ 0 < s.buffersProcessed ∧ numberOfSamplesToWrite S bound s = S
  · -- the buffer is skipped
    obtain ⟨hf, c1b, c1c⟩ := c1
    subst hf
    rw [processBuffer_skip S bound maxSize opportunistic storage s c1b c1c]
    rw [hn] at c1c
    unfold drainInvariant incrementBufferCounters countCompressedBuffer
    dsimp only
    simp only [u32, NUMBER_OF_BYTES_IN_SAMPLE, COMPRESSION_BUFFER_SIZE_IN_BYTES]
    have e1 : (s.samplesWritten + S) % 4294967296 = s.samplesWritten + S := by omega
    rw [e1]
    refine ⟨by omega, fun h => ?_, fun hT h => absurd h (hnotwhole hT), fun h => ?_,
      fun h => ?_, fun h => ?_⟩
    · rcases hbcase with hb | hb
      · exact hwhole _ (Or.inl hb) h
      · rw [hb]; exact hwhole _ (Or.inr rfl) h
    · rcases hbcase with hb | hb
      · have := g6 (by omega)
        have h2 : 2 * S / 512 = 0 := by omega
        rw [this.1, this.2, h2]
        exact ⟨by rw [hb]; exact hS0 hb, rfl, rfl⟩
      · rw [hb] at h; omega
    · have := g5 h
      have hb := hbp1 (by omega)
      have e3 : (s.numberOfCompressedBuffers + 2 * S / 512) % 4294967296
          = s.numberOfCompressedBuffers + 2 * S / 512 := by
        split_ifs at this <;> omega
      rw [e3]
      split_ifs at this ⊢ <;> omega
    · have := g6 h
      have h2 : 2 * S / 512 = 0 := by omega
      rw [this.1, this.2, h2]
      exact ⟨rfl, rfl⟩
  · -- the buffer is written, after the marker of a pending run
    rw [processBuffer_write S bound maxSize opportunistic storage flag s c1] at he ⊢
    by_cases c2 : (flushCompressionBuffer opportunistic storage s).storageError = true
    · rw [if_pos c2] at he; rw [c2] at he; cases he
    · rw [if_neg c2] at he ⊢
      by_cases c3 : (writeSampleBuffer opportunistic storage (numberOfSamplesToWrite S bound s)
          (flushCompressionBuffer opportunistic storage s)).storageError = true
      · rw [if_pos c3] at he; rw [c3] at he; cases he
      · rw [if_neg c3]
        obtain ⟨f1, f2, f3, f4, f5, f6, f7, f8, f9⟩ :=
          flushCompressionBuffer_effect opportunistic storage s (by simpa using c2)
        obtain ⟨w1, w2, w3, w4, w5, w6, w7, w8, w9, w10⟩ :=
          writeSampleBuffer_effect opportunistic storage (numberOfSamplesToWrite S bound s)
            (flushCompressionBuffer opportunistic storage s) (by simpa using c3)
        have htot : (256 ≤ S → 2 * (flushCompressionBuffer opportunistic storage
              s).totalNumberOfCompressedSamples
              + (if s.buffersProcessed = 0 then 0 else 488) ≤ 2 * s.samplesWritten) ∧
            (S < 256 → (flushCompressionBuffer opportunistic storage
              s).totalNumberOfCompressedSamples = 0) ∧
            (s.buffersProcessed = 0 → (flushCompressionBuffer opportunistic storage
              s).totalNumberOfCompressedSamples = 0) := by
          rcases Nat.eq_zero_or_pos s.numberOfCompressedBuffers with h0 | h0
          · rw [f1 h0]
            refine ⟨fun h => ?_, fun h => (g6 h).2, fun h => (g4 h).2.2⟩
            have := g5 h
            omega
          · obtain ⟨_, _, k3⟩ := f2 h0
            rw [k3]
            simp only [u32, COMPRESSION_BUFFER_SIZE_IN_BYTES, NUMBER_OF_BYTES_IN_SAMPLE]
            refine ⟨fun h => ?_, fun h => ?_, fun h => ?_⟩
            · have := g5 h
              split_ifs at this ⊢ <;> omega
            · have := (g6 h).1
              omega
            · have := (g4 h).2.1
              omega
        obtain ⟨t1, t2, t3⟩ := htot
        unfold drainInvariant incrementBufferCounters
        dsimp only
        rw [w2, w3, w4, w5, w6, f3, f4, f5, hn]
        simp only [u32]
        clear f1 f2 f3 f4 f5 f6 f7 f8 f9 w1 w2 w3 w4 w5 w6 w7 w8 w9 w10 c1 c2 c3 he hn
        generalize flushCompressionBuffer opportunistic storage s = fl at *
        have e1 : (s.samplesWritten + min (bound - s.samplesWritten) S) % 4294967296
            = s.samplesWritten + min (bound - s.samplesWritten) S := by omega
        rw [e1]
        refine ⟨?_, ?_, ?_, ?_, ?_, ?_⟩
        · omega
        · intro h
          have hmin : min (bound - s.samplesWritten) S = S := by omega
          rw [hmin] at h ⊢
          rcases hbcase with hb | hb
          · exact hwhole _ (Or.inl hb) h
          · rw [hb]; exact hwhole _ (Or.inr rfl) h
        · intro hT h
          refine ⟨trivial, fl.readBuffer,
            min (bound - s.samplesWritten) S, ?_, ?_⟩
          · rw [List.getLast?_append]
            rfl
          · have := hnotwhole hT
            omega
        · intro h
          rcases hbcase with hb | hb
          · have := g6 (by omega)
            refine ⟨?_, trivial, t2 (by omega)⟩
            have := hS0 hb
            omega
          · rw [hb] at h; omega
        · intro h
          have := t1 h
          have hb := hbp1 (by omega)
          rcases Nat.eq_zero_or_pos s.buffersProcessed with h0 | h0
          · have := (g4 h0).1
            have := t3 h0
            split_ifs <;> omega
          · split_ifs at this ⊢ <;> omega
        · intro h
          exact ⟨trivial, t2 h⟩

/-- The drain invariant holds in whatever state `openAndRecord` ends without a storage
error. -/
theorem openAndRecord_drainInvariant (S bound maxSize : Nat) (opportunistic : Bool)
    (cutoff : Nat) (storage : Nat → Bool) (total : Nat) (obs : List Observation)
    (hb1 : 244 ≤ bound) (hb2 : bound ≤ 2147483647) (s' : RecordingLoop)
    (h : openAndRecord S bound maxSize opportunistic cutoff storage (startOfRecording total) obs
      = Progress.finished s')
    (he : s'.storageError = false) : drainInvariant S bound s' := by
  refine (openAndRecord_invariant S bound maxSize opportunistic cutoff storage
    (fun s => s.storageError = false → drainInvariant S bound s)
    (startOfRecording total) obs ?_ ?_ ?_ ?_).1 s' h he
  · intro _
    unfold drainInvariant
    show 0 ≤ bound ∧ (0 < bound → 0 = 0 * S) ∧ (bound % S ≠ 0 → 0 = bound → _) ∧
      (0 = 0 → 0 = 0 ∧ 0 = 0 ∧ 0 = 0) ∧
      (256 ≤ S → 2 * 0 + 512 * 0 + (if 0 = 0 then 0 else 488) ≤ 2 * 0) ∧
      (S < 256 → 0 = 0 ∧ 0 = 0)
    refine ⟨Nat.zero_le _, fun _ => by omega, fun _ h0 => by omega,
      fun _ => ⟨rfl, rfl, rfl⟩, fun _ => by simp, fun _ => ⟨rfl, rfl⟩⟩
  · intro s o hI; exact hI
  · intro s o hI; exact hI
  · intro s flag hI he0 hc he1
    exact processBuffer_drainInvariant S bound maxSize opportunistic storage flag s hb1 hb2
      (hI he0) hc he1

/-- The main recording loop returns only when a storage call has failed or the loop
condition is false. -/
theorem recordingLoop_exit (S bound maxSize : Nat) (opportunistic : Bool) (cutoff : Nat)
    (storage : Nat → Bool) (pos : LoopPosition) (s : RecordingLoop) (obs : List Observation)
    (s' : RecordingLoop)
    (h : recordingLoop S bound maxSize opportunistic cutoff storage pos s obs
      = Progress.finished s') :
    s'.storageError = true ∨ continueRecording bound s' = false := by
  induction obs generalizing pos s with
  | nil => cases pos <;> simp only [recordingLoop] at h <;> cases h
  | cons o rest ih =>
    cases pos with
    | outer =>
      simp only [recordingLoop] at h
      split_ifs at h with c
      · exact ih _ _ h
      · cases h
        exact Or.inr (by simpa using c)
    | inner =>
      simp only [recordingLoop] at h
      split_ifs at h with c1 c2
      · cases h
        exact Or.inl c2
      · exact ih _ _ h
      · exact ih _ _ h

/-- The middle part of `makeRecording` ends only when a storage call has failed or the loop
condition is false. -/
theorem openAndRecord_exit (S bound maxSize : Nat) (opportunistic : Bool) (cutoff : Nat)
    (storage : Nat → Bool) (start : RecordingLoop) (obs : List Observation)
    (s' : RecordingLoop)
    (h : openAndRecord S bound maxSize opportunistic cutoff storage start obs
      = Progress.finished s') :
    s'.storageError = true ∨ continueRecording bound s' = false := by
  unfold openAndRecord at h
  dsimp only at h
  split_ifs at h with c
  · cases h
    exact Or.inl c
  · cases hw : waitForWriteBuffer (storageCall storage start StorageCall.openFile) obs with
    | waiting l => rw [hw] at h; cases h
    | finished p =>
      rw [hw] at h
      exact recordingLoop_exit S bound maxSize opportunistic cutoff storage _ _ _ s' h

/-- The write of a marker block leaves the read position, the counter of processed
buffers, the run counter and the three flags alone. -/
theorem writeCompressionBuffer_fields (opportunistic : Bool) (storage : Nat → Bool)
    (s : RecordingLoop) :
    (writeCompressionBuffer opportunistic storage s).readBuffer = s.readBuffer ∧
    (writeCompressionBuffer opportunistic storage s).buffersProcessed = s.buffersProcessed ∧
    (writeCompressionBuffer opportunistic storage s).numberOfCompressedBuffers
      = s.numberOfCompressedBuffers ∧
    (writeCompressionBuffer opportunistic storage s).switchPositionChanged
      = s.switchPositionChanged ∧
    (writeCompressionBuffer opportunistic storage s).supplyVoltageLow = s.supplyVoltageLow ∧
    (writeCompressionBuffer opportunistic storage s).totalFileSizeLimited
      = s.totalFileSizeLimited := by
  unfold writeCompressionBuffer
  split_ifs <;> exact ⟨rfl, rfl, rfl, rfl, rfl, rfl⟩

/-- The write of a sample buffer leaves the read position and the counter of processed
buffers alone. -/
theorem writeSampleBuffer_fields (opportunistic : Bool) (storage : Nat → Bool) (n : Nat)
    (s : RecordingLoop) :
    (writeSampleBuffer opportunistic storage n s).readBuffer = s.readBuffer ∧
    (writeSampleBuffer opportunistic storage n s).buffersProcessed = s.buffersProcessed := by
  unfold writeSampleBuffer
  split_ifs <;> exact ⟨rfl, rfl⟩

/-- The flush inside the loop leaves the read position and the counter of processed buffers
alone. -/
theorem flushCompressionBuffer_fields (opportunistic : Bool) (storage : Nat → Bool)
    (s : RecordingLoop) :
    (flushCompressionBuffer opportunistic storage s).readBuffer = s.readBuffer ∧
    (flushCompressionBuffer opportunistic storage s).buffersProcessed = s.buffersProcessed := by
  obtain ⟨w1, w2, _⟩ := writeCompressionBuffer_fields opportunistic storage s
  unfold flushCompressionBuffer
  split_ifs
  · exact ⟨w1, w2⟩
  · exact ⟨w1, w2⟩
  · exact ⟨rfl, rfl⟩

/-- The header write and the close leave the read position, the counter of processed
buffers, the run counter and the three flags alone. -/
theorem writeHeaderAndClose_fields (storage : Nat → Bool) (wavHeader : WavHeaderDetails)
    (s : RecordingLoop) :
    (writeHeaderAndClose storage wavHeader s).readBuffer = s.readBuffer ∧
    (writeHeaderAndClose storage wavHeader s).buffersProcessed = s.buffersProcessed ∧
    (writeHeaderAndClose storage wavHeader s).numberOfCompressedBuffers
      = s.numberOfCompressedBuffers ∧
    (writeHeaderAndClose storage wavHeader s).switchPositionChanged
      = s.switchPositionChanged ∧
    (writeHeaderAndClose storage wavHeader s).supplyVoltageLow = s.supplyVoltageLow ∧
    (writeHeaderAndClose storage wavHeader s).totalFileSizeLimited
      = s.totalFileSizeLimited := by
  unfold writeHeaderAndClose
  dsimp only
  split_ifs <;> exact ⟨rfl, rfl, rfl, rfl, rfl, rfl⟩

/-- The finalisation of the file leaves the read position, the counter of processed
buffers, the run counter and the three flags as the loop left them, whether or not a
storage call fails. -/
theorem finishRecording_counters (bound rate guano : Nat) (opportunistic fsl : Bool)
    (storage : Nat → Bool) (s : RecordingLoop) :
    (finishRecording bound rate guano opportunistic fsl storage s).1.readBuffer = s.readBuffer ∧
    (finishRecording bound rate guano opportunistic fsl storage s).1.buffersProcessed
      = s.buffersProcessed ∧
    (finishRecording bound rate guano opportunistic fsl storage s).1.numberOfCompressedBuffers
      = s.numberOfCompressedBuffers ∧
    (finishRecording bound rate guano opportunistic fsl storage s).1.switchPositionChanged
      = s.switchPositionChanged ∧
    (finishRecording bound rate guano opportunistic fsl storage s).1.supplyVoltageLow
      = s.supplyVoltageLow ∧
    (finishRecording bound rate guano opportunistic fsl storage s).1.totalFileSizeLimited
      = s.totalFileSizeLimited := by
  have hf : (flushCompressionBufferAtEnd bound opportunistic storage s).readBuffer
        = s.readBuffer ∧
      (flushCompressionBufferAtEnd bound opportunistic storage s).buffersProcessed
        = s.buffersProcessed ∧
      (flushCompressionBufferAtEnd bound opportunistic storage s).numberOfCompressedBuffers
        = s.numberOfCompressedBuffers ∧
      (flushCompressionBufferAtEnd bound opportunistic storage s).switchPositionChanged
        = s.switchPositionChanged ∧
      (flushCompressionBufferAtEnd bound opportunistic storage s).supplyVoltageLow
        = s.supplyVoltageLow ∧
      (flushCompressionBufferAtEnd bound opportunistic storage s).totalFileSizeLimited
        = s.totalFileSizeLimited := by
    unfold flushCompressionBufferAtEnd
    split_ifs
    · exact writeCompressionBuffer_fields opportunistic storage s
    · exact ⟨rfl, rfl, rfl, rfl, rfl, rfl⟩
  obtain ⟨h1, h2, h3, h4, h5, h6⟩ := hf
  unfold finishRecording
  dsimp only
  generalize flushCompressionBufferAtEnd bound opportunistic storage s = fl at *
  split_ifs
  · exact ⟨h1, h2, h3, h4, h5, h6⟩
  · exact ⟨h1, h2, h3, h4, h5, h6⟩
  · obtain ⟨k1, k2, k3, k4, k5, k6⟩ := writeHeaderAndClose_fields storage
      (finalWavHeader rate guano fsl (raiseSamplesWritten (storageCall storage fl
        (StorageCall.writeToFile WriteSource.guanoData guano))))
      (raiseSamplesWritten (storageCall storage fl
        (StorageCall.writeToFile WriteSource.guanoData guano)))
    rw [k1, k2, k3, k4, k5, k6]
    exact ⟨h1, h2, h3, h4, h5, h6⟩

/-- One pass of the loop body keeps `readBuffer` equal to the number of processed buffers
modulo the number of buffers, whether or not a storage call fails. -/
theorem processBuffer_readBuffer (S bound maxSize : Nat) (opportunistic : Bool)
    (storage : Nat → Bool) (flag : Bool) (s : RecordingLoop)
    (hI : s.readBuffer = s.buffersProcessed % NUMBER_OF_BUFFERS) :
    (processBuffer S bound maxSize opportunistic storage flag s).readBuffer
      = (processBuffer S bound maxSize opportunistic storage flag s).buffersProcessed
        % NUMBER_OF_BUFFERS := by
  have key : (s.readBuffer + 1) % NUMBER_OF_BUFFERS
      = u32 (s.buffersProcessed + 1) % NUMBER_OF_BUFFERS := by
    rw [hI]
    simp only [u32, NUMBER_OF_BUFFERS]
    omega
  obtain ⟨f1, f2⟩ := flushCompressionBuffer_fields opportunistic storage s
  obtain ⟨w1, w2⟩ := writeSampleBuffer_fields opportunistic storage
    (numberOfSamplesToWrite S bound s) (flushCompressionBuffer opportunistic storage s)
  unfold processBuffer
  dsimp only
  split_ifs
  · exact key
  · rw [f1, f2]; exact hI
  · rw [w1, w2, f1, f2]; exact hI
  · show ((writeSampleBuffer opportunistic storage (numberOfSamplesToWrite S bound s)
        (flushCompressionBuffer opportunistic storage s)).readBuffer + 1) % NUMBER_OF_BUFFERS
      = u32 ((writeSampleBuffer opportunistic storage (numberOfSamplesToWrite S bound s)
        (flushCompressionBuffer opportunistic storage s)).buffersProcessed + 1)
          % NUMBER_OF_BUFFERS
    rw [w1, w2, f1, f2]; exact key

/-- A pass of the loop body that ends without a storage error moves `readBuffer` to the
next slot and counts one more processed buffer. -/
theorem processBuffer_advance (S bound maxSize : Nat) (opportunistic : Bool)
    (storage : Nat → Bool) (flag : Bool) (s : RecordingLoop)
    (he : (processBuffer S bound maxSize opportunistic storage flag s).storageError = false) :
    (processBuffer S bound maxSize opportunistic storage flag s).readBuffer
        = (s.readBuffer + 1) % NUMBER_OF_BUFFERS ∧
      (processBuffer S bound maxSize opportunistic storage flag s).buffersProcessed
        = u32 (s.buffersProcessed + 1) := by
  obtain ⟨f1, f2⟩ := flushCompressionBuffer_fields opportunistic storage s
  obtain ⟨w1, w2⟩ := writeSampleBuffer_fields opportunistic storage
    (numberOfSamplesToWrite S bound s) (flushCompressionBuffer opportunistic storage s)
  unfold processBuffer at he ⊢
  dsimp only at he ⊢
  split_ifs at he ⊢ with c1 c2 c3
  · exact ⟨rfl, rfl⟩
  · rw [c2] at he; cases he
  · rw [c3] at he; cases he
  · show ((writeSampleBuffer opportunistic storage (numberOfSamplesToWrite S bound s)
        (flushCompressionBuffer opportunistic storage s)).readBuffer + 1) % NUMBER_OF_BUFFERS
        = (s.readBuffer + 1) % NUMBER_OF_BUFFERS ∧
      u32 ((writeSampleBuffer opportunistic storage (numberOfSamplesToWrite S bound s)
        (flushCompressionBuffer opportunistic storage s)).buffersProcessed + 1)
        = u32 (s.buffersProcessed + 1)
    rw [w1, w2, f1, f2]
    exact ⟨rfl, rfl⟩

/-- A loop bound computed from a sample rate that is a multiple of 8 is not a whole number
of buffers when the buffer length is a multiple of 8: the bound is 4 more than a multiple
of 8. -/
theorem samplesToWrite_not_multiple (rate dur S : Nat) (hrate : rate % 8 = 0)
    (hS : S % 8 = 0) : samplesToWrite rate dur % S ≠ 0 := by
  obtain ⟨b1, _, b3, _⟩ := samplesToWrite_bounds rate dur
  have h8 : numberOfSamples rate dur % 8 = 0 := by
    unfold numberOfSamples u32
    obtain ⟨q, hq⟩ := Nat.dvd_of_mod_eq_zero hrate
    generalize (if dur > maximumNumberOfSeconds rate then maximumNumberOfSeconds rate else dur)
      = x
    rw [hq, Nat.mul_assoc]
    omega
  intro h0
  obtain ⟨m, hm⟩ := Nat.dvd_of_mod_eq_zero h0
  obtain ⟨j, hj⟩ := Nat.dvd_of_mod_eq_zero hS
  rw [b3, hj, Nat.mul_assoc] at hm
  omega

/-- C21: production-order draining.  In every state of a call of `makeRecording` (returned
or still waiting) `readBuffer` is the number of buffers processed so far modulo
`NUMBER_OF_BUFFERS`, so the k-th buffer processed (counting from 0) is slot `k mod 8`; the
inner loop leaves for the outer loop without processing anything when `readBuffer` equals
`writeBuffer`, and processes the slot `readBuffer` when they differ and the loop condition
holds; and every pass of the loop body that ends without a storage error advances
`readBuffer` by one modulo `NUMBER_OF_BUFFERS` and counts one more processed buffer. -/
theorem makeRecording_production_order (sram : Nat) (cfg : CP_configSettings_t)
    (bk : BackupDomain) (dur day guano : Nat) (storage : Nat → Bool)
    (obs : List Observation) :
    (∀ r, makeRecording sram cfg bk dur day guano storage obs = Progress.finished r →
        r.loop.readBuffer = r.loop.buffersProcessed % NUMBER_OF_BUFFERS) ∧
      (∀ l, makeRecording sram cfg bk dur day guano storage obs = Progress.waiting l →
        l.readBuffer = l.buffersProcessed % NUMBER_OF_BUFFERS) ∧
      (∀ S bound maxSize opportunistic cutoff s o rest, s.readBuffer = o.writeBuffer →
        recordingLoop S bound maxSize opportunistic cutoff storage LoopPosition.inner s
            (o :: rest)
          = recordingLoop S bound maxSize opportunistic cutoff storage LoopPosition.outer
            (checkVoltage cutoff (observeSwitch s o) o) rest) ∧
      (∀ S bound maxSize opportunistic cutoff s o rest, s.readBuffer ≠ o.writeBuffer →
        continueRecording bound (observeSwitch s o) = true →
        recordingLoop S bound maxSize opportunistic cutoff storage LoopPosition.inner s
            (o :: rest)
          = if (processBuffer S bound maxSize opportunistic storage
                (o.writeIndicator.getD s.readBuffer false) (observeSwitch s o)).storageError
            then Progress.finished (processBuffer S bound maxSize opportunistic storage
                (o.writeIndicator.getD s.readBuffer false) (observeSwitch s o))
            else recordingLoop S bound maxSize opportunistic cutoff storage LoopPosition.inner
              (processBuffer S bound maxSize opportunistic storage
                (o.writeIndicator.getD s.readBuffer false) (observeSwitch s o)) rest) ∧
      (∀ S bound maxSize opportunistic flag s,
        (processBuffer S bound maxSize opportunistic storage flag s).storageError = false →
        (processBuffer S bound maxSize opportunistic storage flag s).readBuffer
            = (s.readBuffer + 1) % NUMBER_OF_BUFFERS ∧
          (processBuffer S bound maxSize opportunistic storage flag s).buffersProcessed
            = u32 (s.buffersProcessed + 1)) := by
  have hinv := openAndRecord_invariant (NUMBER_OF_SAMPLES_IN_BUFFER sram)
    (samplesToWrite (effectiveSampleRate cfg bk.configurationIndexOfNextRecording) dur)
    (maximumFileSizeWritten cfg)
    (decide (bk.configurationIndexOfNextRecording
      = AM_configurationIndex_t.OPPORTUNISTIC_RECORDING))
    cfg.enableLowVoltageCutoff storage
    (fun s => s.readBuffer = s.buffersProcessed % NUMBER_OF_BUFFERS)
    (startOfRecording (resetTotalFileSizeWritten day bk)) obs rfl
    (fun s o hI => hI) (fun s o hI => hI)
    (fun s flag hI _ _ => processBuffer_readBuffer _ _ _ _ storage flag s hI)
  refine ⟨fun r h => ?_, fun l h => ?_, ?_, ?_, ?_⟩
  · rcases makeRecording_finished sram cfg bk dur day guano storage obs r h with
      ⟨_, _, _, _, hl, _⟩ | ⟨drained, hd, _, _, hcase⟩
    · rw [hl]; rfl
    · have hI := hinv.1 drained hd
      rcases hcase with ⟨_, hl, _⟩ | ⟨_, hl, _, _⟩
      · rw [hl]; exact hI
      · obtain ⟨k1, k2, _⟩ := finishRecording_counters
          (samplesToWrite (effectiveSampleRate cfg bk.configurationIndexOfNextRecording) dur)
          (effectiveSampleRate cfg bk.configurationIndexOfNextRecording) guano
          (decide (bk.configurationIndexOfNextRecording
            = AM_configurationIndex_t.OPPORTUNISTIC_RECORDING))
          (decide (dur > maximumNumberOfSeconds
            (effectiveSampleRate cfg bk.configurationIndexOfNextRecording)))
          storage drained
        rw [hl, k1, k2]; exact hI
  · exact (hinv.2 l (makeRecording_waiting sram cfg bk dur day guano storage obs l h)).1
  · intro S bound maxSize opportunistic cutoff s o rest heq
    have hne : ¬ ((observeSwitch s o).readBuffer ≠ o.writeBuffer ∧
        continueRecording bound (observeSwitch s o) = true) := fun hc => hc.1 heq
    simp only [recordingLoop]
    rw [if_neg hne]
  · intro S bound maxSize opportunistic cutoff s o rest hne hc
    have hpos : (observeSwitch s o).readBuffer ≠ o.writeBuffer ∧
        continueRecording bound (observeSwitch s o) = true := ⟨hne, hc⟩
    simp only [recordingLoop]
    rw [if_pos hpos]
    rfl
  · intro S bound maxSize opportunistic flag s he
    exact processBuffer_advance S bound maxSize opportunistic storage flag s he

/-- C21 (example): Scenario B processes six buffers and returns with `readBuffer` 6. -/
theorem makeRecording_production_order_witness :
    ∃ r, makeRecording exampleSramSizeInBytes defaultConfigSettings standardBackupDomain 2 0 300
        storageAlwaysSucceeds scenarioBObservations = Progress.finished r ∧
      r.loop.buffersProcessed = 6 ∧ r.loop.readBuffer = 6 ∧
      r.loop.readBuffer = r.loop.buffersProcessed % NUMBER_OF_BUFFERS :=
  ⟨_, rfl, by decide, by decide,
    (makeRecording_production_order exampleSramSizeInBytes defaultConfigSettings
      standardBackupDomain 2 0 300 storageAlwaysSucceeds scenarioBObservations).1 _ rfl⟩

/-- The header write and the close leave the sample counts alone. -/
theorem writeHeaderAndClose_samples (storage : Nat → Bool) (wavHeader : WavHeaderDetails)
    (s : RecordingLoop) :
    (writeHeaderAndClose storage wavHeader s).samplesWritten = s.samplesWritten ∧
    (writeHeaderAndClose storage wavHeader s).totalNumberOfCompressedSamples
      = s.totalNumberOfCompressedSamples := by
  unfold writeHeaderAndClose
  dsimp only
  split_ifs <;> exact ⟨rfl, rfl⟩

/-- The header of a finished call of `makeRecording` is the initial one (the call returned
before the header set-up), or it was set from the state in which the GUANO data had been
written and `samplesWritten` raised. -/
theorem makeRecording_wavHeader (sram : Nat) (cfg : CP_configSettings_t) (bk : BackupDomain)
    (dur day guano : Nat) (storage : Nat → Bool) (obs : List Observation)
    (r : RecordingResult)
    (h : makeRecording sram cfg bk dur day guano storage obs = Progress.finished r) :
    (r.wavHeader = initialWavHeader ∧
        (r.calls = [] ∨ r.recordingState = AM_recordingState_t.SDCARD_WRITE_ERROR)) ∨
      ∃ drained, openAndRecord (NUMBER_OF_SAMPLES_IN_BUFFER sram)
          (samplesToWrite (effectiveSampleRate cfg bk.configurationIndexOfNextRecording) dur)
          (maximumFileSizeWritten cfg)
          (decide (bk.configurationIndexOfNextRecording
            = AM_configurationIndex_t.OPPORTUNISTIC_RECORDING))
          cfg.enableLowVoltageCutoff storage
          (startOfRecording (resetTotalFileSizeWritten day bk))
          obs = Progress.finished drained ∧
        drained.storageError = false ∧
        (flushCompressionBufferAtEnd
          (samplesToWrite (effectiveSampleRate cfg bk.configurationIndexOfNextRecording) dur)
          (decide (bk.configurationIndexOfNextRecording
            = AM_configurationIndex_t.OPPORTUNISTIC_RECORDING))
          storage drained).storageError = false ∧
        r.loop.samplesWritten = max numberOfSamplesInHeader
          (flushCompressionBufferAtEnd
            (samplesToWrite (effectiveSampleRate cfg bk.configurationIndexOfNextRecording) dur)
            (decide (bk.configurationIndexOfNextRecording
              = AM_configurationIndex_t.OPPORTUNISTIC_RECORDING))
            storage drained).samplesWritten ∧
        r.loop.totalNumberOfCompressedSamples
          = (flushCompressionBufferAtEnd
            (samplesToWrite (effectiveSampleRate cfg bk.configurationIndexOfNextRecording) dur)
            (decide (bk.configurationIndexOfNextRecording
              = AM_configurationIndex_t.OPPORTUNISTIC_RECORDING))
            storage drained).totalNumberOfCompressedSamples ∧
        r.wavHeader.dataSize = u32 (NUMBER_OF_BYTES_IN_SAMPLE *
          sub32 (r.loop.samplesWritten - numberOfSamplesInHeader)
            r.loop.totalNumberOfCompressedSamples) := by
  rcases makeRecording_finished sram cfg bk dur day guano storage obs r h with
    ⟨hc, _, _, _, _, hw⟩ | ⟨drained, hd, _, _, hcase⟩
  · exact Or.inl ⟨hw, Or.inl hc⟩
  · rcases hcase with ⟨hde, hl, hs⟩ | ⟨hde, hl, hw, hs⟩
    · left
      refine ⟨?_, Or.inr hs⟩
      unfold makeRecording at h
      dsimp only at h
      split_ifs at h with c
      · cases h; rfl
      · rw [hd] at h
        dsimp only at h
        rw [if_pos hde] at h
        cases h; rfl
    · rw [hl, hw]
      generalize samplesToWrite (effectiveSampleRate cfg
        bk.configurationIndexOfNextRecording) dur = bound at *
      generalize effectiveSampleRate cfg bk.configurationIndexOfNextRecording = rate at *
      generalize (decide (bk.configurationIndexOfNextRecording
        = AM_configurationIndex_t.OPPORTUNISTIC_RECORDING)) = opp at *
      generalize (decide (dur > maximumNumberOfSeconds rate)) = fsl at *
      have hstate : r.recordingState = AM_recordingState_t.SDCARD_WRITE_ERROR ∨
          r.loop.storageError = false := by
        cases hq : r.loop.storageError
        · exact Or.inr rfl
        · rw [hq, if_pos rfl] at hs; exact Or.inl hs
      clear hs
      unfold finishRecording at hl hw ⊢
      dsimp only at hl hw ⊢
      by_cases c1 : (flushCompressionBufferAtEnd bound opp storage drained).storageError = true
      · rw [if_pos c1] at hl hw ⊢
        rcases hstate with hx | hx
        · exact Or.inl ⟨rfl, Or.inr hx⟩
        · rw [hl, c1] at hx; cases hx
      · rw [if_neg c1] at hl hw ⊢
        by_cases c2 : (storageCall storage (flushCompressionBufferAtEnd bound opp storage drained)
            (StorageCall.writeToFile WriteSource.guanoData guano)).storageError = true
        · rw [if_pos c2] at hl hw ⊢
          rcases hstate with hx | hx
          · exact Or.inl ⟨rfl, Or.inr hx⟩
          · rw [hl, c2] at hx; cases hx
        · rw [if_neg c2]
          right
          obtain ⟨k1, k2⟩ := writeHeaderAndClose_samples storage
            (finalWavHeader rate guano fsl (raiseSamplesWritten (storageCall storage
              (flushCompressionBufferAtEnd bound opp storage drained)
              (StorageCall.writeToFile WriteSource.guanoData guano))))
            (raiseSamplesWritten (storageCall storage
              (flushCompressionBufferAtEnd bound opp storage drained)
              (StorageCall.writeToFile WriteSource.guanoData guano)))
          refine ⟨drained, hd, hde, by simpa using c1, ?_, ?_, ?_⟩
          · rw [k1]; rfl
          · rw [k2]; rfl
          · rw [k1, k2]; rfl

/-- C28: the reported sample count never underflows.  A call of `makeRecording` that returns
has either not reached the header set-up (the header is the initial one: the call returned
before a file was opened, or a storage call failed before the set-up), or
`samplesWritten` has been raised to at least `numberOfSamplesInHeader`,
`totalNumberOfCompressedSamples` is at most `samplesWritten - numberOfSamplesInHeader`, the
32-bit difference passed to `setHeaderDetails` is the true difference
`samplesWritten - numberOfSamplesInHeader - totalNumberOfCompressedSamples`, and the data
size in the header is two bytes for each of these samples.  This holds whatever the
threshold flags, the target and the point at which the loop ended. -/
theorem makeRecording_reported_samples (sram : Nat) (cfg : CP_configSettings_t)
    (bk : BackupDomain) (dur day guano : Nat) (storage : Nat → Bool)
    (obs : List Observation) (r : RecordingResult)
    (h : makeRecording sram cfg bk dur day guano storage obs = Progress.finished r) :
    (r.wavHeader = initialWavHeader ∧
        (r.calls = [] ∨ r.recordingState = AM_recordingState_t.SDCARD_WRITE_ERROR)) ∨
      (numberOfSamplesInHeader ≤ r.loop.samplesWritten ∧
        r.loop.totalNumberOfCompressedSamples
          ≤ r.loop.samplesWritten - numberOfSamplesInHeader ∧
        sub32 (r.loop.samplesWritten - numberOfSamplesInHeader)
            r.loop.totalNumberOfCompressedSamples
          = r.loop.samplesWritten - numberOfSamplesInHeader
            - r.loop.totalNumberOfCompressedSamples ∧
        r.wavHeader.dataSize = NUMBER_OF_BYTES_IN_SAMPLE *
          (r.loop.samplesWritten - numberOfSamplesInHeader
            - r.loop.totalNumberOfCompressedSamples)) := by
  rcases makeRecording_wavHeader sram cfg bk dur day guano storage obs r h with
    hi | ⟨drained, hd, hde, e1, hsw, htot', hdata⟩
  · exact Or.inl hi
  · right
    obtain ⟨b1, b2, _, _⟩ := samplesToWrite_bounds
      (effectiveSampleRate cfg bk.configurationIndexOfNextRecording) dur
    obtain ⟨g1, g2, g3, g4, g5, g6⟩ := openAndRecord_drainInvariant _ _ _ _ _ storage _ obs
      b1 b2 drained hd hde
    obtain ⟨a1, a2, a3, a4, a5⟩ := flushCompressionBufferAtEnd_effect _ _ storage drained e1
    have h244 : numberOfSamplesInHeader = 244 := by decide
    rw [hdata, hsw, htot', a1, h244]
    have htot : (flushCompressionBufferAtEnd
          (samplesToWrite (effectiveSampleRate cfg bk.configurationIndexOfNextRecording) dur)
          (decide (bk.configurationIndexOfNextRecording
            = AM_configurationIndex_t.OPPORTUNISTIC_RECORDING))
          storage drained).totalNumberOfCompressedSamples + numberOfSamplesInHeader
        ≤ max 244 drained.samplesWritten := by
      rw [h244]
      by_cases c : drained.samplesWritten < samplesToWrite
          (effectiveSampleRate cfg bk.configurationIndexOfNextRecording) dur ∧
          0 < drained.numberOfCompressedBuffers
      · rw [(a4 c).2]
        simp only [u32, COMPRESSION_BUFFER_SIZE_IN_BYTES, NUMBER_OF_BYTES_IN_SAMPLE]
        clear a1 a2 a3 a4 a5 e1 hsw htot' hdata hd h g2 g3
        generalize NUMBER_OF_SAMPLES_IN_BUFFER sram = S at *
        generalize samplesToWrite _ dur = bound at *
        rcases Nat.lt_or_ge S 256 with hS | hS
        · have := g6 hS
          omega
        · have := g5 hS
          split_ifs at this <;> omega
      · rw [a5 c]
        clear a1 a2 a3 a4 a5 e1 hsw htot' hdata hd h g2 g3
        generalize NUMBER_OF_SAMPLES_IN_BUFFER sram = S at *
        generalize samplesToWrite _ dur = bound at *
        rcases Nat.lt_or_ge S 256 with hS | hS
        · have := g6 hS
          omega
        · have := g5 hS
          split_ifs at this <;> omega
    generalize (flushCompressionBufferAtEnd
          (samplesToWrite (effectiveSampleRate cfg bk.configurationIndexOfNextRecording) dur)
          (decide (bk.configurationIndexOfNextRecording
            = AM_configurationIndex_t.OPPORTUNISTIC_RECORDING))
          storage drained).totalNumberOfCompressedSamples = tot at *
    clear a1 a2 a3 a4 a5 e1 hsw htot' hdata hd h g2 g3 g4 g5 g6
    generalize samplesToWrite _ dur = bound at *
    rw [h244] at htot
    simp only [sub32, u32, NUMBER_OF_BYTES_IN_SAMPLE] at htot ⊢
    refine ⟨by omega, by omega, by omega, ?_⟩
    omega

/-- C28 (example): in Scenario B 96244 samples are consumed and 48896 booked as elided; the
header reports the remaining 47104 samples as 94208 bytes. -/
theorem makeRecording_reported_samples_witness :
    ∃ r, makeRecording exampleSramSizeInBytes defaultConfigSettings standardBackupDomain 2 0 300
        storageAlwaysSucceeds scenarioBObservations = Progress.finished r ∧
      r.loop.samplesWritten = 96244 ∧ r.loop.totalNumberOfCompressedSamples = 48896 ∧
      r.wavHeader.dataSize = 94208 ∧
      ((r.wavHeader = initialWavHeader ∧
          (r.calls = [] ∨ r.recordingState = AM_recordingState_t.SDCARD_WRITE_ERROR)) ∨
        (numberOfSamplesInHeader ≤ r.loop.samplesWritten ∧
          r.loop.totalNumberOfCompressedSamples
            ≤ r.loop.samplesWritten - numberOfSamplesInHeader ∧
          sub32 (r.loop.samplesWritten - numberOfSamplesInHeader)
              r.loop.totalNumberOfCompressedSamples
            = r.loop.samplesWritten - numberOfSamplesInHeader
              - r.loop.totalNumberOfCompressedSamples ∧
          r.wavHeader.dataSize = NUMBER_OF_BYTES_IN_SAMPLE *
            (r.loop.samplesWritten - numberOfSamplesInHeader
              - r.loop.totalNumberOfCompressedSamples))) :=
  ⟨_, rfl, by decide, by decide, by decide,
    makeRecording_reported_samples exampleSramSizeInBytes defaultConfigSettings
      standardBackupDomain 2 0 300 storageAlwaysSucceeds scenarioBObservations _ rfl⟩

/-- C30: no run is left pending at a completed session.  When the effective sample rate and
the buffer length are multiples of 8, the loop bound
`numberOfSamples + numberOfSamplesInHeader` is not a multiple of the buffer length.  A call
of `makeRecording` that returns `RECORDING_OKAY` has left the loop with `samplesWritten`
equal to the bound; and whenever a call that returns without a storage error has left the
loop with `samplesWritten` equal to the bound, the last storage call of the loop is the
write of a partial buffer (fewer samples than a buffer holds), the run counter is 0 at the
loop exit and at the return, and the finalisation writes no marker block: the GUANO data,
the seek, the header and the close follow the loop's calls directly.  The sample rates the
parser stores qualify: every value `handleSampleRate` accepts gives an effective sample
rate that is a multiple of 8, and `handleEnableEnergySaverMode` keeps it. -/
theorem makeRecording_no_pending_run (sram : Nat) (cfg : CP_configSettings_t)
    (bk : BackupDomain) (dur day guano : Nat) (storage : Nat → Bool)
    (obs : List Observation) (res : RecordingResult)
    (hrate : effectiveSampleRate cfg bk.configurationIndexOfNextRecording % 8 = 0)
    (hS : NUMBER_OF_SAMPLES_IN_BUFFER sram % 8 = 0)
    (h : makeRecording sram cfg bk dur day guano storage obs = Progress.finished res)
    (he : res.recordingState ≠ AM_recordingState_t.SDCARD_WRITE_ERROR) :
    samplesToWrite (effectiveSampleRate cfg bk.configurationIndexOfNextRecording) dur
        % NUMBER_OF_SAMPLES_IN_BUFFER sram ≠ 0 ∧
      (res.calls = [] ∨
        ∃ exit, openAndRecord (NUMBER_OF_SAMPLES_IN_BUFFER sram)
            (samplesToWrite (effectiveSampleRate cfg bk.configurationIndexOfNextRecording) dur)
            (maximumFileSizeWritten cfg)
            (decide (bk.configurationIndexOfNextRecording
              = AM_configurationIndex_t.OPPORTUNISTIC_RECORDING))
            cfg.enableLowVoltageCutoff storage
            (startOfRecording (resetTotalFileSizeWritten day bk))
            obs = Progress.finished exit ∧
          (res.recordingState = AM_recordingState_t.RECORDING_OKAY →
            exit.samplesWritten = samplesToWrite
              (effectiveSampleRate cfg bk.configurationIndexOfNextRecording) dur) ∧
          (exit.samplesWritten = samplesToWrite
              (effectiveSampleRate cfg bk.configurationIndexOfNextRecording) dur →
            exit.numberOfCompressedBuffers = 0 ∧
            res.loop.numberOfCompressedBuffers = 0 ∧
            (∃ readBuffer numberOfSamplesToWrite,
              exit.calls.getLast? = some (sampleBufferWrite readBuffer numberOfSamplesToWrite) ∧
              numberOfSamplesToWrite < NUMBER_OF_SAMPLES_IN_BUFFER sram) ∧
            res.calls = exit.calls ++
              [StorageCall.writeToFile WriteSource.guanoData guano,
                StorageCall.seekInFile 0,
                StorageCall.writeToFile (WriteSource.wavHeader res.wavHeader) sizeofWavHeader,
                StorageCall.closeFile])) ∧
      (∀ (atoi : List Nat → Int) (buffer : List Nat) (sampleRate sampleRateDivider : Nat),
        handleSampleRate atoi buffer = some (sampleRate, sampleRateDivider) →
        sampleRate / sampleRateDivider % 8 = 0 ∧
        ∀ energySaverMode clockDivider sampleRate2 sampleRateDivider2 clockDivider2,
          handleEnableEnergySaverMode energySaverMode sampleRate sampleRateDivider clockDivider
            = some (sampleRate2, sampleRateDivider2, clockDivider2) →
          sampleRate2 / sampleRateDivider2 % 8 = 0) := by
  have hT := samplesToWrite_not_multiple
    (effectiveSampleRate cfg bk.configurationIndexOfNextRecording) dur
    (NUMBER_OF_SAMPLES_IN_BUFFER sram) hrate hS
  refine ⟨hT, ?_, fun atoi buffer sampleRate sampleRateDivider hr => ?_⟩
  swap
  · obtain ⟨_, r2, r3⟩ := handleSampleRate_effectiveSampleRate atoi buffer sampleRate
      sampleRateDivider hr
    exact ⟨r2, fun m clk a b d hm => by rw [r3 m clk a b d hm]; exact r2⟩
  rcases makeRecording_finished sram cfg bk dur day guano storage obs res h with
    ⟨hc, _⟩ | ⟨exit, hd, hcalls, _, hcase⟩
  · exact Or.inl hc
  · right
    refine ⟨exit, hd, ?_⟩
    rcases hcase with ⟨_, _, hs⟩ | ⟨hde, hl, hw, hs⟩
    · exact absurd hs he
    · have hfe : res.loop.storageError = false := by
        cases hq : res.loop.storageError
        · rfl
        · rw [hq, if_pos rfl] at hs; exact absurd hs he
      obtain ⟨b1, b2, _, _⟩ := samplesToWrite_bounds
        (effectiveSampleRate cfg bk.configurationIndexOfNextRecording) dur
      obtain ⟨g1, g2, g3, g4, g5, g6⟩ := openAndRecord_drainInvariant _ _ _ _ _ storage _ obs
        b1 b2 exit hd hde
      obtain ⟨k1, k2, k3, k4, k5, k6⟩ := finishRecording_counters
        (samplesToWrite (effectiveSampleRate cfg bk.configurationIndexOfNextRecording) dur)
        (effectiveSampleRate cfg bk.configurationIndexOfNextRecording) guano
        (decide (bk.configurationIndexOfNextRecording
          = AM_configurationIndex_t.OPPORTUNISTIC_RECORDING))
        (decide (dur > maximumNumberOfSeconds
          (effectiveSampleRate cfg bk.configurationIndexOfNextRecording)))
        storage exit
      refine ⟨fun hok => ?_, fun hb => ?_⟩
      · -- the loop condition is false and no flag is set: the bound is reached
        have hexit := openAndRecord_exit _ _ _ _ _ storage _ obs exit hd
        rcases hexit with hx | hx
        · rw [hde] at hx; cases hx
        · rw [hfe, if_neg (by simp)] at hs
          rw [hs] at hok
          unfold recordingStateAtReturn at hok
          rw [hl, k4, k5, k6] at hok
          unfold continueRecording at hx
          cases h1 : exit.switchPositionChanged
          · cases h2 : exit.supplyVoltageLow
            · cases h3 : exit.totalFileSizeLimited
              · rw [h1, h2, h3] at hx
                simp only [Bool.not_false, Bool.and_true, decide_eq_false_iff_not] at hx
                omega
              · rw [h1, h2, h3] at hok
                by_cases hf : res.fileSizeLimited = true <;> simp [hf] at hok
            · rw [h1, h2] at hok
              simp at hok
          · rw [h1] at hok
            simp at hok
      · obtain ⟨n0, rb, n, hlast, hn⟩ := g3 hT hb
        rw [hl] at hfe
        obtain ⟨e1, e2, _⟩ := finishRecording_effect _ _ _ _ _ storage exit hfe
        obtain ⟨_, _, _, _, a5⟩ := flushCompressionBufferAtEnd_effect _ _ storage exit e1
        have hnf : ¬ (exit.samplesWritten < samplesToWrite
            (effectiveSampleRate cfg bk.configurationIndexOfNextRecording) dur ∧
            0 < exit.numberOfCompressedBuffers) := by
          intro hc; omega
        refine ⟨n0, ?_, ⟨rb, n, hlast, hn⟩, ?_⟩
        · rw [hl, k3]; exact n0
        · rw [hcalls, hl, e2, a5 hnf, hw]

/-- C30 (example): Scenario B returns `RECORDING_OKAY`; its loop ends at the bound 96244
after the partial buffer of 14324 samples, with no run pending. -/
theorem makeRecording_no_pending_run_witness :
    ∃ r, makeRecording exampleSramSizeInBytes defaultConfigSettings standardBackupDomain 2 0 300
        storageAlwaysSucceeds scenarioBObservations = Progress.finished r ∧
      r.recordingState = AM_recordingState_t.RECORDING_OKAY ∧
      r.loop.numberOfCompressedBuffers = 0 ∧
      r.calls.getLast? = some StorageCall.closeFile ∧
      samplesToWrite (effectiveSampleRate defaultConfigSettings
          standardBackupDomain.configurationIndexOfNextRecording) 2
        % NUMBER_OF_SAMPLES_IN_BUFFER exampleSramSizeInBytes ≠ 0 :=
  ⟨_, rfl, by decide, by decide, by decide,
    (makeRecording_no_pending_run exampleSramSizeInBytes defaultConfigSettings
      standardBackupDomain 2 0 300 storageAlwaysSucceeds scenarioBObservations _
      (by decide) (by decide) rfl (by decide)).1⟩

/-! ## The scheduler: duty cycling inside a period and the opportunistic window -/

/-- The loop body for one period with duty cycling enabled, at a time strictly inside the
period, in closed form. -/
theorem schedulePeriod_duty (cfg : CP_configSettings_t) (cycle : AM_sleepRecordIndex_t)
    (prev : AM_configurationIndex_t) (ct : Nat) (p : CP_startStopPeriod_t)
    (hd : cfg.numberOfSleepRecordCycles ≠ 0)
    (hct : ct + 172800 < 4294967296)
    (hp2 : p.stopMinutes ≤ 1440)
    (hR1 : 1 ≤ cfg.recordDuration.getD cycle.toNat 0)
    (hR2 : cfg.recordDuration.getD cycle.toNat 0 ≤ 43200)
    (hS2 : cfg.sleepDuration.getD cycle.toNat 0 ≤ 43200)
    (h1 : 60 * p.startMinutes < ct % 86400) (h2 : ct % 86400 < 60 * p.stopMinutes) :
    schedulePeriod cfg cycle prev ct (ct % 86400) p =
      if (ct % 86400 - 60 * p.startMinutes) %
          (cfg.recordDuration.getD cycle.toNat 0 + cfg.sleepDuration.getD cycle.toNat 0)
          < cfg.recordDuration.getD cycle.toNat 0 then
        some ⟨ct,
          min (cfg.recordDuration.getD cycle.toNat 0 - (ct % 86400 - 60 * p.startMinutes) %
              (cfg.recordDuration.getD cycle.toNat 0 + cfg.sleepDuration.getD cycle.toNat 0))
            (60 * p.stopMinutes - ct % 86400),
          AM_configurationIndex_t.STANDARD_RECORDING⟩
      else if ct % 86400 + (cfg.recordDuration.getD cycle.toNat 0
          + cfg.sleepDuration.getD cycle.toNat 0 - (ct % 86400 - 60 * p.startMinutes) %
              (cfg.recordDuration.getD cycle.toNat 0 + cfg.sleepDuration.getD cycle.toNat 0))
          < 60 * p.stopMinutes then
        if cfg.enableOpportunisticRecording ≠ 0 ∧
            prev = AM_configurationIndex_t.STANDARD_RECORDING ∧
            cfg.recordDuration.getD cycle.toNat 0 + cfg.sleepDuration.getD cycle.toNat 0
              - (ct % 86400 - 60 * p.startMinutes) %
                (cfg.recordDuration.getD cycle.toNat 0 + cfg.sleepDuration.getD cycle.toNat 0)
              > 2 * OPPORTUNISTIC_GAP_IN_SECONDS then
          some ⟨ct + (cfg.recordDuration.getD cycle.toNat 0
              + cfg.sleepDuration.getD cycle.toNat 0 - (ct % 86400 - 60 * p.startMinutes) %
                (cfg.recordDuration.getD cycle.toNat 0 + cfg.sleepDuration.getD cycle.toNat 0))
              - cfg.sleepDuration.getD cycle.toNat 0 + OPPORTUNISTIC_GAP_IN_SECONDS,
            if cfg.maximumOpportunisticDuration > 0 then
              min cfg.maximumOpportunisticDuration
                (cfg.sleepDuration.getD cycle.toNat 0 - 2 * OPPORTUNISTIC_GAP_IN_SECONDS)
            else cfg.sleepDuration.getD cycle.toNat 0 - 2 * OPPORTUNISTIC_GAP_IN_SECONDS,
            AM_configurationIndex_t.OPPORTUNISTIC_RECORDING⟩
        else
          some ⟨ct + (cfg.recordDuration.getD cycle.toNat 0
              + cfg.sleepDuration.getD cycle.toNat 0 - (ct % 86400 - 60 * p.startMinutes) %
                (cfg.recordDuration.getD cycle.toNat 0 + cfg.sleepDuration.getD cycle.toNat 0)),
            min (cfg.recordDuration.getD cycle.toNat 0)
              (60 * p.stopMinutes - (ct % 86400 + (cfg.recordDuration.getD cycle.toNat 0
                + cfg.sleepDuration.getD cycle.toNat 0 - (ct % 86400 - 60 * p.startMinutes) %
                  (cfg.recordDuration.getD cycle.toNat 0
                    + cfg.sleepDuration.getD cycle.toNat 0)))),
            AM_configurationIndex_t.STANDARD_RECORDING⟩
      else none := by
  have hmod : ct % 86400 < 86400 := Nat.mod_lt _ (by decide)
  have hle : ct % 86400 ≤ ct := Nat.mod_le _ _
  have e1 : u32 (SECONDS_IN_MINUTE * p.startMinutes) = 60 * p.startMinutes := by
    simp only [u32, SECONDS_IN_MINUTE]; omega
  have e2 : u32 (SECONDS_IN_MINUTE * p.stopMinutes) = 60 * p.stopMinutes := by
    simp only [u32, SECONDS_IN_MINUTE]; omega
  have e3 : sub32 (60 * p.stopMinutes) (60 * p.startMinutes)
      = 60 * p.stopMinutes - 60 * p.startMinutes := by
    unfold sub32; omega
  have e4 : sub32 (ct % 86400) (60 * p.startMinutes) = ct % 86400 - 60 * p.startMinutes := by
    unfold sub32; omega
  have e5 : u32 (cfg.recordDuration.getD cycle.toNat 0 + cfg.sleepDuration.getD cycle.toNat 0)
      = cfg.recordDuration.getD cycle.toNat 0 + cfg.sleepDuration.getD cycle.toNat 0 := by
    unfold u32; omega
  have hph : (ct % 86400 - 60 * p.startMinutes) %
      (cfg.recordDuration.getD cycle.toNat 0 + cfg.sleepDuration.getD cycle.toNat 0)
      < cfg.recordDuration.getD cycle.toNat 0 + cfg.sleepDuration.getD cycle.toNat 0 :=
    Nat.mod_lt _ (by omega)
  have hph2 : (ct % 86400 - 60 * p.startMinutes) %
      (cfg.recordDuration.getD cycle.toNat 0 + cfg.sleepDuration.getD cycle.toNat 0)
      ≤ ct % 86400 - 60 * p.startMinutes := Nat.mod_le _ _
  unfold schedulePeriod
  simp only [e1, e2, e3, e4, e5, SLEEP_RECORD_CYCLES_DISABLED, OPPORTUNISTIC_GAP_IN_SECONDS]
  generalize (ct % 86400 - 60 * p.startMinutes) %
      (cfg.recordDuration.getD cycle.toNat 0 + cfg.sleepDuration.getD cycle.toNat 0) = phase
    at hph hph2 ⊢
  generalize cfg.recordDuration.getD cycle.toNat 0 = R at hR1 hR2 hph ⊢
  generalize cfg.sleepDuration.getD cycle.toNat 0 = Sl at hS2 hph ⊢
  generalize ct % 86400 = cs at hmod hle h1 h2 hph2 ⊢
  rw [if_neg (by omega), if_pos h2, if_neg hd]
  by_cases c1 : phase < R
  · rw [if_pos c1, if_pos c1]
    have a1 : sub32 R phase = R - phase := by unfold sub32; omega
    have a2 : sub32 (60 * p.stopMinutes - 60 * p.startMinutes) (cs - 60 * p.startMinutes)
        = 60 * p.stopMinutes - cs := by unfold sub32; omega
    rw [a1, a2]
  · rw [if_neg c1, if_neg c1]
    have a3 : sub32 (R + Sl) phase = R + Sl - phase := by unfold sub32; omega
    have a4 : u32 (cs - 60 * p.startMinutes + (R + Sl - phase))
        = cs - 60 * p.startMinutes + (R + Sl - phase) := by unfold u32; omega
    have a5 : sub32 (u32 (ct + (R + Sl))) phase = ct + (R + Sl - phase) := by
      unfold sub32 u32; omega
    rw [a3, a4, a5]
    have a6 : sub32 (ct + (R + Sl - phase)) ct = R + Sl - phase := by unfold sub32; omega
    rw [a6]
    by_cases c2 : cs + (R + Sl - phase) < 60 * p.stopMinutes
    · rw [if_pos (by omega), if_pos c2]
      by_cases c3 : cfg.enableOpportunisticRecording ≠ 0 ∧
          prev = AM_configurationIndex_t.STANDARD_RECORDING ∧ R + Sl - phase > 2 * 5
      · rw [if_pos c3, if_pos c3]
        have a7 : sub32 Sl (2 * 5) = Sl - 2 * 5 := by unfold sub32; omega
        have a8 : u32 (sub32 (ct + (R + Sl - phase)) Sl + 5)
            = ct + (R + Sl - phase) - Sl + 5 := by unfold sub32 u32; omega
        rw [a7, a8]
      · rw [if_neg c3, if_neg c3]
        have a9 : sub32 (60 * p.stopMinutes - 60 * p.startMinutes)
            (cs - 60 * p.startMinutes + (R + Sl - phase))
            = 60 * p.stopMinutes - (cs + (R + Sl - phase)) := by unfold sub32; omega
        rw [a9]
    · rw [if_neg (by omega), if_neg c2]

/-- The loop body of a period that has ended today goes on to the next period. -/
theorem schedulePeriod_ended (cfg : CP_configSettings_t) (cycle : AM_sleepRecordIndex_t)
    (prev : AM_configurationIndex_t) (ct cs : Nat) (p : CP_startStopPeriod_t)
    (hp : p.startMinutes < p.stopMinutes) (hp2 : p.stopMinutes ≤ 1440)
    (h : 60 * p.stopMinutes ≤ cs) :
    schedulePeriod cfg cycle prev ct cs p = none := by
  have e1 : u32 (SECONDS_IN_MINUTE * p.startMinutes) = 60 * p.startMinutes := by
    simp only [u32, SECONDS_IN_MINUTE]; omega
  have e2 : u32 (SECONDS_IN_MINUTE * p.stopMinutes) = 60 * p.stopMinutes := by
    simp only [u32, SECONDS_IN_MINUTE]; omega
  unfold schedulePeriod
  simp only [e1, e2]
  rw [if_neg (by omega), if_neg (by omega)]

/-- The loop body of a period that has not begun: the window at the period's start. -/
theorem schedulePeriod_before (cfg : CP_configSettings_t) (cycle : AM_sleepRecordIndex_t)
    (prev : AM_configurationIndex_t) (ct : Nat) (p : CP_startStopPeriod_t)
    (hct : ct + 172800 < 4294967296)
    (hp : p.startMinutes < p.stopMinutes) (hp2 : p.stopMinutes ≤ 1440)
    (h : ct % 86400 ≤ 60 * p.startMinutes) :
    schedulePeriod cfg cycle prev ct (ct % 86400) p =
      some ⟨ct - ct % 86400 + 60 * p.startMinutes,
        if cfg.numberOfSleepRecordCycles = 0 then 60 * p.stopMinutes - 60 * p.startMinutes
        else min (cfg.recordDuration.getD cycle.toNat 0)
          (60 * p.stopMinutes - 60 * p.startMinutes),
        AM_configurationIndex_t.STANDARD_RECORDING⟩ := by
  have hmod : ct % 86400 < 86400 := Nat.mod_lt _ (by decide)
  have hle : ct % 86400 ≤ ct := Nat.mod_le _ _
  have e1 : u32 (SECONDS_IN_MINUTE * p.startMinutes) = 60 * p.startMinutes := by
    simp only [u32, SECONDS_IN_MINUTE]; omega
  have e2 : u32 (SECONDS_IN_MINUTE * p.stopMinutes) = 60 * p.stopMinutes := by
    simp only [u32, SECONDS_IN_MINUTE]; omega
  have e3 : sub32 (60 * p.stopMinutes) (60 * p.startMinutes)
      = 60 * p.stopMinutes - 60 * p.startMinutes := by
    unfold sub32; omega
  have e4 : sub32 (u32 (ct + 60 * p.startMinutes)) (ct % 86400)
      = ct - ct % 86400 + 60 * p.startMinutes := by
    simp only [u32, sub32]; omega
  unfold schedulePeriod
  simp only [e1, e2, e3, e4, SLEEP_RECORD_CYCLES_DISABLED]
  rw [if_pos h]

/-- The loop over the periods skips the periods that have ended today. -/
theorem schedulePeriods_skip_ended (cfg : CP_configSettings_t) (cycle : AM_sleepRecordIndex_t)
    (prev : AM_configurationIndex_t) (ct cs : Nat) (before rest : List CP_startStopPeriod_t)
    (hall : ∀ q ∈ before, q.startMinutes < q.stopMinutes ∧ q.stopMinutes ≤ 1440 ∧
      60 * q.stopMinutes ≤ cs) :
    schedulePeriods cfg cycle prev ct cs (before ++ rest)
      = schedulePeriods cfg cycle prev ct cs rest := by
  induction before with
  | nil => rfl
  | cons q more ih =>
    obtain ⟨q1, q2, q3⟩ := hall q (List.mem_cons_self _ _)
    simp only [List.cons_append, schedulePeriods]
    rw [schedulePeriod_ended cfg cycle prev ct cs q q1 q2 q3]
    exact ih (fun x hx => hall x (List.mem_cons_of_mem _ hx))

/-- The scheduler's result is the window computed before the label `done` with the
latest-time bound applied; without a latest recording time it is that window, and with one
it is "never" or has the same start and no longer a duration. -/
theorem scheduleRecording_after_latest (cfg : CP_configSettings_t) (bk : BackupDomain)
    (t : Nat) :
    ((scheduleRecording cfg bk t).timeOfNextRecording
        = (applyLatestRecordingTime cfg (scheduleBeforeLatest cfg bk t)).timeOfNextRecording ∧
      (scheduleRecording cfg bk t).durationOfNextRecording
        = (applyLatestRecordingTime cfg (scheduleBeforeLatest cfg bk t)).durationOfNextRecording ∧
      (scheduleRecording cfg bk t).configurationIndexOfNextRecording
        = (scheduleBeforeLatest cfg bk t).configurationIndexOfNextRecording) ∧
    (cfg.latestRecordingTime = 0 →
      (scheduleRecording cfg bk t).timeOfNextRecording
        = (scheduleBeforeLatest cfg bk t).timeOfNextRecording ∧
      (scheduleRecording cfg bk t).durationOfNextRecording
        = (scheduleBeforeLatest cfg bk t).durationOfNextRecording) ∧
    ((scheduleRecording cfg bk t).timeOfNextRecording = UINT32_MAX ∨
      ((scheduleRecording cfg bk t).timeOfNextRecording
          = (scheduleBeforeLatest cfg bk t).timeOfNextRecording ∧
        (scheduleRecording cfg bk t).durationOfNextRecording
          ≤ (scheduleBeforeLatest cfg bk t).durationOfNextRecording)) := by
  refine ⟨⟨rfl, rfl, (applyLatestRecordingTime_spec cfg _).1⟩, fun hl => ?_,
    (applyLatestRecordingTime_spec cfg (scheduleBeforeLatest cfg bk t)).2.imp id
      (fun h => ⟨h.1, h.2.1⟩)⟩
  have hlatest : applyLatestRecordingTime cfg (scheduleBeforeLatest cfg bk t)
      = scheduleBeforeLatest cfg bk t := by
    unfold applyLatestRecordingTime
    rw [if_neg (by omega)]
  show (applyLatestRecordingTime cfg (scheduleBeforeLatest cfg bk t)).timeOfNextRecording = _ ∧
    (applyLatestRecordingTime cfg (scheduleBeforeLatest cfg bk t)).durationOfNextRecording = _
  rw [hlatest]
  exact ⟨rfl, rfl⟩

/-- C24 (amended): duty-cycled scheduling inside a period.  For valid settings with duty
cycling enabled, let `currentTime` be the time the scheduler computes with (`t`, or
`max t earliest` when an earliest recording time is configured), at least two days before
the 32-bit clock wraps and strictly inside the active period `p`, and
`phase = (secondsOfDay currentTime - periodStart) mod (recordDuration + sleepDuration)`.
The window computed before the latest-time bound is: if `phase < recordDuration`,
`(currentTime, min (recordDuration - phase) (periodStop - currentTime))`; otherwise, if the
boundary `currentTime + (cycleLen - phase)` falls before `periodStop` and no opportunistic
recording is inserted, `(boundary, min recordDuration (periodStop - boundary))`; otherwise
the start of the following active period, or of the first period on the following day, with
the duration `min recordDuration periodLength`.  The index is STANDARD in all three cases.
The result of `scheduleRecording` is this window with the latest-time bound applied, and the
window itself when no latest recording time is configured; `currentTime` is `t` when no
earliest recording time is configured. -/
theorem scheduleRecording_duty_cycle (cfg : CP_configSettings_t) (bk : BackupDomain)
    (t : Nat) (hv : validScheduleSettings cfg)
    (hd : cfg.numberOfSleepRecordCycles ≠ SLEEP_RECORD_CYCLES_DISABLED)
    (currentTime : Nat) (hcurrent : currentTime = clampToEarliest cfg t)
    (ht : currentTime + 2 * SECONDS_IN_DAY ≤ UINT32_MAX)
    (before after : List CP_startStopPeriod_t) (p : CP_startStopPeriod_t)
    (hperiods : cfg.startStopPeriods.take cfg.activeStartStopPeriods = before ++ p :: after)
    (h1 : SECONDS_IN_MINUTE * p.startMinutes < secondsOfDay currentTime)
    (h2 : secondsOfDay currentTime < SECONDS_IN_MINUTE * p.stopMinutes)
    (recordDuration sleepDuration phase : Nat)
    (hR : recordDuration
      = cfg.recordDuration.getD (sleepRecordCycleIndexOfNextRecording cfg bk).toNat 0)
    (hS : sleepDuration
      = cfg.sleepDuration.getD (sleepRecordCycleIndexOfNextRecording cfg bk).toNat 0)
    (hphase : phase = (secondsOfDay currentTime - SECONDS_IN_MINUTE * p.startMinutes)
      % (recordDuration + sleepDuration)) :
    (phase < recordDuration →
      (scheduleBeforeLatest cfg bk t).timeOfNextRecording = currentTime ∧
      (scheduleBeforeLatest cfg bk t).durationOfNextRecording
        = min (recordDuration - phase)
          (SECONDS_IN_MINUTE * p.stopMinutes - secondsOfDay currentTime) ∧
      (scheduleBeforeLatest cfg bk t).configurationIndexOfNextRecording
        = AM_configurationIndex_t.STANDARD_RECORDING) ∧
    (recordDuration ≤ phase →
      secondsOfDay currentTime + (recordDuration + sleepDuration - phase)
        < SECONDS_IN_MINUTE * p.stopMinutes →
      ¬ (cfg.enableOpportunisticRecording ≠ 0 ∧
        bk.configurationIndexOfNextRecording = AM_configurationIndex_t.STANDARD_RECORDING ∧
        recordDuration + sleepDuration - phase > 2 * OPPORTUNISTIC_GAP_IN_SECONDS) →
      (scheduleBeforeLatest cfg bk t).timeOfNextRecording
        = currentTime + (recordDuration + sleepDuration - phase) ∧
      (scheduleBeforeLatest cfg bk t).durationOfNextRecording
        = min recordDuration (SECONDS_IN_MINUTE * p.stopMinutes
          - (secondsOfDay currentTime + (recordDuration + sleepDuration - phase))) ∧
      (scheduleBeforeLatest cfg bk t).configurationIndexOfNextRecording
        = AM_configurationIndex_t.STANDARD_RECORDING) ∧
    (recordDuration ≤ phase →
      SECONDS_IN_MINUTE * p.stopMinutes
        ≤ secondsOfDay currentTime + (recordDuration + sleepDuration - phase) →
      (∀ q rest, after = q :: rest →
        (scheduleBeforeLatest cfg bk t).timeOfNextRecording
          = currentTime - secondsOfDay currentTime + SECONDS_IN_MINUTE * q.startMinutes ∧
        (scheduleBeforeLatest cfg bk t).durationOfNextRecording
          = min recordDuration
            (SECONDS_IN_MINUTE * q.stopMinutes - SECONDS_IN_MINUTE * q.startMinutes) ∧
        (scheduleBeforeLatest cfg bk t).configurationIndexOfNextRecording
          = AM_configurationIndex_t.STANDARD_RECORDING) ∧
      (after = [] →
        (scheduleBeforeLatest cfg bk t).timeOfNextRecording
          = currentTime - secondsOfDay currentTime + SECONDS_IN_DAY
            + SECONDS_IN_MINUTE * (cfg.startStopPeriods.getD 0 ⟨0, 0⟩).startMinutes ∧
        (scheduleBeforeLatest cfg bk t).durationOfNextRecording
          = min recordDuration
            (SECONDS_IN_MINUTE * (cfg.startStopPeriods.getD 0 ⟨0, 0⟩).stopMinutes
              - SECONDS_IN_MINUTE * (cfg.startStopPeriods.getD 0 ⟨0, 0⟩).startMinutes) ∧
        (scheduleBeforeLatest cfg bk t).configurationIndexOfNextRecording
          = AM_configurationIndex_t.STANDARD_RECORDING)) ∧
    ((scheduleRecording cfg bk t).timeOfNextRecording
        = (applyLatestRecordingTime cfg (scheduleBeforeLatest cfg bk t)).timeOfNextRecording ∧
      (scheduleRecording cfg bk t).durationOfNextRecording
        = (applyLatestRecordingTime cfg (scheduleBeforeLatest cfg bk t)).durationOfNextRecording ∧
      (scheduleRecording cfg bk t).configurationIndexOfNextRecording
        = (scheduleBeforeLatest cfg bk t).configurationIndexOfNextRecording) ∧
    (cfg.latestRecordingTime = 0 →
      (scheduleRecording cfg bk t).timeOfNextRecording
        = (scheduleBeforeLatest cfg bk t).timeOfNextRecording ∧
      (scheduleRecording cfg bk t).durationOfNextRecording
        = (scheduleBeforeLatest cfg bk t).durationOfNextRecording) ∧
    (cfg.earliestRecordingTime = 0 → currentTime = t) := by
  obtain ⟨hmin, hne, hall, hpw, hfirst⟩ := activePeriods_of_valid cfg hv
  obtain ⟨hsome, hnone⟩ := scheduleBeforeLatest_eq cfg bk t hv
  rw [← hcurrent] at hsome hnone
  have hct : currentTime + 172800 < 4294967296 := by
    simp only [SECONDS_IN_DAY, SECONDS_IN_HOUR, SECONDS_IN_MINUTE, UINT32_MAX] at ht
    omega
  have hsr : ∀ w, scheduleBeforeLatest cfg bk t = w →
      (scheduleBeforeLatest cfg bk t).timeOfNextRecording = w.timeOfNextRecording ∧
      (scheduleBeforeLatest cfg bk t).durationOfNextRecording = w.durationOfNextRecording ∧
      (scheduleBeforeLatest cfg bk t).configurationIndexOfNextRecording
        = w.configurationIndexOfNextRecording := by
    intro w hw
    rw [hw]
    exact ⟨rfl, rfl, rfl⟩
  have hlink := scheduleRecording_after_latest cfg bk t
  have hearly : cfg.earliestRecordingTime = 0 → currentTime = t := by
    intro he
    rw [hcurrent]
    unfold clampToEarliest
    rw [if_neg (by omega)]
  simp only [SLEEP_RECORD_CYCLES_DISABLED] at hd
  simp only [secondsOfDay_eq, SECONDS_IN_MINUTE, SECONDS_IN_DAY, SECONDS_IN_HOUR,
    OPPORTUNISTIC_GAP_IN_SECONDS] at h1 h2 hphase ⊢
  rw [hperiods] at hall hpw hsome hnone
  have hpp := hall p (by simp)
  obtain ⟨c1, c2, _, c4⟩ := validSleepRecordCycle_of_valid cfg
    (sleepRecordCycleIndexOfNextRecording cfg bk) hv hd
  -- the periods before `p` have ended
  have hbefore : ∀ q ∈ before, q.startMinutes < q.stopMinutes ∧ q.stopMinutes ≤ 1440 ∧
      60 * q.stopMinutes ≤ currentTime % 86400 := by
    intro q hq
    have hq2 := hall q (by simp [hq])
    have := (List.pairwise_append.1 hpw).2.2 q hq p (by simp)
    exact ⟨hq2.1, hq2.2, by omega⟩
  have hskip := schedulePeriods_skip_ended cfg (sleepRecordCycleIndexOfNextRecording cfg bk)
    bk.configurationIndexOfNextRecording currentTime (currentTime % 86400) before (p :: after)
    hbefore
  rw [hskip] at hsome hnone
  have hduty := schedulePeriod_duty cfg (sleepRecordCycleIndexOfNextRecording cfg bk)
    bk.configurationIndexOfNextRecording currentTime p hd hct hpp.2 c1 c2 c4 h1 h2
  rw [← hR, ← hS, ← hphase] at hduty
  simp only [schedulePeriods] at hsome hnone
  rw [hduty] at hsome hnone
  simp only [OPPORTUNISTIC_GAP_IN_SECONDS] at hsome hnone
  refine ⟨?_, ?_, ?_, hlink.1, hlink.2.1, hearly⟩
  · intro hlt
    rw [if_pos hlt] at hsome
    exact hsr _ (hsome _ rfl)
  · intro hge hb hno
    rw [if_neg (by omega), if_pos hb, if_neg hno] at hsome
    exact hsr _ (hsome _ rfl)
  · intro hge hb
    refine ⟨fun q rest hq => ?_, fun hq => ?_⟩
    · rw [if_neg (by omega), if_neg (by omega)] at hsome
      subst hq
      have hq2 := hall q (by simp)
      have hpq := (List.pairwise_cons.1 (List.pairwise_append.1 hpw).2.1).1 q (by simp)
      simp only [schedulePeriods] at hsome
      rw [schedulePeriod_before cfg _ _ currentTime q hct hq2.1 hq2.2 (by omega), if_neg hd,
        ← hR] at hsome
      exact hsr _ (hsome _ rfl)
    · rw [if_neg (by omega), if_neg (by omega)] at hnone
      subst hq
      simp only [schedulePeriods] at hnone
      have hw := hsr _ (hnone trivial)
      have hfp : (cfg.startStopPeriods.getD 0 ⟨0, 0⟩).startMinutes
          < (cfg.startStopPeriods.getD 0 ⟨0, 0⟩).stopMinutes ∧
          (cfg.startStopPeriods.getD 0 ⟨0, 0⟩).stopMinutes ≤ 1440 := hall _ (by
        rw [← hperiods]; exact hfirst)
      have hfirstw := scheduleFirstPeriodTomorrow_window cfg
        (sleepRecordCycleIndexOfNextRecording cfg bk) currentTime _ rfl hct hfp.1 hfp.2
        (fun _ => validSleepRecordCycle_of_valid cfg _ hv hd)
      have hfd : (scheduleFirstPeriodTomorrow cfg (sleepRecordCycleIndexOfNextRecording cfg bk)
          currentTime (currentTime % 86400)).durationOfNextRecording
          = min recordDuration (60 * (cfg.startStopPeriods.getD 0 ⟨0, 0⟩).stopMinutes
            - 60 * (cfg.startStopPeriods.getD 0 ⟨0, 0⟩).startMinutes) := by
        unfold scheduleFirstPeriodTomorrow
        simp only [SLEEP_RECORD_CYCLES_DISABLED, if_neg hd, u32, sub32, SECONDS_IN_MINUTE, ← hR]
        congr 1
        omega
      rw [hw.1, hw.2.1, hw.2.2, hfirstw.1, hfd, hfirstw.2.2.2.1]
      exact ⟨rfl, rfl, rfl⟩

/-- C24 (witness): the example cycle of 10 s record / 100 s sleep in the period 00:00-01:00
of 8 January 2022, with no opportunistic insertion (the previous recording was not a
STANDARD one) and no earliest or latest recording time.  Five seconds into the period the
result is `(t, 5)`; ten seconds into the period the record phase is over and the result is
the next boundary with a full record duration, `(periodStart + 110, 10)`. -/
theorem scheduleRecording_duty_cycle_witness :
    ((scheduleBeforeLatest opportunisticExample initialBackupDomain 1641600005).timeOfNextRecording
        = 1641600005 ∧
      (scheduleBeforeLatest opportunisticExample initialBackupDomain
        1641600005).durationOfNextRecording = min (10 - 5) (SECONDS_IN_MINUTE * 60
          - secondsOfDay 1641600005) ∧
      (scheduleBeforeLatest opportunisticExample initialBackupDomain
        1641600005).configurationIndexOfNextRecording
        = AM_configurationIndex_t.STANDARD_RECORDING) ∧
    ((scheduleRecording opportunisticExample initialBackupDomain 1641600005).timeOfNextRecording
        = 1641600005 ∧
      (scheduleRecording opportunisticExample initialBackupDomain
        1641600005).durationOfNextRecording = 5) ∧
    ((scheduleBeforeLatest opportunisticExample initialBackupDomain 1641600010).timeOfNextRecording
        = 1641600010 + (10 + 100 - 10) ∧
      (scheduleBeforeLatest opportunisticExample initialBackupDomain
        1641600010).durationOfNextRecording = min 10 (SECONDS_IN_MINUTE * 60
          - (secondsOfDay 1641600010 + (10 + 100 - 10))) ∧
      (scheduleBeforeLatest opportunisticExample initialBackupDomain
        1641600010).configurationIndexOfNextRecording
        = AM_configurationIndex_t.STANDARD_RECORDING) ∧
    ((scheduleRecording opportunisticExample initialBackupDomain 1641600010).timeOfNextRecording
        = 1641600110 ∧
      (scheduleRecording opportunisticExample initialBackupDomain
        1641600010).durationOfNextRecording = 10) :=
  ⟨(scheduleRecording_duty_cycle opportunisticExample initialBackupDomain 1641600005
      (by decide) (by decide) 1641600005 (by decide) (by decide) [] [] ⟨0, 60⟩ rfl
      (by decide) (by decide) 10 100 5 rfl rfl (by decide)).1 (by decide),
    by decide,
    (scheduleRecording_duty_cycle opportunisticExample initialBackupDomain 1641600010
      (by decide) (by decide) 1641600010 (by decide) (by decide) [] [] ⟨0, 60⟩ rfl
      (by decide) (by decide) 10 100 10 rfl rfl (by decide)).2.1 (by decide) (by decide)
      (by decide),
    by decide⟩

/-- C24 (counterexample): the last second of the 32-bit clock, `t = 4294967295`, is 06:28:15,
15 s into the period 06:28-07:00 of `clockWrapExample`, in the sleep phase of the 14 s / 100 s
cycle (`phase = 15`); no opportunistic recording is inserted (the previous index is
OPPORTUNISTIC).  The boundary `t + (114 - 15) = 4294967394` falls before the period's stop,
and the scheduler returns the start `98`. -/
theorem scheduleRecording_duty_cycle_counterexample :
    validScheduleSettings clockWrapExample ∧
    clockWrapExample.numberOfSleepRecordCycles ≠ SLEEP_RECORD_CYCLES_DISABLED ∧
    4294967295 ≤ UINT32_MAX ∧
    SECONDS_IN_MINUTE * 388 < secondsOfDay 4294967295 ∧
    secondsOfDay 4294967295 < SECONDS_IN_MINUTE * 420 ∧
    (secondsOfDay 4294967295 - SECONDS_IN_MINUTE * 388) % (14 + 100) = 15 ∧
    secondsOfDay 4294967295 + (14 + 100 - 15) < SECONDS_IN_MINUTE * 420 ∧
    initialBackupDomain.configurationIndexOfNextRecording
      ≠ AM_configurationIndex_t.STANDARD_RECORDING ∧
    4294967295 + (14 + 100 - 15) = 4294967394 ∧
    (scheduleRecording clockWrapExample initialBackupDomain 4294967295).timeOfNextRecording
      = 98 ∧
    (scheduleRecording clockWrapExample initialBackupDomain 4294967295).durationOfNextRecording
      = 14 :=
  ⟨by decide, by decide, by decide, by decide, by decide, by decide, by decide, by decide,
    by decide, by decide, by decide⟩

/-- C25 (amended): the opportunistic window.  For valid settings and a (clamped) current
time at least two days before the 32-bit clock wraps: whenever the scheduler returns the
OPPORTUNISTIC index, the (clamped) current time lies in the sleep phase of an active period,
`sleepDuration` exceeds `2 * OPPORTUNISTIC_GAP_IN_SECONDS` and does not exceed the boundary
`currentTime + (cycleLen - phase)`, so neither subtraction wraps; in the window computed
before the latest-time bound the start is
`boundary - sleepDuration + OPPORTUNISTIC_GAP_IN_SECONDS`, which is 5 s after the end of the
preceding record phase, `currentTime - (phase - recordDuration)`; the duration is
`sleepDuration - 2 * OPPORTUNISTIC_GAP_IN_SECONDS`, reduced to `maximumOpportunisticDuration`
when that is non-zero and smaller; and the window ends at least 5 s before the boundary,
which lies before the period's stop.  The result of `scheduleRecording` is this window with
the latest-time bound applied: the window itself when no latest recording time is
configured, and otherwise "never" or a window with the same start and no longer a
duration. -/
theorem scheduleRecording_opportunistic_window (cfg : CP_configSettings_t) (bk : BackupDomain)
    (t : Nat) (hv : validScheduleSettings cfg)
    (ht : clampToEarliest cfg t + 2 * SECONDS_IN_DAY ≤ UINT32_MAX)
    (ho : (scheduleRecording cfg bk t).configurationIndexOfNextRecording
      = AM_configurationIndex_t.OPPORTUNISTIC_RECORDING) :
    (∃ p ∈ cfg.startStopPeriods.take cfg.activeStartStopPeriods,
      ∃ recordDuration sleepDuration phase boundary,
        recordDuration
          = cfg.recordDuration.getD (sleepRecordCycleIndexOfNextRecording cfg bk).toNat 0 ∧
        sleepDuration
          = cfg.sleepDuration.getD (sleepRecordCycleIndexOfNextRecording cfg bk).toNat 0 ∧
        phase = (secondsOfDay (clampToEarliest cfg t) - SECONDS_IN_MINUTE * p.startMinutes)
          % (recordDuration + sleepDuration) ∧
        boundary = clampToEarliest cfg t + (recordDuration + sleepDuration - phase) ∧
        SECONDS_IN_MINUTE * p.startMinutes < secondsOfDay (clampToEarliest cfg t) ∧
        recordDuration ≤ phase ∧ phase < recordDuration + sleepDuration ∧
        phase - recordDuration ≤ clampToEarliest cfg t ∧
        2 * OPPORTUNISTIC_GAP_IN_SECONDS < sleepDuration ∧
        sleepDuration ≤ boundary ∧
        (scheduleBeforeLatest cfg bk t).timeOfNextRecording
          = boundary - sleepDuration + OPPORTUNISTIC_GAP_IN_SECONDS ∧
        (scheduleBeforeLatest cfg bk t).timeOfNextRecording
          = clampToEarliest cfg t - (phase - recordDuration) + OPPORTUNISTIC_GAP_IN_SECONDS ∧
        (scheduleBeforeLatest cfg bk t).durationOfNextRecording
          = (if cfg.maximumOpportunisticDuration > 0 then
              min cfg.maximumOpportunisticDuration
                (sleepDuration - 2 * OPPORTUNISTIC_GAP_IN_SECONDS)
            else sleepDuration - 2 * OPPORTUNISTIC_GAP_IN_SECONDS) ∧
        (scheduleBeforeLatest cfg bk t).timeOfNextRecording
          + (scheduleBeforeLatest cfg bk t).durationOfNextRecording
          + OPPORTUNISTIC_GAP_IN_SECONDS ≤ boundary ∧
        secondsOfDay (clampToEarliest cfg t) + (recordDuration + sleepDuration - phase)
          < SECONDS_IN_MINUTE * p.stopMinutes) ∧
    ((scheduleRecording cfg bk t).timeOfNextRecording
        = (applyLatestRecordingTime cfg (scheduleBeforeLatest cfg bk t)).timeOfNextRecording ∧
      (scheduleRecording cfg bk t).durationOfNextRecording
        = (applyLatestRecordingTime cfg (scheduleBeforeLatest cfg bk t)).durationOfNextRecording ∧
      (scheduleRecording cfg bk t).configurationIndexOfNextRecording
        = (scheduleBeforeLatest cfg bk t).configurationIndexOfNextRecording) ∧
    (cfg.latestRecordingTime = 0 →
      (scheduleRecording cfg bk t).timeOfNextRecording
        = (scheduleBeforeLatest cfg bk t).timeOfNextRecording ∧
      (scheduleRecording cfg bk t).durationOfNextRecording
        = (scheduleBeforeLatest cfg bk t).durationOfNextRecording) ∧
    ((scheduleRecording cfg bk t).timeOfNextRecording = UINT32_MAX ∨
      ((scheduleRecording cfg bk t).timeOfNextRecording
          = (scheduleBeforeLatest cfg bk t).timeOfNextRecording ∧
        (scheduleRecording cfg bk t).durationOfNextRecording
          ≤ (scheduleBeforeLatest cfg bk t).durationOfNextRecording)) := by
  have hct : clampToEarliest cfg t + 172800 < 4294967296 := by
    simp only [SECONDS_IN_DAY, SECONDS_IN_HOUR, SECONDS_IN_MINUTE, UINT32_MAX] at ht
    omega
  have hlink := scheduleRecording_after_latest cfg bk t
  refine ⟨?_, hlink.1, hlink.2.1, hlink.2.2⟩
  clear hlink
  obtain ⟨p, hp, hsome, hopp⟩ := scheduleWindow_opportunistic cfg bk t hv hct ho
  obtain ⟨hmin, hne, hper, hpw, _⟩ := activePeriods_of_valid cfg hv
  obtain ⟨hp1, hp2⟩ := hper p hp
  obtain ⟨o1, o2, o3, o4, o5, o6, o7, o8, o9⟩ := schedulePeriod_opportunistic cfg _ _ _ p _
    hct hp1 hp2 (fun hn => validSleepRecordCycle_of_valid cfg _ hv hn) hsome hopp
  obtain ⟨c1, c2, c3, c4⟩ := validSleepRecordCycle_of_valid cfg
    (sleepRecordCycleIndexOfNextRecording cfg bk) hv o3
  have hph : (clampToEarliest cfg t % 86400 - 60 * p.startMinutes) %
      (cfg.recordDuration.getD (sleepRecordCycleIndexOfNextRecording cfg bk).toNat 0 +
        cfg.sleepDuration.getD (sleepRecordCycleIndexOfNextRecording cfg bk).toNat 0)
      < cfg.recordDuration.getD (sleepRecordCycleIndexOfNextRecording cfg bk).toNat 0 +
        cfg.sleepDuration.getD (sleepRecordCycleIndexOfNextRecording cfg bk).toNat 0 :=
    Nat.mod_lt _ (by omega)
  have hph2 : (clampToEarliest cfg t % 86400 - 60 * p.startMinutes) %
      (cfg.recordDuration.getD (sleepRecordCycleIndexOfNextRecording cfg bk).toNat 0 +
        cfg.sleepDuration.getD (sleepRecordCycleIndexOfNextRecording cfg bk).toNat 0)
      ≤ clampToEarliest cfg t % 86400 - 60 * p.startMinutes := Nat.mod_le _ _
  have hle : clampToEarliest cfg t % 86400 ≤ clampToEarliest cfg t := Nat.mod_le _ _
  refine ⟨p, hp, _, _, _, _, rfl, rfl, rfl, rfl, ?_⟩
  simp only [secondsOfDay_eq, SECONDS_IN_MINUTE, OPPORTUNISTIC_GAP_IN_SECONDS]
  rw [o9]
  generalize (clampToEarliest cfg t % 86400 - 60 * p.startMinutes) %
      (cfg.recordDuration.getD (sleepRecordCycleIndexOfNextRecording cfg bk).toNat 0 +
        cfg.sleepDuration.getD (sleepRecordCycleIndexOfNextRecording cfg bk).toNat 0) = phase
    at *
  generalize cfg.recordDuration.getD (sleepRecordCycleIndexOfNextRecording cfg bk).toNat 0 = R
    at *
  generalize cfg.sleepDuration.getD (sleepRecordCycleIndexOfNextRecording cfg bk).toNat 0 = Sl
    at *
  generalize (scheduleBeforeLatest cfg bk t).timeOfNextRecording = start at *
  generalize clampToEarliest cfg t = ct at *
  refine ⟨o4, o5, hph, by omega, by omega, by omega, by omega, by omega, ?_, ?_, o7⟩
  · split_ifs <;> simp only [Nat.reduceMul]
  · split_ifs <;> omega

/-- C25 (witness): the example cycle of 10 s record / 100 s sleep in the period 00:00-01:00
of 8 January 2022, after a STANDARD recording.  Ten seconds into the period the record
phase has just ended; the boundary is `periodStart + 110` and the scheduler inserts the
opportunistic window `(periodStart + 15, 90)`, which ends 5 s before the boundary. -/
theorem scheduleRecording_opportunistic_window_witness :
    (scheduleRecording opportunisticExample standardBackupDomain
        1641600010).configurationIndexOfNextRecording
        = AM_configurationIndex_t.OPPORTUNISTIC_RECORDING ∧
      (scheduleRecording opportunisticExample standardBackupDomain 1641600010).timeOfNextRecording
        = 1641600015 ∧
      (scheduleRecording opportunisticExample standardBackupDomain
        1641600010).durationOfNextRecording = 90 ∧
      ∃ p ∈ opportunisticExample.startStopPeriods.take
          opportunisticExample.activeStartStopPeriods,
        ∃ recordDuration sleepDuration phase boundary,
        recordDuration
          = opportunisticExample.recordDuration.getD (sleepRecordCycleIndexOfNextRecording
            opportunisticExample standardBackupDomain).toNat 0 ∧
        sleepDuration
          = opportunisticExample.sleepDuration.getD (sleepRecordCycleIndexOfNextRecording
            opportunisticExample standardBackupDomain).toNat 0 ∧
        phase = (secondsOfDay (clampToEarliest opportunisticExample 1641600010)
            - SECONDS_IN_MINUTE * p.startMinutes) % (recordDuration + sleepDuration) ∧
        boundary = clampToEarliest opportunisticExample 1641600010
          + (recordDuration + sleepDuration - phase) ∧
        SECONDS_IN_MINUTE * p.startMinutes
          < secondsOfDay (clampToEarliest opportunisticExample 1641600010) ∧
        recordDuration ≤ phase ∧ phase < recordDuration + sleepDuration ∧
        phase - recordDuration ≤ clampToEarliest opportunisticExample 1641600010 ∧
        2 * OPPORTUNISTIC_GAP_IN_SECONDS < sleepDuration ∧
        sleepDuration ≤ boundary ∧
        (scheduleBeforeLatest opportunisticExample standardBackupDomain
            1641600010).timeOfNextRecording
          = boundary - sleepDuration + OPPORTUNISTIC_GAP_IN_SECONDS ∧
        (scheduleBeforeLatest opportunisticExample standardBackupDomain
            1641600010).timeOfNextRecording
          = clampToEarliest opportunisticExample 1641600010 - (phase - recordDuration)
            + OPPORTUNISTIC_GAP_IN_SECONDS ∧
        (scheduleBeforeLatest opportunisticExample standardBackupDomain
            1641600010).durationOfNextRecording
          = (if opportunisticExample.maximumOpportunisticDuration > 0 then
              min opportunisticExample.maximumOpportunisticDuration
                (sleepDuration - 2 * OPPORTUNISTIC_GAP_IN_SECONDS)
            else sleepDuration - 2 * OPPORTUNISTIC_GAP_IN_SECONDS) ∧
        (scheduleBeforeLatest opportunisticExample standardBackupDomain
            1641600010).timeOfNextRecording
          + (scheduleBeforeLatest opportunisticExample standardBackupDomain
            1641600010).durationOfNextRecording
          + OPPORTUNISTIC_GAP_IN_SECONDS ≤ boundary ∧
        secondsOfDay (clampToEarliest opportunisticExample 1641600010)
            + (recordDuration + sleepDuration - phase)
          < SECONDS_IN_MINUTE * p.stopMinutes :=
  ⟨by decide, by decide, by decide,
    (scheduleRecording_opportunistic_window opportunisticExample standardBackupDomain 1641600010
      (by decide) (by decide) (by decide)).1⟩

/-- C25 (counterexample): the last second of the 32-bit clock, `t = 4294967295`, is 15 s
into the period 06:28-07:00 of `clockWrapExample`, one second after the 14 s record phase,
and the previous recording was a STANDARD one.  The scheduler returns the OPPORTUNISTIC
index: the boundary is `98` in 32 bits, less than the sleep duration 100, so
`boundary - sleepDuration` wraps; the start returned is `3` (not `4294967299`, 5 s after the
end of the record phase at `4294967294`) and the duration is 90. -/
theorem scheduleRecording_opportunistic_window_counterexample :
    validScheduleSettings clockWrapExample ∧
    4294967295 ≤ UINT32_MAX ∧
    (scheduleRecording clockWrapExample standardBackupDomain
      4294967295).configurationIndexOfNextRecording
      = AM_configurationIndex_t.OPPORTUNISTIC_RECORDING ∧
    (secondsOfDay 4294967295 - SECONDS_IN_MINUTE * 388) % (14 + 100) = 15 ∧
    sub32 (u32 (4294967295 + u32 (14 + 100))) 15 = 98 ∧
    4294967295 + (14 + 100 - 15) - 100 + OPPORTUNISTIC_GAP_IN_SECONDS = 4294967299 ∧
    (scheduleRecording clockWrapExample standardBackupDomain 4294967295).timeOfNextRecording
      = 3 ∧
    (scheduleRecording clockWrapExample standardBackupDomain 4294967295).durationOfNextRecording
      = 90 :=
  ⟨by decide, by decide, by decide, by decide, by decide, by decide, by decide, by decide⟩

/-! ## The interrupt side: the warm-up -/

theorem handleDirectMemoryAccessInterrupts_append (sram : Nat) (cfg : CP_configSettings_t)
    (index : AM_configurationIndex_t) (flags : List Bool) (flag : Bool)
    (state : InterruptState) :
    handleDirectMemoryAccessInterrupts sram cfg index (flags ++ [flag]) state
      = AudioMoth_handleDirectMemoryAccessInterrupt sram
        (numberOfSamplesInDMATransfer cfg index) (cfg.sampleRateDivider.getD index.toNat 0)
        (dmaTransfersToSkip cfg index) flag
        (handleDirectMemoryAccessInterrupts sram cfg index flags state) := by
  unfold handleDirectMemoryAccessInterrupts
  rw [List.foldl_append]
  rfl

/-- Every DMA interrupt counts one transfer, modulo `2 ^ 32`. -/
theorem handleDirectMemoryAccessInterrupts_processed (sram : Nat) (cfg : CP_configSettings_t)
    (index : AM_configurationIndex_t) (flags : List Bool) (state : InterruptState)
    (h0 : state.dmaTransfersProcessed = 0) :
    (handleDirectMemoryAccessInterrupts sram cfg index flags state).dmaTransfersProcessed
      = u32 flags.length := by
  induction flags using List.reverseRecOn with
  | nil =>
    show state.dmaTransfersProcessed = u32 0
    rw [h0]; rfl
  | append_singleton flags flag ih =>
    rw [handleDirectMemoryAccessInterrupts_append]
    show u32 ((handleDirectMemoryAccessInterrupts sram cfg index flags
      state).dmaTransfersProcessed + 1) = _
    rw [ih, List.length_append, List.length_singleton]
    simp only [u32]
    omega

/-- The transfers up to and including the one that finds `dmaTransfersProcessed` equal to
`dmaTransfersToSkip` change nothing but the count of transfers. -/
theorem handleDirectMemoryAccessInterrupts_discarded (sram : Nat) (cfg : CP_configSettings_t)
    (index : AM_configurationIndex_t) (flags : List Bool) (state : InterruptState)
    (h0 : state.dmaTransfersProcessed = 0)
    (hlen : flags.length ≤ dmaTransfersToSkip cfg index + 1) :
    handleDirectMemoryAccessInterrupts sram cfg index flags state
      = { state with dmaTransfersProcessed := u32 flags.length } := by
  induction flags using List.reverseRecOn with
  | nil =>
    show state = { state with dmaTransfersProcessed := 0 }
    rw [← h0]
  | append_singleton flags flag ih =>
    rw [List.length_append, List.length_singleton] at hlen
    rw [handleDirectMemoryAccessInterrupts_append, ih (by omega)]
    have hmod : flags.length % 4294967296 ≤ flags.length := Nat.mod_le _ _
    have hnot : ¬ (u32 flags.length > dmaTransfersToSkip cfg index) := by
      simp only [u32]
      omega
    have hcount : u32 (u32 flags.length + 1) = u32 (flags.length + 1) := by
      simp only [u32]
      omega
    unfold AudioMoth_handleDirectMemoryAccessInterrupt
    dsimp only
    rw [if_neg hnot, hcount, List.length_append, List.length_singleton]

/-- The warm-up as the handler performs it.  With `dmaTransfersProcessed` set to 0 at the
start of the session, the transfers up to number `dmaTransfersToSkip + 1` leave write
buffer, write offset and threshold flags as at the start.  Every later transfer before the
count of transfers wraps at `2 ^ 32` is accumulated into the current slot: the flag of the
write buffer takes the threshold result and the write offset advances (moving on to the
next buffer when the buffer is full). -/
theorem handleDirectMemoryAccessInterrupts_warm_up (sram : Nat) (cfg : CP_configSettings_t)
    (index : AM_configurationIndex_t) (flags : List Bool) (flag : Bool)
    (state : InterruptState) (h0 : state.dmaTransfersProcessed = 0) :
    (flags.length ≤ dmaTransfersToSkip cfg index + 1 →
      (handleDirectMemoryAccessInterrupts sram cfg index flags state).writeBuffer
        = state.writeBuffer ∧
      (handleDirectMemoryAccessInterrupts sram cfg index flags state).writeBufferIndex
        = state.writeBufferIndex ∧
      (handleDirectMemoryAccessInterrupts sram cfg index flags state).writeIndicator
        = state.writeIndicator) ∧
    (dmaTransfersToSkip cfg index + 1 ≤ flags.length → flags.length ≤ UINT32_MAX →
      handleDirectMemoryAccessInterrupts sram cfg index (flags ++ [flag]) state
        = if u32 ((handleDirectMemoryAccessInterrupts sram cfg index flags
              state).writeBufferIndex + numberOfSamplesInDMATransfer cfg index
              / cfg.sampleRateDivider.getD index.toNat 0)
            = NUMBER_OF_SAMPLES_IN_BUFFER sram then
          { writeBuffer := ((handleDirectMemoryAccessInterrupts sram cfg index flags
              state).writeBuffer + 1) % NUMBER_OF_BUFFERS
            writeBufferIndex := 0
            writeIndicator :=
              ((handleDirectMemoryAccessInterrupts sram cfg index flags
                state).writeIndicator.set
                  (handleDirectMemoryAccessInterrupts sram cfg index flags state).writeBuffer
                  ((handleDirectMemoryAccessInterrupts sram cfg index flags
                    state).writeIndicator.getD
                      (handleDirectMemoryAccessInterrupts sram cfg index flags
                        state).writeBuffer false || flag)).set
                (((handleDirectMemoryAccessInterrupts sram cfg index flags
                  state).writeBuffer + 1) % NUMBER_OF_BUFFERS) false
            dmaTransfersProcessed := u32 (flags.length + 1) }
        else
          { writeBuffer := (handleDirectMemoryAccessInterrupts sram cfg index flags
              state).writeBuffer
            writeBufferIndex := u32 ((handleDirectMemoryAccessInterrupts sram cfg index flags
              state).writeBufferIndex + numberOfSamplesInDMATransfer cfg index
              / cfg.sampleRateDivider.getD index.toNat 0)
            writeIndicator :=
              (handleDirectMemoryAccessInterrupts sram cfg index flags
                state).writeIndicator.set
                  (handleDirectMemoryAccessInterrupts sram cfg index flags state).writeBuffer
                  ((handleDirectMemoryAccessInterrupts sram cfg index flags
                    state).writeIndicator.getD
                      (handleDirectMemoryAccessInterrupts sram cfg index flags
                        state).writeBuffer false || flag)
            dmaTransfersProcessed := u32 (flags.length + 1) }) := by
  refine ⟨fun hlen => ?_, fun hlen hmax => ?_⟩
  · rw [handleDirectMemoryAccessInterrupts_discarded sram cfg index flags state h0 hlen]
    exact ⟨rfl, rfl, rfl⟩
  · have hp := handleDirectMemoryAccessInterrupts_processed sram cfg index flags state h0
    have hlt : u32 flags.length = flags.length := by
      simp only [u32, UINT32_MAX] at hmax ⊢
      omega
    rw [hlt] at hp
    rw [handleDirectMemoryAccessInterrupts_append]
    generalize handleDirectMemoryAccessInterrupts sram cfg index flags state = s at hp ⊢
    have hwarm : s.dmaTransfersProcessed > dmaTransfersToSkip cfg index := by omega
    unfold AudioMoth_handleDirectMemoryAccessInterrupt
    dsimp only
    rw [if_pos hwarm, hp]
    split_ifs <;> rfl

set_option maxRecDepth 100000 in
/-- The default configuration, 384 kHz with divider 8, has transfers of 1024 samples and
`dmaTransfersToSkip = 187`.  After 100 transfers nothing but the count has changed;
transfer number 189 is accumulated and advances the write offset by 128. -/
theorem handleDirectMemoryAccessInterrupts_warm_up_example :
    dmaTransfersToSkip defaultConfigSettings AM_configurationIndex_t.STANDARD_RECORDING = 187 ∧
    ((handleDirectMemoryAccessInterrupts exampleSramSizeInBytes defaultConfigSettings
        AM_configurationIndex_t.STANDARD_RECORDING (List.replicate 100 true)
        (startOfInterrupts (List.replicate 8 false))).writeBuffer
        = (startOfInterrupts (List.replicate 8 false)).writeBuffer ∧
      (handleDirectMemoryAccessInterrupts exampleSramSizeInBytes defaultConfigSettings
        AM_configurationIndex_t.STANDARD_RECORDING (List.replicate 100 true)
        (startOfInterrupts (List.replicate 8 false))).writeBufferIndex
        = (startOfInterrupts (List.replicate 8 false)).writeBufferIndex ∧
      (handleDirectMemoryAccessInterrupts exampleSramSizeInBytes defaultConfigSettings
        AM_configurationIndex_t.STANDARD_RECORDING (List.replicate 100 true)
        (startOfInterrupts (List.replicate 8 false))).writeIndicator
        = (startOfInterrupts (List.replicate 8 false)).writeIndicator) ∧
    (handleDirectMemoryAccessInterrupts exampleSramSizeInBytes defaultConfigSettings
      AM_configurationIndex_t.STANDARD_RECORDING (List.replicate 189 true)
      (startOfInterrupts (List.replicate 8 false))).writeBufferIndex = 128 :=
  ⟨by decide,
    (handleDirectMemoryAccessInterrupts_warm_up exampleSramSizeInBytes defaultConfigSettings
      AM_configurationIndex_t.STANDARD_RECORDING (List.replicate 100 true) true
      (startOfInterrupts (List.replicate 8 false)) rfl).1 (by decide),
    by decide⟩

set_option maxRecDepth 100000 in
/-- C27 (failing input): in the default configuration `dmaTransfersToSkip` is 187, and the
first 188 transfers of a session are discarded: after 188 transfers, each with the
threshold exceeded, write buffer, write offset and flags are as at the start of the
session.  Transfer number 189 is the first that is accumulated. -/
theorem handleDirectMemoryAccessInterrupts_discards_one_more :
    dmaTransfersToSkip defaultConfigSettings AM_configurationIndex_t.STANDARD_RECORDING = 187 ∧
    handleDirectMemoryAccessInterrupts exampleSramSizeInBytes defaultConfigSettings
        AM_configurationIndex_t.STANDARD_RECORDING (List.replicate 188 true)
        (startOfInterrupts (List.replicate 8 false))
      = { startOfInterrupts (List.replicate 8 false) with dmaTransfersProcessed := 188 } ∧
    handleDirectMemoryAccessInterrupts exampleSramSizeInBytes defaultConfigSettings
        AM_configurationIndex_t.STANDARD_RECORDING (List.replicate 189 true)
        (startOfInterrupts (List.replicate 8 false))
      = { writeBuffer := 0
          writeBufferIndex := 128
          writeIndicator := [true, false, false, false, false, false, false, false]
          dmaTransfersProcessed := 189 } :=
  ⟨by decide, by decide, by decide⟩

/-! ## The filter set-up -/

/-- C29: filter mode selection in `makeRecording`.  `requestedFilterType` is NO_FILTER iff
both stored cut-offs are 0; otherwise it is LOW_PASS_FILTER iff `lowerFilterFreq` is
`UINT16_MAX`; otherwise it is HIGH_PASS_FILTER iff `higherFilterFreq` is `UINT16_MAX`;
otherwise it is BAND_PASS_FILTER.  In every mode the lower design frequency handed to the
filter is at least `DC_BLOCKING_FREQ`: it is `DC_BLOCKING_FREQ` itself for NO_FILTER and
LOW_PASS_FILTER, and the larger of `DC_BLOCKING_FREQ` and
`FILTER_FREQ_MULTIPLIER * lowerFilterFreq` for the other two. -/
theorem setUpDigitalFilter_mode (cfg : CP_configSettings_t) (index : AM_configurationIndex_t) :
    ((setUpDigitalFilter cfg index).1 = AM_filterType_t.NO_FILTER ↔
      cfg.lowerFilterFreq.getD index.toNat 0 = 0 ∧
        cfg.higherFilterFreq.getD index.toNat 0 = 0) ∧
    (¬ (cfg.lowerFilterFreq.getD index.toNat 0 = 0 ∧
        cfg.higherFilterFreq.getD index.toNat 0 = 0) →
      ((setUpDigitalFilter cfg index).1 = AM_filterType_t.LOW_PASS_FILTER ↔
        cfg.lowerFilterFreq.getD index.toNat 0 = UINT16_MAX) ∧
      (cfg.lowerFilterFreq.getD index.toNat 0 ≠ UINT16_MAX →
        ((setUpDigitalFilter cfg index).1 = AM_filterType_t.HIGH_PASS_FILTER ↔
          cfg.higherFilterFreq.getD index.toNat 0 = UINT16_MAX) ∧
        (cfg.higherFilterFreq.getD index.toNat 0 ≠ UINT16_MAX →
          (setUpDigitalFilter cfg index).1 = AM_filterType_t.BAND_PASS_FILTER))) ∧
    DC_BLOCKING_FREQ ≤ (setUpDigitalFilter cfg index).2.lowerFrequency ∧
    (((setUpDigitalFilter cfg index).1 = AM_filterType_t.NO_FILTER ∨
        (setUpDigitalFilter cfg index).1 = AM_filterType_t.LOW_PASS_FILTER) →
      (setUpDigitalFilter cfg index).2.lowerFrequency = DC_BLOCKING_FREQ) ∧
    (((setUpDigitalFilter cfg index).1 = AM_filterType_t.HIGH_PASS_FILTER ∨
        (setUpDigitalFilter cfg index).1 = AM_filterType_t.BAND_PASS_FILTER) →
      (setUpDigitalFilter cfg index).2.lowerFrequency
        = max DC_BLOCKING_FREQ
          (FILTER_FREQ_MULTIPLIER * cfg.lowerFilterFreq.getD index.toNat 0)) := by
  unfold setUpDigitalFilter
  dsimp only
  generalize cfg.lowerFilterFreq.getD index.toNat 0 = lower
  generalize cfg.higherFilterFreq.getD index.toNat 0 = higher
  by_cases c1 : lower = 0 ∧ higher = 0
  · rw [if_pos c1]
    simp [c1, FilterDesign.lowerFrequency]
  · rw [if_neg c1]
    by_cases c2 : lower = UINT16_MAX
    · rw [if_pos c2]
      simp [c1, c2, FilterDesign.lowerFrequency]
      intro h; exact absurd h (by decide)
    · rw [if_neg c2]
      by_cases c3 : higher = UINT16_MAX
      · rw [if_pos c3]
        simp [c1, c2, c3, FilterDesign.lowerFrequency]
        intro _; decide
      · rw [if_neg c3]
        simp [c1, c2, c3, FilterDesign.lowerFrequency]

/-- C29 (example): the stored cut-offs 80 and 240 select the band-pass filter with the
design frequencies 8000 Hz and 24000 Hz at 48 kHz; the default configuration, with both
cut-offs 0, selects no filter and the DC-blocking high-pass design at 48 Hz. -/
theorem setUpDigitalFilter_mode_witness :
    setUpDigitalFilter bandPassExample AM_configurationIndex_t.STANDARD_RECORDING
      = (AM_filterType_t.BAND_PASS_FILTER, FilterDesign.designBandPassFilter 48000 8000 24000) ∧
    setUpDigitalFilter defaultConfigSettings AM_configurationIndex_t.STANDARD_RECORDING
      = (AM_filterType_t.NO_FILTER, FilterDesign.designHighPassFilter 48000 48) ∧
    DC_BLOCKING_FREQ ≤ (setUpDigitalFilter bandPassExample
      AM_configurationIndex_t.STANDARD_RECORDING).2.lowerFrequency :=
  ⟨by decide, by decide,
    (setUpDigitalFilter_mode bandPassExample AM_configurationIndex_t.STANDARD_RECORDING).2.2.1⟩

/-! ## The wake cycle: counting complete initial recordings -/

/-- What "Count the recording" tests: the counter of complete initial recordings grows by
one exactly when the recording state is RECORDING_OKAY, both sleep/record cycles are
configured and `durationOfNextRecording`, which by then holds the duration of the recording
scheduled next, equals the INITIAL record duration. -/
theorem countRecording_counts (cfg : CP_configSettings_t) (bk : BackupDomain)
    (state : AM_recordingState_t) :
    (countRecording cfg bk state).numberOfCompleteInitialRecordings
      = (if state = AM_recordingState_t.RECORDING_OKAY ∧
            cfg.numberOfSleepRecordCycles = INITIAL_AND_STANDARD_SLEEP_RECORD_CYCLES ∧
            bk.durationOfNextRecording = cfg.recordDuration.getD 0 0 then
          u32 (bk.numberOfCompleteInitialRecordings + 1)
        else bk.numberOfCompleteInitialRecordings) ∧
    (countRecording cfg bk state).numberOfRecordings = u32 (bk.numberOfRecordings + 1) ∧
    (countRecording cfg bk state).durationOfNextRecording = bk.durationOfNextRecording ∧
    (countRecording cfg bk state).timeOfNextRecording = bk.timeOfNextRecording :=
  ⟨rfl, rfl, rfl, rfl⟩

set_option maxRecDepth 100000 in
/-- C26 (failing input): `initialCyclesExample` configures both sleep/record cycles, with an
INITIAL record duration of 55 s, in the period 00:00-00:02.  The device wakes on time at
00:00:00 on 8 January 2022 for the first recording, scheduled with the full duration 55;
the recording of 55 s (27 buffers at 8 kHz) returns RECORDING_OKAY.  The recording
scheduled next, at 00:01:15, is cut to 45 s by the end of the period, and the counter of
complete initial recordings stays 0. -/
theorem makeRecordingIfReady_full_recording_not_counted :
    initialCyclesExample.numberOfSleepRecordCycles = INITIAL_AND_STANDARD_SLEEP_RECORD_CYCLES ∧
    initialCyclesBackupDomain.timeOfNextRecording = 1641600000 ∧
    initialCyclesBackupDomain.durationOfNextRecording
      = initialCyclesExample.recordDuration.getD
        AM_sleepRecordIndex_t.INITIAL_SLEEP_RECORD_CYCLE.toNat 0 ∧
    initialCyclesBackupDomain.numberOfCompleteInitialRecordings = 0 ∧
    (∃ recorded, reduceDurationAndRecord exampleSramSizeInBytes initialCyclesExample
        initialCyclesBackupDomain 1641600000 true true 7 300 storageAlwaysSucceeds
        (steadyObservations 27)
        = Progress.finished (AM_recordingState_t.RECORDING_OKAY, recorded) ∧
      recorded.durationOfNextRecording = 55) ∧
    ∃ backup, makeRecordingIfReady exampleSramSizeInBytes initialCyclesExample
        initialCyclesBackupDomain 1641600000 true true 7 300 storageAlwaysSucceeds
        (steadyObservations 27) = Progress.finished backup ∧
      backup.numberOfCompleteInitialRecordings = 0 ∧
      backup.numberOfRecordings = 1 ∧
      backup.timeOfNextRecording = 1641600075 ∧
      backup.durationOfNextRecording = 45 :=
  ⟨by decide, by decide, by decide, by decide, ⟨_, rfl, by decide⟩,
    ⟨_, rfl, by decide, by decide, by decide, by decide⟩⟩

/-! ## The configuration parser: what a call of `ConfigParser_parse` can change -/

theorem DEFINE_FUNCTION_INIT_cases (Q : ParserVariables → Prop)
    (condition : Nat → ParserVariables → Bool) (c : Nat) (v : ParserVariables)
    (h0 : Q v)
    (h1 : Q (FUNCTION_END 1 CP_parserStatus_t.CP_PARSING (CLEAR_STATE v)))
    (h2 : Q (FUNCTION_END 0 CP_parserStatus_t.CP_WAITING v)) :
    Q (DEFINE_FUNCTION_INIT condition c v) := by
  unfold DEFINE_FUNCTION_INIT
  split_ifs
  · exact h0
  · exact h1
  · exact h2

theorem DEFINE_FUNCTION_STEP_cases (Q : ParserVariables → Prop)
    (condition : Nat → ParserVariables → Bool)
    (action : Nat → ParserVariables → ParserVariables) (c : Nat) (v : ParserVariables)
    (h0 : Q v)
    (he : Q (FUNCTION_END 0 CP_parserStatus_t.CP_CHARACTER_ERROR v))
    (h1 : condition c v = true → Q (action c v)) :
    Q (DEFINE_FUNCTION_STEP condition action c v) := by
  unfold DEFINE_FUNCTION_STEP
  split_ifs with a b
  · exact h0
  · exact h1 b
  · exact he

theorem DEFINE_FUNCTION_ELSE_cases (Q : ParserVariables → Prop)
    (condition1 : Nat → ParserVariables → Bool)
    (action1 : Nat → ParserVariables → ParserVariables)
    (condition2 : Nat → ParserVariables → Bool)
    (action2 : Nat → ParserVariables → ParserVariables) (c : Nat) (v : ParserVariables)
    (h0 : Q v)
    (he : Q (FUNCTION_END 0 CP_parserStatus_t.CP_CHARACTER_ERROR v))
    (h1 : condition1 c v = true → Q (action1 c v))
    (h2 : condition2 c v = true → Q (action2 c v)) :
    Q (DEFINE_FUNCTION_ELSE condition1 action1 condition2 action2 c v) := by
  unfold DEFINE_FUNCTION_ELSE
  split_ifs with a b d
  · exact h0
  · exact h1 b
  · exact h2 d
  · exact he

theorem DEFINE_FUNCTION_CND3_cases (Q : ParserVariables → Prop)
    (condition1 : Nat → ParserVariables → Bool)
    (action1 : Nat → ParserVariables → ParserVariables)
    (condition2 : Nat → ParserVariables → Bool)
    (action2 : Nat → ParserVariables → ParserVariables)
    (condition3 : Nat → ParserVariables → Bool)
    (action3 : Nat → ParserVariables → ParserVariables) (c : Nat) (v : ParserVariables)
    (h0 : Q v)
    (he : Q (FUNCTION_END 0 CP_parserStatus_t.CP_CHARACTER_ERROR v))
    (h1 : condition1 c v = true → Q (action1 c v))
    (h2 : condition2 c v = true → Q (action2 c v))
    (h3 : condition3 c v = true → Q (action3 c v)) :
    Q (DEFINE_FUNCTION_CND3 condition1 action1 condition2 action2 condition3 action3 c v) := by
  unfold DEFINE_FUNCTION_CND3
  split_ifs with a b d e
  · exact h0
  · exact h1 b
  · exact h2 d
  · exact h3 e
  · exact he

theorem DEFINE_FUNCTION_CND4_cases (Q : ParserVariables → Prop)
    (condition1 : Nat → ParserVariables → Bool)
    (action1 : Nat → ParserVariables → ParserVariables)
    (condition2 : Nat → ParserVariables → Bool)
    (action2 : Nat → ParserVariables → ParserVariables)
    (condition3 : Nat → ParserVariables → Bool)
    (action3 : Nat → ParserVariables → ParserVariables)
    (condition4 : Nat → ParserVariables → Bool)
    (action4 : Nat → ParserVariables → ParserVariables) (c : Nat) (v : ParserVariables)
    (h0 : Q v)
    (he : Q (FUNCTION_END 0 CP_parserStatus_t.CP_CHARACTER_ERROR v))
    (h1 : condition1 c v = true → Q (action1 c v))
    (h2 : condition2 c v = true → Q (action2 c v))
    (h3 : condition3 c v = true → Q (action3 c v))
    (h4 : condition4 c v = true → Q (action4 c v)) :
    Q (DEFINE_FUNCTION_CND4 condition1 action1 condition2 action2 condition3 action3
      condition4 action4 c v) := by
  unfold DEFINE_FUNCTION_CND4
  split_ifs with a b d e f
  · exact h0
  · exact h1 b
  · exact h2 d
  · exact h3 e
  · exact h4 f
  · exact he

theorem DEFINE_FUNCTION_STRG_cases (Q : ParserVariables → Prop) (pattern : String)
    (action : Nat → ParserVariables → ParserVariables) (c : Nat) (v : ParserVariables)
    (h0 : Q v)
    (he : Q (FUNCTION_END 0 CP_parserStatus_t.CP_CHARACTER_ERROR v))
    (h1 : Q (INC_COUNT v))
    (h2 : Q (action c (INC_COUNT v))) :
    Q (DEFINE_FUNCTION_STRG pattern action c v) := by
  unfold DEFINE_FUNCTION_STRG
  split_ifs
  · exact h0
  · exact h2
  · exact h1
  · exact he

theorem CHECK_BUFFER_MIN_MAX_AND_SET_cases (Q : ParserVariables → Prop)
    (atoi : List Nat → Int) (destination : Nat → ParserVariables → ParserVariables)
    (min max : Int) (success : ParserVariables → ParserVariables) (v : ParserVariables)
    (hmin0 : 0 ≤ min) (he : Q (VALUE_ERROR v))
    (h1 : ∀ value : Nat, min ≤ (value : Int) → (value : Int) ≤ max →
      Q (success (destination value v))) :
    Q (CHECK_BUFFER_MIN_MAX_AND_SET atoi destination min max success v) := by
  unfold CHECK_BUFFER_MIN_MAX_AND_SET
  split_ifs with a
  · exact he
  · have hmin : min ≤ atoi v.parserState.buffer := by omega
    have hmax : atoi v.parserState.buffer ≤ max := by omega
    exact h1 _ (by omega) (by omega)

set_option maxHeartbeats 4000000 in
theorem CPfunctions_frame (atoi : List Nat → Int) (c : Nat) (v : ParserVariables) (s : Nat)
    (hs : v.parserState.state = s) (hout : s < 31 ∨ 38 < s) :
    parserFrame v (CPfunctions atoi s c v) := by
  unfold CPfunctions
  split
  all_goals first
    | (exfalso; omega)
    | apply DEFINE_FUNCTION_INIT_cases
    | apply DEFINE_FUNCTION_STRG_cases
    | apply DEFINE_FUNCTION_STEP_cases
    | apply DEFINE_FUNCTION_ELSE_cases
    | apply DEFINE_FUNCTION_CND3_cases
    | apply DEFINE_FUNCTION_CND4_cases
    | skip
  all_goals try intro _
  all_goals try (apply CHECK_BUFFER_MIN_MAX_AND_SET_cases)
  all_goals try (intro _ _ _)
  all_goals try omega
  all_goals try
    (unfold parserFrame
     simp only [INC_STATE, SET_STATE, ZERO_INDEX, INC_INDEX, SET_INDEX, INC_COUNT, SET_RETURN,
       ADD_TO_BUFFER, CLEAR_BUFFER, CLEAR_STATE, SET_STATUS_SUCCESS, FUNCTION_END, VALUE_ERROR,
       setConfigSettings, clearedParserState, hs]
     (try split_ifs) <;> simp <;> omega)
  · unfold handleSampleRateAction
    split
    · unfold parserFrame
      simp [VALUE_ERROR]
    · dsimp only
      unfold parserFrame
      split_ifs <;> simp [INC_STATE, SET_STATE, setConfigSettings, hs]
  · unfold handleEnableEnergySaverModeAction
    dsimp only
    split
    · unfold parserFrame
      simp [VALUE_ERROR, setConfigSettings]
    · unfold parserFrame
      simp [INC_STATE, setConfigSettings, hs]
  · unfold handleFilterAction
    dsimp only
    split
    · unfold parserFrame
      simp [VALUE_ERROR]
    · unfold parserFrame
      simp [INC_STATE, setConfigSettings, hs]

theorem getD_set_same {α : Type} (l : List α) (i : Nat) (a d : α) (h : i < l.length) :
    (l.set i a).getD i d = a := by
  rw [List.getD_eq_getElem?_getD, List.getElem?_set_self h]
  rfl

theorem getD_set_diff {α : Type} (l : List α) (i j : Nat) (a d : α) (h : i ≠ j) :
    (l.set i a).getD j d = l.getD j d := by
  rw [List.getD_eq_getElem?_getD, List.getD_eq_getElem?_getD, List.getElem?_set_ne h]

/-- A call of `ConfigParser_parse` in one of the states 31 to 38 keeps the invariant. -/
theorem CPfunctions_periods (atoi : List Nat → Int) (c : Nat) (v : ParserVariables) (s : Nat)
    (hs : v.parserState.state = s) (hin : 31 ≤ s ∧ s ≤ 38) (hI : parserInvariant v) :
    parserInvariant (CPfunctions atoi s c v) := by
  obtain ⟨i1, i2, i3, i4, i5, i6⟩ := hI
  have herr : ∀ status, status ≠ CP_parserStatus_t.CP_SUCCESS →
      parserInvariant (FUNCTION_END 0 status v) := by
    intro status hne
    unfold parserInvariant
    simp only [FUNCTION_END]
    exact ⟨i1, i2, fun h => absurd h hne, fun h => absurd h (by omega),
      fun h => absurd h (by omega), fun h => absurd h (by omega)⟩
  have hverr : parserInvariant (VALUE_ERROR v) := by
    unfold parserInvariant
    simp only [VALUE_ERROR]
    exact ⟨i1, i2, fun h => absurd h (by decide), fun h => absurd h (by omega),
      fun h => absurd h (by omega), fun h => absurd h (by omega)⟩
  have hsame : parserInvariant v := ⟨i1, i2, i3, i4, i5, i6⟩
  have hnos : s ≠ 38 → v.parserState.status ≠ CP_parserStatus_t.CP_SUCCESS := by
    intro h38 hst
    have := i3 hst
    omega
  obtain ⟨h31, h38⟩ := hin
  interval_cases s
  · -- CP31
    unfold CPfunctions
    apply DEFINE_FUNCTION_STRG_cases _ _ _ _ _ hsame (herr _ (by decide))
    · unfold parserInvariant
      simp only [INC_COUNT, hs]
      exact ⟨i1, i2, fun h => absurd h (hnos (by omega)), fun h => absurd h (by omega),
        fun h => absurd h (by omega), fun h => absurd h (by omega)⟩
    · unfold parserInvariant
      simp only [INC_COUNT, INC_STATE, ZERO_INDEX, hs, MAXIMUM_NUMBER_OF_START_STOP_PERIODS]
      exact ⟨i1, i2, fun h => absurd h (hnos (by omega)),
        fun _ _ => ⟨by omega, fun i hi => absurd hi (by omega)⟩,
        fun h => absurd h (by omega), fun h => absurd h (by omega)⟩
  · -- CP32
    unfold CPfunctions
    apply DEFINE_FUNCTION_STEP_cases _ _ _ _ _ hsame (herr _ (by decide))
    intro _
    unfold parserInvariant
    simp only [CLEAR_BUFFER, INC_STATE, hs]
    exact ⟨i1, i2, fun h => absurd h (hnos (by omega)),
      fun _ _ => i4 (by omega) (by omega),
      fun h => absurd h (by omega), fun h => absurd h (by omega)⟩
  · -- CP33
    unfold CPfunctions
    apply DEFINE_FUNCTION_STRG_cases _ _ _ _ _ hsame (herr _ (by decide))
    · unfold parserInvariant
      simp only [INC_COUNT, hs]
      exact ⟨i1, i2, fun h => absurd h (hnos (by omega)),
        fun _ _ => i4 (by omega) (by omega),
        fun h => absurd h (by omega), fun h => absurd h (by omega)⟩
    · unfold parserInvariant
      simp only [CLEAR_BUFFER, INC_COUNT, INC_STATE, hs]
      exact ⟨i1, i2, fun h => absurd h (hnos (by omega)),
        fun _ _ => i4 (by omega) (by omega),
        fun h => absurd h (by omega), fun h => absurd h (by omega)⟩
  · -- CP34
    unfold CPfunctions
    apply DEFINE_FUNCTION_ELSE_cases _ _ _ _ _ _ _ hsame (herr _ (by decide))
    · intro _
      unfold parserInvariant ADD_TO_BUFFER
      split_ifs
      · simp only [hs]
        exact ⟨i1, i2, fun h => absurd h (hnos (by omega)),
          fun _ _ => i4 (by omega) (by omega),
          fun h => absurd h (by omega), fun h => absurd h (by omega)⟩
      · exact hsame
    · intro _
      apply CHECK_BUFFER_MIN_MAX_AND_SET_cases _ _ _ _ _ _ _ (by decide) hverr
      intro value _ _
      obtain ⟨j1, j2⟩ := i4 (by omega) (by omega)
      unfold parserInvariant
      simp only [CLEAR_BUFFER, INC_STATE, setConfigSettings, hs, List.length_set]
      refine ⟨i1, i2, fun h => absurd h (hnos (by omega)),
        fun _ _ => ⟨j1, fun i hi => ?_⟩,
        fun h => absurd h (by omega), fun h => absurd h (by omega)⟩
      rw [getD_set_diff _ _ _ _ _ (by omega)]
      exact j2 i hi
  · -- CP35
    unfold CPfunctions
    apply DEFINE_FUNCTION_STRG_cases _ _ _ _ _ hsame (herr _ (by decide))
    · unfold parserInvariant
      simp only [INC_COUNT, hs]
      exact ⟨i1, i2, fun h => absurd h (hnos (by omega)),
        fun _ _ => i4 (by omega) (by omega),
        fun h => absurd h (by omega), fun h => absurd h (by omega)⟩
    · unfold parserInvariant
      simp only [CLEAR_BUFFER, INC_COUNT, INC_STATE, hs]
      exact ⟨i1, i2, fun h => absurd h (hnos (by omega)),
        fun _ _ => i4 (by omega) (by omega),
        fun h => absurd h (by omega), fun h => absurd h (by omega)⟩
  · -- CP36
    unfold CPfunctions
    apply DEFINE_FUNCTION_ELSE_cases _ _ _ _ _ _ _ hsame (herr _ (by decide))
    · intro _
      unfold parserInvariant ADD_TO_BUFFER
      split_ifs
      · simp only [hs]
        exact ⟨i1, i2, fun h => absurd h (hnos (by omega)),
          fun _ _ => i4 (by omega) (by omega),
          fun h => absurd h (by omega), fun h => absurd h (by omega)⟩
      · exact hsame
    · intro _
      apply CHECK_BUFFER_MIN_MAX_AND_SET_cases _ _ _ _ _ _ _ (by decide) hverr
      intro value _ hmax
      obtain ⟨j1, j2⟩ := i4 (by omega) (by omega)
      unfold parserInvariant
      simp only [INC_STATE, setConfigSettings, hs, List.length_set]
      refine ⟨i1, i2, fun h => absurd h (hnos (by omega)),
        fun _ _ => ⟨j1, fun i hi => ?_⟩, fun _ _ => ?_, fun h => absurd h (by omega)⟩
      · rw [getD_set_diff _ _ _ _ _ (by omega)]
        exact j2 i hi
      · rw [getD_set_same _ _ _ _ (by rw [i1]; exact j1)]
        simp only [MINUTES_IN_DAY]
        omega
  · -- CP37
    unfold CPfunctions
    obtain ⟨j1, j2⟩ := i4 (by omega) (by omega)
    have j3 := i5 (by omega) (by omega)
    apply DEFINE_FUNCTION_ELSE_cases _ _ _ _ _ _ _ hsame (herr _ (by decide))
    · intro hc
      simp only [Bool.and_eq_true, decide_eq_true_eq,
        MAXIMUM_NUMBER_OF_START_STOP_PERIODS] at hc
      have hlt := hc.2
      unfold parserInvariant
      simp only [SET_STATE, INC_INDEX, MAXIMUM_NUMBER_OF_START_STOP_PERIODS]
      have hidx : (v.parserState.index + 1) % 256 = v.parserState.index + 1 := by omega
      rw [hidx]
      refine ⟨i1, i2, fun h => absurd h (hnos (by omega)),
        fun _ _ => ⟨by omega, fun i hi => ?_⟩,
        fun h => absurd h (by omega), fun h => absurd h (by omega)⟩
      rcases Nat.lt_or_ge i v.parserState.index with h | h
      · exact j2 i h
      · have : i = v.parserState.index := by omega
        rw [this]; exact j3
    · intro _
      unfold checkStartStopPeriodsAction
      dsimp only
      split_ifs with hck
      · unfold parserInvariant
        simp only [INC_STATE, setConfigSettings, hs] at hck ⊢
        simp only [MAXIMUM_NUMBER_OF_START_STOP_PERIODS] at j1
        have hidx : (v.parserState.index + 1) % 256 = v.parserState.index + 1 := by omega
        rw [hidx] at hck ⊢
        exact ⟨i1, i2, fun h => absurd h (hnos (by omega)), fun _ _ => ⟨j1, j2⟩,
          fun _ _ => j3, fun _ => ⟨rfl, hck⟩⟩
      · unfold parserInvariant
        simp only [VALUE_ERROR, setConfigSettings]
        exact ⟨i1, i2, fun h => absurd h (by decide), fun h => absurd h (by omega),
          fun h => absurd h (by omega), fun h => absurd h (by omega)⟩
  · -- CP38
    unfold CPfunctions
    apply DEFINE_FUNCTION_STEP_cases _ _ _ _ _ hsame (herr _ (by decide))
    intro _
    unfold parserInvariant
    simp only [SET_STATUS_SUCCESS, hs]
    exact ⟨i1, i2, fun _ => trivial, fun _ _ => i4 (by omega) (by omega),
      fun _ _ => i5 (by omega) (by omega), fun _ => i6 hs⟩

/-- Every call of `ConfigParser_parse` keeps the invariant of the parser. -/
theorem ConfigParser_parse_invariant (atoi : List Nat → Int) (c : Nat) (v : ParserVariables)
    (hI : parserInvariant v) : parserInvariant (ConfigParser_parse atoi c v) := by
  unfold ConfigParser_parse
  by_cases hin : 31 ≤ v.parserState.state ∧ v.parserState.state ≤ 38
  · exact CPfunctions_periods atoi c v _ rfl hin hI
  · obtain ⟨f1, f2, f3, f4, f5⟩ := CPfunctions_frame atoi c v _ rfl (by omega)
    obtain ⟨i1, i2, i3, i4, i5, i6⟩ := hI
    have hnos : ¬ (CPfunctions atoi v.parserState.state c v).parserState.status
        = CP_parserStatus_t.CP_SUCCESS := by
      intro h
      have := i3 (f3 h)
      omega
    have hstate : ¬ (32 ≤ (CPfunctions atoi v.parserState.state c v).parserState.state ∧
        (CPfunctions atoi v.parserState.state c v).parserState.state ≤ 38) := by
      intro h
      omega
    refine ⟨by rw [f1]; exact i1, ?_, fun h => absurd h hnos,
      fun h1 h2 => absurd ⟨h1, h2⟩ hstate, fun h1 h2 => absurd ⟨by omega, h2⟩ hstate,
      fun h => absurd ⟨by omega, by omega⟩ hstate⟩
    omega

/-- The invariant of the parser holds after any sequence of characters. -/
theorem parseCharacters_invariant (atoi : List Nat → Int) (characters : List Nat)
    (v : ParserVariables) (hI : parserInvariant v) :
    parserInvariant (parseCharacters atoi characters v) := by
  unfold parseCharacters
  induction characters generalizing v with
  | nil => exact hI
  | cons c rest ih =>
    rw [List.foldl_cons]
    exact ih _ (ConfigParser_parse_invariant atoi c v hI)

/-- The invariant of the parser holds in the reset state, whatever the settings record
holds. -/
theorem parserInvariant_reset (configSettings : CP_configSettings_t)
    (lowerFrequency higherFrequency : Nat)
    (hlen : configSettings.startStopPeriods.length = MAXIMUM_NUMBER_OF_START_STOP_PERIODS) :
    parserInvariant ⟨clearedParserState, configSettings, lowerFrequency, higherFrequency⟩ := by
  have h1 : clearedParserState.status ≠ CP_parserStatus_t.CP_SUCCESS := by decide
  have h2 : clearedParserState.state = 0 := rfl
  refine ⟨hlen, Or.inl rfl, fun h => absurd h h1, fun h => ?_, fun h => ?_, fun h => ?_⟩
  · rw [h2] at h; omega
  · rw [h2] at h; omega
  · rw [h2] at h; omega

/-- C22: validated periods.  Whenever `ConfigParser_parse` returns CP_SUCCESS for the last
character of a sequence parsed from the reset state (into a settings record with its array
of five periods, whatever `atoi` returns for the buffers), the settings record has
`1 <= activeStartStopPeriods <= 5`, every active period has
`startMinutes < stopMinutes <= 1440`, and consecutive active periods are strictly ordered
and disjoint: each starts after the one before it stops.  The periods have passed
`checkStartStopPeriods`. -/
theorem ConfigParser_parse_validated_periods (atoi : List Nat → Int) (characters : List Nat)
    (configSettings : CP_configSettings_t) (lowerFrequency higherFrequency : Nat)
    (hlen : configSettings.startStopPeriods.length = MAXIMUM_NUMBER_OF_START_STOP_PERIODS)
    (hs : (parseCharacters atoi characters
      ⟨clearedParserState, configSettings, lowerFrequency, higherFrequency⟩).parserState.status
        = CP_parserStatus_t.CP_SUCCESS) :
    1 ≤ (parseCharacters atoi characters ⟨clearedParserState, configSettings, lowerFrequency,
        higherFrequency⟩).configSettings.activeStartStopPeriods ∧
    (parseCharacters atoi characters ⟨clearedParserState, configSettings, lowerFrequency,
        higherFrequency⟩).configSettings.activeStartStopPeriods
      ≤ MAXIMUM_NUMBER_OF_START_STOP_PERIODS ∧
    (∀ i, i < (parseCharacters atoi characters ⟨clearedParserState, configSettings,
        lowerFrequency, higherFrequency⟩).configSettings.activeStartStopPeriods →
      ((parseCharacters atoi characters ⟨clearedParserState, configSettings, lowerFrequency,
          higherFrequency⟩).configSettings.startStopPeriods.getD i ⟨0, 0⟩).startMinutes
        < ((parseCharacters atoi characters ⟨clearedParserState, configSettings,
          lowerFrequency, higherFrequency⟩).configSettings.startStopPeriods.getD i
            ⟨0, 0⟩).stopMinutes ∧
      ((parseCharacters atoi characters ⟨clearedParserState, configSettings, lowerFrequency,
          higherFrequency⟩).configSettings.startStopPeriods.getD i ⟨0, 0⟩).stopMinutes
        ≤ MINUTES_IN_DAY) ∧
    (∀ i, 0 < i → i < (parseCharacters atoi characters ⟨clearedParserState, configSettings,
        lowerFrequency, higherFrequency⟩).configSettings.activeStartStopPeriods →
      ((parseCharacters atoi characters ⟨clearedParserState, configSettings, lowerFrequency,
          higherFrequency⟩).configSettings.startStopPeriods.getD i ⟨0, 0⟩).startMinutes
        > ((parseCharacters atoi characters ⟨clearedParserState, configSettings,
          lowerFrequency, higherFrequency⟩).configSettings.startStopPeriods.getD (i - 1)
            ⟨0, 0⟩).stopMinutes) ∧
    checkStartStopPeriods
      (parseCharacters atoi characters ⟨clearedParserState, configSettings, lowerFrequency,
        higherFrequency⟩).configSettings.startStopPeriods
      (parseCharacters atoi characters ⟨clearedParserState, configSettings, lowerFrequency,
        higherFrequency⟩).configSettings.activeStartStopPeriods = true := by
  obtain ⟨i1, i2, i3, i4, i5, i6⟩ := parseCharacters_invariant atoi characters _
    (parserInvariant_reset configSettings lowerFrequency higherFrequency hlen)
  generalize parseCharacters atoi characters
    ⟨clearedParserState, configSettings, lowerFrequency, higherFrequency⟩ = v at *
  have h38 := i3 hs
  obtain ⟨j1, j2⟩ := i4 (by omega) (by omega)
  have j3 := i5 (by omega) (by omega)
  obtain ⟨j4, j5⟩ := i6 h38
  obtain ⟨k1, k2, _⟩ := checkStartStopPeriods_spec _ _ j5
  simp only [MAXIMUM_NUMBER_OF_START_STOP_PERIODS] at i1 j1 ⊢
  have hget : ∀ i, i < v.configSettings.activeStartStopPeriods →
      ∃ h : i < (v.configSettings.startStopPeriods.take
          v.configSettings.activeStartStopPeriods).length,
        (v.configSettings.startStopPeriods.take v.configSettings.activeStartStopPeriods)[i]
          = v.configSettings.startStopPeriods.getD i ⟨0, 0⟩ := by
    intro i hi
    have hl : i < (v.configSettings.startStopPeriods.take
        v.configSettings.activeStartStopPeriods).length := by
      rw [List.length_take]
      omega
    refine ⟨hl, ?_⟩
    rw [List.getElem_take, List.getD_eq_getElem _ _ (by omega)]
  refine ⟨by omega, by omega, fun i hi => ⟨?_, ?_⟩, fun i h0 hi => ?_, j5⟩
  · obtain ⟨hl, he⟩ := hget i hi
    rw [← he]
    exact k1 _ (List.getElem_mem hl)
  · rcases Nat.lt_or_ge i v.parserState.index with h | h
    · exact j2 i h
    · have : i = v.parserState.index := by omega
      rw [this]; exact j3
  · obtain ⟨hl, he⟩ := hget i hi
    obtain ⟨hl', he'⟩ := hget (i - 1) (by omega)
    rw [← he, ← he']
    exact (List.pairwise_iff_getElem.1 k2) (i - 1) i hl' hl (by omega)

set_option maxRecDepth 100000 in
/-- C22 (witness): the configuration file `configurationFileExample`, parsed from the reset
state into a copy of the default settings, ends with CP_SUCCESS and leaves one active
period, 00:00-01:00. -/
theorem ConfigParser_parse_validated_periods_witness :
    (parseCharacters atoiDigits configurationFileExample startOfParsing).parserState.status
      = CP_parserStatus_t.CP_SUCCESS ∧
    (parseCharacters atoiDigits configurationFileExample
      startOfParsing).configSettings.activeStartStopPeriods = 1 ∧
    (parseCharacters atoiDigits configurationFileExample
      startOfParsing).configSettings.startStopPeriods.getD 0 ⟨0, 0⟩ = ⟨0, 60⟩ ∧
    1 ≤ (parseCharacters atoiDigits configurationFileExample
      startOfParsing).configSettings.activeStartStopPeriods :=
  ⟨by decide, by decide, by decide,
    (ConfigParser_parse_validated_periods atoiDigits configurationFileExample
      defaultConfigSettings 0 0 rfl (by decide)).1⟩

/-! ## Reading the configuration file -/

/-- How the loop over the characters of the file ends: with a status that ends the parsing,
found before `MAX_FILE_READ_CHARACTERS` characters have been passed, or with all
`MAX_FILE_READ_CHARACTERS` characters read and the parser still waiting or parsing. -/
theorem parseConfigurationFileFrom_end (atoi : List Nat → Int) (characters : Nat → Nat)
    (remaining count : Nat) (status : CP_parserStatus_t) (v : ParserVariables)
    (hstart : endsParsing status = false) :
    (endsParsing (parseConfigurationFileFrom atoi characters remaining count status v).2.1
        = true ∧
      (parseConfigurationFileFrom atoi characters remaining count status v).1
        < count + remaining) ∨
    (endsParsing (parseConfigurationFileFrom atoi characters remaining count status v).2.1
        = false ∧
      (parseConfigurationFileFrom atoi characters remaining count status v).1
        = count + remaining) := by
  induction remaining generalizing count status v with
  | zero => exact Or.inr ⟨hstart, rfl⟩
  | succ n ih =>
    unfold parseConfigurationFileFrom
    by_cases c : endsParsing (ConfigParser_parse atoi (characters count) v).parserState.status
        = true
    · rw [if_pos c]
      exact Or.inl ⟨c, by omega⟩
    · rw [if_neg c]
      rcases ih (count + 1) _ (ConfigParser_parse atoi (characters count) v)
        (by simpa using c) with h | h
      · exact Or.inl ⟨h.1, by omega⟩
      · exact Or.inr ⟨h.1, by omega⟩

/-- C23: all-or-nothing configuration.  When `main` reads the configuration file, the
persisted settings record is overwritten only if the loop over the characters ends with
CP_SUCCESS: then it becomes the parsed record with the time zone cleared, and the backup
domain is unchanged.  Otherwise, that is when the loop ends with CP_CHARACTER_ERROR, with
CP_VALUE_ERROR, or with `MAX_FILE_READ_CHARACTERS` characters read and the parser still
waiting or parsing, the persisted record is exactly as it was and `readyToMakeRecordings`
is cleared (nothing else in the backup domain changes). -/
theorem readConfigurationFile_all_or_nothing (atoi : List Nat → Int)
    (characters : Nat → Nat) (statics : ParserVariables)
    (configSettings : CP_configSettings_t) (backup : BackupDomain) :
    ((parseConfigurationFile atoi characters statics).2.1 = CP_parserStatus_t.CP_SUCCESS →
      readConfigurationFile atoi characters statics configSettings backup
        = ({ (parseConfigurationFile atoi characters statics).2.2.configSettings with
              timezoneHours := 0
              timezoneMinutes := 0 },
            backup)) ∧
    ((parseConfigurationFile atoi characters statics).2.1 ≠ CP_parserStatus_t.CP_SUCCESS →
      (readConfigurationFile atoi characters statics configSettings backup).1
        = configSettings ∧
      (readConfigurationFile atoi characters statics configSettings backup).2
        = { backup with readyToMakeRecordings := false }) ∧
    ((parseConfigurationFile atoi characters statics).2.1 = CP_parserStatus_t.CP_SUCCESS ∨
      (parseConfigurationFile atoi characters statics).2.1
        = CP_parserStatus_t.CP_CHARACTER_ERROR ∨
      (parseConfigurationFile atoi characters statics).2.1
        = CP_parserStatus_t.CP_VALUE_ERROR ∨
      ((parseConfigurationFile atoi characters statics).1 = MAX_FILE_READ_CHARACTERS ∧
        ((parseConfigurationFile atoi characters statics).2.1 = CP_parserStatus_t.CP_WAITING ∨
          (parseConfigurationFile atoi characters statics).2.1
            = CP_parserStatus_t.CP_PARSING))) ∧
    ((readConfigurationFile atoi characters statics configSettings backup).1 = configSettings ∨
      (parseConfigurationFile atoi characters statics).2.1 = CP_parserStatus_t.CP_SUCCESS) := by
  have hend := parseConfigurationFileFrom_end atoi characters MAX_FILE_READ_CHARACTERS 0
    CP_parserStatus_t.CP_WAITING { statics with configSettings := defaultConfigSettings } rfl
  refine ⟨fun h => ?_, fun h => ?_, ?_, ?_⟩
  · unfold readConfigurationFile
    rw [if_pos h]
  · unfold readConfigurationFile
    rw [if_neg h]
    exact ⟨rfl, rfl⟩
  · show (parseConfigurationFileFrom _ _ _ _ _ _).2.1 = _ ∨ _
    unfold parseConfigurationFile
    generalize parseConfigurationFileFrom atoi characters MAX_FILE_READ_CHARACTERS 0
      CP_parserStatus_t.CP_WAITING { statics with configSettings := defaultConfigSettings }
      = r at hend ⊢
    rcases hend with ⟨h1, _⟩ | ⟨h1, h2⟩
    · unfold endsParsing at h1
      cases hq : r.2.1 <;> rw [hq] at h1 <;> simp at h1 ⊢
    · unfold endsParsing at h1
      rw [Nat.zero_add] at h2
      cases hq : r.2.1 <;> rw [hq] at h1 <;> simp at h1 ⊢ <;> exact h2
  · by_cases h : (parseConfigurationFile atoi characters statics).2.1
        = CP_parserStatus_t.CP_SUCCESS
    · exact Or.inr h
    · left
      unfold readConfigurationFile
      rw [if_neg h]

set_option maxRecDepth 100000 in
/-- C23 (example): `configurationFileExample` is parsed to CP_SUCCESS after its 165
characters and replaces the persisted record; the file `brokenFileExample` ends with
CP_CHARACTER_ERROR at its second character, the persisted record (here Scenario A) is kept
and `readyToMakeRecordings` is cleared. -/
theorem readConfigurationFile_all_or_nothing_witness :
    (readConfigurationFile atoiDigits (fun count => configurationFileExample.getD count 0)
        startOfParsing scenarioA initialBackupDomain).1
      = { defaultConfigSettings with
          activeStartStopPeriods := 1
          startStopPeriods := [⟨0, 60⟩, ⟨120, 180⟩, ⟨240, 300⟩, ⟨360, 420⟩, ⟨480, 540⟩] } ∧
    (parseConfigurationFile atoiDigits (fun count => brokenFileExample.getD count 0)
        startOfParsing).2.1 = CP_parserStatus_t.CP_CHARACTER_ERROR ∧
    (readConfigurationFile atoiDigits (fun count => brokenFileExample.getD count 0)
        startOfParsing scenarioA initialBackupDomain).1 = scenarioA ∧
    (readConfigurationFile atoiDigits (fun count => brokenFileExample.getD count 0)
        startOfParsing scenarioA initialBackupDomain).2
      = { initialBackupDomain with readyToMakeRecordings := false } :=
  ⟨by decide, by decide,
    ((readConfigurationFile_all_or_nothing atoiDigits
      (fun count => brokenFileExample.getD count 0) startOfParsing scenarioA
      initialBackupDomain).2.1 (by decide)).1,
    ((readConfigurationFile_all_or_nothing atoiDigits
      (fun count => brokenFileExample.getD count 0) startOfParsing scenarioA
      initialBackupDomain).2.1 (by decide)).2⟩

/-! ## The wake cycle: the seconds missed by a late wake-up -/

theorem reduceDurationAndRecord_backup (sram : Nat) (cfg : CP_configSettings_t)
    (bk : BackupDomain) (currentTime : Nat) (supplyAboveThreshold fileSystemEnabled : Bool)
    (dayOfYear guanoDataSize : Nat) (storage : Nat → Bool) (observations : List Observation)
    (state : AM_recordingState_t) (recorded : BackupDomain)
    (h : reduceDurationAndRecord sram cfg bk currentTime supplyAboveThreshold fileSystemEnabled
      dayOfYear guanoDataSize storage observations = Progress.finished (state, recorded)) :
    recorded.durationOfNextRecording = bk.durationOfNextRecording
      - min (currentTime - bk.timeOfNextRecording) bk.durationOfNextRecording ∧
    recorded.timeOfNextRecording = bk.timeOfNextRecording ∧
    recorded.numberOfRecordings = bk.numberOfRecordings := by
  unfold reduceDurationAndRecord at h
  dsimp only at h
  split_ifs at h
  all_goals first
    | (simp only [Progress.finished.injEq, Prod.mk.injEq] at h
       rw [← h.2]
       exact ⟨rfl, rfl, rfl⟩)
    | (split at h
       · exact absurd h (by simp)
       · simp only [Progress.finished.injEq, Prod.mk.injEq] at h
         rw [← h.2]
         exact ⟨rfl, rfl, rfl⟩)

/-- C38: late wake-up keeps the planned end time.  In a wake cycle that finds
`currentTime >= timeOfNextRecording`, the seconds missed are
`min (currentTime - timeOfNextRecording) durationOfNextRecording`, neither subtraction
wraps, and the reduced duration satisfies `currentTime + newDuration =
max currentTime (timeOfNextRecording + oldDuration)`.  The reduced duration is what every
finished cycle leaves in `durationOfNextRecording`; a reduced duration of 0 makes no
recording (the cycle ends with RECORDING_OKAY whatever storage and interrupt side would
do), and a recording that is made is `makeRecording` for the reduced duration, which is
then greater than 0. -/
theorem reduceDurationAndRecord_planned_end (sram : Nat) (cfg : CP_configSettings_t)
    (bk : BackupDomain) (currentTime : Nat) (supplyAboveThreshold fileSystemEnabled : Bool)
    (dayOfYear guanoDataSize : Nat) (storage : Nat → Bool) (observations : List Observation)
    (hready : currentTime ≥ bk.timeOfNextRecording) :
    min (currentTime - bk.timeOfNextRecording) bk.durationOfNextRecording
      ≤ bk.durationOfNextRecording ∧
    (currentTime - bk.timeOfNextRecording) + bk.timeOfNextRecording = currentTime ∧
    currentTime + (bk.durationOfNextRecording
        - min (currentTime - bk.timeOfNextRecording) bk.durationOfNextRecording)
      = max currentTime (bk.timeOfNextRecording + bk.durationOfNextRecording) ∧
    (∀ state recorded,
      reduceDurationAndRecord sram cfg bk currentTime supplyAboveThreshold fileSystemEnabled
        dayOfYear guanoDataSize storage observations = Progress.finished (state, recorded) →
      recorded.durationOfNextRecording = bk.durationOfNextRecording
        - min (currentTime - bk.timeOfNextRecording) bk.durationOfNextRecording ∧
      recorded.timeOfNextRecording = bk.timeOfNextRecording) ∧
    (bk.durationOfNextRecording
        - min (currentTime - bk.timeOfNextRecording) bk.durationOfNextRecording = 0 →
      reduceDurationAndRecord sram cfg bk currentTime supplyAboveThreshold fileSystemEnabled
        dayOfYear guanoDataSize storage observations
        = Progress.finished (AM_recordingState_t.RECORDING_OKAY,
            { bk with durationOfNextRecording := 0 })) ∧
    (0 < bk.durationOfNextRecording
        - min (currentTime - bk.timeOfNextRecording) bk.durationOfNextRecording →
      (cfg.enableLowVoltageCutoff ≠ 0 → supplyAboveThreshold = true) →
      fileSystemEnabled = true →
      reduceDurationAndRecord sram cfg bk currentTime supplyAboveThreshold fileSystemEnabled
        dayOfYear guanoDataSize storage observations
        = match makeRecording sram cfg
            { bk with durationOfNextRecording := (bk.durationOfNextRecording
                - min (currentTime - bk.timeOfNextRecording) bk.durationOfNextRecording) }
            (bk.durationOfNextRecording
              - min (currentTime - bk.timeOfNextRecording) bk.durationOfNextRecording)
            dayOfYear guanoDataSize storage observations with
          | Progress.waiting loop => Progress.waiting loop
          | Progress.finished result =>
            Progress.finished (result.recordingState,
              { bk with
                durationOfNextRecording := (bk.durationOfNextRecording
                  - min (currentTime - bk.timeOfNextRecording) bk.durationOfNextRecording)
                previousDayOfYear := result.previousDayOfYear
                totalFileSizeWritten := result.totalFileSizeWritten })) := by
  refine ⟨Nat.min_le_right _ _, by omega, by omega, ?_, ?_, ?_⟩
  · intro state recorded h
    obtain ⟨h1, h2, _⟩ := reduceDurationAndRecord_backup sram cfg bk currentTime
      supplyAboveThreshold fileSystemEnabled dayOfYear guanoDataSize storage observations _ _ h
    exact ⟨h1, h2⟩
  · intro h0
    unfold reduceDurationAndRecord
    dsimp only
    rw [if_neg (by omega), h0]
  · intro hpos hsupply hfs
    unfold reduceDurationAndRecord
    dsimp only
    rw [if_pos hpos]
    have hok : (if cfg.enableLowVoltageCutoff ≠ 0 then supplyAboveThreshold else true) = true := by
      split_ifs with hc
      · exact hsupply hc
      · rfl
    rw [if_pos hok, if_pos hfs]
    try rfl

/-- C38 (witness): Scenario A with the window 00:00-01:00 of 8 January 2022 scheduled and a
wake-up 100 s late: the duration is reduced from 3600 s to 3500 s, so the recording still
ends at 01:00; with the SD card not available the cycle ends with SDCARD_WRITE_ERROR and
the reduced duration in the backup domain. -/
theorem reduceDurationAndRecord_planned_end_witness :
    1641600100 + (3600 - min (1641600100 - 1641600000) 3600) = 1641600000 + 3600 ∧
    reduceDurationAndRecord exampleSramSizeInBytes scenarioA
        { standardBackupDomain with
          timeOfNextRecording := 1641600000, durationOfNextRecording := 3600 }
        1641600100 true false 7 300 storageAlwaysSucceeds []
      = Progress.finished (AM_recordingState_t.SDCARD_WRITE_ERROR,
          { standardBackupDomain with
            timeOfNextRecording := 1641600000, durationOfNextRecording := 3500 }) ∧
    (1641600100 - 1641600000) + 1641600000 = 1641600100 :=
  ⟨by decide, rfl,
    (reduceDurationAndRecord_planned_end exampleSramSizeInBytes scenarioA
      { standardBackupDomain with
        timeOfNextRecording := 1641600000, durationOfNextRecording := 3600 }
      1641600100 true false 7 300 storageAlwaysSucceeds [] (by decide)).2.1⟩

/-! ## The wake cycle: continuation after a file-size-limited recording -/

/-- What the wake cycles do after a recording that `makeRecording` ended with
FILE_SIZE_LIMITED: the schedule is not recomputed, `timeOfNextRecording` keeps its value and
`durationOfNextRecording` keeps the duration reduced by the seconds missed; at the next
wake cycle, at a time `t` before the planned end `timeOfNextRecording +
durationOfNextRecording`, the seconds from `timeOfNextRecording` to `t` are subtracted from
the reduced duration, so the remaining duration is the time to the planned end less the
seconds by which the first wake cycle was late. -/
theorem makeRecordingIfReady_continuation (sram : Nat) (cfg : CP_configSettings_t)
    (bk : BackupDomain) (currentTime : Nat) (supplyAboveThreshold fileSystemEnabled : Bool)
    (dayOfYear guanoDataSize : Nat) (storage : Nat → Bool) (observations : List Observation)
    (recorded : BackupDomain)
    (hready : currentTime ≥ bk.timeOfNextRecording)
    (h : reduceDurationAndRecord sram cfg bk currentTime supplyAboveThreshold fileSystemEnabled
      dayOfYear guanoDataSize storage observations
        = Progress.finished (AM_recordingState_t.FILE_SIZE_LIMITED, recorded)) :
    makeRecordingIfReady sram cfg bk currentTime supplyAboveThreshold fileSystemEnabled
        dayOfYear guanoDataSize storage observations
      = Progress.finished
          { recorded with numberOfRecordings := u32 (recorded.numberOfRecordings + 1) } ∧
    recorded.timeOfNextRecording = bk.timeOfNextRecording ∧
    recorded.durationOfNextRecording = bk.durationOfNextRecording
      - min (currentTime - bk.timeOfNextRecording) bk.durationOfNextRecording ∧
    ∀ (t : Nat) (supplyAboveThreshold2 fileSystemEnabled2 : Bool) (dayOfYear2 guanoDataSize2 : Nat)
      (storage2 : Nat → Bool) (observations2 : List Observation) (state2 : AM_recordingState_t)
      (recorded2 : BackupDomain),
      currentTime ≤ t → t < bk.timeOfNextRecording + bk.durationOfNextRecording →
      reduceDurationAndRecord sram cfg
          { recorded with numberOfRecordings := u32 (recorded.numberOfRecordings + 1) }
          t supplyAboveThreshold2 fileSystemEnabled2 dayOfYear2 guanoDataSize2 storage2
          observations2 = Progress.finished (state2, recorded2) →
      recorded2.durationOfNextRecording
        = (bk.timeOfNextRecording + bk.durationOfNextRecording - t)
          - (currentTime - bk.timeOfNextRecording) := by
  obtain ⟨h1, h2, _⟩ := reduceDurationAndRecord_backup sram cfg bk currentTime
    supplyAboveThreshold fileSystemEnabled dayOfYear guanoDataSize storage observations _ _ h
  refine ⟨?_, h2, h1, ?_⟩
  · unfold makeRecordingIfReady
    rw [if_pos hready, h]
    rfl
  · intro t sa fs day guano st obs state2 recorded2 ht1 ht2 hsecond
    obtain ⟨k1, _, _⟩ := reduceDurationAndRecord_backup sram cfg _ t sa fs day guano st obs _ _
      hsecond
    rw [k1]
    show recorded.durationOfNextRecording
        - min (t - recorded.timeOfNextRecording) recorded.durationOfNextRecording = _
    rw [h1, h2]
    omega

/-- C39 (failing input): `continuationExample`, with the opportunistic window 00:00:15 to
01:56:45 of 8 January 2022 scheduled (6990 s, planned end 1641607005).  The wake cycle at
00:00:25, 10 s late, reduces the duration to 6980 s; `makeRecording` ends with
FILE_SIZE_LIMITED, and the schedule is not recomputed: `timeOfNextRecording` is still
1641600015 and `durationOfNextRecording` is 6980.  The next wake cycle, at 00:00:30,
computes the remaining duration 6980 - 15 = 6965 s, not 1641607005 - 1641600030 = 6975 s:
the continuation would end 10 s before the planned end. -/
theorem makeRecordingIfReady_continuation_ends_early :
    continuationBackupDomain.timeOfNextRecording = 1641600015 ∧
    continuationBackupDomain.durationOfNextRecording = 6990 ∧
    (∃ recorded,
      reduceDurationAndRecord exampleSramSizeInBytes continuationExample
          continuationBackupDomain 1641600025 true true 7 300 storageAlwaysSucceeds
          (steadyObservations 2)
        = Progress.finished (AM_recordingState_t.FILE_SIZE_LIMITED, recorded)) ∧
    ∃ next remaining,
      makeRecordingIfReady exampleSramSizeInBytes continuationExample
          continuationBackupDomain 1641600025 true true 7 300 storageAlwaysSucceeds
          (steadyObservations 2) = Progress.finished next ∧
      next.timeOfNextRecording = 1641600015 ∧
      next.durationOfNextRecording = 6980 ∧
      reduceDurationAndRecord exampleSramSizeInBytes continuationExample next 1641600030
          true true 7 300 storageAlwaysSucceeds (steadyObservations 2)
        = Progress.finished remaining ∧
      remaining.2.durationOfNextRecording = 6965 ∧
      remaining.2.durationOfNextRecording ≠ 1641600015 + 6990 - 1641600030 :=
  ⟨by decide, by decide, ⟨_, rfl⟩, _, _, rfl, by decide, by decide, rfl, by decide, by decide⟩

/-! ## The configuration parser: the sample rate -/

theorem handleSampleRate_accepts (atoi : List Nat → Int) (buffer : List Nat)
    (h : (atoi buffer % 4294967296).toNat = 8000 ∨ (atoi buffer % 4294967296).toNat = 16000 ∨
      (atoi buffer % 4294967296).toNat = 24000 ∨ (atoi buffer % 4294967296).toNat = 32000 ∨
      (atoi buffer % 4294967296).toNat = 48000 ∨ (atoi buffer % 4294967296).toNat = 96000 ∨
      (atoi buffer % 4294967296).toNat = 192000 ∨ (atoi buffer % 4294967296).toNat = 250000 ∨
      (atoi buffer % 4294967296).toNat = 384000) :
    ∃ sampleRate sampleRateDivider,
      handleSampleRate atoi buffer = some (sampleRate, sampleRateDivider) ∧
      sampleRate = sampleRateDivider * (atoi buffer % 4294967296).toNat ∧
      sampleRate / sampleRateDivider = (atoi buffer % 4294967296).toNat ∧
      1 ≤ sampleRateDivider ∧
      (sampleRateDivider ≥ 8 →
        sampleRate / 2 = sampleRateDivider / 2 * (atoi buffer % 4294967296).toNat ∧
        sampleRate / 2 / (sampleRateDivider / 2) = (atoi buffer % 4294967296).toNat) := by
  unfold handleSampleRate
  dsimp only
  generalize (atoi buffer % 4294967296).toNat = value at h ⊢
  rcases h with h | h | h | h | h | h | h | h | h <;> subst h <;>
    exact ⟨_, _, rfl, by decide, by decide, by decide, by decide⟩

theorem handleSampleRate_rejects (atoi : List Nat → Int) (buffer : List Nat)
    (h : ¬ ((atoi buffer % 4294967296).toNat = 8000 ∨ (atoi buffer % 4294967296).toNat = 16000 ∨
      (atoi buffer % 4294967296).toNat = 24000 ∨ (atoi buffer % 4294967296).toNat = 32000 ∨
      (atoi buffer % 4294967296).toNat = 48000 ∨ (atoi buffer % 4294967296).toNat = 96000 ∨
      (atoi buffer % 4294967296).toNat = 192000 ∨ (atoi buffer % 4294967296).toNat = 250000 ∨
      (atoi buffer % 4294967296).toNat = 384000)) :
    handleSampleRate atoi buffer = none := by
  unfold handleSampleRate
  dsimp only
  generalize (atoi buffer % 4294967296).toNat = value at h ⊢
  rw [if_pos (by omega)]

/-- C33: the effective sample rate equals the requested rate.  With `value` the number
`handleSampleRate` reads from the buffer (`atoi` converted to `uint32_t`):

* for each of the nine values 8000, 16000, 24000, 32000, 48000, 96000, 192000, 250000 and
  384000 `handleSampleRate` succeeds and stores `sampleRate = sampleRateDivider * value`
  exactly, so that in state 42 of the parser the settings record gets
  `sampleRate[INDEX] / sampleRateDivider[INDEX] = value`, the effective sample rate of
  `makeRecording`, and the status is not changed;
* for every other value `handleSampleRate` fails and state 42 ends with CP_VALUE_ERROR,
  the settings record unchanged;
* `handleEnableEnergySaverMode` with the mode enabled succeeds if and only if
  `sampleRateDivider >= 8`; it then halves `sampleRate`, `sampleRateDivider` and
  `clockDivider`, and for rates stored by `handleSampleRate` the quotient
  `sampleRate / sampleRateDivider` is still `value`; with the mode disabled it changes
  nothing. -/
theorem handleSampleRate_requested_rate (atoi : List Nat → Int) (buffer : List Nat) :
    (((atoi buffer % 4294967296).toNat = 8000 ∨ (atoi buffer % 4294967296).toNat = 16000 ∨
      (atoi buffer % 4294967296).toNat = 24000 ∨ (atoi buffer % 4294967296).toNat = 32000 ∨
      (atoi buffer % 4294967296).toNat = 48000 ∨ (atoi buffer % 4294967296).toNat = 96000 ∨
      (atoi buffer % 4294967296).toNat = 192000 ∨ (atoi buffer % 4294967296).toNat = 250000 ∨
      (atoi buffer % 4294967296).toNat = 384000) →
      (∃ sampleRate sampleRateDivider,
        handleSampleRate atoi buffer = some (sampleRate, sampleRateDivider) ∧
        sampleRate = sampleRateDivider * (atoi buffer % 4294967296).toNat ∧
        sampleRate / sampleRateDivider = (atoi buffer % 4294967296).toNat ∧
        (∀ clockDivider, sampleRateDivider ≥ 8 →
          handleEnableEnergySaverMode 1 sampleRate sampleRateDivider clockDivider
            = some (sampleRate / 2, sampleRateDivider / 2, clockDivider / 2) ∧
          sampleRate / 2 = sampleRateDivider / 2 * (atoi buffer % 4294967296).toNat ∧
          sampleRate / 2 / (sampleRateDivider / 2) = (atoi buffer % 4294967296).toNat)) ∧
      ∀ (c : Nat) (v : ParserVariables) (index : AM_configurationIndex_t),
        v.parserState.buffer = buffer → v.parserState.index = index.toNat →
        v.configSettings.sampleRate.length = 2 →
        v.configSettings.sampleRateDivider.length = 2 →
        (handleSampleRateAction atoi c v).parserState.status = v.parserState.status ∧
        (handleSampleRateAction atoi c v).configSettings.sampleRate.getD index.toNat 0
          = (handleSampleRateAction atoi c v).configSettings.sampleRateDivider.getD
              index.toNat 0 * (atoi buffer % 4294967296).toNat ∧
        effectiveSampleRate (handleSampleRateAction atoi c v).configSettings index
          = (atoi buffer % 4294967296).toNat) ∧
    (¬ ((atoi buffer % 4294967296).toNat = 8000 ∨ (atoi buffer % 4294967296).toNat = 16000 ∨
      (atoi buffer % 4294967296).toNat = 24000 ∨ (atoi buffer % 4294967296).toNat = 32000 ∨
      (atoi buffer % 4294967296).toNat = 48000 ∨ (atoi buffer % 4294967296).toNat = 96000 ∨
      (atoi buffer % 4294967296).toNat = 192000 ∨ (atoi buffer % 4294967296).toNat = 250000 ∨
      (atoi buffer % 4294967296).toNat = 384000) →
      handleSampleRate atoi buffer = none ∧
      ∀ (c : Nat) (v : ParserVariables), v.parserState.buffer = buffer →
        (handleSampleRateAction atoi c v).parserState.status
          = CP_parserStatus_t.CP_VALUE_ERROR ∧
        (handleSampleRateAction atoi c v).configSettings = v.configSettings) ∧
    (∀ energySaverMode sampleRate sampleRateDivider clockDivider, energySaverMode ≠ 0 →
      ((handleEnableEnergySaverMode energySaverMode sampleRate sampleRateDivider
          clockDivider).isSome = true ↔ sampleRateDivider ≥ 8) ∧
      (sampleRateDivider ≥ 8 →
        handleEnableEnergySaverMode energySaverMode sampleRate sampleRateDivider clockDivider
          = some (sampleRate / 2, sampleRateDivider / 2, clockDivider / 2))) ∧
    (∀ sampleRate sampleRateDivider clockDivider,
      handleEnableEnergySaverMode 0 sampleRate sampleRateDivider clockDivider
        = some (sampleRate, sampleRateDivider, clockDivider)) := by
  refine ⟨fun h => ?_, fun h => ?_, ?_, ?_⟩
  · obtain ⟨sr, d, h1, h2, h3, h4, h5⟩ := handleSampleRate_accepts atoi buffer h
    refine ⟨⟨sr, d, h1, h2, h3, fun clk hd => ⟨?_, (h5 hd).1, (h5 hd).2⟩⟩, ?_⟩
    · unfold handleEnableEnergySaverMode
      rw [if_neg (by decide), if_pos hd]
    · intro c v index hb hi hl1 hl2
      have hlt : index.toNat < 2 := by cases index <;> decide
      unfold handleSampleRateAction
      rw [hb, h1]
      dsimp only
      unfold effectiveSampleRate
      split_ifs
      · simp only [INC_STATE, setConfigSettings, hi]
        rw [getD_set_same _ _ _ _ (by omega), getD_set_same _ _ _ _ (by omega)]
        exact ⟨trivial, h2, h3⟩
      · simp only [SET_STATE, setConfigSettings, hi]
        rw [getD_set_same _ _ _ _ (by omega), getD_set_same _ _ _ _ (by omega)]
        exact ⟨trivial, h2, h3⟩
  · have h1 := handleSampleRate_rejects atoi buffer h
    refine ⟨h1, fun c v hb => ?_⟩
    unfold handleSampleRateAction
    rw [hb, h1]
    exact ⟨rfl, rfl⟩
  · intro m sr d clk hm
    unfold handleEnableEnergySaverMode
    rw [if_neg hm]
    by_cases hd : d ≥ 8
    · rw [if_pos hd]
      exact ⟨⟨fun _ => hd, fun _ => rfl⟩, fun _ => rfl⟩
    · rw [if_neg hd]
      exact ⟨⟨fun h => absurd h (by simp), fun h => absurd h hd⟩, fun h => absurd h hd⟩
  · intro sr d clk
    rfl

/-- C33 (example): `sampleRate:8000` is stored as 384000 with divider 48; with energy-saver
mode enabled this becomes 192000 with divider 24, still 8000 Hz.  `sampleRate:250000` is
stored with divider 1, for which energy-saver mode is refused; `sampleRate:44100` is
rejected. -/
theorem handleSampleRate_requested_rate_witness :
    handleSampleRate atoiDigits [56, 48, 48, 48] = some (384000, 48) ∧
    handleEnableEnergySaverMode 1 384000 48 4 = some (192000, 24, 2) ∧
    handleSampleRate atoiDigits [50, 53, 48, 48, 48, 48] = some (250000, 1) ∧
    handleEnableEnergySaverMode 1 250000 1 4 = none ∧
    handleSampleRate atoiDigits [52, 52, 49, 48, 48] = none ∧
    handleSampleRate atoiDigits [52, 52, 49, 48, 48] = none :=
  ⟨by decide, by decide, by decide, by decide, by decide,
    ((handleSampleRate_requested_rate atoiDigits [52, 52, 49, 48, 48]).2.1 (by decide)).1⟩

/-! ## The daily cap in 512-byte units -/

/-- The daily cap as `makeRecording` computes it: the 32-bit product keeps the cap in
megabytes modulo 4096. -/
theorem maximumFileSizeWritten_eq (cfg : CP_configSettings_t) :
    maximumFileSizeWritten cfg = cfg.maximumTotalOpportunisticFileSize % 4096 * 2048 := by
  unfold maximumFileSizeWritten u32 NUMBER_OF_BYTES_IN_ONE_MB TOTAL_FILE_SIZE_UNITS_IN_BYTES
  omega

set_option maxRecDepth 100000 in
/-- C31 (failing input): the configuration file `capFileExample`, with
`maximumTotalFileSize:4096`, is parsed to CP_SUCCESS and stores the cap 4096; for the
parsed settings `makeRecording` computes `maximumFileSizeWritten = 0`, not
4096 x 2048 = 8388608: the 32-bit product 4096 x 1048576 wraps around to 0. -/
theorem maximumFileSizeWritten_wraps :
    (parseConfigurationFile atoiDigits (fun count => capFileExample.getD count 0)
      startOfParsing).2.1 = CP_parserStatus_t.CP_SUCCESS ∧
    (parseConfigurationFile atoiDigits (fun count => capFileExample.getD count 0)
      startOfParsing).2.2.configSettings.maximumTotalOpportunisticFileSize = 4096 ∧
    maximumFileSizeWritten (parseConfigurationFile atoiDigits
      (fun count => capFileExample.getD count 0) startOfParsing).2.2.configSettings = 0 ∧
    maximumFileSizeWritten (parseConfigurationFile atoiDigits
        (fun count => capFileExample.getD count 0) startOfParsing).2.2.configSettings
      ≠ (parseConfigurationFile atoiDigits (fun count => capFileExample.getD count 0)
        startOfParsing).2.2.configSettings.maximumTotalOpportunisticFileSize * 2048 := by
  decide

/-! ## The filter request from the parser to `makeRecording` -/

/-- The filter type `makeRecording` selects, from the stored cut-offs of the configuration
in use. -/
theorem setUpDigitalFilter_type (cfg : CP_configSettings_t) (index : AM_configurationIndex_t) :
    (setUpDigitalFilter cfg index).1 =
      if cfg.lowerFilterFreq.getD index.toNat 0 = 0 ∧ cfg.higherFilterFreq.getD index.toNat 0 = 0
        then AM_filterType_t.NO_FILTER
      else if cfg.lowerFilterFreq.getD index.toNat 0 = UINT16_MAX then
        AM_filterType_t.LOW_PASS_FILTER
      else if cfg.higherFilterFreq.getD index.toNat 0 = UINT16_MAX then
        AM_filterType_t.HIGH_PASS_FILTER
      else AM_filterType_t.BAND_PASS_FILTER := by
  unfold setUpDigitalFilter
  dsimp only
  split_ifs <;> rfl

/-- What `handleFilter` stores for an accepted filter and which type `makeRecording` selects
from it.  For a filter with `L <= R / 2`, `H <= R / 2` and `L < H`, accepted for the setting
`index` of a record whose stored cut-offs are the default 0 and 0: the type is NO_FILTER if
`L = 0` and `H = R / 2`, LOW_PASS_FILTER if `L = 0` and `H < R / 2`, HIGH_PASS_FILTER if
`L > 0` and `H = R / 2`, and, when `H >= 100`, BAND_PASS_FILTER if `L > 0` and `H < R / 2`.
(`R / 2` is below 6553500, as for every rate the parser stores.) -/
theorem handleFilter_selected_type (cfg : CP_configSettings_t) (index : AM_configurationIndex_t)
    (L H R lower higher : Nat)
    (hstored : handleFilter L H R 0 0 = some (lower, higher)) (hR : R / 2 < 6553500)
    (hl1 : cfg.lowerFilterFreq.length = 2) (hl2 : cfg.higherFilterFreq.length = 2) :
    L ≤ R / 2 ∧ H ≤ R / 2 ∧ L < H ∧
    (L = 0 → H = R / 2 →
      (setUpDigitalFilter
        { cfg with
          lowerFilterFreq := cfg.lowerFilterFreq.set index.toNat lower
          higherFilterFreq := cfg.higherFilterFreq.set index.toNat higher } index).1
        = AM_filterType_t.NO_FILTER) ∧
    (L = 0 → H < R / 2 →
      (setUpDigitalFilter
        { cfg with
          lowerFilterFreq := cfg.lowerFilterFreq.set index.toNat lower
          higherFilterFreq := cfg.higherFilterFreq.set index.toNat higher } index).1
        = AM_filterType_t.LOW_PASS_FILTER) ∧
    (L > 0 → H = R / 2 →
      (setUpDigitalFilter
        { cfg with
          lowerFilterFreq := cfg.lowerFilterFreq.set index.toNat lower
          higherFilterFreq := cfg.higherFilterFreq.set index.toNat higher } index).1
        = AM_filterType_t.HIGH_PASS_FILTER) ∧
    (L > 0 → H < R / 2 → H ≥ 100 →
      (setUpDigitalFilter
        { cfg with
          lowerFilterFreq := cfg.lowerFilterFreq.set index.toNat lower
          higherFilterFreq := cfg.higherFilterFreq.set index.toNat higher } index).1
        = AM_filterType_t.BAND_PASS_FILTER) ∧
    (L > 0 → H < 100 → H < R / 2 →
      (setUpDigitalFilter
        { cfg with
          lowerFilterFreq := cfg.lowerFilterFreq.set index.toNat lower
          higherFilterFreq := cfg.higherFilterFreq.set index.toNat higher } index).1
        = AM_filterType_t.NO_FILTER) := by
  have hlt : index.toNat < 2 := by cases index <;> decide
  have hc : L ≤ R / 2 ∧ H ≤ R / 2 ∧ L < H := by
    unfold handleFilter at hstored
    split_ifs at hstored
    all_goals omega
  obtain ⟨c1, c2, c3⟩ := hc
  rw [setUpDigitalFilter_type]
  dsimp only
  rw [getD_set_same _ _ _ _ (by omega), getD_set_same _ _ _ _ (by omega)]
  unfold handleFilter at hstored
  rw [if_neg (by omega), if_neg (by omega), if_neg (by omega)] at hstored
  simp only [UINT16_MAX] at hstored ⊢
  refine ⟨c1, c2, c3, fun a b => ?_, fun a b => ?_, fun a b => ?_, fun a b d => ?_,
    fun a b d => ?_⟩
  · rw [if_pos ⟨a, b⟩] at hstored
    simp only [Option.some.injEq, Prod.mk.injEq] at hstored
    rw [← hstored.1, ← hstored.2]
    rfl
  · rw [if_neg (by omega), if_pos a, if_neg (by omega)] at hstored
    simp only [Option.some.injEq, Prod.mk.injEq] at hstored
    rw [← hstored.1, ← hstored.2]
    rfl
  · rw [if_neg (by omega), if_neg (by omega), if_pos b] at hstored
    simp only [Option.some.injEq, Prod.mk.injEq] at hstored
    rw [← hstored.1, ← hstored.2]
    have h1 : L / 100 % 65536 ≠ 65535 := by omega
    rw [if_neg (by simp), if_neg h1, if_pos (by rfl)]
  · rw [if_neg (by omega), if_neg (by omega), if_neg (by omega)] at hstored
    simp only [Option.some.injEq, Prod.mk.injEq] at hstored
    rw [← hstored.1, ← hstored.2]
    have h1 : L / 100 % 65536 ≠ 65535 := by omega
    have h2 : H / 100 % 65536 ≠ 65535 := by omega
    have h3 : H / 100 % 65536 ≠ 0 := by omega
    rw [if_neg (fun h => h3 h.2), if_neg h1, if_neg h2]
  · rw [if_neg (by omega), if_neg (by omega), if_neg (by omega)] at hstored
    simp only [Option.some.injEq, Prod.mk.injEq] at hstored
    rw [← hstored.1, ← hstored.2]
    have h1 : L / 100 % 65536 = 0 := by omega
    have h2 : H / 100 % 65536 = 0 := by omega
    rw [if_pos ⟨h1, h2⟩]

set_option maxRecDepth 100000 in
/-- C32 (failing input): the configuration file `filterFileExample` requests 8 kHz and the
filter `lowerFrequency:10, higherFrequency:50` for the STANDARD settings.  The parser
accepts it (CP_SUCCESS; 10 <= 4000, 50 <= 4000, 10 < 50) and `handleFilter` stores both
cut-offs, in units of 100 Hz, as 0; from these `makeRecording` selects NO_FILTER, although
the lower frequency is above 0 and the higher frequency below 8000 / 2. -/
theorem setUpDigitalFilter_band_below_100 :
    (parseConfigurationFile atoiDigits (fun count => filterFileExample.getD count 0)
      startOfParsing).2.1 = CP_parserStatus_t.CP_SUCCESS ∧
    effectiveSampleRate (parseConfigurationFile atoiDigits
      (fun count => filterFileExample.getD count 0) startOfParsing).2.2.configSettings
        AM_configurationIndex_t.STANDARD_RECORDING = 8000 ∧
    handleFilter 10 50 8000 0 0 = some (0, 0) ∧
    (parseConfigurationFile atoiDigits (fun count => filterFileExample.getD count 0)
      startOfParsing).2.2.configSettings.lowerFilterFreq = [0, 0] ∧
    (parseConfigurationFile atoiDigits (fun count => filterFileExample.getD count 0)
      startOfParsing).2.2.configSettings.higherFilterFreq = [0, 0] ∧
    (setUpDigitalFilter (parseConfigurationFile atoiDigits
      (fun count => filterFileExample.getD count 0) startOfParsing).2.2.configSettings
        AM_configurationIndex_t.STANDARD_RECORDING).1 = AM_filterType_t.NO_FILTER := by
  decide


/-! ## The scheduler: a window is never empty -/

/-- C37 (amended): a scheduled window is never empty.  For every valid configuration, every
state of the backup domain and every time `t` whose clamped value is at least two days
before the end of the 32-bit clock, `scheduleRecording` returns
`durationOfNextRecording == 0` if and only if it returns the "never" sentinel
`timeOfNextRecording == UINT32_MAX`; every other result has a duration of at least 1,
opportunistic and latest-truncated results included. -/
theorem scheduleRecording_never_empty (cfg : CP_configSettings_t) (bk : BackupDomain)
    (t : Nat) (hv : validScheduleSettings cfg)
    (hct : clampToEarliest cfg t + 2 * SECONDS_IN_DAY ≤ UINT32_MAX) :
    ((scheduleRecording cfg bk t).durationOfNextRecording = 0 ↔
      (scheduleRecording cfg bk t).timeOfNextRecording = UINT32_MAX) ∧
    ((scheduleRecording cfg bk t).timeOfNextRecording ≠ UINT32_MAX →
      1 ≤ (scheduleRecording cfg bk t).durationOfNextRecording) := by
  have hct2 : clampToEarliest cfg t + 172800 < 4294967296 := by
    simp only [SECONDS_IN_DAY, SECONDS_IN_HOUR, SECONDS_IN_MINUTE, UINT32_MAX] at hct
    omega
  have hpos : (scheduleWindow cfg bk t).timeOfNextRecording ≠ UINT32_MAX →
      1 ≤ (scheduleWindow cfg bk t).durationOfNextRecording := by
    intro hne
    obtain ⟨p, _, base, s, _, _, _, _, _, _, _, _, h, _⟩ :=
      scheduleWindow_window cfg bk t hv hct2 hne
    exact h
  have hnever : (scheduleWindow cfg bk t).timeOfNextRecording = UINT32_MAX →
      (scheduleWindow cfg bk t).durationOfNextRecording = 0 := by
    obtain ⟨p, _, base, s, _, h2, h3, _⟩ := scheduleBeforeLatest_window cfg bk t hv hct2
    have hb : (scheduleBeforeLatest cfg bk t).timeOfNextRecording < 4294967295 := by
      rw [h2]; exact h3
    intro h
    unfold scheduleWindow at h ⊢
    generalize scheduleBeforeLatest cfg bk t = w at hb h ⊢
    by_cases h0 : cfg.latestRecordingTime > 0
    · by_cases h1 : w.timeOfNextRecording ≥ cfg.latestRecordingTime
      · unfold applyLatestRecordingTime
        rw [if_pos h0, if_pos h1]
      · have hkeep : (applyLatestRecordingTime cfg w).timeOfNextRecording
            = w.timeOfNextRecording := by
          unfold applyLatestRecordingTime
          rw [if_pos h0, if_neg h1]
          dsimp only
          split_ifs <;> rfl
        rw [hkeep] at h
        simp only [UINT32_MAX] at h
        omega
    · have hkeep : applyLatestRecordingTime cfg w = w := by
        unfold applyLatestRecordingTime
        rw [if_neg h0]
      rw [hkeep] at h
      simp only [UINT32_MAX] at h
      omega
  show ((scheduleWindow cfg bk t).durationOfNextRecording = 0 ↔
      (scheduleWindow cfg bk t).timeOfNextRecording = UINT32_MAX) ∧
    ((scheduleWindow cfg bk t).timeOfNextRecording ≠ UINT32_MAX →
      1 ≤ (scheduleWindow cfg bk t).durationOfNextRecording)
  refine ⟨⟨fun h0 => ?_, hnever⟩, hpos⟩
  by_contra hne
  have := hpos hne
  omega

/-- C37 (witness): Scenario A scheduled a minute before the period of 8 January 2022: the
window is not "never" and lasts 3600 s. -/
theorem scheduleRecording_never_empty_witness :
    (scheduleRecording scenarioA initialBackupDomain 1641599940).timeOfNextRecording
      = 1641600000 ∧
    ((scheduleRecording scenarioA initialBackupDomain 1641599940).timeOfNextRecording
        ≠ UINT32_MAX →
      1 ≤ (scheduleRecording scenarioA initialBackupDomain 1641599940).durationOfNextRecording) :=
  ⟨by decide,
    (scheduleRecording_never_empty scenarioA initialBackupDomain 1641599940 (by decide)
      (by decide)).2⟩

/-- C37 (counterexample): for the valid configuration `lastSecondExample` and the time
4294967292, in the sleep phase of the first cycle of the period, the next cycle starts at
4294967295: `scheduleRecording` returns `timeOfNextRecording == UINT32_MAX` with a
duration of 10 s, not 0. -/
theorem scheduleRecording_never_empty_counterexample :
    validScheduleSettings lastSecondExample ∧
    (scheduleRecording lastSecondExample initialBackupDomain 4294967292).timeOfNextRecording
      = UINT32_MAX ∧
    (scheduleRecording lastSecondExample initialBackupDomain 4294967292).durationOfNextRecording
      = 10 ∧
    ¬ ((scheduleRecording lastSecondExample initialBackupDomain
          4294967292).durationOfNextRecording = 0 ↔
      (scheduleRecording lastSecondExample initialBackupDomain 4294967292).timeOfNextRecording
        = UINT32_MAX) := by
  decide

/-! ## Copying to the backup domain -/

theorem copyWords_length (dst src : List Nat) (count : Nat) :
    (copyWords dst src count).length = dst.length := by
  induction count with
  | zero => rfl
  | succ n ih =>
    unfold copyWords
    rw [List.length_set, ih]

theorem copyWords_getD (dst src : List Nat) (count i : Nat) :
    (copyWords dst src count).getD i 0 =
      if i < count ∧ i < dst.length then sourceWord src i else dst.getD i 0 := by
  induction count with
  | zero =>
    unfold copyWords
    rw [if_neg (by omega)]
  | succ n ih =>
    unfold copyWords
    by_cases h : i = n
    · subst h
      by_cases hl : i < dst.length
      · rw [getD_set_same _ _ _ _ (by rw [copyWords_length]; exact hl), if_pos ⟨by omega, hl⟩]
      · have h1 : ((copyWords dst src i).set i (sourceWord src i)).length ≤ i := by
          rw [List.length_set, copyWords_length]
          omega
        rw [if_neg (by omega), List.getD_eq_default _ _ h1, List.getD_eq_default _ _ (by omega)]
    · rw [getD_set_diff _ _ _ _ _ (Ne.symm h), ih]
      by_cases hc : i < n ∧ i < dst.length
      · rw [if_pos hc, if_pos ⟨by omega, hc.2⟩]
      · rw [if_neg hc, if_neg (by omega)]

/-- What `copyToBackupDomain` does to the destination, for source bytes below 256: the
first `length / 4` words become the source words; the word at `length / 4` becomes the
remaining `length % 4` source bytes in little-endian order, which is 0 when `length` is a
multiple of 4; the words after it are unchanged. -/
theorem copyToBackupDomain_effect (dst src : List Nat) (length : Nat)
    (hbytes : ∀ i, src.getD i 0 < 256) (hdst : length / 4 < dst.length) :
    (copyToBackupDomain dst src length).length = dst.length ∧
    (∀ i, i < length / 4 → (copyToBackupDomain dst src length).getD i 0 = sourceWord src i) ∧
    (copyToBackupDomain dst src length).getD (length / 4) 0
      = (if 1 ≤ length % 4 then src.getD (4 * (length / 4)) 0 else 0)
        + 256 * (if 2 ≤ length % 4 then src.getD (4 * (length / 4) + 1) 0 else 0)
        + 65536 * (if 3 ≤ length % 4 then src.getD (4 * (length / 4) + 2) 0 else 0) ∧
    (∀ i, length / 4 < i →
      (copyToBackupDomain dst src length).getD i 0 = dst.getD i 0) := by
  unfold copyToBackupDomain
  simp only [UINT32_SIZE_IN_BYTES]
  refine ⟨by rw [List.length_set, copyWords_length], fun i hi => ?_, ?_, fun i hi => ?_⟩
  · rw [getD_set_diff _ _ _ _ _ (by omega), copyWords_getD, if_pos ⟨hi, by omega⟩]
  · rw [getD_set_same _ _ _ _ (by rw [copyWords_length]; exact hdst)]
    have hq : length = 4 * (length / 4) + length % 4 := (Nat.div_add_mod length 4).symm
    have hr : length % 4 < 4 := Nat.mod_lt _ (by decide)
    generalize length / 4 = q at hq
    generalize length % 4 = r at hq hr
    have b0 := hbytes (4 * q)
    have b1 := hbytes (4 * q + 1)
    have b2 := hbytes (4 * q + 2)
    interval_cases r
    · rfl
    · simp only [tailValue, u32, BITS_PER_BYTE]
      have e : length - 1 - 0 = 4 * q := by omega
      rw [e]
      generalize src.getD (4 * q) 0 = x0 at b0 ⊢
      norm_num
      omega
    · simp only [tailValue, u32, BITS_PER_BYTE]
      have e : length - 1 - 0 = 4 * q + 1 := by omega
      have e1 : length - 1 - 1 = 4 * q := by omega
      rw [e, e1]
      generalize src.getD (4 * q) 0 = x0 at b0 ⊢
      generalize src.getD (4 * q + 1) 0 = x1 at b1 ⊢
      norm_num
      omega
    · simp only [tailValue, u32, BITS_PER_BYTE]
      have e : length - 1 - 0 = 4 * q + 2 := by omega
      have e1 : length - 1 - 1 = 4 * q + 1 := by omega
      have e2 : length - 1 - 2 = 4 * q := by omega
      rw [e, e1, e2]
      generalize src.getD (4 * q) 0 = x0 at b0 ⊢
      generalize src.getD (4 * q + 1) 0 = x1 at b1 ⊢
      generalize src.getD (4 * q + 2) 0 = x2 at b2 ⊢
      norm_num
      omega
  · rw [getD_set_diff _ _ _ _ _ (by omega), copyWords_getD, if_neg (by omega)]

/-- C40 (failing input): for a length of 4 and the source bytes 1, 2, 3, 4,
`copyToBackupDomain` stores the source word 0x04030201 in the first destination word and
then 0 in the second one, which held 7: a destination word beyond the first
`ceil (4 / 4) = 1` words is modified.  The same happens for a length of 88 bytes, 22 words:
the word at index 22 is set to 0.  (For a length of 6 the second word holds the two
remaining bytes, in little-endian order, and the third is unchanged.) -/
theorem copyToBackupDomain_writes_one_word_more :
    copyToBackupDomain [7, 7, 7] [1, 2, 3, 4] 4 = [67305985, 0, 7] ∧
    (copyToBackupDomain [7, 7, 7] [1, 2, 3, 4] 4).getD 1 0 ≠ ([7, 7, 7] : List Nat).getD 1 0 ∧
    (copyToBackupDomain (List.replicate 24 7) (List.replicate 88 1) 88).getD 22 0 = 0 ∧
    (copyToBackupDomain (List.replicate 24 7) (List.replicate 88 1) 88).getD 23 0 = 7 ∧
    copyToBackupDomain [7, 7, 7] [1, 2, 3, 4, 5, 6] 6 = [67305985, 1541, 7] := by
  decide

/-! ## The size of a DMA transfer -/

set_option maxRecDepth 1000000 in
/-- The loop that clears the lowest set bits ends, within the 32 iterations allowed, at the
largest power of two that does not exceed its start value. -/
theorem clearLowestSetBits_power_of_two :
    ∀ m, m < 1025 → 1 ≤ m →
      clearLowestSetBits 32 m &&& (clearLowestSetBits 32 m - 1) = 0 ∧
      ∃ k, k < 11 ∧ clearLowestSetBits 32 m = 2 ^ k ∧ 2 ^ k ≤ m ∧ m < 2 ^ (k + 1) := by
  decide

/-- The size of a DMA transfer for a divider from 1 to 1024: a power of two, at most
`1024 / divider` and more than half of it, times the divider. -/
theorem numberOfSamplesInDMATransfer_eq (cfg : CP_configSettings_t)
    (index : AM_configurationIndex_t)
    (h1 : 1 ≤ cfg.sampleRateDivider.getD index.toNat 0)
    (h2 : cfg.sampleRateDivider.getD index.toNat 0 ≤ 1024) :
    ∃ k, k < 11 ∧
      clearLowestSetBits 32 (MAXIMUM_SAMPLES_IN_DMA_TRANSFER
        / cfg.sampleRateDivider.getD index.toNat 0) = 2 ^ k ∧
      numberOfSamplesInDMATransfer cfg index
        = 2 ^ k * cfg.sampleRateDivider.getD index.toNat 0 ∧
      numberOfSamplesInDMATransfer cfg index / cfg.sampleRateDivider.getD index.toNat 0
        = 2 ^ k ∧
      2 ^ k ≤ 1024 / cfg.sampleRateDivider.getD index.toNat 0 ∧
      1024 / cfg.sampleRateDivider.getD index.toNat 0 < 2 ^ (k + 1) ∧
      numberOfSamplesInDMATransfer cfg index ≤ 1024 := by
  unfold numberOfSamplesInDMATransfer MAXIMUM_SAMPLES_IN_DMA_TRANSFER
  generalize cfg.sampleRateDivider.getD index.toNat 0 = D at h1 h2 ⊢
  have hm1 : 1 ≤ 1024 / D := (Nat.le_div_iff_mul_le (by omega)).2 (by omega)
  have hm2 : 1024 / D < 1025 := Nat.lt_succ_of_le (Nat.div_le_self _ _)
  obtain ⟨_, k, hk, e, hle, hlt⟩ := clearLowestSetBits_power_of_two (1024 / D) hm2 hm1
  have hmul : 1024 / D * D ≤ 1024 := Nat.div_mul_le_self 1024 D
  have hprod : 2 ^ k * D ≤ 1024 / D * D := Nat.mul_le_mul_right D hle
  refine ⟨k, hk, e, ?_, ?_, hle, hlt, ?_⟩
  · rw [e]
    exact u32_eq (by omega)
  · rw [e, u32_eq (by omega)]
    exact Nat.mul_div_cancel _ (by omega)
  · rw [e, u32_eq (by omega)]
    omega

theorem pow_two_step (k j index : Nat) (hkj : k ≤ j) (hmod : index % 2 ^ k = 0)
    (hlt : index < 2 ^ j) : index + 2 ^ k ≤ 2 ^ j ∧ (index + 2 ^ k) % 2 ^ k = 0 := by
  have hsplit : 2 ^ j = 2 ^ k * 2 ^ (j - k) := by
    rw [← Nat.pow_add]
    congr 1
    omega
  have hpos : 0 < 2 ^ k := Nat.two_pow_pos _
  obtain ⟨q, hq⟩ := Nat.dvd_of_mod_eq_zero hmod
  refine ⟨?_, by rw [Nat.add_mod_right]; exact hmod⟩
  have hlt2 : 2 ^ k * q < 2 ^ k * 2 ^ (j - k) := by
    rw [← hq, ← hsplit]
    exact hlt
  have hql : q < 2 ^ (j - k) := Nat.lt_of_mul_lt_mul_left hlt2
  rw [hsplit, hq]
  calc 2 ^ k * q + 2 ^ k = 2 ^ k * (q + 1) := by rw [Nat.mul_add, Nat.mul_one]
    _ ≤ 2 ^ k * 2 ^ (j - k) := Nat.mul_le_mul_left _ hql

/-- One DMA interrupt on a write offset that is a multiple of the decimated transfer length
and below the buffer length, both powers of two: the offset stays so, and after the warm-up
it either advances by the decimated length and stays below the buffer length, or reaches
the buffer length exactly and becomes 0 with `writeBuffer` advanced. -/
theorem handleDirectMemoryAccessInterrupt_offset (sram n divider skip : Nat) (thr : Bool)
    (s : InterruptState) (k j : Nat) (hn : n / divider = 2 ^ k)
    (hbuffer : NUMBER_OF_SAMPLES_IN_BUFFER sram = 2 ^ j) (hkj : k ≤ j) (hj : j ≤ 31)
    (hmod : s.writeBufferIndex % 2 ^ k = 0) (hlt : s.writeBufferIndex < 2 ^ j) :
    (AudioMoth_handleDirectMemoryAccessInterrupt sram n divider skip thr s).writeBufferIndex
        % 2 ^ k = 0 ∧
    (AudioMoth_handleDirectMemoryAccessInterrupt sram n divider skip thr s).writeBufferIndex
        < 2 ^ j ∧
    s.writeBufferIndex + 2 ^ k ≤ 2 ^ j ∧
    (s.dmaTransfersProcessed > skip →
      ((AudioMoth_handleDirectMemoryAccessInterrupt sram n divider skip thr s).writeBufferIndex
          = s.writeBufferIndex + 2 ^ k ∧
        s.writeBufferIndex + 2 ^ k < 2 ^ j ∧
        (AudioMoth_handleDirectMemoryAccessInterrupt sram n divider skip thr s).writeBuffer
          = s.writeBuffer) ∨
      (s.writeBufferIndex + 2 ^ k = 2 ^ j ∧
        (AudioMoth_handleDirectMemoryAccessInterrupt sram n divider skip thr s).writeBufferIndex
          = 0 ∧
        (AudioMoth_handleDirectMemoryAccessInterrupt sram n divider skip thr s).writeBuffer
          = (s.writeBuffer + 1) % NUMBER_OF_BUFFERS)) := by
  obtain ⟨p1, p2⟩ := pow_two_step k j s.writeBufferIndex hkj hmod hlt
  have hj32 : 2 ^ j < 4294967296 := by
    have : 2 ^ j ≤ 2 ^ 31 := Nat.pow_le_pow_right (by decide) hj
    have e : (2 : Nat) ^ 31 = 2147483648 := by norm_num
    omega
  have hu : u32 (s.writeBufferIndex + 2 ^ k) = s.writeBufferIndex + 2 ^ k := u32_eq (by omega)
  unfold AudioMoth_handleDirectMemoryAccessInterrupt
  rw [hn, hbuffer, hu]
  dsimp only
  generalize 2 ^ k = r at *
  generalize 2 ^ j = N at *
  by_cases hw : s.dmaTransfersProcessed > skip
  · rw [if_pos hw]
    by_cases he : s.writeBufferIndex + r = N
    · rw [if_pos he]
      exact ⟨Nat.zero_mod _, by show 0 < N; omega, p1, fun _ => Or.inr ⟨he, rfl, rfl⟩⟩
    · rw [if_neg he]
      exact ⟨p2, by show s.writeBufferIndex + r < N; omega, p1,
        fun _ => Or.inl ⟨rfl, by omega, rfl⟩⟩
  · rw [if_neg hw]
    exact ⟨hmod, hlt, p1, fun h => absurd h hw⟩

/-- C34: DMA transfer sizing.  For a sample-rate divider `D` of the configuration in use
with `1 <= D <= 1024`: the loop that reduces `1024 / D` to a power of two ends (the value it
leaves, within the 32 iterations a 32-bit value allows, has `n & (n - 1) == 0`), and
`numberOfSamplesInDMATransfer` is `2 ^ k * D` for the `k` with
`2 ^ k <= 1024 / D < 2 ^ (k + 1)`: a positive multiple of `D`, at most
MAXIMUM_SAMPLES_IN_DMA_TRANSFER, whose decimated length `n / D` is the largest power of two
not above `1024 / D`.  Consequently, when NUMBER_OF_SAMPLES_IN_BUFFER is a power of two
`2 ^ j` with `10 <= j <= 31`, then after any sequence of DMA interrupts of a session the
write offset is a multiple of `n / D` below NUMBER_OF_SAMPLES_IN_BUFFER, and one more
decimated transfer does not pass NUMBER_OF_SAMPLES_IN_BUFFER: after the warm-up the next
interrupt either advances the offset by `n / D`, staying below the buffer length, or reaches
NUMBER_OF_SAMPLES_IN_BUFFER exactly, sets the offset to 0 and moves to the next buffer. -/
theorem numberOfSamplesInDMATransfer_sizing (sram : Nat) (cfg : CP_configSettings_t)
    (index : AM_configurationIndex_t) (j : Nat) (thresholdResults : List Bool)
    (writeIndicator : List Bool) (thresholdExceeded : Bool)
    (h1 : 1 ≤ cfg.sampleRateDivider.getD index.toNat 0)
    (h2 : cfg.sampleRateDivider.getD index.toNat 0 ≤ 1024)
    (hbuffer : NUMBER_OF_SAMPLES_IN_BUFFER sram = 2 ^ j) (hj1 : 10 ≤ j) (hj2 : j ≤ 31) :
    clearLowestSetBits 32 (MAXIMUM_SAMPLES_IN_DMA_TRANSFER
        / cfg.sampleRateDivider.getD index.toNat 0)
      &&& (clearLowestSetBits 32 (MAXIMUM_SAMPLES_IN_DMA_TRANSFER
        / cfg.sampleRateDivider.getD index.toNat 0) - 1) = 0 ∧
    ∃ k,
      numberOfSamplesInDMATransfer cfg index
        = 2 ^ k * cfg.sampleRateDivider.getD index.toNat 0 ∧
      0 < numberOfSamplesInDMATransfer cfg index ∧
      numberOfSamplesInDMATransfer cfg index ≤ MAXIMUM_SAMPLES_IN_DMA_TRANSFER ∧
      numberOfSamplesInDMATransfer cfg index / cfg.sampleRateDivider.getD index.toNat 0
        = 2 ^ k ∧
      2 ^ k ≤ MAXIMUM_SAMPLES_IN_DMA_TRANSFER / cfg.sampleRateDivider.getD index.toNat 0 ∧
      MAXIMUM_SAMPLES_IN_DMA_TRANSFER / cfg.sampleRateDivider.getD index.toNat 0
        < 2 ^ (k + 1) ∧
      (handleDirectMemoryAccessInterrupts sram cfg index thresholdResults
          (startOfInterrupts writeIndicator)).writeBufferIndex % 2 ^ k = 0 ∧
      (handleDirectMemoryAccessInterrupts sram cfg index thresholdResults
          (startOfInterrupts writeIndicator)).writeBufferIndex
        < NUMBER_OF_SAMPLES_IN_BUFFER sram ∧
      (handleDirectMemoryAccessInterrupts sram cfg index thresholdResults
          (startOfInterrupts writeIndicator)).writeBufferIndex + 2 ^ k
        ≤ NUMBER_OF_SAMPLES_IN_BUFFER sram ∧
      ((handleDirectMemoryAccessInterrupts sram cfg index thresholdResults
          (startOfInterrupts writeIndicator)).dmaTransfersProcessed
          > dmaTransfersToSkip cfg index →
        ((handleDirectMemoryAccessInterrupts sram cfg index
              (thresholdResults ++ [thresholdExceeded])
              (startOfInterrupts writeIndicator)).writeBufferIndex
            = (handleDirectMemoryAccessInterrupts sram cfg index thresholdResults
                (startOfInterrupts writeIndicator)).writeBufferIndex + 2 ^ k ∧
          (handleDirectMemoryAccessInterrupts sram cfg index thresholdResults
              (startOfInterrupts writeIndicator)).writeBufferIndex + 2 ^ k
            < NUMBER_OF_SAMPLES_IN_BUFFER sram ∧
          (handleDirectMemoryAccessInterrupts sram cfg index
              (thresholdResults ++ [thresholdExceeded])
              (startOfInterrupts writeIndicator)).writeBuffer
            = (handleDirectMemoryAccessInterrupts sram cfg index thresholdResults
                (startOfInterrupts writeIndicator)).writeBuffer) ∨
        ((handleDirectMemoryAccessInterrupts sram cfg index thresholdResults
              (startOfInterrupts writeIndicator)).writeBufferIndex + 2 ^ k
            = NUMBER_OF_SAMPLES_IN_BUFFER sram ∧
          (handleDirectMemoryAccessInterrupts sram cfg index
              (thresholdResults ++ [thresholdExceeded])
              (startOfInterrupts writeIndicator)).writeBufferIndex = 0 ∧
          (handleDirectMemoryAccessInterrupts sram cfg index
              (thresholdResults ++ [thresholdExceeded])
              (startOfInterrupts writeIndicator)).writeBuffer
            = ((handleDirectMemoryAccessInterrupts sram cfg index thresholdResults
                (startOfInterrupts writeIndicator)).writeBuffer + 1) % NUMBER_OF_BUFFERS)) := by
  have hm1 : 1 ≤ 1024 / cfg.sampleRateDivider.getD index.toNat 0 :=
    (Nat.le_div_iff_mul_le (by omega)).2 (by omega)
  have hm2 : 1024 / cfg.sampleRateDivider.getD index.toNat 0 < 1025 :=
    Nat.lt_succ_of_le (Nat.div_le_self _ _)
  refine ⟨(clearLowestSetBits_power_of_two _ hm2 hm1).1, ?_⟩
  obtain ⟨k, hk, e0, e1, e2, e3, e4, e5⟩ := numberOfSamplesInDMATransfer_eq cfg index h1 h2
  have hpos : 0 < 2 ^ k := Nat.two_pow_pos _
  have hinv : ∀ (results : List Bool) (s : InterruptState),
      s.writeBufferIndex % 2 ^ k = 0 → s.writeBufferIndex < 2 ^ j →
      (handleDirectMemoryAccessInterrupts sram cfg index results s).writeBufferIndex % 2 ^ k = 0 ∧
      (handleDirectMemoryAccessInterrupts sram cfg index results s).writeBufferIndex < 2 ^ j := by
    intro results
    induction results with
    | nil => exact fun s a b => ⟨a, b⟩
    | cons thr rest ih =>
      intro s a b
      unfold handleDirectMemoryAccessInterrupts
      rw [List.foldl_cons]
      obtain ⟨q1, q2, _, _⟩ := handleDirectMemoryAccessInterrupt_offset sram
        (numberOfSamplesInDMATransfer cfg index) (cfg.sampleRateDivider.getD index.toNat 0)
        (dmaTransfersToSkip cfg index) thr s k j e2 hbuffer (by omega) hj2 a b
      exact ih _ q1 q2
  obtain ⟨i1, i2⟩ := hinv thresholdResults (startOfInterrupts writeIndicator)
    (Nat.zero_mod _) (Nat.two_pow_pos _)
  obtain ⟨q1, q2, q3, q4⟩ := handleDirectMemoryAccessInterrupt_offset sram
    (numberOfSamplesInDMATransfer cfg index) (cfg.sampleRateDivider.getD index.toNat 0)
    (dmaTransfersToSkip cfg index) thresholdExceeded
    (handleDirectMemoryAccessInterrupts sram cfg index thresholdResults
      (startOfInterrupts writeIndicator)) k j e2 hbuffer (by omega) hj2 i1 i2
  have happ : handleDirectMemoryAccessInterrupts sram cfg index
      (thresholdResults ++ [thresholdExceeded]) (startOfInterrupts writeIndicator)
      = AudioMoth_handleDirectMemoryAccessInterrupt sram
          (numberOfSamplesInDMATransfer cfg index) (cfg.sampleRateDivider.getD index.toNat 0)
          (dmaTransfersToSkip cfg index) thresholdExceeded
          (handleDirectMemoryAccessInterrupts sram cfg index thresholdResults
            (startOfInterrupts writeIndicator)) := by
    unfold handleDirectMemoryAccessInterrupts
    rw [List.foldl_append]
    rfl
  rw [happ, hbuffer]
  simp only [MAXIMUM_SAMPLES_IN_DMA_TRANSFER]
  exact ⟨k, e1, by rw [e1]; exact Nat.mul_pos hpos h1, e5, e2, e3, e4, i1, i2, q3, q4⟩

/-- C34 (witness): the default configuration, divider 8, with buffers of 16384 = 2 ^ 14
samples: `1024 / 8 = 128` is a power of two already, a transfer has 1024 samples, 128 after
decimation. -/
theorem numberOfSamplesInDMATransfer_sizing_witness :
    numberOfSamplesInDMATransfer defaultConfigSettings
      AM_configurationIndex_t.STANDARD_RECORDING = 1024 ∧
    clearLowestSetBits 32 (MAXIMUM_SAMPLES_IN_DMA_TRANSFER
        / defaultConfigSettings.sampleRateDivider.getD
          AM_configurationIndex_t.STANDARD_RECORDING.toNat 0)
      &&& (clearLowestSetBits 32 (MAXIMUM_SAMPLES_IN_DMA_TRANSFER
        / defaultConfigSettings.sampleRateDivider.getD
          AM_configurationIndex_t.STANDARD_RECORDING.toNat 0) - 1) = 0 :=
  ⟨by decide,
    (numberOfSamplesInDMATransfer_sizing exampleSramSizeInBytes defaultConfigSettings
      AM_configurationIndex_t.STANDARD_RECORDING 14 [true, false] (List.replicate 8 false) true
      (by decide) (by decide) (by decide) (by decide) (by decide)).1⟩

/-! ## The configuration parser: indices stay in bounds -/

theorem DEFINE_FUNCTION_STRG_count_cases (Q : ParserVariables → Prop) (pattern : String)
    (action : Nat → ParserVariables → ParserVariables) (c : Nat) (v : ParserVariables)
    (h0 : Q v)
    (he : Q (FUNCTION_END 0 CP_parserStatus_t.CP_CHARACTER_ERROR v))
    (h1 : (INC_COUNT v).parserState.count ≠ pattern.length → Q (INC_COUNT v))
    (h2 : (INC_COUNT v).parserState.count = pattern.length → Q (action c (INC_COUNT v))) :
    Q (DEFINE_FUNCTION_STRG pattern action c v) := by
  unfold DEFINE_FUNCTION_STRG
  split_ifs with a b d
  · exact h0
  · exact h2 d
  · exact h1 d
  · exact he

theorem countBound_0 : countBound 0 = 32 := rfl
theorem countBound_1 : countBound 1 = 10 := rfl
theorem countBound_2 : countBound 2 = 32 := rfl
theorem countBound_3 : countBound 3 = 27 := rfl
theorem countBound_4 : countBound 4 = 32 := rfl
theorem countBound_5 : countBound 5 = 29 := rfl
theorem countBound_6 : countBound 6 = 32 := rfl
theorem countBound_7 : countBound 7 = 32 := rfl
theorem countBound_8 : countBound 8 = 32 := rfl
theorem countBound_9 : countBound 9 = 22 := rfl
theorem countBound_10 : countBound 10 = 32 := rfl
theorem countBound_11 : countBound 11 = 32 := rfl
theorem countBound_12 : countBound 12 = 32 := rfl
theorem countBound_13 : countBound 13 = 24 := rfl
theorem countBound_14 : countBound 14 = 15 := rfl
theorem countBound_15 : countBound 15 = 32 := rfl
theorem countBound_16 : countBound 16 = 15 := rfl
theorem countBound_17 : countBound 17 = 32 := rfl
theorem countBound_18 : countBound 18 = 3 := rfl
theorem countBound_19 : countBound 19 = 32 := rfl
theorem countBound_20 : countBound 20 = 30 := rfl
theorem countBound_21 : countBound 21 = 32 := rfl
theorem countBound_22 : countBound 22 = 15 := rfl
theorem countBound_23 : countBound 23 = 32 := rfl
theorem countBound_24 : countBound 24 = 3 := rfl
theorem countBound_25 : countBound 25 = 15 := rfl
theorem countBound_26 : countBound 26 = 32 := rfl
theorem countBound_27 : countBound 27 = 32 := rfl
theorem countBound_28 : countBound 28 = 21 := rfl
theorem countBound_29 : countBound 29 = 32 := rfl
theorem countBound_30 : countBound 30 = 32 := rfl
theorem countBound_31 : countBound 31 = 17 := rfl
theorem countBound_32 : countBound 32 = 32 := rfl
theorem countBound_33 : countBound 33 = 13 := rfl
theorem countBound_34 : countBound 34 = 32 := rfl
theorem countBound_35 : countBound 35 = 12 := rfl
theorem countBound_36 : countBound 36 = 32 := rfl
theorem countBound_37 : countBound 37 = 32 := rfl
theorem countBound_38 : countBound 38 = 32 := rfl
theorem countBound_39 : countBound 39 = 6 := rfl
theorem countBound_40 : countBound 40 = 32 := rfl
theorem countBound_41 : countBound 41 = 12 := rfl
theorem countBound_42 : countBound 42 = 32 := rfl
theorem countBound_43 : countBound 43 = 32 := rfl
theorem countBound_44 : countBound 44 = 21 := rfl
theorem countBound_45 : countBound 45 = 32 := rfl
theorem countBound_46 : countBound 46 = 32 := rfl
theorem countBound_47 : countBound 47 = 32 := rfl
theorem countBound_48 : countBound 48 = 22 := rfl
theorem countBound_49 : countBound 49 = 32 := rfl
theorem countBound_50 : countBound 50 = 16 := rfl
theorem countBound_51 : countBound 51 = 32 := rfl
theorem countBound_52 : countBound 52 = 32 := rfl
theorem countBound_53 : countBound 53 = 32 := rfl
theorem countBound_54 : countBound 54 = 18 := rfl
theorem countBound_55 : countBound 55 = 32 := rfl
theorem countBound_56 : countBound 56 = 32 := rfl
theorem countBound_57 : countBound 57 = 6 := rfl
theorem countBound_58 : countBound 58 = 1 := rfl
theorem countBound_59 : countBound 59 = 8 := rfl
theorem countBound_60 : countBound 60 = 32 := rfl
theorem countBound_61 : countBound 61 = 8 := rfl
theorem countBound_62 : countBound 62 = 13 := rfl
theorem countBound_63 : countBound 63 = 32 := rfl

set_option maxHeartbeats 4000000 in
/-- Every call of a jump-table function keeps the bounds of the parser state; and it keeps
the bounds of the number of sleep/record cycles unless it ends with an error. -/
theorem CPfunctions_bounds (atoi : List Nat → Int) (c : Nat) (v : ParserVariables) (s : Nat)
    (hs : v.parserState.state = s) (hI : parserBounds v) :
    keepsBounds v (CPfunctions atoi s c v) := by
  unfold parserBounds at hI
  unfold CPfunctions
  split
  all_goals first
    | apply DEFINE_FUNCTION_INIT_cases
    | apply DEFINE_FUNCTION_STRG_count_cases
    | apply DEFINE_FUNCTION_STEP_cases
    | apply DEFINE_FUNCTION_ELSE_cases
    | apply DEFINE_FUNCTION_CND3_cases
    | apply DEFINE_FUNCTION_CND4_cases
    | skip
  all_goals try intro hc
  all_goals try (apply CHECK_BUFFER_MIN_MAX_AND_SET_cases)
  all_goals try (intro _ _ _)
  all_goals try (show (0 : Int) ≤ _; decide)
  all_goals try
    (unfold keepsBounds parserBounds cycleBounds
     simp only [INC_STATE, SET_STATE, ZERO_INDEX, INC_INDEX, SET_INDEX, INC_COUNT, SET_RETURN,
       CLEAR_BUFFER, CLEAR_STATE, SET_STATUS_SUCCESS, FUNCTION_END, VALUE_ERROR,
       setConfigSettings, clearedParserState, MAX_BUFFER_LENGTH,
       MAXIMUM_NUMBER_OF_START_STOP_PERIODS, hs] at hI ⊢
     (try simp only [INC_COUNT, String.length, List.length, Bool.and_eq_true,
       Bool.or_eq_true, decide_eq_true_eq, MAXIMUM_NUMBER_OF_START_STOP_PERIODS, hs] at hc)
     (try split_ifs) <;>
       simp only [countBound_0, countBound_1, countBound_2, countBound_3, countBound_4, countBound_5,
         countBound_6, countBound_7, countBound_8, countBound_9, countBound_10, countBound_11,
         countBound_12, countBound_13, countBound_14, countBound_15, countBound_16,
         countBound_17, countBound_18, countBound_19, countBound_20, countBound_21,
         countBound_22, countBound_23, countBound_24, countBound_25, countBound_26,
         countBound_27, countBound_28, countBound_29, countBound_30, countBound_31,
         countBound_32, countBound_33, countBound_34, countBound_35, countBound_36,
         countBound_37, countBound_38, countBound_39, countBound_40, countBound_41,
         countBound_42, countBound_43, countBound_44, countBound_45, countBound_46,
         countBound_47, countBound_48, countBound_49, countBound_50, countBound_51,
         countBound_52, countBound_53, countBound_54, countBound_55, countBound_56,
         countBound_57, countBound_58, countBound_59, countBound_60, countBound_61,
         countBound_62, countBound_63, reduceCtorEq, Nat.reduceAdd, Nat.reduceMod,
         Nat.reduceLeDiff, Nat.reduceLTLE, Nat.reduceEqDiff, Nat.reduceSub, Nat.lt_irrefl,
         true_or, or_true, true_and, and_true, false_or, or_false, implies_true, true_implies,
         false_implies, forall_const, OfNat.ofNat_ne_zero, zero_le, Nat.zero_lt_succ] at hI ⊢ <;>
       omega)
  all_goals first
    | (unfold keepsBounds parserBounds cycleBounds ADD_TO_BUFFER
       split_ifs with h
       · simp only [hs, MAX_BUFFER_LENGTH,
           countBound_0, countBound_1, countBound_2, countBound_3, countBound_4, countBound_5,
           countBound_6, countBound_7, countBound_8, countBound_9, countBound_10, countBound_11,
           countBound_12, countBound_13, countBound_14, countBound_15, countBound_16,
           countBound_17, countBound_18, countBound_19, countBound_20, countBound_21,
           countBound_22, countBound_23, countBound_24, countBound_25, countBound_26,
           countBound_27, countBound_28, countBound_29, countBound_30, countBound_31,
           countBound_32, countBound_33, countBound_34, countBound_35, countBound_36,
           countBound_37, countBound_38, countBound_39, countBound_40, countBound_41,
           countBound_42, countBound_43, countBound_44, countBound_45, countBound_46,
           countBound_47, countBound_48, countBound_49, countBound_50, countBound_51,
           countBound_52, countBound_53, countBound_54, countBound_55, countBound_56,
           countBound_57, countBound_58, countBound_59, countBound_60, countBound_61,
           countBound_62, countBound_63, reduceCtorEq, Nat.reduceAdd, Nat.reduceMod,
           Nat.reduceLeDiff, Nat.reduceLTLE, Nat.reduceEqDiff, Nat.reduceSub, Nat.lt_irrefl,
           true_or, or_true, true_and, and_true, false_or, or_false, implies_true, true_implies,
           false_implies, forall_const, OfNat.ofNat_ne_zero, zero_le, Nat.zero_lt_succ] at hI h ⊢
         omega
       · simp only [hs] at hI ⊢
         exact ⟨hI, fun h => Or.inr (Or.inr h)⟩)
    | (unfold handleSampleRateAction
       split <;> (try dsimp only) <;>
         (unfold keepsBounds parserBounds cycleBounds
          simp only [INC_STATE, SET_STATE, ZERO_INDEX, INC_INDEX, SET_INDEX, INC_COUNT, SET_RETURN,
            CLEAR_BUFFER, CLEAR_STATE, SET_STATUS_SUCCESS, FUNCTION_END, VALUE_ERROR,
            setConfigSettings, clearedParserState, MAX_BUFFER_LENGTH,
            MAXIMUM_NUMBER_OF_START_STOP_PERIODS, hs] at hI ⊢
          (try split_ifs) <;>
            (rcases hI.2.1 with hr | hr | hr <;>
              simp [hr, countBound_0, countBound_1, countBound_2, countBound_3, countBound_4,
                countBound_5, countBound_6, countBound_7, countBound_8, countBound_9,
                countBound_10, countBound_11, countBound_12, countBound_13, countBound_14,
                countBound_15, countBound_16, countBound_17, countBound_18, countBound_19,
                countBound_20, countBound_21, countBound_22, countBound_23, countBound_24,
                countBound_25, countBound_26, countBound_27, countBound_28, countBound_29,
                countBound_30, countBound_31, countBound_32, countBound_33, countBound_34,
                countBound_35, countBound_36, countBound_37, countBound_38, countBound_39,
                countBound_40, countBound_41, countBound_42, countBound_43, countBound_44,
                countBound_45, countBound_46, countBound_47, countBound_48, countBound_49,
                countBound_50, countBound_51, countBound_52, countBound_53, countBound_54,
                countBound_55, countBound_56, countBound_57, countBound_58, countBound_59,
                countBound_60, countBound_61, countBound_62, countBound_63] at hI ⊢ <;>
              omega)))
    | (unfold handleEnableEnergySaverModeAction
       dsimp only
       split <;>
         (unfold keepsBounds parserBounds cycleBounds
          simp only [INC_STATE, SET_STATE, ZERO_INDEX, INC_INDEX, SET_INDEX, INC_COUNT, SET_RETURN,
            CLEAR_BUFFER, CLEAR_STATE, SET_STATUS_SUCCESS, FUNCTION_END, VALUE_ERROR,
            setConfigSettings, clearedParserState, MAX_BUFFER_LENGTH,
            MAXIMUM_NUMBER_OF_START_STOP_PERIODS, hs] at hI ⊢
          (try split_ifs) <;>
            (rcases hI.2.1 with hr | hr | hr <;>
              simp [hr, countBound_0, countBound_1, countBound_2, countBound_3, countBound_4,
                countBound_5, countBound_6, countBound_7, countBound_8, countBound_9,
                countBound_10, countBound_11, countBound_12, countBound_13, countBound_14,
                countBound_15, countBound_16, countBound_17, countBound_18, countBound_19,
                countBound_20, countBound_21, countBound_22, countBound_23, countBound_24,
                countBound_25, countBound_26, countBound_27, countBound_28, countBound_29,
                countBound_30, countBound_31, countBound_32, countBound_33, countBound_34,
                countBound_35, countBound_36, countBound_37, countBound_38, countBound_39,
                countBound_40, countBound_41, countBound_42, countBound_43, countBound_44,
                countBound_45, countBound_46, countBound_47, countBound_48, countBound_49,
                countBound_50, countBound_51, countBound_52, countBound_53, countBound_54,
                countBound_55, countBound_56, countBound_57, countBound_58, countBound_59,
                countBound_60, countBound_61, countBound_62, countBound_63] at hI ⊢ <;>
              omega)))
    | (unfold handleFilterAction
       dsimp only
       split <;>
         (unfold keepsBounds parserBounds cycleBounds
          simp only [INC_STATE, SET_STATE, ZERO_INDEX, INC_INDEX, SET_INDEX, INC_COUNT, SET_RETURN,
            CLEAR_BUFFER, CLEAR_STATE, SET_STATUS_SUCCESS, FUNCTION_END, VALUE_ERROR,
            setConfigSettings, clearedParserState, MAX_BUFFER_LENGTH,
            MAXIMUM_NUMBER_OF_START_STOP_PERIODS, hs] at hI ⊢
          (try split_ifs) <;>
            (rcases hI.2.1 with hr | hr | hr <;>
              simp [hr, countBound_0, countBound_1, countBound_2, countBound_3, countBound_4,
                countBound_5, countBound_6, countBound_7, countBound_8, countBound_9,
                countBound_10, countBound_11, countBound_12, countBound_13, countBound_14,
                countBound_15, countBound_16, countBound_17, countBound_18, countBound_19,
                countBound_20, countBound_21, countBound_22, countBound_23, countBound_24,
                countBound_25, countBound_26, countBound_27, countBound_28, countBound_29,
                countBound_30, countBound_31, countBound_32, countBound_33, countBound_34,
                countBound_35, countBound_36, countBound_37, countBound_38, countBound_39,
                countBound_40, countBound_41, countBound_42, countBound_43, countBound_44,
                countBound_45, countBound_46, countBound_47, countBound_48, countBound_49,
                countBound_50, countBound_51, countBound_52, countBound_53, countBound_54,
                countBound_55, countBound_56, countBound_57, countBound_58, countBound_59,
                countBound_60, countBound_61, countBound_62, countBound_63] at hI ⊢ <;>
              omega)))
    | (unfold checkStartStopPeriodsAction
       dsimp only
       (unfold keepsBounds parserBounds cycleBounds
        simp only [INC_STATE, SET_STATE, ZERO_INDEX, INC_INDEX, SET_INDEX, INC_COUNT, SET_RETURN,
          CLEAR_BUFFER, CLEAR_STATE, SET_STATUS_SUCCESS, FUNCTION_END, VALUE_ERROR,
          setConfigSettings, clearedParserState, MAX_BUFFER_LENGTH,
          MAXIMUM_NUMBER_OF_START_STOP_PERIODS, hs] at hI ⊢
        (try split_ifs) <;>
          (rcases hI.2.1 with hr | hr | hr <;>
            simp [hr, countBound_0, countBound_1, countBound_2, countBound_3, countBound_4,
              countBound_5, countBound_6, countBound_7, countBound_8, countBound_9,
              countBound_10, countBound_11, countBound_12, countBound_13, countBound_14,
              countBound_15, countBound_16, countBound_17, countBound_18, countBound_19,
              countBound_20, countBound_21, countBound_22, countBound_23, countBound_24,
              countBound_25, countBound_26, countBound_27, countBound_28, countBound_29,
              countBound_30, countBound_31, countBound_32, countBound_33, countBound_34,
              countBound_35, countBound_36, countBound_37, countBound_38, countBound_39,
              countBound_40, countBound_41, countBound_42, countBound_43, countBound_44,
              countBound_45, countBound_46, countBound_47, countBound_48, countBound_49,
              countBound_50, countBound_51, countBound_52, countBound_53, countBound_54,
              countBound_55, countBound_56, countBound_57, countBound_58, countBound_59,
              countBound_60, countBound_61, countBound_62, countBound_63] at hI ⊢ <;>
            omega)))
    | (unfold keepsBounds parserBounds cycleBounds
       simp only [INC_STATE, SET_STATE, ZERO_INDEX, INC_INDEX, SET_INDEX, INC_COUNT, SET_RETURN,
         CLEAR_BUFFER, CLEAR_STATE, SET_STATUS_SUCCESS, FUNCTION_END, VALUE_ERROR,
         setConfigSettings, clearedParserState, MAX_BUFFER_LENGTH,
         MAXIMUM_NUMBER_OF_START_STOP_PERIODS, hs] at hI ⊢
       (try split_ifs) <;>
         (rcases hI.2.1 with hr | hr | hr <;>
           simp [hr, countBound_0, countBound_1, countBound_2, countBound_3, countBound_4,
             countBound_5, countBound_6, countBound_7, countBound_8, countBound_9, countBound_10,
             countBound_11, countBound_12, countBound_13, countBound_14, countBound_15,
             countBound_16, countBound_17, countBound_18, countBound_19, countBound_20,
             countBound_21, countBound_22, countBound_23, countBound_24, countBound_25,
             countBound_26, countBound_27, countBound_28, countBound_29, countBound_30,
             countBound_31, countBound_32, countBound_33, countBound_34, countBound_35,
             countBound_36, countBound_37, countBound_38, countBound_39, countBound_40,
             countBound_41, countBound_42, countBound_43, countBound_44, countBound_45,
             countBound_46, countBound_47, countBound_48, countBound_49, countBound_50,
             countBound_51, countBound_52, countBound_53, countBound_54, countBound_55,
             countBound_56, countBound_57, countBound_58, countBound_59, countBound_60,
             countBound_61, countBound_62, countBound_63] at hI ⊢ <;>
           omega))

theorem ADD_TO_BUFFER_buffer (c : Nat) (v : ParserVariables) (hB : bufferBounds v) :
    bufferBounds (ADD_TO_BUFFER c v) := by
  unfold ADD_TO_BUFFER
  split_ifs with h
  · unfold bufferBounds at hB ⊢
    simp only [MAX_BUFFER_LENGTH] at h hB ⊢
    refine ⟨by rw [List.length_set]; exact hB.1, ?_⟩
    rw [getD_set_diff _ _ _ _ _ (by omega)]
    exact hB.2
  · exact hB

set_option maxHeartbeats 2000000 in
/-- Every call of a jump-table function keeps the text buffer at its length, with its last
element 0. -/
theorem CPfunctions_buffer (atoi : List Nat → Int) (c : Nat) (v : ParserVariables) (s : Nat)
    (hB : bufferBounds v) : bufferBounds (CPfunctions atoi s c v) := by
  unfold CPfunctions
  split
  all_goals first
    | apply DEFINE_FUNCTION_INIT_cases
    | apply DEFINE_FUNCTION_STRG_cases
    | apply DEFINE_FUNCTION_STEP_cases
    | apply DEFINE_FUNCTION_ELSE_cases
    | apply DEFINE_FUNCTION_CND3_cases
    | apply DEFINE_FUNCTION_CND4_cases
    | skip
  all_goals try intro hc
  all_goals try (apply CHECK_BUFFER_MIN_MAX_AND_SET_cases)
  all_goals try (intro _ _ _)
  all_goals try (show (0 : Int) ≤ _; decide)
  all_goals first
    | exact hB
    | exact ⟨rfl, rfl⟩
    | exact ADD_TO_BUFFER_buffer _ _ hB
    | (dsimp only
       split_ifs <;> exact hB)
    | (unfold handleSampleRateAction
       split
       · exact hB
       · dsimp only
         split_ifs <;> exact hB)
    | (unfold handleEnableEnergySaverModeAction
       dsimp only
       split <;> exact hB)
    | (unfold handleFilterAction
       dsimp only
       split <;> exact hB)
    | (unfold checkStartStopPeriodsAction
       dsimp only
       split_ifs <;> exact hB)

/-- The table `keywordOfState` gives the patterns of the jump table: a state with an entry
is defined with `DEFINE_FUNCTION_STRG` and that pattern. -/
theorem keywordOfState_pattern (atoi : List Nat → Int) (s : Nat) (pattern : String)
    (h : keywordOfState s = some pattern) :
    ∃ action, CPfunctions atoi s = DEFINE_FUNCTION_STRG pattern action := by
  unfold keywordOfState at h
  split at h
  all_goals
    (cases h <;>
      (apply Exists.intro
       unfold CPfunctions
       rfl))

theorem countBound_keyword (s : Nat) (pattern : String)
    (h : keywordOfState s = some pattern) : countBound s = pattern.length := by
  unfold countBound
  rw [h]

theorem ConfigParser_parse_bounds (atoi : List Nat → Int) (c : Nat) (v : ParserVariables)
    (h : parserBounds v ∧ bufferBounds v) :
    parserBounds (ConfigParser_parse atoi c v) ∧ bufferBounds (ConfigParser_parse atoi c v) :=
  ⟨(CPfunctions_bounds atoi c v _ rfl h.1).1, CPfunctions_buffer atoi c v _ h.2⟩

theorem parseCharacters_bounds (atoi : List Nat → Int) (characters : List Nat)
    (v : ParserVariables) (h : parserBounds v ∧ bufferBounds v) :
    parserBounds (parseCharacters atoi characters v) ∧
      bufferBounds (parseCharacters atoi characters v) := by
  unfold parseCharacters
  induction characters generalizing v with
  | nil => exact h
  | cons c rest ih =>
    rw [List.foldl_cons]
    exact ih _ (ConfigParser_parse_bounds atoi c v h)

/-- The bounds hold in the reset state, whatever the settings record holds. -/
theorem parserBounds_reset (configSettings : CP_configSettings_t)
    (lowerFrequency higherFrequency : Nat) :
    parserBounds ⟨clearedParserState, configSettings, lowerFrequency, higherFrequency⟩ ∧
      bufferBounds ⟨clearedParserState, configSettings, lowerFrequency, higherFrequency⟩ := by
  have h0 : clearedParserState.state = 0 := rfl
  have h1 : clearedParserState.count = 0 := rfl
  refine ⟨⟨?_, Or.inl rfl, fun h => ?_, fun h => ?_, ?_, ?_⟩, rfl, rfl⟩
  · show clearedParserState.state < 64
    omega
  · change 32 ≤ clearedParserState.state at h
    omega
  · change 39 ≤ clearedParserState.state at h
    omega
  · show clearedParserState.count ≤ 31
    omega
  · show clearedParserState.count < countBound clearedParserState.state
    rw [h0, h1, countBound_0]
    decide

/-- C36: parser indices stay in bounds.  After every sequence of characters fed to
`ConfigParser_parse` from the reset state (whatever the settings record holds and whatever
`atoi` returns):

* the state is below 64, a valid index of the jump table `CPfunctions`;
* in the states 32 to 38, of which `CP34` and `CP36` write `startStopPeriods[INDEX]`,
  `INDEX` is at most 4;
* in the states 39 to 63, of which `CP40`, `CP42`, `CP45`, `CP51` and `CP55` write the
  arrays of one configuration at `INDEX`, `INDEX` is 0 or 1;
* `COUNT` is at most 31, the text buffer has its 32 elements and the last one is 0, so the
  buffer holds at most 31 characters (`ADD_TO_BUFFER` writes only when `COUNT < 31`);
* in every keyword state, that is a state defined with `DEFINE_FUNCTION_STRG` for a pattern,
  `COUNT`, the position the next character is compared with, is smaller than the length of
  the pattern. -/
theorem ConfigParser_parse_indices_in_bounds (atoi : List Nat → Int) (characters : List Nat)
    (configSettings : CP_configSettings_t) (lowerFrequency higherFrequency : Nat) :
    (parseCharacters atoi characters ⟨clearedParserState, configSettings, lowerFrequency,
      higherFrequency⟩).parserState.state < 64 ∧
    (32 ≤ (parseCharacters atoi characters ⟨clearedParserState, configSettings, lowerFrequency,
        higherFrequency⟩).parserState.state →
      (parseCharacters atoi characters ⟨clearedParserState, configSettings, lowerFrequency,
        higherFrequency⟩).parserState.state ≤ 38 →
      (parseCharacters atoi characters ⟨clearedParserState, configSettings, lowerFrequency,
        higherFrequency⟩).parserState.index ≤ MAXIMUM_NUMBER_OF_START_STOP_PERIODS - 1) ∧
    (39 ≤ (parseCharacters atoi characters ⟨clearedParserState, configSettings, lowerFrequency,
        higherFrequency⟩).parserState.state →
      (parseCharacters atoi characters ⟨clearedParserState, configSettings, lowerFrequency,
        higherFrequency⟩).parserState.index ≤ 1) ∧
    (parseCharacters atoi characters ⟨clearedParserState, configSettings, lowerFrequency,
      higherFrequency⟩).parserState.count ≤ MAX_BUFFER_LENGTH - 1 ∧
    (parseCharacters atoi characters ⟨clearedParserState, configSettings, lowerFrequency,
      higherFrequency⟩).parserState.buffer.length = MAX_BUFFER_LENGTH ∧
    (parseCharacters atoi characters ⟨clearedParserState, configSettings, lowerFrequency,
      higherFrequency⟩).parserState.buffer.getD (MAX_BUFFER_LENGTH - 1) 0 = 0 ∧
    ∀ pattern,
      keywordOfState (parseCharacters atoi characters ⟨clearedParserState, configSettings,
        lowerFrequency, higherFrequency⟩).parserState.state = some pattern →
      (∃ action,
        CPfunctions atoi (parseCharacters atoi characters ⟨clearedParserState, configSettings,
          lowerFrequency, higherFrequency⟩).parserState.state
          = DEFINE_FUNCTION_STRG pattern action) ∧
      (parseCharacters atoi characters ⟨clearedParserState, configSettings, lowerFrequency,
        higherFrequency⟩).parserState.count < pattern.length := by
  obtain ⟨⟨i1, _, i3, i4, i5, i6⟩, b1, b2⟩ := parseCharacters_bounds atoi characters _
    (parserBounds_reset configSettings lowerFrequency higherFrequency)
  generalize parseCharacters atoi characters
    ⟨clearedParserState, configSettings, lowerFrequency, higherFrequency⟩ = v at *
  refine ⟨i1, i3, i4, i5, b1, b2, fun pattern h => ⟨keywordOfState_pattern atoi _ _ h, ?_⟩⟩
  rw [← countBound_keyword _ _ h]
  exact i6

/-! ## The configuration parser: durations and the number of sleep/record cycles -/

theorem durationBounds_setSleep (v new : ParserVariables) (i value : Nat) (hi : i < 2)
    (hD : durationBounds v) (h1 : (5 : Int) ≤ value) (h2 : (value : Int) ≤ 43200)
    (hs : new.configSettings.sleepDuration = v.configSettings.sleepDuration.set i value)
    (hr : new.configSettings.recordDuration = v.configSettings.recordDuration) :
    durationBounds new := by
  obtain ⟨l1, l2, ⟨a1, a2, a3, a4⟩, ⟨b1, b2, b3, b4⟩⟩ := hD
  unfold durationBounds validSleepRecordCycle
  rw [hs, hr]
  refine ⟨by rw [List.length_set]; exact l1, l2, ⟨a1, a2, ?_⟩, ⟨b1, b2, ?_⟩⟩
  · by_cases h : i = 0
    · subst h
      rw [getD_set_same _ _ _ _ (by omega)]
      omega
    · rw [getD_set_diff _ _ _ _ _ h]
      exact ⟨a3, a4⟩
  · by_cases h : i = 1
    · subst h
      rw [getD_set_same _ _ _ _ (by omega)]
      omega
    · rw [getD_set_diff _ _ _ _ _ h]
      exact ⟨b3, b4⟩

theorem durationBounds_setRecord (v new : ParserVariables) (i value : Nat) (hi : i < 2)
    (hD : durationBounds v) (h1 : (1 : Int) ≤ value) (h2 : (value : Int) ≤ 43200)
    (hs : new.configSettings.sleepDuration = v.configSettings.sleepDuration)
    (hr : new.configSettings.recordDuration = v.configSettings.recordDuration.set i value) :
    durationBounds new := by
  obtain ⟨l1, l2, ⟨a1, a2, a3, a4⟩, ⟨b1, b2, b3, b4⟩⟩ := hD
  unfold durationBounds validSleepRecordCycle
  rw [hs, hr]
  refine ⟨l1, by rw [List.length_set]; exact l2, ?_, ?_⟩
  · by_cases h : i = 0
    · subst h
      rw [getD_set_same _ _ _ _ (by omega)]
      exact ⟨by omega, by omega, a3, a4⟩
    · rw [getD_set_diff _ _ _ _ _ h]
      exact ⟨a1, a2, a3, a4⟩
  · by_cases h : i = 1
    · subst h
      rw [getD_set_same _ _ _ _ (by omega)]
      exact ⟨by omega, by omega, b3, b4⟩
    · rw [getD_set_diff _ _ _ _ _ h]
      exact ⟨b1, b2, b3, b4⟩

set_option maxHeartbeats 2000000 in
/-- Every call of a jump-table function keeps the two sleep/record cycles inside the ranges
the parser checks. -/
theorem CPfunctions_durations (atoi : List Nat → Int) (c : Nat) (v : ParserVariables) (s : Nat)
    (hD : durationBounds v) : durationBounds (CPfunctions atoi s c v) := by
  unfold CPfunctions
  split
  all_goals first
    | apply DEFINE_FUNCTION_INIT_cases
    | apply DEFINE_FUNCTION_STRG_cases
    | apply DEFINE_FUNCTION_STEP_cases
    | apply DEFINE_FUNCTION_ELSE_cases
    | apply DEFINE_FUNCTION_CND3_cases
    | apply DEFINE_FUNCTION_CND4_cases
    | skip
  all_goals try intro hc
  all_goals try (apply CHECK_BUFFER_MIN_MAX_AND_SET_cases)
  all_goals try (intro value hmin hmax)
  all_goals try (show (0 : Int) ≤ _; decide)
  all_goals first
    | exact hD
    | exact durationBounds_setSleep v _ _ value (by decide) hD hmin hmax rfl rfl
    | exact durationBounds_setRecord v _ _ value (by decide) hD hmin hmax rfl rfl
    | (unfold ADD_TO_BUFFER
       split_ifs <;> exact hD)
    | (dsimp only
       split_ifs <;> exact hD)
    | (unfold handleSampleRateAction
       split
       · exact hD
       · dsimp only
         split_ifs <;> exact hD)
    | (unfold handleEnableEnergySaverModeAction
       dsimp only
       split <;> exact hD)
    | (unfold handleFilterAction
       dsimp only
       split <;> exact hD)
    | (unfold checkStartStopPeriodsAction
       dsimp only
       split_ifs <;> exact hD)

/-- The loop of `main` over the characters of the file: when it ends with CP_SUCCESS, the
bounds of the number of sleep/record cycles and of the durations hold for the record
parsed, provided they held at the start. -/
theorem parseConfigurationFileFrom_bounds (atoi : List Nat → Int) (characters : Nat → Nat)
    (remaining count : Nat) (status : CP_parserStatus_t) (v : ParserVariables)
    (hI : parserBounds v) (hK : cycleBounds v) (hD : durationBounds v)
    (hs : (parseConfigurationFileFrom atoi characters remaining count status v).2.1
      = CP_parserStatus_t.CP_SUCCESS) :
    cycleBounds (parseConfigurationFileFrom atoi characters remaining count status v).2.2 ∧
      durationBounds (parseConfigurationFileFrom atoi characters remaining count status v).2.2 := by
  induction remaining generalizing count status v with
  | zero => exact ⟨hK, hD⟩
  | succ n ih =>
    obtain ⟨k1, k2⟩ := CPfunctions_bounds atoi (characters count) v _ rfl hI
    have k3 := CPfunctions_durations atoi (characters count) v v.parserState.state hD
    have k4 := k2 hK
    change parserBounds (ConfigParser_parse atoi (characters count) v) at k1
    change durationBounds (ConfigParser_parse atoi (characters count) v) at k3
    change (ConfigParser_parse atoi (characters count) v).parserState.status = _ ∨
      (ConfigParser_parse atoi (characters count) v).parserState.status = _ ∨
      cycleBounds (ConfigParser_parse atoi (characters count) v) at k4
    unfold parseConfigurationFileFrom at hs ⊢
    generalize ConfigParser_parse atoi (characters count) v = new at *
    by_cases c : endsParsing new.parserState.status = true
    · rw [if_pos c] at hs ⊢
      have hs2 : new.parserState.status = CP_parserStatus_t.CP_SUCCESS := hs
      rcases k4 with e | e | e
      · rw [e] at hs2
        exact absurd hs2 (by decide)
      · rw [e] at hs2
        exact absurd hs2 (by decide)
      · exact ⟨e, k3⟩
    · rw [if_neg c] at hs ⊢
      refine ih _ _ _ k1 ?_ k3 hs
      rcases k4 with e | e | e
      · rw [e] at c
        exact absurd rfl c
      · rw [e] at c
        exact absurd rfl c
      · exact e

/-- C35: no division by zero in the scheduler.  When the loop of `main` over the characters
of the configuration file ends with CP_SUCCESS (the parser in its reset state at the start,
as the static `parserState` is when `main` begins, and the record a copy of the default
settings), the record parsed has `sleepDuration[i]` in 5..43200 and `recordDuration[i]` in
1..43200 for both cycle indices, and `numberOfSleepRecordCycles` is 0, 1 or 2; so the
cycle length `recordDuration + sleepDuration`, the modulus `durationOfCycle` of
`scheduleRecording`, is never 0 as a 32-bit value. -/
theorem parseConfigurationFile_cycle_length (atoi : List Nat → Int) (characters : Nat → Nat)
    (statics : ParserVariables) (index : AM_sleepRecordIndex_t)
    (hreset : statics.parserState = clearedParserState)
    (hsuccess : (parseConfigurationFile atoi characters statics).2.1
      = CP_parserStatus_t.CP_SUCCESS) :
    5 ≤ (parseConfigurationFile atoi characters statics).2.2.configSettings.sleepDuration.getD
      index.toNat 0 ∧
    (parseConfigurationFile atoi characters statics).2.2.configSettings.sleepDuration.getD
      index.toNat 0 ≤ 43200 ∧
    1 ≤ (parseConfigurationFile atoi characters statics).2.2.configSettings.recordDuration.getD
      index.toNat 0 ∧
    (parseConfigurationFile atoi characters statics).2.2.configSettings.recordDuration.getD
      index.toNat 0 ≤ 43200 ∧
    (parseConfigurationFile atoi characters statics).2.2.configSettings.numberOfSleepRecordCycles
      ≤ INITIAL_AND_STANDARD_SLEEP_RECORD_CYCLES ∧
    u32 ((parseConfigurationFile atoi characters
          statics).2.2.configSettings.recordDuration.getD index.toNat 0
        + (parseConfigurationFile atoi characters
          statics).2.2.configSettings.sleepDuration.getD index.toNat 0) ≠ 0 := by
  have hstart : parserBounds { statics with configSettings := defaultConfigSettings } ∧
      bufferBounds { statics with configSettings := defaultConfigSettings } := by
    have := parserBounds_reset defaultConfigSettings statics.lowerFrequency
      statics.higherFrequency
    rw [← hreset] at this
    exact this
  have hK : cycleBounds { statics with configSettings := defaultConfigSettings } := by
    have h0 : defaultConfigSettings.numberOfSleepRecordCycles = 0 := rfl
    unfold cycleBounds
    refine ⟨?_, fun _ => ?_, fun _ => h0, fun h => ?_⟩
    · show defaultConfigSettings.numberOfSleepRecordCycles ≤ 2
      omega
    · show defaultConfigSettings.numberOfSleepRecordCycles ≤ 1
      omega
    change 39 ≤ statics.parserState.state at h
    rw [hreset] at h
    exact absurd h (by decide)
  have hD : durationBounds { statics with configSettings := defaultConfigSettings } := by
    have h0 : durationBounds ⟨clearedParserState, defaultConfigSettings, 0, 0⟩ := by
      unfold durationBounds
      decide
    exact h0
  obtain ⟨⟨c1, _⟩, _, _, ⟨a1, a2, a3, a4⟩, ⟨b1, b2, b3, b4⟩⟩ :=
    parseConfigurationFileFrom_bounds atoi characters MAX_FILE_READ_CHARACTERS 0
      CP_parserStatus_t.CP_WAITING _ hstart.1 hK hD hsuccess
  change (parseConfigurationFile atoi characters
    statics).2.2.configSettings.numberOfSleepRecordCycles ≤ 2 at c1
  change 1 ≤ (parseConfigurationFile atoi characters
    statics).2.2.configSettings.recordDuration.getD 0 0 at a1
  change (parseConfigurationFile atoi characters
    statics).2.2.configSettings.recordDuration.getD 0 0 ≤ 43200 at a2
  change 5 ≤ (parseConfigurationFile atoi characters
    statics).2.2.configSettings.sleepDuration.getD 0 0 at a3
  change (parseConfigurationFile atoi characters
    statics).2.2.configSettings.sleepDuration.getD 0 0 ≤ 43200 at a4
  change 1 ≤ (parseConfigurationFile atoi characters
    statics).2.2.configSettings.recordDuration.getD 1 0 at b1
  change (parseConfigurationFile atoi characters
    statics).2.2.configSettings.recordDuration.getD 1 0 ≤ 43200 at b2
  change 5 ≤ (parseConfigurationFile atoi characters
    statics).2.2.configSettings.sleepDuration.getD 1 0 at b3
  change (parseConfigurationFile atoi characters
    statics).2.2.configSettings.sleepDuration.getD 1 0 ≤ 43200 at b4
  generalize (parseConfigurationFile atoi characters statics).2.2.configSettings = cfg at *
  simp only [INITIAL_AND_STANDARD_SLEEP_RECORD_CYCLES, u32]
  cases index
  · change 5 ≤ cfg.sleepDuration.getD 0 0 ∧ cfg.sleepDuration.getD 0 0 ≤ 43200 ∧
      1 ≤ cfg.recordDuration.getD 0 0 ∧ cfg.recordDuration.getD 0 0 ≤ 43200 ∧
      cfg.numberOfSleepRecordCycles ≤ 2 ∧
      (cfg.recordDuration.getD 0 0 + cfg.sleepDuration.getD 0 0) % 4294967296 ≠ 0
    omega
  · change 5 ≤ cfg.sleepDuration.getD 1 0 ∧ cfg.sleepDuration.getD 1 0 ≤ 43200 ∧
      1 ≤ cfg.recordDuration.getD 1 0 ∧ cfg.recordDuration.getD 1 0 ≤ 43200 ∧
      cfg.numberOfSleepRecordCycles ≤ 2 ∧
      (cfg.recordDuration.getD 1 0 + cfg.sleepDuration.getD 1 0) % 4294967296 ≠ 0
    omega

set_option maxRecDepth 100000 in
/-- C35 (witness): the configuration file `capFileExample`, read by the loop of `main` from
the reset state, ends with CP_SUCCESS; it sets one sleep/record cycle, 20 s record and 100 s
sleep, so the cycle length used by the scheduler is 120 s. -/
theorem parseConfigurationFile_cycle_length_witness :
    (parseConfigurationFile atoiDigits (fun count => capFileExample.getD count 0)
      startOfParsing).2.2.configSettings.numberOfSleepRecordCycles = 1 ∧
    (parseConfigurationFile atoiDigits (fun count => capFileExample.getD count 0)
      startOfParsing).2.2.configSettings.recordDuration = [55, 20] ∧
    (parseConfigurationFile atoiDigits (fun count => capFileExample.getD count 0)
      startOfParsing).2.2.configSettings.sleepDuration = [5, 100] ∧
    5 ≤ (parseConfigurationFile atoiDigits (fun count => capFileExample.getD count 0)
      startOfParsing).2.2.configSettings.sleepDuration.getD
        AM_sleepRecordIndex_t.STANDARD_SLEEP_RECORD_CYCLE.toNat 0 :=
  ⟨by decide, by decide, by decide,
    (parseConfigurationFile_cycle_length atoiDigits (fun count => capFileExample.getD count 0)
      startOfParsing AM_sleepRecordIndex_t.STANDARD_SLEEP_RECORD_CYCLE rfl (by decide)).1⟩

/-! ## The earliest and latest recording times are never set -/

set_option maxHeartbeats 2000000 in
/-- No jump-table function of the parser writes `earliestRecordingTime` or
`latestRecordingTime`. -/
theorem CPfunctions_recordingTimes (atoi : List Nat → Int) (c : Nat) (v : ParserVariables)
    (s : Nat) (hD : recordingTimesUnset v) : recordingTimesUnset (CPfunctions atoi s c v) := by
  unfold CPfunctions
  split
  all_goals first
    | apply DEFINE_FUNCTION_INIT_cases
    | apply DEFINE_FUNCTION_STRG_cases
    | apply DEFINE_FUNCTION_STEP_cases
    | apply DEFINE_FUNCTION_ELSE_cases
    | apply DEFINE_FUNCTION_CND3_cases
    | apply DEFINE_FUNCTION_CND4_cases
    | skip
  all_goals try intro hc
  all_goals try (apply CHECK_BUFFER_MIN_MAX_AND_SET_cases)
  all_goals try (intro value hmin hmax)
  all_goals try (show (0 : Int) ≤ _; decide)
  all_goals first
    | exact hD
    | (unfold ADD_TO_BUFFER
       split_ifs <;> exact hD)
    | (dsimp only
       split_ifs <;> exact hD)
    | (unfold handleSampleRateAction
       split
       · exact hD
       · dsimp only
         split_ifs <;> exact hD)
    | (unfold handleEnableEnergySaverModeAction
       dsimp only
       split <;> exact hD)
    | (unfold handleFilterAction
       dsimp only
       split <;> exact hD)
    | (unfold checkStartStopPeriodsAction
       dsimp only
       split_ifs <;> exact hD)

/-- The loop of `main` over the characters of the file leaves `earliestRecordingTime` and
`latestRecordingTime` at 0. -/
theorem parseConfigurationFileFrom_recordingTimes (atoi : List Nat → Int)
    (characters : Nat → Nat) (remaining count : Nat) (status : CP_parserStatus_t)
    (v : ParserVariables) (hD : recordingTimesUnset v) :
    recordingTimesUnset
      (parseConfigurationFileFrom atoi characters remaining count status v).2.2 := by
  induction remaining generalizing count status v with
  | zero => exact hD
  | succ n ih =>
    have k := CPfunctions_recordingTimes atoi (characters count) v v.parserState.state hD
    change recordingTimesUnset (ConfigParser_parse atoi (characters count) v) at k
    unfold parseConfigurationFileFrom
    generalize ConfigParser_parse atoi (characters count) v = new at *
    by_cases c : endsParsing new.parserState.status = true
    · rw [if_pos c]
      exact k
    · rw [if_neg c]
      exact ih _ _ _ k

/-- The settings the firmware holds have no earliest and no latest recording time: the
default settings have none, and the block of `main` that reads the configuration file
stores a record without them whenever the record persisted before had none. -/
theorem readConfigurationFile_recordingTimes (atoi : List Nat → Int) (characters : Nat → Nat)
    (statics : ParserVariables) (configSettings : CP_configSettings_t) (backup : BackupDomain)
    (h : configSettings.earliestRecordingTime = 0 ∧ configSettings.latestRecordingTime = 0) :
    (defaultConfigSettings.earliestRecordingTime = 0 ∧
      defaultConfigSettings.latestRecordingTime = 0) ∧
    (readConfigurationFile atoi characters statics configSettings backup).1.earliestRecordingTime
      = 0 ∧
    (readConfigurationFile atoi characters statics configSettings backup).1.latestRecordingTime
      = 0 := by
  refine ⟨⟨rfl, rfl⟩, ?_⟩
  have k : recordingTimesUnset (parseConfigurationFile atoi characters statics).2.2 :=
    parseConfigurationFileFrom_recordingTimes atoi characters _ _ _ _ ⟨rfl, rfl⟩
  unfold readConfigurationFile
  split_ifs
  · exact k
  · exact h

end AudioMoth
